import Mathlib

/-! # UsdBridge geometry writer (UsdBridgeUsdWriter_Geometry.cpp)

A shallow embedding of the geometry update routines of the USD bridge writer.

Conventions of the embedding.

* The scene-description library is not part of the program. Every call the routines make
  on one of its attributes is recorded, in program order, as an `Event`; a routine is a
  function from its inputs to the list of events it produces.
* A source buffer (`const void*`) is a sequence of scalar slots. An integer slot holds the
  bit pattern of the stored word, read through `readUnsigned` or `readSigned` at the width
  and signedness of the C type the code casts the pointer to. A floating slot holds the
  exact value of the stored number.
* A floating-point value (half, float, double) is the rational number it stands for. A
  conversion to a narrower format and the result of an operation on doubles are rounded
  to the format, to nearest with ties to even, as in IEEE 754 arithmetic (`to_float`,
  `to_double`, `to_half`); a copy within one format is exact. A result beyond the finite
  values of the format is infinity, for which the first power of two beyond these values
  stands. Not-a-number values are not modelled.
* Machine integers are `Nat` or `Int`, with the wrap-around of a C conversion made
  explicit by `toUnsigned` and `toSigned`.
* A buffer is taken to hold the slots that are read, an absent slot reading as 0, and
  array lengths to lie within the range of the `int` loop counters. The integer divisions
  whose result is undefined end the trace with the event `Undefined`.
* Assertions are not checked, as in a release build.
* Declarations of the headers that the file includes but that are not at hand
  (enumeration ordinals, `UsesUsdGeomPoints`, `UsdGeomDataHasTexCoords`,
  `ConvertNormalsToQuaternions`, the evaluators) are parameters.
-/

namespace UsdBridge

/-! ## Data model -/

/-- The type tags of `UsdBridgeType` that the geometry writer names. -/
inductive UsdBridgeType where
  | UCHAR | CHAR | USHORT | SHORT | UINT | INT | ULONG | LONG | HALF | FLOAT | DOUBLE
  | UCHAR2 | CHAR2 | USHORT2 | SHORT2 | UINT2 | INT2 | ULONG2 | LONG2 | HALF2 | FLOAT2 | DOUBLE2
  | UCHAR3 | CHAR3 | USHORT3 | SHORT3 | UINT3 | INT3 | ULONG3 | LONG3 | HALF3 | FLOAT3 | DOUBLE3
  | UCHAR4 | CHAR4 | USHORT4 | SHORT4 | UINT4 | INT4 | ULONG4 | LONG4 | HALF4 | FLOAT4 | DOUBLE4
  | UNDEFINED
  deriving DecidableEq

/-- The data members of a geometry (`DataMemberId` of the three geometry descriptions);
`ATTRIBUTE i` is `DMI::ATTRIBUTE0 + i`. -/
inductive DataMemberId where
  | POINTS | NORMALS | COLORS | INDICES | SCALES | ORIENTATIONS | SHAPEINDICES
  | INSTANCEIDS | LINEARVELOCITIES | ANGULARVELOCITIES | INVISIBLEIDS | CURVELENGTHS
  | ATTRIBUTE (i : Nat)
  deriving DecidableEq

/-- A source buffer: integer slots as bit patterns, or floating slots as exact values. -/
inductive Buffer where
  | words (bits : List Nat)
  | reals (vals : List ℚ)
  deriving DecidableEq

/-- Bit pattern stored in integer slot `i` (0 when the slot is absent). -/
def Buffer.word : Buffer → Nat → Nat
  | .words bits, i => bits.getD i 0
  | .reals _, _ => 0

/-- Value stored in floating slot `i` (0 when the slot is absent). -/
def Buffer.real : Buffer → Nat → ℚ
  | .reals vals, i => vals.getD i 0
  | .words _, _ => 0

/-- Conversion of an integer to the unsigned type of `w` bits. -/
def toUnsigned (w : Nat) (z : Int) : Nat := (z % (2 : Int) ^ w).toNat

/-- Conversion of an integer to the two's complement signed type of `w` bits. -/
def toSigned (w : Nat) (z : Int) : Int :=
  let u := z % (2 : Int) ^ w
  if u < (2 : Int) ^ (w - 1) then u else u - (2 : Int) ^ w

/-- Element `i` of the buffer seen as an array of unsigned `w`-bit integers. -/
def readUnsigned (w : Nat) (data : Buffer) (i : Nat) : Nat := toUnsigned w (data.word i)

/-- Element `i` of the buffer seen as an array of signed `w`-bit integers. -/
def readSigned (w : Nat) (data : Buffer) (i : Nat) : Int := toSigned w (data.word i)

/-- Element `i` of the buffer seen as an array of half, float or double. -/
def readReal (data : Buffer) (i : Nat) : ℚ := data.real i

/-- Two-component vector (`GfVec2i`, `GfVec2f`, `GfVec2d`). -/
structure GfVec2 (α : Type) where
  x : α
  y : α
  deriving DecidableEq

/-- Three-component vector (`GfVec3i`, `GfVec3f`, `GfVec3d`). -/
structure GfVec3 (α : Type) where
  x : α
  y : α
  z : α
  deriving DecidableEq

/-- Four-component vector (`GfVec4i`, `GfVec4f`, `GfVec4d`). -/
structure GfVec4 (α : Type) where
  x : α
  y : α
  z : α
  w : α
  deriving DecidableEq

/-- Half-precision quaternion `GfQuath(real, i, j, k)`. -/
structure GfQuath where
  real : ℚ
  i : ℚ
  j : ℚ
  k : ℚ
  deriving DecidableEq

/-- Element `i` of the buffer seen as an array of `GfVec2`. -/
def readVec2 (rd : Buffer → Nat → α) (data : Buffer) (i : Nat) : GfVec2 α :=
  ⟨rd data (i * 2), rd data (i * 2 + 1)⟩

/-- Element `i` of the buffer seen as an array of `GfVec3`. -/
def readVec3 (rd : Buffer → Nat → α) (data : Buffer) (i : Nat) : GfVec3 α :=
  ⟨rd data (i * 3), rd data (i * 3 + 1), rd data (i * 3 + 2)⟩

/-- Element `i` of the buffer seen as an array of `GfVec4`. -/
def readVec4 (rd : Buffer → Nat → α) (data : Buffer) (i : Nat) : GfVec4 α :=
  ⟨rd data (i * 4), rd data (i * 4 + 1), rd data (i * 4 + 2), rd data (i * 4 + 3)⟩

/-- The values an attribute can be set to: the `VtArray` types the writer uses and
`SdfValueBlock`. -/
inductive VtValue where
  | UCharArray (a : List Nat)
  | UIntArray (a : List Nat)
  | IntArray (a : List Int)
  | Int64Array (a : List Int)
  | UInt64Array (a : List Nat)
  | HalfArray (a : List ℚ)
  | FloatArray (a : List ℚ)
  | DoubleArray (a : List ℚ)
  | Vec2iArray (a : List (GfVec2 Int))
  | Vec2fArray (a : List (GfVec2 ℚ))
  | Vec2dArray (a : List (GfVec2 ℚ))
  | Vec3iArray (a : List (GfVec3 Int))
  | Vec3fArray (a : List (GfVec3 ℚ))
  | Vec3dArray (a : List (GfVec3 ℚ))
  | Vec4iArray (a : List (GfVec4 Int))
  | Vec4fArray (a : List (GfVec4 ℚ))
  | Vec4dArray (a : List (GfVec4 ℚ))
  | QuathArray (a : List GfQuath)
  | ValueBlock
  deriving DecidableEq

/-- Time code of a sample: the default time or a time step. -/
inductive UsdTimeCode where
  | Default
  | Time (t : ℚ)
  deriving DecidableEq

/-- Test `UsdTimeCode::IsDefault`. -/
def UsdTimeCode.IsDefault : UsdTimeCode → Bool
  | .Default => true
  | .Time _ => false

/-- The two prims a geometry is written to: the prim of the scene stage, for uniform
data, and the prim of the time-varying stage. -/
inductive PrimSide where
  | uniform
  | timeVar
  deriving DecidableEq

/-- Names of the schema attributes and primvars the writer touches. -/
inductive AttrName where
  | points | positions | extent | faceVertexIndices | faceVertexCounts | normals
  | ids | widths | scales | orientations | protoIndices | velocities | angularVelocities
  | invisibleIds | curveVertexCounts
  | st | color | attribute (i : Nat)
  deriving DecidableEq

/-- An attribute handle: an attribute of one of the two prims. -/
structure UsdAttribute where
  side : PrimSide
  name : AttrName
  deriving DecidableEq

/-- Interpolation tokens `UsdGeomTokens->uniform` and `UsdGeomTokens->vertex`. -/
inductive TfToken where
  | uniform
  | vertex
  deriving DecidableEq

/-- One step of a run: a call on the scene-description library, a logged error, or
`Undefined`, an integer division whose result C++ leaves undefined (a zero divisor, or
the overflow of `INT_MIN / -1`), after which the run has no defined continuation.
`Clear name flag` is `ClearUsdAttributes(uniform attribute, time-varying attribute, flag)`
on the attribute `name` of the two prims. -/
inductive Event where
  | Clear (name : AttrName) (timeVaryingUpdate : Bool)
  | Set (attr : UsdAttribute) (value : VtValue) (timeCode : UsdTimeCode)
  | SetInterpolation (attr : UsdAttribute) (token : TfToken)
  | Log (message : String)
  | Undefined
  deriving DecidableEq

/-- Update evaluator: which members are updated by this call. -/
structure UsdBridgeUpdateEvaluator where
  PerformsUpdate : DataMemberId → Bool

/-- Time evaluator: which members are time-varying and the time code of each. -/
structure TimeEvaluator where
  IsTimeVarying : DataMemberId → Bool
  Eval : DataMemberId → UsdTimeCode

/-! ## Element types and array types of the assignment templates -/

/-- Element type `short`. -/
def short : Buffer → Nat → Int := readSigned 16

/-- Element type `unsigned short`. -/
def unsigned_short : Buffer → Nat → Nat := readUnsigned 16

/-- Element type `int`. -/
def int : Buffer → Nat → Int := readSigned 32

/-- Element type `unsigned int`. -/
def unsigned_int : Buffer → Nat → Nat := readUnsigned 32

/-- Element type `int64_t`. -/
def int64_t : Buffer → Nat → Int := readSigned 64

/-- Element type `uint64_t`. -/
def uint64_t : Buffer → Nat → Nat := readUnsigned 64

/-- Element type `float`. -/
def float : Buffer → Nat → ℚ := readReal

/-- Element type `double`. -/
def double : Buffer → Nat → ℚ := readReal

/-- Element type `GfVec2d`. -/
def GfVec2d : Buffer → Nat → GfVec2 ℚ := readVec2 readReal

/-- Element type `GfVec3d`. -/
def GfVec3d : Buffer → Nat → GfVec3 ℚ := readVec3 readReal

/-- Element type `GfVec4d`. -/
def GfVec4d : Buffer → Nat → GfVec4 ℚ := readVec4 readReal

/-- An unsigned integer input type of the colour templates, given by its width. -/
structure UnsignedType where
  width : Nat

/-- Input type `uint8_t`. -/
def uint8_t : UnsignedType := ⟨8⟩

/-- Input type `uint16_t`. -/
def uint16_t : UnsignedType := ⟨16⟩

/-- Input type `uint32_t`. -/
def uint32_t : UnsignedType := ⟨32⟩

/-- Largest value of the type, `std::numeric_limits<T>::max()`. -/
def UnsignedType.max (T : UnsignedType) : Nat := 2 ^ T.width - 1

/-- Element `i` of the buffer seen as an array of the type. -/
def UnsignedType.elem (T : UnsignedType) : Buffer → Nat → Nat := readUnsigned T.width

/-- Conversion of an integer value to `unsigned int`. -/
def to_unsigned_int (z : Int) : Nat := toUnsigned 32 z

/-- Conversion of an integer value to `int`. -/
def to_int (z : Int) : Int := toSigned 32 z

/-- Conversion of an integer value to `int64_t`. -/
def to_int64 (z : Int) : Int := toSigned 64 z

/-- Rounding of a rational to the nearest integer, a tie going to the even integer. -/
def roundToEven (t : ℚ) : Int :=
  if t - ⌊t⌋ < 1 / 2 then ⌊t⌋
  else if 1 / 2 < t - ⌊t⌋ then ⌊t⌋ + 1
  else if ⌊t⌋ % 2 = 0 then ⌊t⌋ else ⌊t⌋ + 1

/-- A binary floating-point format: the number of significand bits, the exponent of the
least positive value, and the exponent of the first power of two beyond the finite
values. -/
structure FloatFormat where
  precision : Nat
  emin : Int
  emax : Int
  deriving DecidableEq

/-- Format of `GfHalf`. -/
def binary16 : FloatFormat := ⟨11, -24, 16⟩

/-- Format of `float`. -/
def binary32 : FloatFormat := ⟨24, -149, 128⟩

/-- Format of `double`. -/
def binary64 : FloatFormat := ⟨53, -1074, 1024⟩

/-- Exponent of the spacing of the values of the format around `x`: the values between
two successive powers of two are spaced by a power of two, and below the normal range the
spacing is the least positive value. -/
def FloatFormat.quantum (F : FloatFormat) (x : ℚ) : Int :=
  max (Int.log 2 |x| - ((F.precision : Int) - 1)) F.emin

/-- Infinity of the format. A rational stands for it: the first power of two beyond the
finite values, which compares with every finite value as infinity does. -/
def FloatFormat.infinity (F : FloatFormat) : ℚ := 2 ^ F.emax

/-- The multiple of the spacing nearest to `x`, a tie going to the even multiple. -/
def FloatFormat.nearest (F : FloatFormat) (x : ℚ) : ℚ :=
  roundToEven (x / 2 ^ F.quantum x) * 2 ^ F.quantum x

/-- Rounding to the format, to nearest with ties to even; a result beyond the finite
values is infinity. -/
def FloatFormat.round (F : FloatFormat) (x : ℚ) : ℚ :=
  if F.infinity ≤ F.nearest x then F.infinity
  else if F.nearest x ≤ -F.infinity then -F.infinity
  else F.nearest x

/-- Conversion of a double to a float. -/
def to_float (d : ℚ) : ℚ := binary32.round d

/-- Rounding of the exact result of an operation on doubles to a double. -/
def to_double (d : ℚ) : ℚ := binary64.round d

/-- Conversion of a float to a `GfHalf`. -/
def to_half (d : ℚ) : ℚ := binary16.round d

/-- Conversion `GfVec2f(GfVec2d)`. -/
def to_GfVec2f (v : GfVec2 ℚ) : GfVec2 ℚ := ⟨to_float v.x, to_float v.y⟩

/-- Conversion `GfVec3f(GfVec3d)`. -/
def to_GfVec3f (v : GfVec3 ℚ) : GfVec3 ℚ := ⟨to_float v.x, to_float v.y, to_float v.z⟩

/-- Conversion `GfVec4f(GfVec4d)`. -/
def to_GfVec4f (v : GfVec4 ℚ) : GfVec4 ℚ :=
  ⟨to_float v.x, to_float v.y, to_float v.z, to_float v.w⟩

/-- A `VtArray` type as the assignment templates use it: how element `i` is read from a
buffer cast to the element type of the array, and the value an array of it is set as. -/
structure ArrayType (α : Type) where
  elem : Buffer → Nat → α
  value : List α → VtValue

/-- Array type `VtUCharArray`. -/
def VtUCharArray : ArrayType Nat := ⟨readUnsigned 8, .UCharArray⟩

/-- Array type `VtUIntArray`. -/
def VtUIntArray : ArrayType Nat := ⟨readUnsigned 32, .UIntArray⟩

/-- Array type `VtIntArray`. -/
def VtIntArray : ArrayType Int := ⟨readSigned 32, .IntArray⟩

/-- Array type `VtInt64Array`. -/
def VtInt64Array : ArrayType Int := ⟨readSigned 64, .Int64Array⟩

/-- Array type `VtUInt64Array`. -/
def VtUInt64Array : ArrayType Nat := ⟨readUnsigned 64, .UInt64Array⟩

/-- Array type `VtHalfArray`. -/
def VtHalfArray : ArrayType ℚ := ⟨readReal, .HalfArray⟩

/-- Array type `VtFloatArray`. -/
def VtFloatArray : ArrayType ℚ := ⟨readReal, .FloatArray⟩

/-- Array type `VtDoubleArray`. -/
def VtDoubleArray : ArrayType ℚ := ⟨readReal, .DoubleArray⟩

/-- Array type `VtVec2iArray`. -/
def VtVec2iArray : ArrayType (GfVec2 Int) := ⟨readVec2 (readSigned 32), .Vec2iArray⟩

/-- Array type `VtVec2fArray`. -/
def VtVec2fArray : ArrayType (GfVec2 ℚ) := ⟨readVec2 readReal, .Vec2fArray⟩

/-- Array type `VtVec2dArray`. -/
def VtVec2dArray : ArrayType (GfVec2 ℚ) := ⟨readVec2 readReal, .Vec2dArray⟩

/-- Array type `VtVec3iArray`. -/
def VtVec3iArray : ArrayType (GfVec3 Int) := ⟨readVec3 (readSigned 32), .Vec3iArray⟩

/-- Array type `VtVec3fArray`. -/
def VtVec3fArray : ArrayType (GfVec3 ℚ) := ⟨readVec3 readReal, .Vec3fArray⟩

/-- Array type `VtVec3dArray`. -/
def VtVec3dArray : ArrayType (GfVec3 ℚ) := ⟨readVec3 readReal, .Vec3dArray⟩

/-- Array type `VtVec4iArray`. -/
def VtVec4iArray : ArrayType (GfVec4 Int) := ⟨readVec4 (readSigned 32), .Vec4iArray⟩

/-- Array type `VtVec4fArray`. -/
def VtVec4fArray : ArrayType (GfVec4 ℚ) := ⟨readVec4 readReal, .Vec4fArray⟩

/-- Array type `VtVec4dArray`. -/
def VtVec4dArray : ArrayType (GfVec4 ℚ) := ⟨readVec4 readReal, .Vec4dArray⟩

/-- Declarations of the bridge headers that the assignment templates use: the ordinal
`(int)dataType` of a type tag and the constant `UsdBridgeNumFundamentalTypes`. -/
structure TypeTable where
  ordinal : UsdBridgeType → Nat
  UsdBridgeNumFundamentalTypes : Nat

/-! ## Array assignment -/

/-- Contents of the array after `usdArray->assign(typedData, typedData + numElements)`. -/
def AssignArrayToPrimvar.usdArray (A : ArrayType α) (data : Buffer) (numElements : Nat) :
    List α :=
  (List.range numElements).map (A.elem data)

/-- Template `AssignArrayToPrimvar<ArrayType>`. -/
def AssignArrayToPrimvar (A : ArrayType α) (data : Buffer) (numElements : Nat)
    (primvar : UsdAttribute) (timeCode : UsdTimeCode) : List Event :=
  [Event.Set primvar (A.value (AssignArrayToPrimvar.usdArray A data numElements)) timeCode]

/-- Template `AssignArrayToPrimvarFlatten<ArrayType>`. -/
def AssignArrayToPrimvarFlatten (tt : TypeTable) (A : ArrayType α) (data : Buffer)
    (dataType : UsdBridgeType) (numElements : Nat) (primvar : UsdAttribute)
    (timeCode : UsdTimeCode) : List Event :=
  let elementMultiplier := tt.ordinal dataType / tt.UsdBridgeNumFundamentalTypes
  let numFlattenedElements := numElements * elementMultiplier
  AssignArrayToPrimvar A data numFlattenedElements primvar timeCode

/-- Contents of the array after the conversion loop of `AssignArrayToPrimvarConvert`:
entry `i` is `ElementType(typedData[i])`. -/
def AssignArrayToPrimvarConvert.usdArray (typedData : Buffer → Nat → ε) (ElementType : ε → α)
    (data : Buffer) (numElements : Nat) : List α :=
  (List.range numElements).map (fun i => ElementType (typedData data i))

/-- Template `AssignArrayToPrimvarConvert<ArrayType, EltType>`: `typedData` reads the
buffer as `EltType` and `ElementType` converts to the element type of the array. -/
def AssignArrayToPrimvarConvert (A : ArrayType α) (typedData : Buffer → Nat → ε)
    (ElementType : ε → α) (data : Buffer) (numElements : Nat) (primvar : UsdAttribute)
    (timeCode : UsdTimeCode) : List Event :=
  [Event.Set primvar
    (A.value (AssignArrayToPrimvarConvert.usdArray typedData ElementType data numElements))
    timeCode]

/-- Template `AssignArrayToPrimvarConvertFlatten<ArrayType, EltType>`. -/
def AssignArrayToPrimvarConvertFlatten (tt : TypeTable) (A : ArrayType α)
    (typedData : Buffer → Nat → ε) (ElementType : ε → α) (data : Buffer)
    (dataType : UsdBridgeType) (numElements : Nat) (primvar : UsdAttribute)
    (timeCode : UsdTimeCode) : List Event :=
  let elementMultiplier := tt.ordinal dataType / tt.UsdBridgeNumFundamentalTypes
  let numFlattenedElements := numElements * elementMultiplier
  AssignArrayToPrimvarConvert A typedData ElementType data numFlattenedElements primvar timeCode

/-- Template `Expand1ToVec3<ArrayType, EltType>`: entry `i` is the vector with three
copies of `typedInput[i]`. The constructor of the vector takes floats: `toFloat` is the
conversion of `EltType` to `float`, the identity for `float` and `to_float` for `double`. -/
def Expand1ToVec3 (A : ArrayType (GfVec3 ℚ)) (typedInput : Buffer → Nat → ℚ)
    (toFloat : ℚ → ℚ) (data : Buffer)
    (numElements : Nat) (primvar : UsdAttribute) (timeCode : UsdTimeCode) : List Event :=
  let usdArray := (List.range numElements).map
    (fun i => (⟨toFloat (typedInput data i), toFloat (typedInput data i),
      toFloat (typedInput data i)⟩ : GfVec3 ℚ))
  [Event.Set primvar (A.value usdArray) timeCode]

/-- Template `ExpandToColor<InputEltType, numComponents>`. The array is resized to
`numElements` colours and, for one, two or three components, every colour is overwritten
by its loop. The constructor `GfVec4f` takes floats: `toFloat` is the conversion
of `InputEltType` to `float`, the identity for `float` and `to_float` for `double`. -/
def ExpandToColor (typedInput : Buffer → Nat → ℚ) (toFloat : ℚ → ℚ) (numComponents : Nat)
    (data : Buffer)
    (numElements : Nat) (primvar : UsdAttribute) (timeCode : UsdTimeCode) : List Event :=
  let usdArray : List (GfVec4 ℚ) := List.replicate numElements ⟨0, 0, 0, 0⟩
  let usdArray := if numComponents = 1 then
      (List.range numElements).map
        (fun i => (⟨toFloat (typedInput data i), 0, 0, 1⟩ : GfVec4 ℚ))
    else usdArray
  let usdArray := if numComponents = 2 then
      (List.range numElements).map
        (fun i => (⟨toFloat (typedInput data (i * 2)), toFloat (typedInput data (i * 2 + 1)),
          0, 1⟩ : GfVec4 ℚ))
    else usdArray
  let usdArray := if numComponents = 3 then
      (List.range numElements).map
        (fun i => (⟨toFloat (typedInput data (i * 3)), toFloat (typedInput data (i * 3 + 1)),
          toFloat (typedInput data (i * 3 + 2)), 1⟩ : GfVec4 ℚ))
    else usdArray
  [Event.Set primvar (.Vec4fArray usdArray) timeCode]

/-- Template `ExpandToColorNormalize<InputEltType, numComponents>`. The factor
`normFactor = 1.0f / (double)max` is a double, the quotient of two doubles; each product
`typedInput[i] * normFactor` is a product of doubles, and the constructor `GfVec4f`
converts it to `float`. -/
def ExpandToColorNormalize (InputEltType : UnsignedType) (numComponents : Nat) (data : Buffer)
    (numElements : Nat) (primvar : UsdAttribute) (timeCode : UsdTimeCode) : List Event :=
  let typedInput : Nat → ℚ := fun i => (InputEltType.elem data i : ℚ)
  let normFactor : ℚ := to_double (1 / (InputEltType.max : ℚ))
  let usdArray : List (GfVec4 ℚ) := List.replicate numElements ⟨0, 0, 0, 0⟩
  let usdArray := if numComponents = 1 then
      (List.range numElements).map
        (fun i => (⟨to_float (to_double (typedInput i * normFactor)), 0, 0, 1⟩ : GfVec4 ℚ))
    else usdArray
  let usdArray := if numComponents = 2 then
      (List.range numElements).map
        (fun i => (⟨to_float (to_double (typedInput (i * 2) * normFactor)),
          to_float (to_double (typedInput (i * 2 + 1) * normFactor)), 0, 1⟩ : GfVec4 ℚ))
    else usdArray
  let usdArray := if numComponents = 3 then
      (List.range numElements).map
        (fun i => (⟨to_float (to_double (typedInput (i * 3) * normFactor)),
          to_float (to_double (typedInput (i * 3 + 1) * normFactor)),
          to_float (to_double (typedInput (i * 3 + 2) * normFactor)), 1⟩ : GfVec4 ℚ))
    else usdArray
  let usdArray := if numComponents = 4 then
      (List.range numElements).map
        (fun i => (⟨to_float (to_double (typedInput (i * 4) * normFactor)),
          to_float (to_double (typedInput (i * 4 + 1) * normFactor)),
          to_float (to_double (typedInput (i * 4 + 2) * normFactor)),
          to_float (to_double (typedInput (i * 4 + 3) * normFactor))⟩ : GfVec4 ℚ))
    else usdArray
  [Event.Set primvar (.Vec4fArray usdArray) timeCode]

/-- Function `CopyArrayToPrimvar`: the copy of a generic attribute array, by type tag.
The type tag streamed after the log message is left out of the message. -/
def CopyArrayToPrimvar (tt : TypeTable) (arrayData : Buffer) (arrayDataType : UsdBridgeType)
    (arrayNumElements : Nat) (arrayPrimvar : UsdAttribute) (timeCode : UsdTimeCode) :
    List Event :=
  match arrayDataType with
  | .UCHAR => AssignArrayToPrimvar VtUCharArray arrayData arrayNumElements arrayPrimvar timeCode
  | .CHAR => AssignArrayToPrimvar VtUCharArray arrayData arrayNumElements arrayPrimvar timeCode
  | .USHORT => AssignArrayToPrimvarConvert VtUIntArray short to_unsigned_int
      arrayData arrayNumElements arrayPrimvar timeCode
  | .SHORT => AssignArrayToPrimvarConvert VtIntArray unsigned_short (fun u => to_int (u : Int))
      arrayData arrayNumElements arrayPrimvar timeCode
  | .UINT => AssignArrayToPrimvar VtUIntArray arrayData arrayNumElements arrayPrimvar timeCode
  | .INT => AssignArrayToPrimvar VtIntArray arrayData arrayNumElements arrayPrimvar timeCode
  | .LONG => AssignArrayToPrimvar VtInt64Array arrayData arrayNumElements arrayPrimvar timeCode
  | .ULONG => AssignArrayToPrimvar VtUInt64Array arrayData arrayNumElements arrayPrimvar timeCode
  | .HALF => AssignArrayToPrimvar VtHalfArray arrayData arrayNumElements arrayPrimvar timeCode
  | .FLOAT => AssignArrayToPrimvar VtFloatArray arrayData arrayNumElements arrayPrimvar timeCode
  | .DOUBLE => AssignArrayToPrimvar VtDoubleArray arrayData arrayNumElements arrayPrimvar timeCode
  | .INT2 => AssignArrayToPrimvar VtVec2iArray arrayData arrayNumElements arrayPrimvar timeCode
  | .FLOAT2 => AssignArrayToPrimvar VtVec2fArray arrayData arrayNumElements arrayPrimvar timeCode
  | .DOUBLE2 => AssignArrayToPrimvar VtVec2dArray arrayData arrayNumElements arrayPrimvar timeCode
  | .INT3 => AssignArrayToPrimvar VtVec3iArray arrayData arrayNumElements arrayPrimvar timeCode
  | .FLOAT3 => AssignArrayToPrimvar VtVec3fArray arrayData arrayNumElements arrayPrimvar timeCode
  | .DOUBLE3 => AssignArrayToPrimvar VtVec3dArray arrayData arrayNumElements arrayPrimvar timeCode
  | .INT4 => AssignArrayToPrimvar VtVec4iArray arrayData arrayNumElements arrayPrimvar timeCode
  | .FLOAT4 => AssignArrayToPrimvar VtVec4fArray arrayData arrayNumElements arrayPrimvar timeCode
  | .DOUBLE4 => AssignArrayToPrimvar VtVec4dArray arrayData arrayNumElements arrayPrimvar timeCode
  | .UCHAR2 | .UCHAR3 | .UCHAR4 => AssignArrayToPrimvarFlatten tt VtUCharArray
      arrayData arrayDataType arrayNumElements arrayPrimvar timeCode
  | .CHAR2 | .CHAR3 | .CHAR4 => AssignArrayToPrimvarFlatten tt VtUCharArray
      arrayData arrayDataType arrayNumElements arrayPrimvar timeCode
  | .USHORT2 | .USHORT3 | .USHORT4 => AssignArrayToPrimvarConvertFlatten tt VtUIntArray
      short to_unsigned_int arrayData arrayDataType arrayNumElements arrayPrimvar timeCode
  | .SHORT2 | .SHORT3 | .SHORT4 => AssignArrayToPrimvarConvertFlatten tt VtIntArray
      unsigned_short (fun u => to_int (u : Int))
      arrayData arrayDataType arrayNumElements arrayPrimvar timeCode
  | .UINT2 | .UINT3 | .UINT4 => AssignArrayToPrimvarFlatten tt VtUIntArray
      arrayData arrayDataType arrayNumElements arrayPrimvar timeCode
  | .LONG2 | .LONG3 | .LONG4 => AssignArrayToPrimvarFlatten tt VtInt64Array
      arrayData arrayDataType arrayNumElements arrayPrimvar timeCode
  | .ULONG2 | .ULONG3 | .ULONG4 => AssignArrayToPrimvarFlatten tt VtUInt64Array
      arrayData arrayDataType arrayNumElements arrayPrimvar timeCode
  | .HALF2 | .HALF3 | .HALF4 => AssignArrayToPrimvarFlatten tt VtHalfArray
      arrayData arrayDataType arrayNumElements arrayPrimvar timeCode
  | _ =>
      [Event.Log "UsdGeom Attribute<Index> primvar copy does not support source data type: "]

/-! ## Geometry descriptions -/

/-- A generic attribute of a geometry (`UsdBridgeAttribute`). -/
structure UsdBridgeAttribute where
  Data : Option Buffer
  DataType : UsdBridgeType
  PerPrimData : Bool

/-- Entry `Attributes[i]` of an attribute array. -/
def attributeAt (Attributes : List UsdBridgeAttribute) (i : Nat) : UsdBridgeAttribute :=
  Attributes.getD i ⟨none, .UNDEFINED, false⟩

/-- The fields of `UsdBridgeMeshData` that the geometry writer reads. -/
structure UsdBridgeMeshData where
  NumPoints : Nat
  Points : Option Buffer
  PointsType : UsdBridgeType
  Normals : Option Buffer
  NormalsType : UsdBridgeType
  PerPrimNormals : Bool
  Colors : Option Buffer
  ColorsType : UsdBridgeType
  PerPrimColors : Bool
  Attributes : List UsdBridgeAttribute
  NumAttributes : Nat
  Indices : Option Buffer
  IndicesType : UsdBridgeType
  NumIndices : Nat
  FaceVertexCount : Int

/-- Shape of the instances of a point instancer (`UsdBridgeInstancerData::InstanceShape`):
the three enumerators the writer names, and `other` for every other value. -/
inductive InstanceShape where
  | SHAPE_SPHERE
  | SHAPE_CYLINDER
  | SHAPE_CONE
  | other
  deriving DecidableEq

/-- The fields of `UsdBridgeInstancerData` that the geometry writer reads. -/
structure UsdBridgeInstancerData where
  Shapes : List InstanceShape
  NumPoints : Nat
  Points : Option Buffer
  PointsType : UsdBridgeType
  Scales : Option Buffer
  ScalesType : UsdBridgeType
  UniformScale : ℚ
  Orientations : Option Buffer
  OrientationsType : UsdBridgeType
  Colors : Option Buffer
  ColorsType : UsdBridgeType
  PerPrimColors : Bool
  Attributes : List UsdBridgeAttribute
  NumAttributes : Nat
  InstanceIds : Option Buffer
  InstanceIdsType : UsdBridgeType
  LinearVelocities : Option Buffer
  AngularVelocities : Option Buffer
  InvisibleIds : Buffer
  NumInvisibleIds : Nat
  InvisibleIdsType : UsdBridgeType

/-- The fields of `UsdBridgeCurveData` that the geometry writer reads. -/
structure UsdBridgeCurveData where
  NumPoints : Nat
  Points : Option Buffer
  PointsType : UsdBridgeType
  Normals : Option Buffer
  NormalsType : UsdBridgeType
  PerPrimNormals : Bool
  Colors : Option Buffer
  ColorsType : UsdBridgeType
  PerPrimColors : Bool
  Scales : Option Buffer
  ScalesType : UsdBridgeType
  UniformScale : ℚ
  Attributes : List UsdBridgeAttribute
  NumAttributes : Nat
  CurveLengths : Buffer
  NumCurveLengths : Nat

/-- Settings and stage state of the writer that the update routines consult:
`Settings.EnableStTexCoords`, and `primvarValid a`, whether the primvar handle `a`
obtained from the primvars of a prim is valid. -/
structure UsdBridgeUsdWriter where
  EnableStTexCoords : Bool
  primvarValid : UsdAttribute → Bool

/-- Declarations of the bridge headers that the update routines call. -/
structure Common where
  types : TypeTable
  ConvertNormalsToQuaternions : Buffer → Nat → List GfQuath
  UsesUsdGeomPoints : UsdBridgeInstancerData → Bool
  MeshHasTexCoords : UsdBridgeMeshData → Bool
  InstancerHasTexCoords : UsdBridgeInstancerData → Bool
  CurveHasTexCoords : UsdBridgeCurveData → Bool

/-! ## Extent -/

/-- Largest finite float, `FLT_MAX`. -/
def FLT_MAX : ℚ := (2 ^ 24 - 1) * 2 ^ 104

/-- Axis-aligned range `GfRange3f` of the Gf library. -/
structure GfRange3f where
  min : GfVec3 ℚ
  max : GfVec3 ℚ
  deriving DecidableEq

/-- The default-constructed range is the empty range. -/
def GfRange3f.empty : GfRange3f :=
  ⟨⟨FLT_MAX, FLT_MAX, FLT_MAX⟩, ⟨-FLT_MAX, -FLT_MAX, -FLT_MAX⟩⟩

/-- Method `GfRange3f::UnionWith(point)`: each bound moves to the point where the point
lies beyond it. -/
def GfRange3f.UnionWith (r : GfRange3f) (b : GfVec3 ℚ) : GfRange3f :=
  ⟨⟨if b.x < r.min.x then b.x else r.min.x,
    if b.y < r.min.y then b.y else r.min.y,
    if b.z < r.min.z then b.z else r.min.z⟩,
   ⟨if b.x > r.max.x then b.x else r.max.x,
    if b.y > r.max.y then b.y else r.max.y,
    if b.z > r.max.z then b.z else r.max.z⟩⟩

/-- The range after the loop `for (pt : usdVerts) extent.UnionWith(pt)`. -/
def extentOf (usdVerts : List (GfVec3 ℚ)) : GfRange3f :=
  usdVerts.foldl GfRange3f.UnionWith GfRange3f.empty

/-! ## Per-member update routines -/

/-- The prim an update goes to: `timeVaryingUpdate ? timeVarGeom : uniformGeom`. -/
def outGeom (timeVaryingUpdate : Bool) : PrimSide :=
  if timeVaryingUpdate then PrimSide.timeVar else PrimSide.uniform

/-- Contents of the vertex array of `UpdateUsdGeomPoints` after the type switch. -/
def UpdateUsdGeomPoints.usdVerts (arrayData : Buffer) (PointsType : UsdBridgeType)
    (arrayNumElements : Nat) : List (GfVec3 ℚ) :=
  match PointsType with
  | .FLOAT3 => AssignArrayToPrimvar.usdArray VtVec3fArray arrayData arrayNumElements
  | .DOUBLE3 => AssignArrayToPrimvarConvert.usdArray GfVec3d to_GfVec3f arrayData arrayNumElements
  | _ => []

/-- Template `UpdateUsdGeomPoints`; `pointsAttr` is the attribute that
`UsdGeomGetPointsAttribute` selects for the prim type (points, or positions for a point
instancer). -/
def UpdateUsdGeomPoints (pointsAttr : AttrName) (Points : Option Buffer)
    (PointsType : UsdBridgeType) (NumPoints : Nat)
    (updateEval : UsdBridgeUpdateEvaluator) (timeEval : TimeEvaluator) : List Event :=
  let performsUpdate := updateEval.PerformsUpdate .POINTS
  let timeVaryingUpdate := timeEval.IsTimeVarying .POINTS
  [Event.Clear pointsAttr timeVaryingUpdate, Event.Clear .extent timeVaryingUpdate] ++
  (if performsUpdate then
    match Points with
    | none => [Event.Log "GeomData requires points."]
    | some arrayData =>
      let timeCode := timeEval.Eval .POINTS
      let arrayNumElements := NumPoints
      let arrayPrimvar : UsdAttribute := ⟨outGeom timeVaryingUpdate, pointsAttr⟩
      let usdVerts := UpdateUsdGeomPoints.usdVerts arrayData PointsType arrayNumElements
      (match PointsType with
        | .FLOAT3 => AssignArrayToPrimvar VtVec3fArray arrayData arrayNumElements
            arrayPrimvar timeCode
        | .DOUBLE3 => AssignArrayToPrimvarConvert VtVec3fArray GfVec3d to_GfVec3f
            arrayData arrayNumElements arrayPrimvar timeCode
        | _ => [Event.Log "UsdGeom PointsAttr should be FLOAT3 or DOUBLE3."]) ++
      (let extent := extentOf usdVerts
       let extentArray := [extent.min, extent.max]
       [Event.Set ⟨outGeom timeVaryingUpdate, .extent⟩ (.Vec3fArray extentArray) timeCode])
  else [])

/-- Template `UpdateUsdGeomIndices`. The division `numIndices / numPrims` is undefined
for `numPrims = 0`. -/
def UpdateUsdGeomIndices (Indices : Option Buffer) (IndicesType : UsdBridgeType)
    (NumIndices : Nat) (numPrims : Nat)
    (updateEval : UsdBridgeUpdateEvaluator) (timeEval : TimeEvaluator) : List Event :=
  let performsUpdate := updateEval.PerformsUpdate .INDICES
  let timeVaryingUpdate := timeEval.IsTimeVarying .INDICES
  [Event.Clear .faceVertexIndices timeVaryingUpdate,
   Event.Clear .faceVertexCounts timeVaryingUpdate] ++
  (if performsUpdate then
    let timeCode := timeEval.Eval .INDICES
    let numIndices := NumIndices
    if numPrims = 0 then [Event.Undefined] else
    let vertexCount : Int := to_int ((numIndices / numPrims : Nat) : Int)
    let usdVertexCounts := List.replicate numPrims vertexCount
    [Event.Set ⟨outGeom timeVaryingUpdate, .faceVertexCounts⟩ (.IntArray usdVertexCounts)
      timeCode] ++
    (match Indices with
      | none =>
        let TempIndexArray := (List.range numIndices).map (fun (i : Nat) => to_int (i : Int))
        [Event.Set ⟨outGeom timeVaryingUpdate, .faceVertexIndices⟩ (.IntArray TempIndexArray)
          timeCode]
      | some arrayData =>
        let arrayNumElements := numIndices
        let arrayPrimvar : UsdAttribute := ⟨outGeom timeVaryingUpdate, .faceVertexIndices⟩
        match IndicesType with
        | .ULONG => AssignArrayToPrimvarConvert VtIntArray uint64_t (fun u => to_int (u : Int))
            arrayData arrayNumElements arrayPrimvar timeCode
        | .LONG => AssignArrayToPrimvarConvert VtIntArray int64_t to_int
            arrayData arrayNumElements arrayPrimvar timeCode
        | .INT => AssignArrayToPrimvar VtIntArray arrayData arrayNumElements arrayPrimvar timeCode
        | .UINT => AssignArrayToPrimvar VtIntArray arrayData arrayNumElements arrayPrimvar timeCode
        | _ => [Event.Log "UsdGeom FaceVertexIndicesAttr should be (U)LONG or (U)INT."])
  else [])

/-- Template `UpdateUsdGeomNormals`. -/
def UpdateUsdGeomNormals (Normals : Option Buffer) (NormalsType : UsdBridgeType)
    (PerPrimNormals : Bool) (NumPoints : Nat) (numPrims : Nat)
    (updateEval : UsdBridgeUpdateEvaluator) (timeEval : TimeEvaluator) : List Event :=
  let performsUpdate := updateEval.PerformsUpdate .NORMALS
  let timeVaryingUpdate := timeEval.IsTimeVarying .NORMALS
  [Event.Clear .normals timeVaryingUpdate] ++
  (if performsUpdate then
    let timeCode := timeEval.Eval .NORMALS
    let normalsAttr : UsdAttribute := ⟨outGeom timeVaryingUpdate, .normals⟩
    match Normals with
    | some arrayData =>
      let arrayNumElements := if PerPrimNormals then numPrims else NumPoints
      let arrayPrimvar := normalsAttr
      (match NormalsType with
        | .FLOAT3 => AssignArrayToPrimvar VtVec3fArray arrayData arrayNumElements
            arrayPrimvar timeCode
        | .DOUBLE3 => AssignArrayToPrimvarConvert VtVec3fArray GfVec3d to_GfVec3f
            arrayData arrayNumElements arrayPrimvar timeCode
        | _ => [Event.Log "UsdGeom NormalsAttr should be FLOAT3 or DOUBLE3."]) ++
      (let normalInterpolation := if PerPrimNormals then TfToken.uniform else TfToken.vertex
       [Event.SetInterpolation ⟨.uniform, .normals⟩ normalInterpolation])
    | none => [Event.Set normalsAttr .ValueBlock timeCode]
  else [])

/-- Template `UpdateUsdGeomTexCoords`. -/
def UpdateUsdGeomTexCoords (Attributes : List UsdBridgeAttribute) (NumPoints : Nat)
    (numPrims : Nat) (updateEval : UsdBridgeUpdateEvaluator) (timeEval : TimeEvaluator) :
    List Event :=
  let performsUpdate := updateEval.PerformsUpdate (.ATTRIBUTE 0)
  let timeVaryingUpdate := timeEval.IsTimeVarying (.ATTRIBUTE 0)
  [Event.Clear .st timeVaryingUpdate] ++
  (if performsUpdate then
    let timeCode := timeEval.Eval (.ATTRIBUTE 0)
    let texcoordPrimvar : UsdAttribute := ⟨outGeom timeVaryingUpdate, .st⟩
    let texCoordAttrib := attributeAt Attributes 0
    match texCoordAttrib.Data with
    | some arrayData =>
      let arrayNumElements := if texCoordAttrib.PerPrimData then numPrims else NumPoints
      let arrayPrimvar := texcoordPrimvar
      (match texCoordAttrib.DataType with
        | .FLOAT2 => AssignArrayToPrimvar VtVec2fArray arrayData arrayNumElements
            arrayPrimvar timeCode
        | .DOUBLE2 => AssignArrayToPrimvarConvert VtVec2fArray GfVec2d to_GfVec2f
            arrayData arrayNumElements arrayPrimvar timeCode
        | _ => [Event.Log "UsdGeom st primvar should be FLOAT2 or DOUBLE2."]) ++
      (let texcoordInterpolation :=
         if texCoordAttrib.PerPrimData then TfToken.uniform else TfToken.vertex
       [Event.SetInterpolation ⟨.uniform, .st⟩ texcoordInterpolation])
    | none => [Event.Set texcoordPrimvar .ValueBlock timeCode]
  else [])

/-- Template `UpdateUsdGeomAttribute`, for the generic attribute `attribIndex`. The index
streamed after the first log message is left out of the message. -/
def UpdateUsdGeomAttribute (tt : TypeTable) (writer : UsdBridgeUsdWriter)
    (Attributes : List UsdBridgeAttribute) (NumPoints : Nat) (numPrims : Nat)
    (updateEval : UsdBridgeUpdateEvaluator) (timeEval : TimeEvaluator) (attribIndex : Nat) :
    List Event :=
  let bridgeAttrib := attributeAt Attributes attribIndex
  let attributeId := DataMemberId.ATTRIBUTE attribIndex
  let performsUpdate := updateEval.PerformsUpdate attributeId
  let timeVaryingUpdate := timeEval.IsTimeVarying attributeId
  [Event.Clear (.attribute attribIndex) timeVaryingUpdate] ++
  (if performsUpdate then
    let timeCode := timeEval.Eval attributeId
    let attributePrimvar : UsdAttribute := ⟨outGeom timeVaryingUpdate, .attribute attribIndex⟩
    if !writer.primvarValid attributePrimvar then
      [Event.Log ("UsdGeom Attribute<Index> primvar not found, was the attribute at " ++
        "requested index valid during initialization of the prim? Index is ")]
    else
      match bridgeAttrib.Data with
      | some arrayData =>
        let arrayNumElements := if bridgeAttrib.PerPrimData then numPrims else NumPoints
        let arrayPrimvar := attributePrimvar
        CopyArrayToPrimvar tt arrayData bridgeAttrib.DataType arrayNumElements arrayPrimvar
          timeCode ++
        (let attribInterpolation :=
           if bridgeAttrib.PerPrimData then TfToken.uniform else TfToken.vertex
         [Event.SetInterpolation ⟨.uniform, .attribute attribIndex⟩ attribInterpolation])
      | none => [Event.Set attributePrimvar .ValueBlock timeCode]
  else [])

/-- Template `UpdateUsdGeomAttributes`: the loop over the attribute indices below
`NumAttributes`. -/
def UpdateUsdGeomAttributes (tt : TypeTable) (writer : UsdBridgeUsdWriter)
    (Attributes : List UsdBridgeAttribute) (NumAttributes : Nat) (NumPoints : Nat)
    (numPrims : Nat) (updateEval : UsdBridgeUpdateEvaluator) (timeEval : TimeEvaluator) :
    List Event :=
  (List.range NumAttributes).flatMap (fun attribIndex =>
    let attrib := attributeAt Attributes attribIndex
    if attrib.DataType ≠ .UNDEFINED then
      UpdateUsdGeomAttribute tt writer Attributes NumPoints numPrims updateEval timeEval
        attribIndex
    else [])

/-- Template `UpdateUsdGeomColors`. -/
def UpdateUsdGeomColors (Colors : Option Buffer) (ColorsType : UsdBridgeType)
    (PerPrimColors : Bool) (NumPoints : Nat) (numPrims : Nat)
    (updateEval : UsdBridgeUpdateEvaluator) (timeEval : TimeEvaluator) : List Event :=
  let performsUpdate := updateEval.PerformsUpdate .COLORS
  let timeVaryingUpdate := timeEval.IsTimeVarying .COLORS
  [Event.Clear .color timeVaryingUpdate] ++
  (if performsUpdate then
    let timeCode := timeEval.Eval .COLORS
    let colorPrimvar : UsdAttribute := ⟨outGeom timeVaryingUpdate, .color⟩
    match Colors with
    | some arrayData =>
      let arrayNumElements := if PerPrimColors then numPrims else NumPoints
      let colorInterpolation := if PerPrimColors then TfToken.uniform else TfToken.vertex
      let arrayPrimvar := colorPrimvar
      (match ColorsType with
        | .UCHAR => ExpandToColorNormalize uint8_t 1 arrayData arrayNumElements arrayPrimvar timeCode
        | .UCHAR2 => ExpandToColorNormalize uint8_t 2 arrayData arrayNumElements arrayPrimvar timeCode
        | .UCHAR3 => ExpandToColorNormalize uint8_t 3 arrayData arrayNumElements arrayPrimvar timeCode
        | .UCHAR4 => ExpandToColorNormalize uint8_t 4 arrayData arrayNumElements arrayPrimvar timeCode
        | .USHORT => ExpandToColorNormalize uint16_t 1 arrayData arrayNumElements arrayPrimvar timeCode
        | .USHORT2 => ExpandToColorNormalize uint16_t 2 arrayData arrayNumElements arrayPrimvar timeCode
        | .USHORT3 => ExpandToColorNormalize uint16_t 3 arrayData arrayNumElements arrayPrimvar timeCode
        | .USHORT4 => ExpandToColorNormalize uint16_t 4 arrayData arrayNumElements arrayPrimvar timeCode
        | .UINT => ExpandToColorNormalize uint32_t 1 arrayData arrayNumElements arrayPrimvar timeCode
        | .UINT2 => ExpandToColorNormalize uint32_t 2 arrayData arrayNumElements arrayPrimvar timeCode
        | .UINT3 => ExpandToColorNormalize uint32_t 3 arrayData arrayNumElements arrayPrimvar timeCode
        | .UINT4 => ExpandToColorNormalize uint32_t 4 arrayData arrayNumElements arrayPrimvar timeCode
        | .FLOAT => ExpandToColor float id 1 arrayData arrayNumElements arrayPrimvar timeCode
        | .FLOAT2 => ExpandToColor float id 2 arrayData arrayNumElements arrayPrimvar timeCode
        | .FLOAT3 => ExpandToColor float id 3 arrayData arrayNumElements arrayPrimvar timeCode
        | .FLOAT4 => AssignArrayToPrimvar VtVec4fArray arrayData arrayNumElements
            arrayPrimvar timeCode
        | .DOUBLE => ExpandToColor double to_float 1 arrayData arrayNumElements arrayPrimvar timeCode
        | .DOUBLE2 => ExpandToColor double to_float 2 arrayData arrayNumElements arrayPrimvar timeCode
        | .DOUBLE3 => ExpandToColor double to_float 3 arrayData arrayNumElements arrayPrimvar timeCode
        | .DOUBLE4 => AssignArrayToPrimvarConvert VtVec4fArray GfVec4d to_GfVec4f
            arrayData arrayNumElements arrayPrimvar timeCode
        | _ => [Event.Log ("UsdGeom color primvar is not of type " ++
            "(UCHAR/USHORT/UINT/FLOAT/DOUBLE)(1/2/3/4).")]) ++
      [Event.SetInterpolation ⟨.uniform, .color⟩ colorInterpolation]
    | none => [Event.Set colorPrimvar .ValueBlock timeCode]
  else [])

/-- Template `UpdateUsdGeomInstanceIds`. -/
def UpdateUsdGeomInstanceIds (InstanceIds : Option Buffer) (InstanceIdsType : UsdBridgeType)
    (NumPoints : Nat) (updateEval : UsdBridgeUpdateEvaluator) (timeEval : TimeEvaluator) :
    List Event :=
  let performsUpdate := updateEval.PerformsUpdate .INSTANCEIDS
  let timeVaryingUpdate := timeEval.IsTimeVarying .INSTANCEIDS
  [Event.Clear .ids timeVaryingUpdate] ++
  (if performsUpdate then
    let timeCode := timeEval.Eval .INSTANCEIDS
    let idsAttr : UsdAttribute := ⟨outGeom timeVaryingUpdate, .ids⟩
    match InstanceIds with
    | some arrayData =>
      let arrayNumElements := NumPoints
      let arrayPrimvar := idsAttr
      match InstanceIdsType with
      | .UINT => AssignArrayToPrimvarConvert VtInt64Array unsigned_int
          (fun u => to_int64 (u : Int)) arrayData arrayNumElements arrayPrimvar timeCode
      | .INT => AssignArrayToPrimvarConvert VtInt64Array int to_int64
          arrayData arrayNumElements arrayPrimvar timeCode
      | .LONG => AssignArrayToPrimvar VtInt64Array arrayData arrayNumElements arrayPrimvar timeCode
      | .ULONG => AssignArrayToPrimvar VtInt64Array arrayData arrayNumElements arrayPrimvar timeCode
      | _ => [Event.Log "UsdGeom IdsAttribute should be (U)LONG or (U)INT."]
    | none => [Event.Set idsAttr .ValueBlock timeCode]
  else [])

/-- Template `UpdateUsdGeomWidths`. -/
def UpdateUsdGeomWidths (Scales : Option Buffer) (ScalesType : UsdBridgeType)
    (UniformScale : ℚ) (NumPoints : Nat)
    (updateEval : UsdBridgeUpdateEvaluator) (timeEval : TimeEvaluator) : List Event :=
  let performsUpdate := updateEval.PerformsUpdate .SCALES
  let timeVaryingUpdate := timeEval.IsTimeVarying .SCALES
  [Event.Clear .widths timeVaryingUpdate] ++
  (if performsUpdate then
    let timeCode := timeEval.Eval .SCALES
    let widthsAttribute : UsdAttribute := ⟨outGeom timeVaryingUpdate, .widths⟩
    match Scales with
    | some arrayData =>
      let arrayNumElements := NumPoints
      let arrayPrimvar := widthsAttribute
      match ScalesType with
      | .FLOAT => AssignArrayToPrimvar VtFloatArray arrayData arrayNumElements arrayPrimvar timeCode
      | .DOUBLE => AssignArrayToPrimvarConvert VtFloatArray double to_float
          arrayData arrayNumElements arrayPrimvar timeCode
      | _ => [Event.Log "UsdGeom WidthsAttribute should be FLOAT or DOUBLE."]
    | none =>
      let usdWidths := List.replicate NumPoints (to_float UniformScale)
      [Event.Set widthsAttribute (.FloatArray usdWidths) timeCode]
  else [])

/-- Template `UpdateUsdGeomScales`. -/
def UpdateUsdGeomScales (Scales : Option Buffer) (ScalesType : UsdBridgeType)
    (UniformScale : ℚ) (NumPoints : Nat)
    (updateEval : UsdBridgeUpdateEvaluator) (timeEval : TimeEvaluator) : List Event :=
  let performsUpdate := updateEval.PerformsUpdate .SCALES
  let timeVaryingUpdate := timeEval.IsTimeVarying .SCALES
  [Event.Clear .scales timeVaryingUpdate] ++
  (if performsUpdate then
    let timeCode := timeEval.Eval .SCALES
    let scalesAttribute : UsdAttribute := ⟨outGeom timeVaryingUpdate, .scales⟩
    match Scales with
    | some arrayData =>
      let arrayNumElements := NumPoints
      let arrayPrimvar := scalesAttribute
      match ScalesType with
      | .FLOAT => Expand1ToVec3 VtVec3fArray float id arrayData arrayNumElements arrayPrimvar
          timeCode
      | .DOUBLE => Expand1ToVec3 VtVec3fArray double to_float arrayData arrayNumElements
          arrayPrimvar timeCode
      | .FLOAT3 => AssignArrayToPrimvar VtVec3fArray arrayData arrayNumElements arrayPrimvar timeCode
      | .DOUBLE3 => AssignArrayToPrimvarConvert VtVec3fArray GfVec3d to_GfVec3f
          arrayData arrayNumElements arrayPrimvar timeCode
      | _ => [Event.Log "UsdGeom ScalesAttribute should be FLOAT(3) or DOUBLE(3)."]
    | none =>
      let pointScale := UniformScale
      let defaultScale : GfVec3 ℚ := ⟨to_float pointScale, to_float pointScale, to_float pointScale⟩
      let usdScales := List.replicate NumPoints defaultScale
      [Event.Set scalesAttribute (.Vec3fArray usdScales) timeCode]
  else [])

/-- Template `UpdateUsdGeomOrientNormals`. -/
def UpdateUsdGeomOrientNormals (Orientations : Option Buffer) (OrientationsType : UsdBridgeType)
    (NumPoints : Nat) (updateEval : UsdBridgeUpdateEvaluator) (timeEval : TimeEvaluator) :
    List Event :=
  let performsUpdate := updateEval.PerformsUpdate .ORIENTATIONS
  let timeVaryingUpdate := timeEval.IsTimeVarying .ORIENTATIONS
  [Event.Clear .normals timeVaryingUpdate] ++
  (if performsUpdate then
    let timeCode := timeEval.Eval .ORIENTATIONS
    let normalsAttribute : UsdAttribute := ⟨outGeom timeVaryingUpdate, .normals⟩
    match Orientations with
    | some arrayData =>
      let arrayNumElements := NumPoints
      let arrayPrimvar := normalsAttribute
      match OrientationsType with
      | .FLOAT3 => AssignArrayToPrimvar VtVec3fArray arrayData arrayNumElements arrayPrimvar timeCode
      | .DOUBLE3 => AssignArrayToPrimvarConvert VtVec3fArray GfVec3d to_GfVec3f
          arrayData arrayNumElements arrayPrimvar timeCode
      | _ => [Event.Log "UsdGeom NormalsAttribute (orientations) should be FLOAT3 or DOUBLE3."]
    | none =>
      let defaultNormal : GfVec3 ℚ := ⟨1, 0, 0⟩
      let usdNormals := List.replicate NumPoints defaultNormal
      [Event.Set normalsAttribute (.Vec3fArray usdNormals) timeCode]
  else [])

/-- Template `UpdateUsdGeomOrientations`. The quaternions that `resize` adds to the
temporary array have unspecified contents; they are taken as zero. The constructor
`GfQuath` converts its float arguments to `GfHalf`. -/
def UpdateUsdGeomOrientations (c : Common) (Orientations : Option Buffer)
    (OrientationsType : UsdBridgeType) (NumPoints : Nat)
    (updateEval : UsdBridgeUpdateEvaluator) (timeEval : TimeEvaluator) : List Event :=
  let performsUpdate := updateEval.PerformsUpdate .ORIENTATIONS
  let timeVaryingUpdate := timeEval.IsTimeVarying .ORIENTATIONS
  [Event.Clear .orientations timeVaryingUpdate] ++
  (if performsUpdate then
    let timeCode := timeEval.Eval .ORIENTATIONS
    let orientationsAttribute : UsdAttribute := ⟨outGeom timeVaryingUpdate, .orientations⟩
    match Orientations with
    | some orients =>
      let usdOrients : List GfQuath := List.replicate NumPoints ⟨0, 0, 0, 0⟩
      match OrientationsType with
      | .FLOAT3 =>
        let usdOrients := c.ConvertNormalsToQuaternions orients NumPoints
        [Event.Set orientationsAttribute (.QuathArray usdOrients) timeCode]
      | .DOUBLE3 =>
        let usdOrients := c.ConvertNormalsToQuaternions orients NumPoints
        [Event.Set orientationsAttribute (.QuathArray usdOrients) timeCode]
      | .FLOAT4 =>
        let usdOrients := (List.range NumPoints).map (fun i =>
          (⟨to_half (float orients (i * 4)), to_half (float orients (i * 4 + 1)),
            to_half (float orients (i * 4 + 2)), to_half (float orients (i * 4 + 3))⟩ :
            GfQuath))
        [Event.Set orientationsAttribute (.QuathArray usdOrients) timeCode,
         Event.Set orientationsAttribute (.QuathArray usdOrients) timeCode]
      | _ =>
        [Event.Log "UsdGeom OrientationsAttribute should be FLOAT3, DOUBLE3 or FLOAT4.",
         Event.Set orientationsAttribute (.QuathArray usdOrients) timeCode]
    | none =>
      let defaultOrient : GfQuath := ⟨1, 0, 0, 0⟩
      let usdOrients := List.replicate NumPoints defaultOrient
      [Event.Set orientationsAttribute (.QuathArray usdOrients) timeCode]
  else [])

/-- Template `UpdateUsdGeomShapeIndices`. -/
def UpdateUsdGeomShapeIndices (NumPoints : Nat) (timeEval : TimeEvaluator) : List Event :=
  let timeCode := timeEval.Eval .SHAPEINDICES
  let outGeom := if timeCode.IsDefault then PrimSide.uniform else PrimSide.timeVar
  let protoIndices : List Int := List.replicate NumPoints 0
  [Event.Set ⟨outGeom, .protoIndices⟩ (.IntArray protoIndices) timeCode]

/-- Template `UpdateUsdGeomLinearVelocities`. -/
def UpdateUsdGeomLinearVelocities (LinearVelocities : Option Buffer) (NumPoints : Nat)
    (updateEval : UsdBridgeUpdateEvaluator) (timeEval : TimeEvaluator) : List Event :=
  let performsUpdate := updateEval.PerformsUpdate .LINEARVELOCITIES
  let timeVaryingUpdate := timeEval.IsTimeVarying .LINEARVELOCITIES
  [Event.Clear .velocities timeVaryingUpdate] ++
  (if performsUpdate then
    let timeCode := timeEval.Eval .LINEARVELOCITIES
    let linearVelocitiesAttribute : UsdAttribute := ⟨outGeom timeVaryingUpdate, .velocities⟩
    match LinearVelocities with
    | some linVels =>
      let usdVelocities := AssignArrayToPrimvar.usdArray VtVec3fArray linVels NumPoints
      [Event.Set linearVelocitiesAttribute (.Vec3fArray usdVelocities) timeCode]
    | none => [Event.Set linearVelocitiesAttribute .ValueBlock timeCode]
  else [])

/-- Template `UpdateUsdGeomAngularVelocities`. -/
def UpdateUsdGeomAngularVelocities (AngularVelocities : Option Buffer) (NumPoints : Nat)
    (updateEval : UsdBridgeUpdateEvaluator) (timeEval : TimeEvaluator) : List Event :=
  let performsUpdate := updateEval.PerformsUpdate .ANGULARVELOCITIES
  let timeVaryingUpdate := timeEval.IsTimeVarying .ANGULARVELOCITIES
  [Event.Clear .angularVelocities timeVaryingUpdate] ++
  (if performsUpdate then
    let timeCode := timeEval.Eval .ANGULARVELOCITIES
    let angularVelocitiesAttribute : UsdAttribute :=
      ⟨outGeom timeVaryingUpdate, .angularVelocities⟩
    match AngularVelocities with
    | some angVels =>
      let usdAngularVelocities := AssignArrayToPrimvar.usdArray VtVec3fArray angVels NumPoints
      [Event.Set angularVelocitiesAttribute (.Vec3fArray usdAngularVelocities) timeCode]
    | none => [Event.Set angularVelocitiesAttribute .ValueBlock timeCode]
  else [])

/-- Template `UpdateUsdGeomInvisibleIds`. -/
def UpdateUsdGeomInvisibleIds (InvisibleIds : Buffer) (InvisibleIdsType : UsdBridgeType)
    (NumInvisibleIds : Nat) (updateEval : UsdBridgeUpdateEvaluator) (timeEval : TimeEvaluator) :
    List Event :=
  let performsUpdate := updateEval.PerformsUpdate .INVISIBLEIDS
  let timeVaryingUpdate := timeEval.IsTimeVarying .INVISIBLEIDS
  [Event.Clear .invisibleIds timeVaryingUpdate] ++
  (if performsUpdate then
    let timeCode := timeEval.Eval .INVISIBLEIDS
    let invisIdsAttr : UsdAttribute := ⟨outGeom timeVaryingUpdate, .invisibleIds⟩
    let numInvisibleIds := NumInvisibleIds
    if numInvisibleIds ≠ 0 then
      let arrayData := InvisibleIds
      let arrayNumElements := numInvisibleIds
      let arrayPrimvar := invisIdsAttr
      match InvisibleIdsType with
      | .UINT => AssignArrayToPrimvarConvert VtInt64Array unsigned_int
          (fun u => to_int64 (u : Int)) arrayData arrayNumElements arrayPrimvar timeCode
      | .INT => AssignArrayToPrimvarConvert VtInt64Array int to_int64
          arrayData arrayNumElements arrayPrimvar timeCode
      | .LONG => AssignArrayToPrimvar VtInt64Array arrayData arrayNumElements arrayPrimvar timeCode
      | .ULONG => AssignArrayToPrimvar VtInt64Array arrayData arrayNumElements arrayPrimvar timeCode
      | _ => [Event.Log "UsdGeom GetInvisibleIdsAttr should be (U)LONG or (U)INT."]
    else [Event.Set invisIdsAttr .ValueBlock timeCode]
  else [])

/-- Function `UpdateUsdGeomCurveLengths`. -/
def UpdateUsdGeomCurveLengths (CurveLengths : Buffer) (NumCurveLengths : Nat)
    (updateEval : UsdBridgeUpdateEvaluator) (timeEval : TimeEvaluator) : List Event :=
  let performsUpdate := updateEval.PerformsUpdate .CURVELENGTHS
  let timeVaryingUpdate := timeEval.IsTimeVarying .CURVELENGTHS
  [Event.Clear .curveVertexCounts timeVaryingUpdate] ++
  (if performsUpdate then
    let timeCode := timeEval.Eval .POINTS
    let vertCountAttr : UsdAttribute := ⟨outGeom timeVaryingUpdate, .curveVertexCounts⟩
    let arrayData := CurveLengths
    let arrayNumElements := NumCurveLengths
    let arrayPrimvar := vertCountAttr
    AssignArrayToPrimvar VtIntArray arrayData arrayNumElements arrayPrimvar timeCode
  else [])

/-! ## UpdateUsdGeometry

The evaluators, which the source constructs from the geometry description and the time
step, are arguments. -/

/-- The `int` division `a / b` has no defined result. -/
def intDivUndefined (a b : Int) : Bool :=
  decide (b = 0) || (decide (a = -(2 : Int) ^ 31) && decide (b = -1))

/-- Method `UsdBridgeUsdWriter::UpdateUsdGeometry` for a mesh. The assertion that the
face vertex count divides the number of indices is not checked. -/
def UpdateUsdGeometry.mesh (c : Common) (writer : UsdBridgeUsdWriter)
    (geomData : UsdBridgeMeshData) (updateEval : UsdBridgeUpdateEvaluator)
    (timeEval : TimeEvaluator) : List Event :=
  if intDivUndefined (to_int (geomData.NumIndices : Int)) geomData.FaceVertexCount then
    [Event.Undefined] else
  let numPrims : Nat :=
    toUnsigned 64 (Int.tdiv (to_int (geomData.NumIndices : Int)) geomData.FaceVertexCount)
  UpdateUsdGeomPoints .points geomData.Points geomData.PointsType geomData.NumPoints
    updateEval timeEval ++
  UpdateUsdGeomNormals geomData.Normals geomData.NormalsType geomData.PerPrimNormals
    geomData.NumPoints numPrims updateEval timeEval ++
  (if writer.EnableStTexCoords && c.MeshHasTexCoords geomData then
    UpdateUsdGeomTexCoords geomData.Attributes geomData.NumPoints numPrims updateEval timeEval
   else []) ++
  UpdateUsdGeomAttributes c.types writer geomData.Attributes geomData.NumAttributes
    geomData.NumPoints numPrims updateEval timeEval ++
  UpdateUsdGeomColors geomData.Colors geomData.ColorsType geomData.PerPrimColors
    geomData.NumPoints numPrims updateEval timeEval ++
  UpdateUsdGeomIndices geomData.Indices geomData.IndicesType geomData.NumIndices numPrims
    updateEval timeEval

/-- Method `UsdBridgeUsdWriter::UpdateUsdGeometry` for instancer data: a points prim when
`UsesUsdGeomPoints`, a point instancer prim otherwise. -/
def UpdateUsdGeometry.instancer (c : Common) (writer : UsdBridgeUsdWriter)
    (geomData : UsdBridgeInstancerData) (updateEval : UsdBridgeUpdateEvaluator)
    (timeEval : TimeEvaluator) : List Event :=
  let useGeomPoints := c.UsesUsdGeomPoints geomData
  let numPrims := geomData.NumPoints
  if useGeomPoints then
    UpdateUsdGeomPoints .points geomData.Points geomData.PointsType geomData.NumPoints
      updateEval timeEval ++
    UpdateUsdGeomInstanceIds geomData.InstanceIds geomData.InstanceIdsType geomData.NumPoints
      updateEval timeEval ++
    UpdateUsdGeomWidths geomData.Scales geomData.ScalesType geomData.UniformScale
      geomData.NumPoints updateEval timeEval ++
    UpdateUsdGeomOrientNormals geomData.Orientations geomData.OrientationsType
      geomData.NumPoints updateEval timeEval ++
    (if writer.EnableStTexCoords && c.InstancerHasTexCoords geomData then
      UpdateUsdGeomTexCoords geomData.Attributes geomData.NumPoints numPrims updateEval timeEval
     else []) ++
    UpdateUsdGeomAttributes c.types writer geomData.Attributes geomData.NumAttributes
      geomData.NumPoints numPrims updateEval timeEval ++
    UpdateUsdGeomColors geomData.Colors geomData.ColorsType geomData.PerPrimColors
      geomData.NumPoints numPrims updateEval timeEval
  else
    UpdateUsdGeomPoints .positions geomData.Points geomData.PointsType geomData.NumPoints
      updateEval timeEval ++
    UpdateUsdGeomInstanceIds geomData.InstanceIds geomData.InstanceIdsType geomData.NumPoints
      updateEval timeEval ++
    UpdateUsdGeomScales geomData.Scales geomData.ScalesType geomData.UniformScale
      geomData.NumPoints updateEval timeEval ++
    UpdateUsdGeomOrientations c geomData.Orientations geomData.OrientationsType
      geomData.NumPoints updateEval timeEval ++
    (if writer.EnableStTexCoords && c.InstancerHasTexCoords geomData then
      UpdateUsdGeomTexCoords geomData.Attributes geomData.NumPoints numPrims updateEval timeEval
     else []) ++
    UpdateUsdGeomAttributes c.types writer geomData.Attributes geomData.NumAttributes
      geomData.NumPoints numPrims updateEval timeEval ++
    UpdateUsdGeomColors geomData.Colors geomData.ColorsType geomData.PerPrimColors
      geomData.NumPoints numPrims updateEval timeEval ++
    UpdateUsdGeomShapeIndices geomData.NumPoints timeEval ++
    UpdateUsdGeomLinearVelocities geomData.LinearVelocities geomData.NumPoints
      updateEval timeEval ++
    UpdateUsdGeomAngularVelocities geomData.AngularVelocities geomData.NumPoints
      updateEval timeEval ++
    UpdateUsdGeomInvisibleIds geomData.InvisibleIds geomData.InvisibleIdsType
      geomData.NumInvisibleIds updateEval timeEval

/-- Method `UsdBridgeUsdWriter::UpdateUsdGeometry` for curves. -/
def UpdateUsdGeometry.curve (c : Common) (writer : UsdBridgeUsdWriter)
    (geomData : UsdBridgeCurveData) (updateEval : UsdBridgeUpdateEvaluator)
    (timeEval : TimeEvaluator) : List Event :=
  let numPrims := geomData.NumCurveLengths
  UpdateUsdGeomPoints .points geomData.Points geomData.PointsType geomData.NumPoints
    updateEval timeEval ++
  UpdateUsdGeomNormals geomData.Normals geomData.NormalsType geomData.PerPrimNormals
    geomData.NumPoints numPrims updateEval timeEval ++
  (if writer.EnableStTexCoords && c.CurveHasTexCoords geomData then
    UpdateUsdGeomTexCoords geomData.Attributes geomData.NumPoints numPrims updateEval timeEval
   else []) ++
  UpdateUsdGeomAttributes c.types writer geomData.Attributes geomData.NumAttributes
    geomData.NumPoints numPrims updateEval timeEval ++
  UpdateUsdGeomColors geomData.Colors geomData.ColorsType geomData.PerPrimColors
    geomData.NumPoints numPrims updateEval timeEval ++
  UpdateUsdGeomWidths geomData.Scales geomData.ScalesType geomData.UniformScale
    geomData.NumPoints updateEval timeEval ++
  UpdateUsdGeomCurveLengths geomData.CurveLengths geomData.NumCurveLengths updateEval timeEval

/-- A geometry description handed to `UpdateUsdGeometry`. -/
inductive GeomData where
  | mesh (geomData : UsdBridgeMeshData)
  | instancer (geomData : UsdBridgeInstancerData)
  | curve (geomData : UsdBridgeCurveData)

/-- The three overloads of `UsdBridgeUsdWriter::UpdateUsdGeometry`. -/
def UpdateUsdGeometry (c : Common) (writer : UsdBridgeUsdWriter) (geomData : GeomData)
    (updateEval : UsdBridgeUpdateEvaluator) (timeEval : TimeEvaluator) : List Event :=
  match geomData with
  | .mesh d => UpdateUsdGeometry.mesh c writer d updateEval timeEval
  | .instancer d => UpdateUsdGeometry.instancer c writer d updateEval timeEval
  | .curve d => UpdateUsdGeometry.curve c writer d updateEval timeEval

/-! ## Vocabulary of the properties -/

/-- The prim kinds a geometry is written as. -/
inductive GeomKind where
  | mesh
  | points
  | instancer
  | curves
  deriving DecidableEq

/-- The prim kind `UpdateUsdGeometry` writes a geometry description as. -/
def kindOf (c : Common) : GeomData → GeomKind
  | .mesh _ => .mesh
  | .instancer d => if c.UsesUsdGeomPoints d then .points else .instancer
  | .curve _ => .curves

/-- The data member that governs an attribute of a prim of the given kind: the member
whose update routine writes the attribute. -/
def governingMember (kind : GeomKind) : AttrName → DataMemberId
  | .points => .POINTS
  | .positions => .POINTS
  | .extent => .POINTS
  | .faceVertexIndices => .INDICES
  | .faceVertexCounts => .INDICES
  | .normals => if kind = .points then .ORIENTATIONS else .NORMALS
  | .ids => .INSTANCEIDS
  | .widths => .SCALES
  | .scales => .SCALES
  | .orientations => .ORIENTATIONS
  | .protoIndices => .SHAPEINDICES
  | .velocities => .LINEARVELOCITIES
  | .angularVelocities => .ANGULARVELOCITIES
  | .invisibleIds => .INVISIBLEIDS
  | .curveVertexCounts => .CURVELENGTHS
  | .st => .ATTRIBUTE 0
  | .color => .COLORS
  | .attribute i => .ATTRIBUTE i

/-- What the update routines guarantee for one event of a member routine, `cl` being the
clear calls the routine has made before: a value is set on the prim selected by the
time-varying flag of the governing member, only when the member is updated, at the time
code of the member (the curve vertex counts apart), after the attribute has been cleared;
an interpolation token is set on the uniform prim, only when the member is updated. -/
def BodyOK (kind : GeomKind) (updateEval : UsdBridgeUpdateEvaluator) (timeEval : TimeEvaluator)
    (cl : List Event) : Event → Prop
  | .Set a _ tc =>
      updateEval.PerformsUpdate (governingMember kind a.name) = true ∧
      a.side = outGeom (timeEval.IsTimeVarying (governingMember kind a.name)) ∧
      (a.name ≠ .curveVertexCounts → tc = timeEval.Eval (governingMember kind a.name)) ∧
      Event.Clear a.name (timeEval.IsTimeVarying (governingMember kind a.name)) ∈ cl
  | .SetInterpolation a _ =>
      updateEval.PerformsUpdate (governingMember kind a.name) = true ∧ a.side = .uniform
  | .Log _ => True
  | .Undefined => True
  | .Clear _ _ => False

/-- Shape of the trace of a member routine: clear calls for attributes of the member,
then events that satisfy `BodyOK`. -/
def RoutineOK (kind : GeomKind) (updateEval : UsdBridgeUpdateEvaluator)
    (timeEval : TimeEvaluator) (evs : List Event) : Prop :=
  ∃ cl bd, evs = cl ++ bd ∧
    (∀ e ∈ cl, ∃ n, e = Event.Clear n (timeEval.IsTimeVarying (governingMember kind n))) ∧
    (∀ e ∈ bd, BodyOK kind updateEval timeEval cl e)

/-- What `UpdateUsdGeometry` guarantees for one event of its trace; the shape indices,
which have no update flag, are left out. -/
def EventOK (kind : GeomKind) (updateEval : UsdBridgeUpdateEvaluator)
    (timeEval : TimeEvaluator) : Event → Prop
  | .Set a _ tc =>
      a.name ≠ .protoIndices →
      updateEval.PerformsUpdate (governingMember kind a.name) = true ∧
      a.side = outGeom (timeEval.IsTimeVarying (governingMember kind a.name)) ∧
      (a.name ≠ .curveVertexCounts → tc = timeEval.Eval (governingMember kind a.name))
  | .SetInterpolation a _ =>
      updateEval.PerformsUpdate (governingMember kind a.name) = true ∧ a.side = .uniform
  | _ => True

/-- Every value set in the trace, the shape indices apart, comes after a clear call on
its attribute with the time-varying flag of the governing member. -/
def ClearedBefore (kind : GeomKind) (timeEval : TimeEvaluator) (evs : List Event) : Prop :=
  ∀ pre post a v tc, evs = pre ++ Event.Set a v tc :: post → a.name ≠ .protoIndices →
    Event.Clear a.name (timeEval.IsTimeVarying (governingMember kind a.name)) ∈ pre

/-- The two guarantees together. -/
def TraceOK (kind : GeomKind) (updateEval : UsdBridgeUpdateEvaluator)
    (timeEval : TimeEvaluator) (evs : List Event) : Prop :=
  (∀ e ∈ evs, EventOK kind updateEval timeEval e) ∧ ClearedBefore kind timeEval evs

/-- Names of the generic attribute primvars that `UpdateUsdGeomAttributes` handles: the
indices below `NumAttributes` whose type is not `UNDEFINED`. -/
def attributeNames (Attributes : List UsdBridgeAttribute) (NumAttributes : Nat) :
    List AttrName :=
  ((List.range NumAttributes).filter
    (fun i => decide ((attributeAt Attributes i).DataType ≠ .UNDEFINED))).map AttrName.attribute

/-- The attributes of the member routines that `UpdateUsdGeometry` invokes for a geometry
description, in the order of the calls. -/
def routineAttributes (c : Common) (writer : UsdBridgeUsdWriter) : GeomData → List AttrName
  | .mesh d =>
    if intDivUndefined (to_int (d.NumIndices : Int)) d.FaceVertexCount then [] else
    [.points, .extent, .normals] ++
    (if writer.EnableStTexCoords && c.MeshHasTexCoords d then [.st] else []) ++
    attributeNames d.Attributes d.NumAttributes ++
    [.color, .faceVertexIndices, .faceVertexCounts]
  | .instancer d =>
    if c.UsesUsdGeomPoints d then
      [.points, .extent, .ids, .widths, .normals] ++
      (if writer.EnableStTexCoords && c.InstancerHasTexCoords d then [.st] else []) ++
      attributeNames d.Attributes d.NumAttributes ++
      [.color]
    else
      [.positions, .extent, .ids, .scales, .orientations] ++
      (if writer.EnableStTexCoords && c.InstancerHasTexCoords d then [.st] else []) ++
      attributeNames d.Attributes d.NumAttributes ++
      [.color, .protoIndices, .velocities, .angularVelocities, .invisibleIds]
  | .curve d =>
    [.points, .extent, .normals] ++
    (if writer.EnableStTexCoords && c.CurveHasTexCoords d then [.st] else []) ++
    attributeNames d.Attributes d.NumAttributes ++
    [.color, .widths, .curveVertexCounts]

/-- A value within the range of the finite floats. -/
def inFloatRange (q : ℚ) : Prop := -FLT_MAX ≤ q ∧ q ≤ FLT_MAX

instance (q : ℚ) : Decidable (inFloatRange q) := by
  unfold inFloatRange
  infer_instance

/-- One step of the lower bound in `GfRange3f.UnionWith`. -/
def stepMin (acc b : ℚ) : ℚ := if b < acc then b else acc

/-- One step of the upper bound in `GfRange3f.UnionWith`. -/
def stepMax (acc b : ℚ) : ℚ := if b > acc then b else acc

/-- Channel `j` of a colour: red, green and blue for 0, 1 and 2, alpha otherwise. -/
def GfVec4.channel (v : GfVec4 α) : Nat → α
  | 0 => v.x
  | 1 => v.y
  | 2 => v.z
  | _ => v.w

/-- The colour types with unsigned integer components, as the type switch of
`UpdateUsdGeomColors` dispatches them: bit width of a component and number of components. -/
def unsignedColorType : UsdBridgeType → Option (Nat × Nat)
  | .UCHAR => some (8, 1)
  | .UCHAR2 => some (8, 2)
  | .UCHAR3 => some (8, 3)
  | .UCHAR4 => some (8, 4)
  | .USHORT => some (16, 1)
  | .USHORT2 => some (16, 2)
  | .USHORT3 => some (16, 3)
  | .USHORT4 => some (16, 4)
  | .UINT => some (32, 1)
  | .UINT2 => some (32, 2)
  | .UINT3 => some (32, 3)
  | .UINT4 => some (32, 4)
  | _ => none

/-- The colour types with float or double components: number of components. -/
def realColorType : UsdBridgeType → Option Nat
  | .FLOAT => some 1
  | .FLOAT2 => some 2
  | .FLOAT3 => some 3
  | .FLOAT4 => some 4
  | .DOUBLE => some 1
  | .DOUBLE2 => some 2
  | .DOUBLE3 => some 3
  | .DOUBLE4 => some 4
  | _ => none

/-- Whether a colour type has components of type `double`. -/
def doubleColorType : UsdBridgeType → Bool
  | .DOUBLE => true
  | .DOUBLE2 => true
  | .DOUBLE3 => true
  | .DOUBLE4 => true
  | _ => false

/-- Number of components of a colour type that `UpdateUsdGeomColors` supports. -/
def colorComponents (ty : UsdBridgeType) : Option Nat :=
  match unsignedColorType ty with
  | some (_, k) => some k
  | none => realColorType ty

/-- Number of entries of an array value (0 for a value block). -/
def VtValue.size : VtValue → Nat
  | .UCharArray a => a.length
  | .UIntArray a => a.length
  | .IntArray a => a.length
  | .Int64Array a => a.length
  | .UInt64Array a => a.length
  | .HalfArray a => a.length
  | .FloatArray a => a.length
  | .DoubleArray a => a.length
  | .Vec2iArray a => a.length
  | .Vec2fArray a => a.length
  | .Vec2dArray a => a.length
  | .Vec3iArray a => a.length
  | .Vec3fArray a => a.length
  | .Vec3dArray a => a.length
  | .Vec4iArray a => a.length
  | .Vec4fArray a => a.length
  | .Vec4dArray a => a.length
  | .QuathArray a => a.length
  | .ValueBlock => 0

/-- The type tags that `CopyArrayToPrimvar` writes as a flattened scalar array. -/
def isFlattened : UsdBridgeType → Bool
  | .UCHAR2 | .UCHAR3 | .UCHAR4 | .CHAR2 | .CHAR3 | .CHAR4
  | .USHORT2 | .USHORT3 | .USHORT4 | .SHORT2 | .SHORT3 | .SHORT4
  | .UINT2 | .UINT3 | .UINT4 | .LONG2 | .LONG3 | .LONG4
  | .ULONG2 | .ULONG3 | .ULONG4 | .HALF2 | .HALF3 | .HALF4 => true
  | _ => false

/-- Array entries that `CopyArrayToPrimvar` writes per source element: the element
multiplier for a flattened type, one otherwise. -/
def entriesPerElement (tt : TypeTable) (ty : UsdBridgeType) : Nat :=
  if isFlattened ty then tt.ordinal ty / tt.UsdBridgeNumFundamentalTypes else 1

/-- The trace `evs` of a member routine agrees with the per-primitive flag of the member:
with `n` the number of primitives if the flag is set and the number of points otherwise,
and the token `uniform` if the flag is set and `vertex` otherwise, the token is set on the
uniform prim and no other token is set, every array set holds `n` elements (of
`entries` array entries each), and when the type is accepted such an array is set on
`attr` at `tc`. -/
def CountAgrees (perPrim : Bool) (numPrims NumPoints : Nat) (attr : UsdAttribute)
    (tc : UsdTimeCode) (entries : Nat) (accepted : Prop) (evs : List Event) : Prop :=
  Event.SetInterpolation ⟨.uniform, attr.name⟩
    (if perPrim = true then TfToken.uniform else TfToken.vertex) ∈ evs ∧
  (∀ a t, Event.SetInterpolation a t ∈ evs →
    t = (if perPrim = true then TfToken.uniform else TfToken.vertex)) ∧
  (∀ a v tc2, Event.Set a v tc2 ∈ evs →
    v.size = (if perPrim = true then numPrims else NumPoints) * entries) ∧
  (accepted → ∃ v, Event.Set attr v tc ∈ evs ∧
    v.size = (if perPrim = true then numPrims else NumPoints) * entries)

/-! ## Sample inputs -/

/-- A stand-in for the header declarations: every instancer is written as a point
instancer, no geometry has texture coordinates, directions become identity quaternions. -/
def sampleCommon : Common where
  types := ⟨fun _ => 0, 1⟩
  ConvertNormalsToQuaternions := fun _ n => List.replicate n ⟨1, 0, 0, 0⟩
  UsesUsdGeomPoints := fun _ => false
  MeshHasTexCoords := fun _ => false
  InstancerHasTexCoords := fun _ => false
  CurveHasTexCoords := fun _ => false

/-- A writer without st texture coordinates whose primvar handles are all valid. -/
def sampleWriter : UsdBridgeUsdWriter := ⟨false, fun _ => true⟩

/-- Update evaluator that updates every member. -/
def updateAll : UsdBridgeUpdateEvaluator := ⟨fun _ => true⟩

/-- Update evaluator that updates no member. -/
def updateNone : UsdBridgeUpdateEvaluator := ⟨fun _ => false⟩

/-- Update evaluator that updates the instance ids only. -/
def updateIdsOnly : UsdBridgeUpdateEvaluator := ⟨fun m => decide (m = .INSTANCEIDS)⟩

/-- Time evaluator at time step `t` for the set `timeVarying` of time-varying members: a
time-varying member is evaluated at `t`, any other member at the default time. -/
def timeEvaluatorAt (timeVarying : DataMemberId → Bool) (t : ℚ) : TimeEvaluator :=
  ⟨timeVarying, fun m => if timeVarying m then .Time t else .Default⟩

/-- One triangle with float positions and no other data. -/
def sampleMesh : UsdBridgeMeshData where
  NumPoints := 3
  Points := some (.reals [0, 0, 0, 1, 0, 0, 0, 1, 0])
  PointsType := .FLOAT3
  Normals := none
  NormalsType := .UNDEFINED
  PerPrimNormals := false
  Colors := none
  ColorsType := .UNDEFINED
  PerPrimColors := false
  Attributes := []
  NumAttributes := 0
  Indices := none
  IndicesType := .UNDEFINED
  NumIndices := 3
  FaceVertexCount := 3

/-- One instance without any buffer but its position. -/
def sampleInstancer : UsdBridgeInstancerData where
  Shapes := [.SHAPE_SPHERE]
  NumPoints := 1
  Points := some (.reals [0, 0, 0])
  PointsType := .FLOAT3
  Scales := none
  ScalesType := .UNDEFINED
  UniformScale := 1
  Orientations := none
  OrientationsType := .UNDEFINED
  Colors := none
  ColorsType := .UNDEFINED
  PerPrimColors := false
  Attributes := []
  NumAttributes := 0
  InstanceIds := none
  InstanceIdsType := .UNDEFINED
  LinearVelocities := none
  AngularVelocities := none
  InvisibleIds := .words []
  NumInvisibleIds := 0
  InvisibleIdsType := .UNDEFINED

/-- One curve of two points. -/
def sampleCurve : UsdBridgeCurveData where
  NumPoints := 2
  Points := some (.reals [0, 0, 0, 1, 0, 0])
  PointsType := .FLOAT3
  Normals := none
  NormalsType := .UNDEFINED
  PerPrimNormals := false
  Colors := none
  ColorsType := .UNDEFINED
  PerPrimColors := false
  Scales := none
  ScalesType := .UNDEFINED
  UniformScale := 1
  Attributes := []
  NumAttributes := 0
  CurveLengths := .words [2]
  NumCurveLengths := 1

/-- A mesh without points or indices. -/
def emptyMesh : UsdBridgeMeshData where
  NumPoints := 0
  Points := none
  PointsType := .UNDEFINED
  Normals := none
  NormalsType := .UNDEFINED
  PerPrimNormals := false
  Colors := none
  ColorsType := .UNDEFINED
  PerPrimColors := false
  Attributes := []
  NumAttributes := 0
  Indices := none
  IndicesType := .UNDEFINED
  NumIndices := 0
  FaceVertexCount := 3

/-! ## Typed source arrays -/

/-- Test that an integer is a value of the signed type of `w` bits. -/
def inSigned (w : Nat) (z : Int) : Bool :=
  decide (-(2 : Int) ^ (w - 1) ≤ z) && decide (z < (2 : Int) ^ (w - 1))

/-- Test that a natural number is a value of the unsigned type of `w` bits. -/
def inUnsigned (w : Nat) (u : Nat) : Bool := decide (u < 2 ^ w)

/-- Memory image of a typed array, as a source buffer holds it: unsigned entries as they
are, signed entries in two's complement, floating entries as their values, vectors and
quaternions component by component. -/
def VtValue.image : VtValue → Buffer
  | .UCharArray a => .words a
  | .UIntArray a => .words a
  | .IntArray a => .words (a.map (toUnsigned 32))
  | .Int64Array a => .words (a.map (toUnsigned 64))
  | .UInt64Array a => .words a
  | .HalfArray a => .reals a
  | .FloatArray a => .reals a
  | .DoubleArray a => .reals a
  | .Vec2iArray a => .words (a.flatMap (fun v => [toUnsigned 32 v.x, toUnsigned 32 v.y]))
  | .Vec2fArray a => .reals (a.flatMap (fun v => [v.x, v.y]))
  | .Vec2dArray a => .reals (a.flatMap (fun v => [v.x, v.y]))
  | .Vec3iArray a =>
      .words (a.flatMap (fun v => [toUnsigned 32 v.x, toUnsigned 32 v.y, toUnsigned 32 v.z]))
  | .Vec3fArray a => .reals (a.flatMap (fun v => [v.x, v.y, v.z]))
  | .Vec3dArray a => .reals (a.flatMap (fun v => [v.x, v.y, v.z]))
  | .Vec4iArray a =>
      .words (a.flatMap (fun v =>
        [toUnsigned 32 v.x, toUnsigned 32 v.y, toUnsigned 32 v.z, toUnsigned 32 v.w]))
  | .Vec4fArray a => .reals (a.flatMap (fun v => [v.x, v.y, v.z, v.w]))
  | .Vec4dArray a => .reals (a.flatMap (fun v => [v.x, v.y, v.z, v.w]))
  | .QuathArray a => .reals (a.flatMap (fun q => [q.real, q.i, q.j, q.k]))
  | .ValueBlock => .words []

/-- The type tag of a source buffer whose elements have the element type of the array
(none for quaternions and for a value block). -/
def VtValue.sourceType : VtValue → Option UsdBridgeType
  | .UCharArray _ => some .UCHAR
  | .UIntArray _ => some .UINT
  | .IntArray _ => some .INT
  | .Int64Array _ => some .LONG
  | .UInt64Array _ => some .ULONG
  | .HalfArray _ => some .HALF
  | .FloatArray _ => some .FLOAT
  | .DoubleArray _ => some .DOUBLE
  | .Vec2iArray _ => some .INT2
  | .Vec2fArray _ => some .FLOAT2
  | .Vec2dArray _ => some .DOUBLE2
  | .Vec3iArray _ => some .INT3
  | .Vec3fArray _ => some .FLOAT3
  | .Vec3dArray _ => some .DOUBLE3
  | .Vec4iArray _ => some .INT4
  | .Vec4fArray _ => some .FLOAT4
  | .Vec4dArray _ => some .DOUBLE4
  | .QuathArray _ => none
  | .ValueBlock => none

/-- Test that every integer entry of the array is a value of its element type. -/
def VtValue.inRange : VtValue → Bool
  | .UCharArray a => a.all (inUnsigned 8)
  | .UIntArray a => a.all (inUnsigned 32)
  | .IntArray a => a.all (inSigned 32)
  | .Int64Array a => a.all (inSigned 64)
  | .UInt64Array a => a.all (inUnsigned 64)
  | .Vec2iArray a => a.all (fun v => inSigned 32 v.x && inSigned 32 v.y)
  | .Vec3iArray a => a.all (fun v => inSigned 32 v.x && inSigned 32 v.y && inSigned 32 v.z)
  | .Vec4iArray a =>
      a.all (fun v => inSigned 32 v.x && inSigned 32 v.y && inSigned 32 v.z && inSigned 32 v.w)
  | _ => true

/-- The array of the first `n` entries. -/
def VtValue.take (n : Nat) : VtValue → VtValue
  | .UCharArray a => .UCharArray (a.take n)
  | .UIntArray a => .UIntArray (a.take n)
  | .IntArray a => .IntArray (a.take n)
  | .Int64Array a => .Int64Array (a.take n)
  | .UInt64Array a => .UInt64Array (a.take n)
  | .HalfArray a => .HalfArray (a.take n)
  | .FloatArray a => .FloatArray (a.take n)
  | .DoubleArray a => .DoubleArray (a.take n)
  | .Vec2iArray a => .Vec2iArray (a.take n)
  | .Vec2fArray a => .Vec2fArray (a.take n)
  | .Vec2dArray a => .Vec2dArray (a.take n)
  | .Vec3iArray a => .Vec3iArray (a.take n)
  | .Vec3fArray a => .Vec3fArray (a.take n)
  | .Vec3dArray a => .Vec3dArray (a.take n)
  | .Vec4iArray a => .Vec4iArray (a.take n)
  | .Vec4fArray a => .Vec4fArray (a.take n)
  | .Vec4dArray a => .Vec4dArray (a.take n)
  | .QuathArray a => .QuathArray (a.take n)
  | .ValueBlock => .ValueBlock

/-- A type table in which every tag has element multiplier 2. -/
def pairTypes : TypeTable := ⟨fun _ => 2, 1⟩

/-! ## Rejected types -/

/-- The trace sets no value on the attribute `name` of either prim. -/
def NoValueSet (name : AttrName) (evs : List Event) : Prop :=
  ∀ a v tc, Event.Set a v tc ∈ evs → a.name ≠ name

/-- The trace logs an error. -/
def LogsError (evs : List Event) : Prop := ∃ msg, Event.Log msg ∈ evs

/-! ## Initialisation and manifest -/

/-- The prim types the writer defines. -/
inductive PrimType where
  | UsdGeomMesh
  | UsdGeomPoints
  | UsdGeomPointInstancer
  | UsdGeomBasisCurves
  | UsdGeomSphere
  | UsdGeomCylinder
  | UsdGeomCone
  deriving DecidableEq

/-- The value types a primvar is created with; `GetPrimvarArrayType` is declared in the
bridge headers and is kept as a symbol. -/
inductive SdfValueTypeName where
  | Color4fArray
  | TexCoord2fArray
  | GetPrimvarArrayType (dataType : UsdBridgeType)
  deriving DecidableEq

/-- The paths of an initialisation: the geometry path `geomPath`, its child
`geomPath.AppendPath(SdfPath(child))`, and the default-constructed path. -/
inductive SdfPath where
  | geomPath
  | AppendPath (child : String)
  | default
  deriving DecidableEq

/-- One call of an initialisation on the scene-description library. Schema attributes,
property tokens (`UsdBridgeTokens->name`) and primvar tokens (`AttribIndexToToken(i)` is
`attribute i`) are named by `AttrName`; every call but `Define`, `AddTarget` and `Save`
is made on the prim at the geometry path. -/
inductive StageEvent where
  | GetOrDefinePrim (type : PrimType)
  | CreateAttr (name : AttrName)
  | RemoveProperty (token : AttrName)
  | CreatePrimvar (token : AttrName) (type : SdfValueTypeName)
  | RemovePrimvar (token : AttrName)
  | CreateDoubleSidedAttr (value : Bool)
  | SetSubdivisionScheme
  | SetType
  | Define (type : PrimType) (path : SdfPath)
  | AddTarget (path : SdfPath)
  | Save
  deriving DecidableEq

/-- The settings of the bridge that the initialisation consults. -/
structure UsdBridgeSettings where
  EnableStTexCoords : Bool

/-- Member `Settings` of the writer. -/
def UsdBridgeUsdWriter.Settings (writer : UsdBridgeUsdWriter) : UsdBridgeSettings :=
  ⟨writer.EnableStTexCoords⟩

/-- Local `timeVarChecked` of the primvar creation routines, which is also the condition
`!timeEval || timeEval->IsTimeVarying(member)` of `InitializeUsdGeometryTimeVar`: true
without a time evaluator, the time-varying flag of the member otherwise. -/
def timeVarChecked (timeEval : Option TimeEvaluator) (member : DataMemberId) : Bool :=
  match timeEval with
  | none => true
  | some te => te.IsTimeVarying member

/-- Template `CreateUsdGeomColorPrimvars`. -/
def CreateUsdGeomColorPrimvars (timeEval : Option TimeEvaluator) : List StageEvent :=
  if timeVarChecked timeEval .COLORS then [.CreatePrimvar .color .Color4fArray]
  else [.RemovePrimvar .color]

/-- Template `CreateUsdGeomTexturePrimvars`. -/
def CreateUsdGeomTexturePrimvars (timeEval : Option TimeEvaluator) : List StageEvent :=
  if timeVarChecked timeEval (.ATTRIBUTE 0) then [.CreatePrimvar .st .TexCoord2fArray]
  else if timeEval.isSome then [.RemovePrimvar .st]
  else []

/-- Template `CreateUsdGeomAttributePrimvars`. -/
def CreateUsdGeomAttributePrimvars (Attributes : List UsdBridgeAttribute) (NumAttributes : Nat)
    (timeEval : Option TimeEvaluator) : List StageEvent :=
  (List.range NumAttributes).flatMap (fun attribIndex =>
    let attrib := attributeAt Attributes attribIndex
    if attrib.DataType ≠ .UNDEFINED then
      if timeVarChecked timeEval (.ATTRIBUTE attribIndex) then
        let primvarType := SdfValueTypeName.GetPrimvarArrayType attrib.DataType
        [.CreatePrimvar (.attribute attribIndex) primvarType]
      else if timeEval.isSome then [.RemovePrimvar (.attribute attribIndex)]
      else []
    else [])

/-- Function `InitializeUsdGeometryTimeVar` for a mesh prim. -/
def InitializeUsdGeometryTimeVar.mesh (meshData : UsdBridgeMeshData)
    (settings : UsdBridgeSettings) (timeEval : Option TimeEvaluator) : List StageEvent :=
  (if timeVarChecked timeEval .POINTS then [.CreateAttr .points, .CreateAttr .extent]
   else [.RemoveProperty .points, .RemoveProperty .extent]) ++
  (if timeVarChecked timeEval .INDICES then
     [.CreateAttr .faceVertexIndices, .CreateAttr .faceVertexCounts]
   else [.RemoveProperty .faceVertexCounts, .RemoveProperty .faceVertexIndices]) ++
  (if timeVarChecked timeEval .NORMALS then [.CreateAttr .normals]
   else [.RemoveProperty .normals]) ++
  CreateUsdGeomColorPrimvars timeEval ++
  (if settings.EnableStTexCoords then CreateUsdGeomTexturePrimvars timeEval else []) ++
  CreateUsdGeomAttributePrimvars meshData.Attributes meshData.NumAttributes timeEval

/-- Function `InitializeUsdGeometryTimeVar` for a points prim. -/
def InitializeUsdGeometryTimeVar.points (instancerData : UsdBridgeInstancerData)
    (settings : UsdBridgeSettings) (timeEval : Option TimeEvaluator) : List StageEvent :=
  (if timeVarChecked timeEval .POINTS then [.CreateAttr .points, .CreateAttr .extent]
   else [.RemoveProperty .points, .RemoveProperty .extent]) ++
  (if timeVarChecked timeEval .INSTANCEIDS then [.CreateAttr .ids]
   else [.RemoveProperty .ids]) ++
  (if timeVarChecked timeEval .ORIENTATIONS then [.CreateAttr .normals]
   else [.RemoveProperty .normals]) ++
  (if timeVarChecked timeEval .SCALES then [.CreateAttr .widths]
   else [.RemoveProperty .widths]) ++
  CreateUsdGeomColorPrimvars timeEval ++
  (if settings.EnableStTexCoords then CreateUsdGeomTexturePrimvars timeEval else []) ++
  CreateUsdGeomAttributePrimvars instancerData.Attributes instancerData.NumAttributes timeEval

/-- Function `InitializeUsdGeometryTimeVar` for a point instancer prim. -/
def InitializeUsdGeometryTimeVar.instancer (instancerData : UsdBridgeInstancerData)
    (settings : UsdBridgeSettings) (timeEval : Option TimeEvaluator) : List StageEvent :=
  (if timeVarChecked timeEval .POINTS then [.CreateAttr .positions, .CreateAttr .extent]
   else [.RemoveProperty .positions, .RemoveProperty .extent]) ++
  (if timeVarChecked timeEval .SHAPEINDICES then [.CreateAttr .protoIndices]
   else [.RemoveProperty .protoIndices]) ++
  (if timeVarChecked timeEval .INSTANCEIDS then [.CreateAttr .ids]
   else [.RemoveProperty .ids]) ++
  (if timeVarChecked timeEval .ORIENTATIONS then [.CreateAttr .orientations]
   else [.RemoveProperty .orientations]) ++
  (if timeVarChecked timeEval .SCALES then [.CreateAttr .scales]
   else [.RemoveProperty .scales]) ++
  CreateUsdGeomColorPrimvars timeEval ++
  (if settings.EnableStTexCoords then CreateUsdGeomTexturePrimvars timeEval else []) ++
  CreateUsdGeomAttributePrimvars instancerData.Attributes instancerData.NumAttributes timeEval ++
  (if timeVarChecked timeEval .LINEARVELOCITIES then [.CreateAttr .velocities]
   else [.RemoveProperty .velocities]) ++
  (if timeVarChecked timeEval .ANGULARVELOCITIES then [.CreateAttr .angularVelocities]
   else [.RemoveProperty .angularVelocities]) ++
  (if timeVarChecked timeEval .INVISIBLEIDS then [.CreateAttr .invisibleIds]
   else [.RemoveProperty .invisibleIds])

/-- Function `InitializeUsdGeometryTimeVar` for a basis curves prim. -/
def InitializeUsdGeometryTimeVar.curves (curveData : UsdBridgeCurveData)
    (settings : UsdBridgeSettings) (timeEval : Option TimeEvaluator) : List StageEvent :=
  (if timeVarChecked timeEval .POINTS then [.CreateAttr .points, .CreateAttr .extent]
   else [.RemoveProperty .positions, .RemoveProperty .extent]) ++
  (if timeVarChecked timeEval .CURVELENGTHS then [.CreateAttr .curveVertexCounts]
   else [.RemoveProperty .curveVertexCounts]) ++
  (if timeVarChecked timeEval .NORMALS then [.CreateAttr .normals]
   else [.RemoveProperty .normals]) ++
  (if timeVarChecked timeEval .SCALES then [.CreateAttr .widths]
   else [.RemoveProperty .widths]) ++
  CreateUsdGeomColorPrimvars timeEval ++
  (if settings.EnableStTexCoords then CreateUsdGeomTexturePrimvars timeEval else []) ++
  CreateUsdGeomAttributePrimvars curveData.Attributes curveData.NumAttributes timeEval

/-- Function `InitializeUsdGeometry_Impl` for a mesh. -/
def InitializeUsdGeometry_Impl.mesh (meshData : UsdBridgeMeshData) (uniformPrim : Bool)
    (settings : UsdBridgeSettings) (timeEval : Option TimeEvaluator) : List StageEvent :=
  [.GetOrDefinePrim .UsdGeomMesh] ++
  InitializeUsdGeometryTimeVar.mesh meshData settings timeEval ++
  (if uniformPrim then [.CreateDoubleSidedAttr true, .SetSubdivisionScheme] else [])

/-- Entry `Shapes[0]` of the shape array of an instancer. -/
def UsdBridgeInstancerData.shape0 (instancerData : UsdBridgeInstancerData) : InstanceShape :=
  instancerData.Shapes.getD 0 .other

/-- Function `InitializeUsdGeometry_Impl` for instancer data. -/
def InitializeUsdGeometry_Impl.instancer (c : Common) (instancerData : UsdBridgeInstancerData)
    (uniformPrim : Bool) (settings : UsdBridgeSettings) (timeEval : Option TimeEvaluator) :
    List StageEvent :=
  if c.UsesUsdGeomPoints instancerData then
    [.GetOrDefinePrim .UsdGeomPoints] ++
    InitializeUsdGeometryTimeVar.points instancerData settings timeEval ++
    (if uniformPrim then [.CreateDoubleSidedAttr true] else [])
  else
    [.GetOrDefinePrim .UsdGeomPointInstancer] ++
    InitializeUsdGeometryTimeVar.instancer instancerData settings timeEval ++
    (if uniformPrim then
      (match instancerData.shape0 with
        | .SHAPE_SPHERE =>
          [StageEvent.Define .UsdGeomSphere (.AppendPath "sphere"),
           StageEvent.AddTarget (.AppendPath "sphere")]
        | .SHAPE_CYLINDER =>
          [StageEvent.Define .UsdGeomCylinder (.AppendPath "cylinder"),
           StageEvent.AddTarget (.AppendPath "cylinder")]
        | .SHAPE_CONE =>
          [StageEvent.Define .UsdGeomCone (.AppendPath "cone"),
           StageEvent.AddTarget (.AppendPath "cone")]
        | .other => [StageEvent.AddTarget .default])
     else [])

/-- Function `InitializeUsdGeometry_Impl` for curves. -/
def InitializeUsdGeometry_Impl.curve (curveData : UsdBridgeCurveData) (uniformPrim : Bool)
    (settings : UsdBridgeSettings) (timeEval : Option TimeEvaluator) : List StageEvent :=
  [.GetOrDefinePrim .UsdGeomBasisCurves] ++
  InitializeUsdGeometryTimeVar.curves curveData settings timeEval ++
  (if uniformPrim then [.CreateDoubleSidedAttr true, .SetType] else [])

/-- The three overloads of `InitializeUsdGeometry_Impl`. -/
def InitializeUsdGeometry_Impl (c : Common) (geomData : GeomData) (uniformPrim : Bool)
    (settings : UsdBridgeSettings) (timeEval : Option TimeEvaluator) : List StageEvent :=
  match geomData with
  | .mesh d => InitializeUsdGeometry_Impl.mesh d uniformPrim settings timeEval
  | .instancer d => InitializeUsdGeometry_Impl.instancer c d uniformPrim settings timeEval
  | .curve d => InitializeUsdGeometry_Impl.curve d uniformPrim settings timeEval

/-- The three overloads of `UsdBridgeUsdWriter::InitializeUsdGeometry`: no time evaluator
is passed. -/
def InitializeUsdGeometry (c : Common) (writer : UsdBridgeUsdWriter) (geomData : GeomData)
    (uniformPrim : Bool) : List StageEvent :=
  InitializeUsdGeometry_Impl c geomData uniformPrim writer.Settings none

/-- The three overloads of `UsdBridgeUsdWriter::UpdateUsdGeometryManifest`, on the prim of
the manifest stage; `EnableSaving` is the member of the writer, and the time evaluator,
which the source constructs from the geometry description, is an argument. -/
def UpdateUsdGeometryManifest (c : Common) (writer : UsdBridgeUsdWriter) (EnableSaving : Bool)
    (geomData : GeomData) (timeEval : TimeEvaluator) : List StageEvent :=
  InitializeUsdGeometry_Impl c geomData false writer.Settings (some timeEval) ++
  (if EnableSaving then [.Save] else [])

/-- The schema attributes of a prim kind. -/
def schemaAttributes : GeomKind → List AttrName
  | .mesh => [.points, .extent, .faceVertexIndices, .faceVertexCounts, .normals]
  | .points => [.points, .extent, .ids, .normals, .widths]
  | .instancer => [.positions, .extent, .protoIndices, .ids, .orientations, .scales,
      .velocities, .angularVelocities, .invisibleIds]
  | .curves => [.points, .extent, .curveVertexCounts, .normals, .widths]

/-- The generic attributes of a geometry description. -/
def GeomData.Attributes : GeomData → List UsdBridgeAttribute
  | .mesh d => d.Attributes
  | .instancer d => d.Attributes
  | .curve d => d.Attributes

/-- The number of generic attributes of a geometry description. -/
def GeomData.NumAttributes : GeomData → Nat
  | .mesh d => d.NumAttributes
  | .instancer d => d.NumAttributes
  | .curve d => d.NumAttributes

/-- The schema attribute a call creates, if it creates one. -/
def StageEvent.createdAttr : StageEvent → Option AttrName
  | .CreateAttr name => some name
  | _ => none

/-- The primvar a call creates, if it creates one. -/
def StageEvent.createdPrimvar : StageEvent → Option AttrName
  | .CreatePrimvar token _ => some token
  | _ => none

/-- The call removes a property or a primvar. -/
def StageEvent.removes : StageEvent → Bool
  | .RemoveProperty _ => true
  | .RemovePrimvar _ => true
  | _ => false

/-- Whether the prim carries the property `n` after a call, given whether it carried it
before: creating the attribute or primvar `n` makes the prim carry it, removing the
property or primvar of token `n` makes the prim lose it, any other call leaves it. -/
def StageEvent.carries (n : AttrName) (before : Bool) : StageEvent → Bool
  | .CreateAttr name => if name = n then true else before
  | .RemoveProperty token => if token = n then false else before
  | .CreatePrimvar token _ => if token = n then true else before
  | .RemovePrimvar token => if token = n then false else before
  | _ => before

/-- Whether the prim carries the property `n` after a sequence of calls. -/
def carriesAfter (n : AttrName) (before : Bool) (evs : List StageEvent) : Bool :=
  evs.foldl (StageEvent.carries n) before

/-- One curve with one generic attribute of type float and one of undefined type. -/
def attributedCurve : UsdBridgeCurveData :=
  { sampleCurve with
    Attributes := [⟨none, .UNDEFINED, false⟩, ⟨some (.reals [1, 2]), .FLOAT, false⟩]
    NumAttributes := 2 }

/-! ## Integer entries of typed arrays -/

/-- Numeric value of entry `i` of an array of integers (none for an absent entry and for
an array of another element type). -/
def VtValue.intAt : VtValue → Nat → Option Int
  | .UCharArray a, i => (a[i]?).map (fun (u : Nat) => (u : Int))
  | .UIntArray a, i => (a[i]?).map (fun (u : Nat) => (u : Int))
  | .IntArray a, i => a[i]?
  | .Int64Array a, i => a[i]?
  | .UInt64Array a, i => (a[i]?).map (fun (u : Nat) => (u : Int))
  | _, _ => none

/-! ## Values set on an attribute -/

/-- The event sets no value, or sets it on the attribute `p`. -/
def Event.setsOn (p : UsdAttribute) : Event → Prop
  | .Set a _ _ => a = p
  | _ => True

/-! ## Created attributes and prototypes -/

/-- The index of a generic attribute primvar (none for any other name). -/
def AttrName.attributeIndex : AttrName → Option Nat
  | .attribute i => some i
  | _ => none

/-- The index of the generic attribute whose primvar a call creates, if it creates one. -/
def StageEvent.createdAttributeIndex (e : StageEvent) : Option Nat :=
  e.createdPrimvar.bind AttrName.attributeIndex

/-- The index of the generic attribute whose primvar a call removes, if it removes one. -/
def StageEvent.removedAttributeIndex : StageEvent → Option Nat
  | .RemovePrimvar token => token.attributeIndex
  | .RemoveProperty token => token.attributeIndex
  | _ => none

/-- The shape prim a call defines, if it defines one: its type and path. -/
def StageEvent.definedPrim : StageEvent → Option (PrimType × SdfPath)
  | .Define type path => some (type, path)
  | _ => none

/-- The target a call adds to the prototypes relationship, if it adds one. -/
def StageEvent.addedTarget : StageEvent → Option SdfPath
  | .AddTarget path => some path
  | _ => none

/-! ## Clear calls of the member routines -/

/-- The attributes that the member routine writing the attribute `n` clears: the points
routine clears the points attribute of the prim kind and the extent, the index routine
the face vertex indices and the face vertex counts, every other routine its one
attribute. -/
def clearedWith (kind : GeomKind) : AttrName → List AttrName
  | .points => [.points, .extent]
  | .positions => [.positions, .extent]
  | .extent => if kind = .instancer then [.positions, .extent] else [.points, .extent]
  | .faceVertexIndices => [.faceVertexIndices, .faceVertexCounts]
  | .faceVertexCounts => [.faceVertexIndices, .faceVertexCounts]
  | n => [n]

/-- An event of the body of a member routine with the attributes `attrs`: no clear call,
and a value is set on one of these attributes only. -/
def Event.inBody (attrs : List AttrName) : Event → Prop
  | .Clear _ _ => False
  | .Set a _ _ => a.name ∈ attrs
  | _ => True

/-- Shape of the trace of a member routine with the attributes `attrs`: first one clear
call on each of the attributes, with the flag `flag`, then a body with no clear call
that sets values on these attributes only. -/
def RoutineClears (attrs : List AttrName) (flag : Bool) (evs : List Event) : Prop :=
  ∃ body, evs = attrs.map (fun n => Event.Clear n flag) ++ body ∧
    ∀ e ∈ body, e.inBody attrs

/-- Every value set in the trace, the shape indices apart, comes after the clear calls on
all the attributes of its member routine, made with the time-varying flag of the member;
and the trace has no clear call on the prototype indices. -/
def ClearedFirst (kind : GeomKind) (timeEval : TimeEvaluator) (evs : List Event) : Prop :=
  (∀ pre post a v tc, evs = pre ++ Event.Set a v tc :: post → a.name ≠ .protoIndices →
    ∀ n ∈ clearedWith kind a.name,
      Event.Clear n (timeEval.IsTimeVarying (governingMember kind n)) ∈ pre) ∧
  ∀ f, Event.Clear .protoIndices f ∉ evs

/-! ## Input that the member routines accept -/

/-- Optional data that a member routine accepts: a null pointer, which the routine answers
with a value block or a default array, or data of one of the types `tys`. -/
def acceptsTypes (data : Option Buffer) (ty : UsdBridgeType) (tys : List UsdBridgeType) :
    Prop :=
  data = none ∨ ty ∈ tys

/-- Number of primitives of a mesh, `int(NumIndices) / FaceVertexCount` as `uint64_t`. -/
def UsdBridgeMeshData.numPrims (d : UsdBridgeMeshData) : Nat :=
  toUnsigned 64 (Int.tdiv (to_int (d.NumIndices : Int)) d.FaceVertexCount)

/-- The input conditions under which the member routine of the attribute `n` sets a value
on it when the update of its member is performed: the points pointer is not null (and the
points are FLOAT3 or DOUBLE3, for the points array itself); supplied data of the other
members has a type that the routine supports; the primvar of a generic attribute exists on
the selected prim; the mesh has at least one primitive, for its indices and counts. -/
def Accepts (writer : UsdBridgeUsdWriter) (timeEval : TimeEvaluator) :
    GeomData → AttrName → Prop
  | .mesh d, .points => d.Points ≠ none ∧ d.PointsType ∈ [UsdBridgeType.FLOAT3, .DOUBLE3]
  | .mesh d, .extent => d.Points ≠ none
  | .mesh d, .normals => acceptsTypes d.Normals d.NormalsType [.FLOAT3, .DOUBLE3]
  | .mesh d, .st => acceptsTypes (attributeAt d.Attributes 0).Data
      (attributeAt d.Attributes 0).DataType [.FLOAT2, .DOUBLE2]
  | .mesh _, .attribute i =>
      writer.primvarValid ⟨outGeom (timeEval.IsTimeVarying (.ATTRIBUTE i)), .attribute i⟩ = true
  | .mesh d, .color => d.Colors = none ∨ colorComponents d.ColorsType ≠ none
  | .mesh d, .faceVertexIndices =>
      d.numPrims ≠ 0 ∧ acceptsTypes d.Indices d.IndicesType [.ULONG, .LONG, .UINT, .INT]
  | .mesh d, .faceVertexCounts => d.numPrims ≠ 0
  | .instancer d, .points => d.Points ≠ none ∧ d.PointsType ∈ [UsdBridgeType.FLOAT3, .DOUBLE3]
  | .instancer d, .positions =>
      d.Points ≠ none ∧ d.PointsType ∈ [UsdBridgeType.FLOAT3, .DOUBLE3]
  | .instancer d, .extent => d.Points ≠ none
  | .instancer d, .ids =>
      acceptsTypes d.InstanceIds d.InstanceIdsType [.UINT, .INT, .LONG, .ULONG]
  | .instancer d, .widths => acceptsTypes d.Scales d.ScalesType [.FLOAT, .DOUBLE]
  | .instancer d, .scales =>
      acceptsTypes d.Scales d.ScalesType [.FLOAT, .DOUBLE, .FLOAT3, .DOUBLE3]
  | .instancer d, .normals =>
      acceptsTypes d.Orientations d.OrientationsType [.FLOAT3, .DOUBLE3]
  | .instancer _, .orientations => True
  | .instancer d, .st => acceptsTypes (attributeAt d.Attributes 0).Data
      (attributeAt d.Attributes 0).DataType [.FLOAT2, .DOUBLE2]
  | .instancer _, .attribute i =>
      writer.primvarValid ⟨outGeom (timeEval.IsTimeVarying (.ATTRIBUTE i)), .attribute i⟩ = true
  | .instancer d, .color => d.Colors = none ∨ colorComponents d.ColorsType ≠ none
  | .instancer _, .velocities => True
  | .instancer _, .angularVelocities => True
  | .instancer d, .invisibleIds =>
      d.NumInvisibleIds = 0 ∨ d.InvisibleIdsType ∈ [UsdBridgeType.UINT, .INT, .LONG, .ULONG]
  | .curve d, .points => d.Points ≠ none ∧ d.PointsType ∈ [UsdBridgeType.FLOAT3, .DOUBLE3]
  | .curve d, .extent => d.Points ≠ none
  | .curve d, .normals => acceptsTypes d.Normals d.NormalsType [.FLOAT3, .DOUBLE3]
  | .curve d, .st => acceptsTypes (attributeAt d.Attributes 0).Data
      (attributeAt d.Attributes 0).DataType [.FLOAT2, .DOUBLE2]
  | .curve _, .attribute i =>
      writer.primvarValid ⟨outGeom (timeEval.IsTimeVarying (.ATTRIBUTE i)), .attribute i⟩ = true
  | .curve d, .color => d.Colors = none ∨ colorComponents d.ColorsType ≠ none
  | .curve d, .widths => acceptsTypes d.Scales d.ScalesType [.FLOAT, .DOUBLE]
  | .curve _, .curveVertexCounts => True
  | _, _ => False

/-- The event sets a value on the attribute `a`. -/
def Event.setsAttr (a : UsdAttribute) : Event → Prop
  | .Set b _ _ => b = a
  | _ => False

/-! ## Lemmas on rounding -/

theorem roundToEven_of_lt (t : ℚ) (m : Int) (h : |t - m| < 1 / 2) : roundToEven t = m := by
  rw [abs_lt] at h
  obtain ⟨h1, h2⟩ := h
  unfold roundToEven
  by_cases hm : (m : ℚ) ≤ t
  · have hf : ⌊t⌋ = m := by
      rw [Int.floor_eq_iff]
      constructor
      · exact hm
      · linarith
    rw [hf, if_pos (by linarith)]
  · push_neg at hm
    have hf : ⌊t⌋ = m - 1 := by
      rw [Int.floor_eq_iff]
      push_cast
      constructor <;> linarith
    rw [hf]
    push_cast
    rw [if_neg (by linarith), if_pos (by linarith)]
    ring

theorem roundToEven_le (t : ℚ) (N : Int) (h : t ≤ N) : roundToEven t ≤ N := by
  have hf : ⌊t⌋ ≤ N := by exact_mod_cast (Int.floor_le t).trans h
  have hfl := Int.floor_le t
  have hlt := Int.lt_floor_add_one t
  unfold roundToEven
  by_cases hN : ⌊t⌋ = N
  · have : t = N := le_antisymm h (by rw [← hN]; exact hfl)
    rw [if_pos (by rw [this]; simp)]
    exact hf
  · have : ⌊t⌋ + 1 ≤ N := by omega
    split_ifs <;> omega

theorem le_roundToEven (t : ℚ) (N : Int) (h : (N : ℚ) ≤ t) : N ≤ roundToEven t := by
  have hf : N ≤ ⌊t⌋ := Int.le_floor.mpr h
  unfold roundToEven
  split_ifs <;> omega

theorem abs_roundToEven_sub (t : ℚ) : |(roundToEven t : ℚ) - t| ≤ 1 / 2 := by
  have hfl := Int.floor_le t
  have hlt := Int.lt_floor_add_one t
  unfold roundToEven
  rw [abs_le]
  split_ifs with h1 h2 h3
  · constructor <;> linarith
  · push_cast; constructor <;> linarith
  · push_neg at h1 h2; constructor <;> linarith
  · push_neg at h1 h2; push_cast; constructor <;> linarith


theorem roundToEven_of_le_even (t : ℚ) (m : Int) (hm : m % 2 = 0) (h : |t - m| ≤ 1 / 2) :
    roundToEven t = m := by
  rcases lt_or_eq_of_le h with h | h
  · exact roundToEven_of_lt t m h
  · unfold roundToEven
    by_cases hle : (m : ℚ) ≤ t
    · rw [abs_of_nonneg (by linarith)] at h
      have hf : ⌊t⌋ = m := by
        rw [Int.floor_eq_iff]
        constructor <;> linarith
      rw [hf, if_neg (by linarith), if_neg (by linarith), if_pos hm]
    · push_neg at hle
      rw [abs_of_neg (by linarith)] at h
      have hf : ⌊t⌋ = m - 1 := by
        rw [Int.floor_eq_iff]
        push_cast
        constructor <;> linarith
      rw [hf]
      push_cast
      rw [if_neg (by linarith), if_neg (by linarith), if_neg (by omega)]
      ring

theorem log_two_eq (x : ℚ) (e : Int) (h1 : (2 : ℚ) ^ e ≤ |x|) (h2 : |x| < 2 ^ (e + 1)) :
    Int.log 2 |x| = e := by
  have hpos : (0 : ℚ) < |x| := lt_of_lt_of_le (by positivity) h1
  apply le_antisymm
  · have := (Int.lt_zpow_iff_log_lt (b := 2) (by norm_num) hpos (x := e + 1)).mp
      (by exact_mod_cast h2)
    omega
  · exact (Int.zpow_le_iff_le_log (b := 2) (by norm_num) hpos).mp (by exact_mod_cast h1)

theorem FloatFormat.round_of_lt (F : FloatFormat) (x : ℚ) (h : |F.nearest x| < F.infinity) :
    F.round x = F.nearest x := by
  rw [abs_lt] at h
  unfold FloatFormat.round
  rw [if_neg (by linarith), if_neg (by linarith)]

theorem FloatFormat.nearest_eq (F : FloatFormat) (x : ℚ) (e m : Int)
    (h1 : (2 : ℚ) ^ e ≤ |x|) (h2 : |x| < 2 ^ (e + 1))
    (h3 : |x / 2 ^ (max (e - ((F.precision : Int) - 1)) F.emin) - m| < 1 / 2) :
    F.nearest x = m * 2 ^ (max (e - ((F.precision : Int) - 1)) F.emin) := by
  unfold FloatFormat.nearest FloatFormat.quantum
  rw [log_two_eq x e h1 h2, roundToEven_of_lt _ m h3]

theorem FloatFormat.nearest_eq_even (F : FloatFormat) (x : ℚ) (e m : Int)
    (h1 : (2 : ℚ) ^ e ≤ |x|) (h2 : |x| < 2 ^ (e + 1)) (hm : m % 2 = 0)
    (h3 : |x / 2 ^ (max (e - ((F.precision : Int) - 1)) F.emin) - m| ≤ 1 / 2) :
    F.nearest x = m * 2 ^ (max (e - ((F.precision : Int) - 1)) F.emin) := by
  unfold FloatFormat.nearest FloatFormat.quantum
  rw [log_two_eq x e h1 h2, roundToEven_of_le_even _ m hm h3]

theorem FloatFormat.nearest_zero (F : FloatFormat) : F.nearest 0 = 0 := by
  unfold FloatFormat.nearest
  rw [zero_div, roundToEven_of_lt 0 0 (by norm_num)]
  simp

theorem FloatFormat.nearest_nonneg (F : FloatFormat) (x : ℚ) (hx : 0 ≤ x) :
    0 ≤ F.nearest x := by
  unfold FloatFormat.nearest
  have h : (0 : Int) ≤ roundToEven (x / 2 ^ F.quantum x) :=
    le_roundToEven _ 0 (by push_cast; positivity)
  have h2 : (0 : ℚ) ≤ (roundToEven (x / 2 ^ F.quantum x) : ℚ) := by exact_mod_cast h
  positivity

theorem FloatFormat.quantum_le (F : FloatFormat) (x : ℚ) (e : Int) (hx : |x| < 2 ^ (e + 1))
    (he : F.emin ≤ e - ((F.precision : Int) - 1)) (h0 : x = 0 → 0 ≤ e) :
    F.quantum x ≤ e - ((F.precision : Int) - 1) := by
  unfold FloatFormat.quantum
  apply max_le _ he
  by_cases hz : x = 0
  · subst hz
    have := h0 rfl
    simp
    omega
  · have hpos : (0 : ℚ) < |x| := abs_pos.mpr hz
    have := (Int.lt_zpow_iff_log_lt (b := 2) (by norm_num) hpos (x := e + 1)).mp
      (by exact_mod_cast hx)
    omega

theorem FloatFormat.abs_nearest_sub (F : FloatFormat) (x : ℚ) :
    |F.nearest x - x| ≤ 2 ^ F.quantum x / 2 := by
  unfold FloatFormat.nearest
  have hq : (0 : ℚ) < 2 ^ F.quantum x := by positivity
  have h := abs_roundToEven_sub (x / 2 ^ F.quantum x)
  have e : (roundToEven (x / 2 ^ F.quantum x) : ℚ) * 2 ^ F.quantum x - x =
      ((roundToEven (x / 2 ^ F.quantum x) : ℚ) - x / 2 ^ F.quantum x) * 2 ^ F.quantum x := by
    field_simp
  rw [e, abs_mul, abs_of_pos hq]
  calc |(roundToEven (x / 2 ^ F.quantum x) : ℚ) - x / 2 ^ F.quantum x| * 2 ^ F.quantum x
      ≤ 1 / 2 * (2 : ℚ) ^ F.quantum x := mul_le_mul_of_nonneg_right h hq.le
    _ = (2 : ℚ) ^ F.quantum x / 2 := by ring

theorem FloatFormat.nearest_le_one (F : FloatFormat) (x : ℚ) (h0 : 0 ≤ x) (h1 : x ≤ 1)
    (hp : 1 ≤ F.precision) (hmin : F.emin ≤ 0) : F.nearest x ≤ 1 := by
  have hq : F.quantum x ≤ 0 := by
    have := F.quantum_le x ((F.precision : Int) - 1) ?_ ?_ ?_
    · omega
    · rw [abs_of_nonneg h0]
      have : (1 : ℚ) < 2 ^ ((F.precision : Int) - 1 + 1) := by
        apply one_lt_zpow₀ (by norm_num)
        omega
      linarith
    · omega
    · intro _; omega
  unfold FloatFormat.nearest
  obtain ⟨n, hn⟩ : ∃ n : Nat, F.quantum x = -(n : Int) := ⟨(-F.quantum x).toNat, by omega⟩
  rw [hn]
  have hpow : (2 : ℚ) ^ (-(n : Int)) = 1 / 2 ^ n := by
    rw [zpow_neg, zpow_natCast, one_div]
  rw [hpow]
  have hle : roundToEven (x / (1 / 2 ^ n)) ≤ ((2 ^ n : Nat) : Int) := by
    apply roundToEven_le
    push_cast
    rw [div_le_iff₀ (by positivity)]
    rw [mul_one_div_cancel (by positivity)]
    exact h1
  have hle2 : (roundToEven (x / (1 / 2 ^ n)) : ℚ) ≤ 2 ^ n := by exact_mod_cast hle
  calc _ ≤ (2 : ℚ) ^ n * (1 / 2 ^ n) := by gcongr
    _ = 1 := mul_one_div_cancel (by positivity)

theorem FloatFormat.round_unit (F : FloatFormat) (x : ℚ) (h0 : 0 ≤ x) (h1 : x ≤ 1)
    (hp : 1 ≤ F.precision) (hmin : F.emin ≤ 0) (hmax : 1 ≤ F.emax) :
    F.round x = F.nearest x ∧ 0 ≤ F.round x ∧ F.round x ≤ 1 := by
  have hn0 := F.nearest_nonneg x h0
  have hn1 := F.nearest_le_one x h0 h1 hp hmin
  have hinf : (1 : ℚ) < F.infinity := by
    unfold FloatFormat.infinity
    exact one_lt_zpow₀ (by norm_num) (by omega)
  have h := F.round_of_lt x (by rw [abs_of_nonneg hn0]; linarith)
  rw [h]
  exact ⟨rfl, hn0, hn1⟩

theorem FloatFormat.round_zero (F : FloatFormat) : F.round 0 = 0 := by
  have hinf : (0 : ℚ) < F.infinity := by
    unfold FloatFormat.infinity
    positivity
  rw [F.round_of_lt 0 (by rw [F.nearest_zero]; simpa using hinf), F.nearest_zero]

theorem to_double_near_one (x : ℚ) (h1 : 1 ≤ x) (h2 : x ≤ 1 + 1 / 2 ^ 53) : to_double x = 1 := by
  have hn : binary64.nearest x = 1 := by
    have h := binary64.nearest_eq_even x 0 (2 ^ 52) (by rw [abs_of_nonneg (by linarith)]; simpa using h1)
      (by rw [abs_of_nonneg (by linarith)]; norm_num; linarith) (by norm_num) (by
        simp only [binary64]
        norm_num
        rw [abs_le]
        constructor <;> linarith)
    rw [h]
    simp only [binary64]
    norm_num
  unfold to_double
  rw [binary64.round_of_lt x (by
    rw [hn, abs_one]
    exact one_lt_zpow₀ (by norm_num) (by decide)), hn]

theorem to_float_near_one (x : ℚ) (h1 : 1 - 1 / 2 ^ 25 ≤ x) (h2 : x ≤ 1) : to_float x = 1 := by
  have hn : binary32.nearest x = 1 := by
    rcases eq_or_lt_of_le h2 with rfl | hlt
    · have h := binary32.nearest_eq 1 0 (2 ^ 23) (by norm_num) (by norm_num) (by
        simp only [binary32]
        norm_num)
      rw [h]
      simp only [binary32]
      norm_num
    · have hpos : (0 : ℚ) ≤ x := by
        have : (0 : ℚ) ≤ 1 - 1 / 2 ^ 25 := by norm_num
        linarith
      have h := binary32.nearest_eq_even x (-1) (2 ^ 24)
        (by rw [abs_of_nonneg hpos]; norm_num; norm_num at h1; linarith)
        (by rw [abs_of_nonneg hpos]; norm_num; linarith) (by norm_num) (by
          simp only [binary32]
          norm_num
          rw [abs_le]
          norm_num at h1
          constructor <;> linarith)
      rw [h]
      simp only [binary32]
      norm_num
  unfold to_float
  rw [binary32.round_of_lt x (by
    rw [hn, abs_one]
    exact one_lt_zpow₀ (by norm_num) (by decide)), hn]

theorem to_double_unit (x : ℚ) (h0 : 0 ≤ x) (h1 : x ≤ 1 + 1 / 2 ^ 53) :
    0 ≤ to_double x ∧ to_double x ≤ 1 ∧ |to_double x - x| ≤ 1 / 2 ^ 53 := by
  by_cases hx : x ≤ 1
  · obtain ⟨e, hn0, hn1⟩ := binary64.round_unit x h0 hx (by decide) (by decide) (by decide)
    refine ⟨hn0, hn1, ?_⟩
    unfold to_double
    rw [e]
    have hq := binary64.quantum_le x 0 (by rw [abs_of_nonneg h0]; norm_num; linarith)
      (by decide) (fun _ => le_refl _)
    have hq2 : (2 : ℚ) ^ binary64.quantum x ≤ 2 ^ ((0 : Int) - ((binary64.precision : Int) - 1)) :=
      zpow_le_zpow_right₀ (by norm_num) hq
    have hb := binary64.abs_nearest_sub x
    simp only [binary64] at hq2
    norm_num at hq2
    simp only [binary64] at hb ⊢
    linarith
  · push_neg at hx
    rw [to_double_near_one x hx.le h1]
    refine ⟨by norm_num, le_refl _, ?_⟩
    rw [abs_le]
    constructor <;> linarith

theorem to_float_unit (y : ℚ) (h0 : 0 ≤ y) (h1 : y ≤ 1) :
    0 ≤ to_float y ∧ to_float y ≤ 1 ∧ |to_float y - y| ≤ 1 / 2 ^ 25 := by
  obtain ⟨e, hn0, hn1⟩ := binary32.round_unit y h0 h1 (by decide) (by decide) (by decide)
  refine ⟨hn0, hn1, ?_⟩
  rcases eq_or_lt_of_le h1 with rfl | hlt
  · rw [to_float_near_one 1 (by norm_num) (le_refl _)]
    norm_num
  · rcases eq_or_lt_of_le h0 with rfl | hpos
    · unfold to_float
      rw [binary32.round_zero]
      norm_num
    · unfold to_float
      rw [e]
      have hq := binary32.quantum_le y (-1) (by rw [abs_of_nonneg h0]; norm_num; linarith)
        (by decide) (fun h => absurd h (ne_of_gt hpos))
      have hq2 : (2 : ℚ) ^ binary32.quantum y ≤
          2 ^ ((-1 : Int) - ((binary32.precision : Int) - 1)) :=
        zpow_le_zpow_right₀ (by norm_num) hq
      have hb := binary32.abs_nearest_sub y
      simp only [binary32] at hq2
      norm_num at hq2
      simp only [binary32] at hb ⊢
      linarith

theorem to_double_small (x : ℚ) (e : Int) (h0 : 0 < x) (h1 : x ≤ 1) (hx : x < 2 ^ (e + 1))
    (he : -1022 ≤ e) : 0 ≤ to_double x ∧ |to_double x - x| ≤ 2 ^ (e - 52) / 2 := by
  obtain ⟨eq, hn0, _⟩ := binary64.round_unit x h0.le h1 (by decide) (by decide) (by decide)
  refine ⟨hn0, ?_⟩
  unfold to_double
  rw [eq]
  have hq := binary64.quantum_le x e (by rw [abs_of_pos h0]; exact hx)
    (by simp only [binary64]; omega) (fun h => absurd h (ne_of_gt h0))
  have hq2 : (2 : ℚ) ^ binary64.quantum x ≤ 2 ^ (e - 52) := by
    apply zpow_le_zpow_right₀ (by norm_num)
    have hp : (binary64.precision : Int) = 53 := rfl
    omega
  have hb := binary64.abs_nearest_sub x
  linarith

/-- The factor `normFactor` of `ExpandToColorNormalize` for an unsigned type of `w` bits is
within `2 ^ (-w - 53)` of the exact quotient. -/
theorem normFactor_bounds (w : Nat) (hw : w = 8 ∨ w = 16 ∨ w = 32) :
    0 ≤ to_double (1 / ((2 ^ w - 1 : Nat) : ℚ)) ∧
    |to_double (1 / ((2 ^ w - 1 : Nat) : ℚ)) - 1 / ((2 ^ w - 1 : Nat) : ℚ)| ≤
      1 / 2 ^ (w + 53) := by
  rcases hw with rfl | rfl | rfl
  · have h := to_double_small (1 / ((2 ^ 8 - 1 : Nat) : ℚ)) (-8) (by norm_num) (by norm_num)
      (by norm_num) (by norm_num)
    norm_num at h ⊢
    exact h
  · have h := to_double_small (1 / ((2 ^ 16 - 1 : Nat) : ℚ)) (-16) (by norm_num) (by norm_num)
      (by norm_num) (by norm_num)
    norm_num at h ⊢
    exact h
  · have h := to_double_small (1 / ((2 ^ 32 - 1 : Nat) : ℚ)) (-32) (by norm_num) (by norm_num)
      (by norm_num) (by norm_num)
    norm_num at h ⊢
    exact h

/-- A colour component `u` of an unsigned type of `w` bits, normalised as
`ExpandToColorNormalize` does it. -/
theorem normalised_bounds (w : Nat) (hw : w = 8 ∨ w = 16 ∨ w = 32) (u : Nat)
    (hu : u ≤ 2 ^ w - 1) :
    |to_float (to_double ((u : ℚ) * to_double (1 / ((2 ^ w - 1 : Nat) : ℚ)))) -
      (u : ℚ) / ((2 ^ w - 1 : Nat) : ℚ)| ≤ 1 / 2 ^ 24 ∧
    0 ≤ to_float (to_double ((u : ℚ) * to_double (1 / ((2 ^ w - 1 : Nat) : ℚ)))) ∧
    to_float (to_double ((u : ℚ) * to_double (1 / ((2 ^ w - 1 : Nat) : ℚ)))) ≤ 1 ∧
    (u = 0 → to_float (to_double ((u : ℚ) * to_double (1 / ((2 ^ w - 1 : Nat) : ℚ)))) = 0) ∧
    (u = 2 ^ w - 1 →
      to_float (to_double ((u : ℚ) * to_double (1 / ((2 ^ w - 1 : Nat) : ℚ)))) = 1) := by
  obtain ⟨hnf0, hnf⟩ := normFactor_bounds w hw
  set nf := to_double (1 / ((2 ^ w - 1 : Nat) : ℚ)) with hnfdef
  have hMpos : 0 < 2 ^ w - 1 := by
    rcases hw with rfl | rfl | rfl <;> decide
  have hMq : (0 : ℚ) < ((2 ^ w - 1 : Nat) : ℚ) := by exact_mod_cast hMpos
  have hMlt : ((2 ^ w - 1 : Nat) : ℚ) ≤ 2 ^ w := by
    have : 2 ^ w - 1 ≤ 2 ^ w := Nat.sub_le _ _
    exact_mod_cast this
  have huq : (u : ℚ) ≤ ((2 ^ w - 1 : Nat) : ℚ) := by exact_mod_cast hu
  have hu0 : (0 : ℚ) ≤ (u : ℚ) := by positivity
  -- the exact product is close to the quotient
  have hx : |(u : ℚ) * nf - (u : ℚ) / ((2 ^ w - 1 : Nat) : ℚ)| ≤ 1 / 2 ^ 53 := by
    have e : (u : ℚ) * nf - (u : ℚ) / ((2 ^ w - 1 : Nat) : ℚ) =
        (u : ℚ) * (nf - 1 / ((2 ^ w - 1 : Nat) : ℚ)) := by ring
    rw [e, abs_mul, abs_of_nonneg hu0]
    calc (u : ℚ) * |nf - 1 / ((2 ^ w - 1 : Nat) : ℚ)| ≤ 2 ^ w * (1 / 2 ^ (w + 53)) :=
          mul_le_mul (le_trans huq hMlt) hnf (abs_nonneg _) (by positivity)
      _ = 1 / 2 ^ 53 := by
          rw [pow_add]
          field_simp
  have hq1 : (u : ℚ) / ((2 ^ w - 1 : Nat) : ℚ) ≤ 1 := (div_le_one hMq).2 huq
  have hq0 : 0 ≤ (u : ℚ) / ((2 ^ w - 1 : Nat) : ℚ) := div_nonneg hu0 hMq.le
  rw [abs_le] at hx
  obtain ⟨hy0, hy1, hye⟩ := to_double_unit ((u : ℚ) * nf) (mul_nonneg hu0 hnf0) (by linarith)
  obtain ⟨hz0, hz1, hze⟩ := to_float_unit _ hy0 hy1
  rw [abs_le] at hye hze
  refine ⟨?_, hz0, hz1, ?_, ?_⟩
  · rw [abs_le]
    have : (1 : ℚ) / 2 ^ 25 + 1 / 2 ^ 53 + 1 / 2 ^ 53 ≤ 1 / 2 ^ 24 := by norm_num
    constructor <;> linarith
  · intro h
    subst h
    simp only [Nat.cast_zero, zero_mul]
    unfold to_double to_float
    rw [binary64.round_zero, binary32.round_zero]
  · intro h
    subst h
    apply to_float_near_one _ _ hy1
    have hone : ((2 ^ w - 1 : Nat) : ℚ) / ((2 ^ w - 1 : Nat) : ℚ) = 1 := div_self (ne_of_gt hMq)
    rw [hone] at hx
    have : (1 : ℚ) - 1 / 2 ^ 25 ≤ 1 - 1 / 2 ^ 53 - 1 / 2 ^ 53 := by norm_num
    linarith

theorem FloatFormat.round_eq (F : FloatFormat) (x : ℚ) (e m : Int)
    (h1 : (2 : ℚ) ^ e ≤ |x|) (h2 : |x| < 2 ^ (e + 1))
    (h3 : |x / 2 ^ (max (e - ((F.precision : Int) - 1)) F.emin) - m| < 1 / 2)
    (h4 : |(m : ℚ) * 2 ^ (max (e - ((F.precision : Int) - 1)) F.emin)| < F.infinity) :
    F.round x = m * 2 ^ (max (e - ((F.precision : Int) - 1)) F.emin) := by
  have h := F.nearest_eq x e m h1 h2 h3
  rw [F.round_of_lt x (by rw [h]; exact h4), h]

theorem FloatFormat.round_eq_even (F : FloatFormat) (x : ℚ) (e m : Int)
    (h1 : (2 : ℚ) ^ e ≤ |x|) (h2 : |x| < 2 ^ (e + 1)) (hm : m % 2 = 0)
    (h3 : |x / 2 ^ (max (e - ((F.precision : Int) - 1)) F.emin) - m| ≤ 1 / 2)
    (h4 : |(m : ℚ) * 2 ^ (max (e - ((F.precision : Int) - 1)) F.emin)| < F.infinity) :
    F.round x = m * 2 ^ (max (e - ((F.precision : Int) - 1)) F.emin) := by
  have h := F.nearest_eq_even x e m h1 h2 hm h3
  rw [F.round_of_lt x (by rw [h]; exact h4), h]

theorem FloatFormat.round_of_ge (F : FloatFormat) (x : ℚ) (h : F.infinity ≤ F.nearest x) :
    F.round x = F.infinity := by
  unfold FloatFormat.round
  rw [if_pos h]

theorem to_float_zero : to_float 0 = 0 := binary32.round_zero

theorem to_float_one : to_float 1 = 1 := to_float_near_one 1 (by norm_num) (le_refl _)

/-- A double beyond the finite floats converts to infinity. -/
theorem to_float_huge : to_float (2 ^ 200) = 2 ^ 128 := by
  have h := binary32.nearest_eq (2 ^ 200) 200 (2 ^ 23) (by norm_num) (by norm_num) (by
    simp only [binary32]
    norm_num)
  unfold to_float
  rw [binary32.round_of_ge _ (by
    rw [h]
    simp only [binary32, FloatFormat.infinity]
    norm_num)]
  simp only [binary32, FloatFormat.infinity]
  norm_num

/-- The double nearest to one tenth converts to the float nearest to one tenth. -/
theorem to_float_tenth :
    to_float (3602879701896397 / 36028797018963968) = 13421773 / 134217728 := by
  have h := binary32.round_eq (3602879701896397 / 36028797018963968) (-4) 13421773
    (by rw [abs_of_pos (by norm_num)]; norm_num)
    (by rw [abs_of_pos (by norm_num)]; norm_num) (by
      simp only [binary32]
      norm_num [abs_lt]) (by
      simp only [binary32, FloatFormat.infinity]
      norm_num [abs_lt])
  unfold to_float
  rw [h]
  simp only [binary32]
  norm_num

/-- The byte 51 normalised as `ExpandToColorNormalize` does it. -/
theorem normalised_51 :
    to_float (to_double ((51 : ℚ) * to_double (1 / 255))) = 13421773 / 67108864 := by
  have h1 : to_double (1 / 255) = 282578800148737 / 72057594037927936 := by
    have h := binary64.round_eq (1 / 255) (-8) 4521260802379792
      (by rw [abs_of_pos (by norm_num)]; norm_num)
      (by rw [abs_of_pos (by norm_num)]; norm_num) (by
        simp only [binary64]
        norm_num [abs_lt]) (by
        simp only [binary64, FloatFormat.infinity]
        norm_num [abs_lt])
    unfold to_double
    rw [h]
    simp only [binary64]
    norm_num
  have h2 : to_double ((51 : ℚ) * (282578800148737 / 72057594037927936)) =
      3602879701896397 / 18014398509481984 := by
    have h := binary64.round_eq_even ((51 : ℚ) * (282578800148737 / 72057594037927936)) (-3)
      7205759403792794
      (by rw [abs_of_pos (by norm_num)]; norm_num)
      (by rw [abs_of_pos (by norm_num)]; norm_num) (by decide) (by
        simp only [binary64]
        norm_num [abs_le]) (by
        simp only [binary64, FloatFormat.infinity]
        norm_num [abs_lt])
    unfold to_double
    rw [h]
    simp only [binary64]
    norm_num
  have h3 : to_float (3602879701896397 / 18014398509481984) = 13421773 / 67108864 := by
    have h := binary32.round_eq (3602879701896397 / 18014398509481984) (-3) 13421773
      (by rw [abs_of_pos (by norm_num)]; norm_num)
      (by rw [abs_of_pos (by norm_num)]; norm_num) (by
        simp only [binary32]
        norm_num [abs_lt]) (by
        simp only [binary32, FloatFormat.infinity]
        norm_num [abs_lt])
    unfold to_float
    rw [h]
    simp only [binary32]
    norm_num
  rw [h1, h2, h3]

/-! ## Lemmas on the member routines -/

theorem mem_AssignArrayToPrimvar {A : ArrayType α} {data : Buffer} {n : Nat}
    {p : UsdAttribute} {tc : UsdTimeCode} {e : Event}
    (h : e ∈ AssignArrayToPrimvar A data n p tc) : ∃ v, e = Event.Set p v tc := by
  simp only [AssignArrayToPrimvar, List.mem_singleton] at h
  exact ⟨_, h⟩

theorem mem_AssignArrayToPrimvarConvert {A : ArrayType α} {rd : Buffer → Nat → ε} {cv : ε → α}
    {data : Buffer} {n : Nat} {p : UsdAttribute} {tc : UsdTimeCode} {e : Event}
    (h : e ∈ AssignArrayToPrimvarConvert A rd cv data n p tc) : ∃ v, e = Event.Set p v tc := by
  simp only [AssignArrayToPrimvarConvert, List.mem_singleton] at h
  exact ⟨_, h⟩

theorem mem_CopyArrayToPrimvar {tt : TypeTable} {data : Buffer} {ty : UsdBridgeType} {n : Nat}
    {p : UsdAttribute} {tc : UsdTimeCode} {e : Event}
    (h : e ∈ CopyArrayToPrimvar tt data ty n p tc) :
    (∃ v, e = Event.Set p v tc) ∨ ∃ msg, e = Event.Log msg := by
  unfold CopyArrayToPrimvar at h
  split at h
  all_goals
    simp only [AssignArrayToPrimvar, AssignArrayToPrimvarConvert, AssignArrayToPrimvarFlatten,
      AssignArrayToPrimvarConvertFlatten, List.mem_singleton] at h
  all_goals first
    | exact Or.inl ⟨_, h⟩
    | exact Or.inr ⟨_, h⟩

theorem UpdateUsdGeomPoints_ok (kind : GeomKind) (pointsAttr : AttrName)
    (hpa : pointsAttr = .points ∨ pointsAttr = .positions)
    (Points : Option Buffer) (PointsType : UsdBridgeType) (NumPoints : Nat)
    (ue : UsdBridgeUpdateEvaluator) (te : TimeEvaluator) :
    RoutineOK kind ue te (UpdateUsdGeomPoints pointsAttr Points PointsType NumPoints ue te) := by
  refine ⟨_, _, rfl, ?_, ?_⟩
  · rcases hpa with rfl | rfl <;> simp [governingMember]
  · by_cases hp : ue.PerformsUpdate .POINTS = true
    · simp only [hp, if_true]
      repeat' split
      all_goals rcases hpa with rfl | rfl
      all_goals
        simp [AssignArrayToPrimvar, AssignArrayToPrimvarConvert, BodyOK, governingMember, hp]
    · simp [hp]

theorem UpdateUsdGeomIndices_ok (kind : GeomKind)
    (Indices : Option Buffer) (IndicesType : UsdBridgeType) (NumIndices numPrims : Nat)
    (ue : UsdBridgeUpdateEvaluator) (te : TimeEvaluator) :
    RoutineOK kind ue te (UpdateUsdGeomIndices Indices IndicesType NumIndices numPrims ue te) := by
  refine ⟨_, _, rfl, ?_, ?_⟩
  · simp [governingMember]
  · by_cases hp : ue.PerformsUpdate .INDICES = true
    · simp only [hp, if_true]
      repeat' split
      all_goals
        simp [AssignArrayToPrimvar, AssignArrayToPrimvarConvert, BodyOK, governingMember, hp]
    · simp [hp]

theorem UpdateUsdGeomNormals_ok (kind : GeomKind) (hk : kind ≠ .points)
    (Normals : Option Buffer) (NormalsType : UsdBridgeType) (PerPrimNormals : Bool)
    (NumPoints numPrims : Nat) (ue : UsdBridgeUpdateEvaluator) (te : TimeEvaluator) :
    RoutineOK kind ue te
      (UpdateUsdGeomNormals Normals NormalsType PerPrimNormals NumPoints numPrims ue te) := by
  refine ⟨_, _, rfl, ?_, ?_⟩
  · simp [governingMember, hk]
  · by_cases hp : ue.PerformsUpdate .NORMALS = true
    · simp only [hp, if_true]
      repeat' split
      all_goals
        simp [AssignArrayToPrimvar, AssignArrayToPrimvarConvert, BodyOK, governingMember, hk, hp]
    · simp [hp]

theorem UpdateUsdGeomTexCoords_ok (kind : GeomKind)
    (Attributes : List UsdBridgeAttribute) (NumPoints numPrims : Nat)
    (ue : UsdBridgeUpdateEvaluator) (te : TimeEvaluator) :
    RoutineOK kind ue te (UpdateUsdGeomTexCoords Attributes NumPoints numPrims ue te) := by
  refine ⟨_, _, rfl, ?_, ?_⟩
  · simp [governingMember]
  · by_cases hp : ue.PerformsUpdate (.ATTRIBUTE 0) = true
    · simp only [hp, if_true]
      repeat' split
      all_goals
        simp [AssignArrayToPrimvar, AssignArrayToPrimvarConvert, BodyOK, governingMember, hp]
    · simp [hp]

theorem UpdateUsdGeomAttribute_ok (kind : GeomKind) (tt : TypeTable)
    (writer : UsdBridgeUsdWriter) (Attributes : List UsdBridgeAttribute)
    (NumPoints numPrims : Nat) (ue : UsdBridgeUpdateEvaluator) (te : TimeEvaluator)
    (attribIndex : Nat) :
    RoutineOK kind ue te
      (UpdateUsdGeomAttribute tt writer Attributes NumPoints numPrims ue te attribIndex) := by
  refine ⟨_, _, rfl, ?_, ?_⟩
  · simp [governingMember]
  · by_cases hp : ue.PerformsUpdate (.ATTRIBUTE attribIndex) = true
    · simp only [hp, if_true]
      split
      · simp [BodyOK]
      · split
        · intro e he
          simp only [List.mem_append, List.mem_singleton] at he
          rcases he with he | rfl
          · rcases mem_CopyArrayToPrimvar he with ⟨v, rfl⟩ | ⟨msg, rfl⟩
            · simp [BodyOK, governingMember, hp]
            · simp [BodyOK]
          · simp [BodyOK, governingMember, hp]
        · simp [BodyOK, governingMember, hp]
    · simp [hp]

theorem UpdateUsdGeomColors_shape (data : Buffer) (ColorsType : UsdBridgeType)
    (PerPrimColors : Bool) (NumPoints numPrims : Nat) (ue : UsdBridgeUpdateEvaluator)
    (te : TimeEvaluator) (hp : ue.PerformsUpdate .COLORS = true) :
    ∃ e, ((∃ v, e = Event.Set ⟨outGeom (te.IsTimeVarying .COLORS), .color⟩ v (te.Eval .COLORS)) ∨
        ∃ msg, e = Event.Log msg) ∧
      UpdateUsdGeomColors (some data) ColorsType PerPrimColors NumPoints numPrims ue te =
        [Event.Clear .color (te.IsTimeVarying .COLORS), e,
         Event.SetInterpolation ⟨.uniform, .color⟩
           (if PerPrimColors = true then TfToken.uniform else TfToken.vertex)] := by
  simp only [UpdateUsdGeomColors, hp, if_true]
  split <;> first
    | exact ⟨_, Or.inl ⟨_, rfl⟩, rfl⟩
    | exact ⟨_, Or.inr ⟨_, rfl⟩, rfl⟩

theorem UpdateUsdGeomColors_ok (kind : GeomKind)
    (Colors : Option Buffer) (ColorsType : UsdBridgeType) (PerPrimColors : Bool)
    (NumPoints numPrims : Nat) (ue : UsdBridgeUpdateEvaluator) (te : TimeEvaluator) :
    RoutineOK kind ue te
      (UpdateUsdGeomColors Colors ColorsType PerPrimColors NumPoints numPrims ue te) := by
  by_cases hp : ue.PerformsUpdate .COLORS = true
  · cases Colors with
    | none =>
      refine ⟨_, _, rfl, ?_, ?_⟩
      · simp [governingMember]
      · simp [BodyOK, governingMember, hp]
    | some data =>
      obtain ⟨e, he, h⟩ := UpdateUsdGeomColors_shape data ColorsType PerPrimColors NumPoints
        numPrims ue te hp
      rw [h]
      refine ⟨[Event.Clear .color (te.IsTimeVarying .COLORS)], _, rfl, ?_, ?_⟩
      · simp [governingMember]
      · rcases he with ⟨v, rfl⟩ | ⟨msg, rfl⟩ <;> simp [BodyOK, governingMember, hp]
  · refine ⟨_, _, rfl, ?_, ?_⟩
    · simp [governingMember]
    · simp [hp]

theorem UpdateUsdGeomInstanceIds_ok (kind : GeomKind)
    (InstanceIds : Option Buffer) (InstanceIdsType : UsdBridgeType) (NumPoints : Nat)
    (ue : UsdBridgeUpdateEvaluator) (te : TimeEvaluator) :
    RoutineOK kind ue te
      (UpdateUsdGeomInstanceIds InstanceIds InstanceIdsType NumPoints ue te) := by
  refine ⟨_, _, rfl, ?_, ?_⟩
  · simp [governingMember]
  · by_cases hp : ue.PerformsUpdate .INSTANCEIDS = true
    · simp only [hp, if_true]
      repeat' split
      all_goals
        simp [AssignArrayToPrimvar, AssignArrayToPrimvarConvert, BodyOK, governingMember, hp]
    · simp [hp]

theorem UpdateUsdGeomWidths_ok (kind : GeomKind)
    (Scales : Option Buffer) (ScalesType : UsdBridgeType) (UniformScale : ℚ) (NumPoints : Nat)
    (ue : UsdBridgeUpdateEvaluator) (te : TimeEvaluator) :
    RoutineOK kind ue te
      (UpdateUsdGeomWidths Scales ScalesType UniformScale NumPoints ue te) := by
  refine ⟨_, _, rfl, ?_, ?_⟩
  · simp [governingMember]
  · by_cases hp : ue.PerformsUpdate .SCALES = true
    · simp only [hp, if_true]
      repeat' split
      all_goals
        simp [AssignArrayToPrimvar, AssignArrayToPrimvarConvert, BodyOK, governingMember, hp]
    · simp [hp]

theorem UpdateUsdGeomScales_ok (kind : GeomKind)
    (Scales : Option Buffer) (ScalesType : UsdBridgeType) (UniformScale : ℚ) (NumPoints : Nat)
    (ue : UsdBridgeUpdateEvaluator) (te : TimeEvaluator) :
    RoutineOK kind ue te
      (UpdateUsdGeomScales Scales ScalesType UniformScale NumPoints ue te) := by
  refine ⟨_, _, rfl, ?_, ?_⟩
  · simp [governingMember]
  · by_cases hp : ue.PerformsUpdate .SCALES = true
    · simp only [hp, if_true]
      repeat' split
      all_goals
        simp [AssignArrayToPrimvar, AssignArrayToPrimvarConvert, Expand1ToVec3, BodyOK,
          governingMember, hp]
    · simp [hp]

theorem UpdateUsdGeomOrientNormals_ok
    (Orientations : Option Buffer) (OrientationsType : UsdBridgeType) (NumPoints : Nat)
    (ue : UsdBridgeUpdateEvaluator) (te : TimeEvaluator) :
    RoutineOK .points ue te
      (UpdateUsdGeomOrientNormals Orientations OrientationsType NumPoints ue te) := by
  refine ⟨_, _, rfl, ?_, ?_⟩
  · simp [governingMember]
  · by_cases hp : ue.PerformsUpdate .ORIENTATIONS = true
    · simp only [hp, if_true]
      repeat' split
      all_goals
        simp [AssignArrayToPrimvar, AssignArrayToPrimvarConvert, BodyOK, governingMember, hp]
    · simp [hp]

theorem UpdateUsdGeomOrientations_ok (kind : GeomKind) (c : Common)
    (Orientations : Option Buffer) (OrientationsType : UsdBridgeType) (NumPoints : Nat)
    (ue : UsdBridgeUpdateEvaluator) (te : TimeEvaluator) :
    RoutineOK kind ue te
      (UpdateUsdGeomOrientations c Orientations OrientationsType NumPoints ue te) := by
  refine ⟨_, _, rfl, ?_, ?_⟩
  · simp [governingMember]
  · by_cases hp : ue.PerformsUpdate .ORIENTATIONS = true
    · simp only [hp, if_true]
      repeat' split
      all_goals simp [BodyOK, governingMember, hp]
    · simp [hp]

theorem UpdateUsdGeomLinearVelocities_ok (kind : GeomKind)
    (LinearVelocities : Option Buffer) (NumPoints : Nat)
    (ue : UsdBridgeUpdateEvaluator) (te : TimeEvaluator) :
    RoutineOK kind ue te (UpdateUsdGeomLinearVelocities LinearVelocities NumPoints ue te) := by
  refine ⟨_, _, rfl, ?_, ?_⟩
  · simp [governingMember]
  · by_cases hp : ue.PerformsUpdate .LINEARVELOCITIES = true
    · simp only [hp, if_true]
      repeat' split
      all_goals simp [BodyOK, governingMember, hp]
    · simp [hp]

theorem UpdateUsdGeomAngularVelocities_ok (kind : GeomKind)
    (AngularVelocities : Option Buffer) (NumPoints : Nat)
    (ue : UsdBridgeUpdateEvaluator) (te : TimeEvaluator) :
    RoutineOK kind ue te (UpdateUsdGeomAngularVelocities AngularVelocities NumPoints ue te) := by
  refine ⟨_, _, rfl, ?_, ?_⟩
  · simp [governingMember]
  · by_cases hp : ue.PerformsUpdate .ANGULARVELOCITIES = true
    · simp only [hp, if_true]
      repeat' split
      all_goals simp [BodyOK, governingMember, hp]
    · simp [hp]

theorem UpdateUsdGeomInvisibleIds_ok (kind : GeomKind)
    (InvisibleIds : Buffer) (InvisibleIdsType : UsdBridgeType) (NumInvisibleIds : Nat)
    (ue : UsdBridgeUpdateEvaluator) (te : TimeEvaluator) :
    RoutineOK kind ue te
      (UpdateUsdGeomInvisibleIds InvisibleIds InvisibleIdsType NumInvisibleIds ue te) := by
  refine ⟨_, _, rfl, ?_, ?_⟩
  · simp [governingMember]
  · by_cases hp : ue.PerformsUpdate .INVISIBLEIDS = true
    · simp only [hp, if_true]
      repeat' split
      all_goals
        simp [AssignArrayToPrimvar, AssignArrayToPrimvarConvert, BodyOK, governingMember, hp]
    · simp [hp]

theorem UpdateUsdGeomCurveLengths_ok (kind : GeomKind)
    (CurveLengths : Buffer) (NumCurveLengths : Nat)
    (ue : UsdBridgeUpdateEvaluator) (te : TimeEvaluator) :
    RoutineOK kind ue te (UpdateUsdGeomCurveLengths CurveLengths NumCurveLengths ue te) := by
  refine ⟨_, _, rfl, ?_, ?_⟩
  · simp [governingMember]
  · by_cases hp : ue.PerformsUpdate .CURVELENGTHS = true
    · simp only [hp, if_true]
      simp [AssignArrayToPrimvar, BodyOK, governingMember, hp]
    · simp [hp]

/-! ## Lemmas on whole traces -/

theorem TraceOK.nil (kind : GeomKind) (ue : UsdBridgeUpdateEvaluator) (te : TimeEvaluator) :
    TraceOK kind ue te [] := by
  refine ⟨by simp, ?_⟩
  intro pre post a v tc h
  simp at h

theorem TraceOK.undefined (kind : GeomKind) (ue : UsdBridgeUpdateEvaluator)
    (te : TimeEvaluator) : TraceOK kind ue te [Event.Undefined] := by
  refine ⟨by intro e he; simp only [List.mem_singleton] at he; subst he; trivial, ?_⟩
  intro pre post a v tc h
  cases pre with
  | nil => simp at h
  | cons x pre =>
    simp only [List.cons_append, List.cons.injEq] at h
    cases pre <;> simp at h

theorem TraceOK.append {kind : GeomKind} {ue : UsdBridgeUpdateEvaluator} {te : TimeEvaluator}
    {xs ys : List Event} (hx : TraceOK kind ue te xs) (hy : TraceOK kind ue te ys) :
    TraceOK kind ue te (xs ++ ys) := by
  refine ⟨?_, ?_⟩
  · intro e he
    rcases List.mem_append.1 he with h | h
    · exact hx.1 e h
    · exact hy.1 e h
  · intro pre post a v tc h hne
    rcases List.append_eq_append_iff.1 h with ⟨m, hpre, hys⟩ | ⟨m, hxs, hm⟩
    · have := hy.2 m post a v tc hys hne
      rw [hpre]
      exact List.mem_append_right _ this
    · cases m with
      | nil =>
        simp only [List.nil_append] at hm
        simp only [List.append_nil] at hxs
        have := hy.2 [] post a v tc hm.symm hne
        simp at this
      | cons x m =>
        simp only [List.cons_append, List.cons.injEq] at hm
        obtain ⟨rfl, _⟩ := hm
        exact hx.2 pre m a v tc hxs hne

theorem TraceOK.ite {kind : GeomKind} {ue : UsdBridgeUpdateEvaluator} {te : TimeEvaluator}
    {b : Bool} {xs : List Event} (hx : TraceOK kind ue te xs) :
    TraceOK kind ue te (if b = true then xs else []) := by
  cases b
  · simpa using TraceOK.nil kind ue te
  · simpa using hx

theorem TraceOK.flatMap {kind : GeomKind} {ue : UsdBridgeUpdateEvaluator} {te : TimeEvaluator}
    (l : List Nat) (f : Nat → List Event) (h : ∀ i, TraceOK kind ue te (f i)) :
    TraceOK kind ue te (l.flatMap f) := by
  induction l with
  | nil => simpa using TraceOK.nil kind ue te
  | cons x l ih =>
    simp only [List.flatMap_cons]
    exact TraceOK.append (h x) ih

theorem TraceOK.of_routine {kind : GeomKind} {ue : UsdBridgeUpdateEvaluator}
    {te : TimeEvaluator} {evs : List Event} (h : RoutineOK kind ue te evs) :
    TraceOK kind ue te evs := by
  obtain ⟨cl, bd, rfl, hcl, hbd⟩ := h
  refine ⟨?_, ?_⟩
  · intro e he
    rcases List.mem_append.1 he with h | h
    · obtain ⟨n, rfl⟩ := hcl e h
      trivial
    · have hb := hbd e h
      cases e with
      | Set a v tc => exact fun _ => ⟨hb.1, hb.2.1, hb.2.2.1⟩
      | SetInterpolation a t => exact hb
      | Log m => trivial
      | Undefined => trivial
      | Clear n f => trivial
  · intro pre post a v tc h hne
    rcases List.append_eq_append_iff.1 h with ⟨m, hpre, hbdm⟩ | ⟨m, hclm, hm⟩
    · have hmem : Event.Set a v tc ∈ bd := by rw [hbdm]; simp
      have hb := hbd _ hmem
      rw [hpre]
      exact List.mem_append_left _ hb.2.2.2
    · cases m with
      | nil =>
        simp only [List.nil_append] at hm
        simp only [List.append_nil] at hclm
        have hmem : Event.Set a v tc ∈ bd := by rw [← hm]; simp
        have hb := hbd _ hmem
        rw [← hclm]
        exact hb.2.2.2
      | cons x m =>
        simp only [List.cons_append, List.cons.injEq] at hm
        obtain ⟨rfl, _⟩ := hm
        have hmem : Event.Set a v tc ∈ cl := by rw [hclm]; simp
        obtain ⟨n, hn⟩ := hcl _ hmem
        cases hn

theorem UpdateUsdGeomShapeIndices_traceOK (kind : GeomKind) (NumPoints : Nat)
    (ue : UsdBridgeUpdateEvaluator) (te : TimeEvaluator) :
    TraceOK kind ue te (UpdateUsdGeomShapeIndices NumPoints te) := by
  refine ⟨?_, ?_⟩
  · intro e he
    simp only [UpdateUsdGeomShapeIndices, List.mem_singleton] at he
    subst he
    intro h
    exact absurd rfl h
  · intro pre post a v tc h hne
    simp only [UpdateUsdGeomShapeIndices] at h
    cases pre with
    | nil =>
      simp only [List.nil_append, List.cons.injEq] at h
      obtain ⟨h1, _⟩ := h
      cases h1
      exact absurd rfl hne
    | cons x pre =>
      simp only [List.cons_append, List.cons.injEq] at h
      obtain ⟨_, h2⟩ := h
      cases pre <;> simp at h2

theorem UpdateUsdGeomAttributes_traceOK (kind : GeomKind) (tt : TypeTable)
    (writer : UsdBridgeUsdWriter) (Attributes : List UsdBridgeAttribute)
    (NumAttributes NumPoints numPrims : Nat) (ue : UsdBridgeUpdateEvaluator)
    (te : TimeEvaluator) :
    TraceOK kind ue te
      (UpdateUsdGeomAttributes tt writer Attributes NumAttributes NumPoints numPrims ue te) := by
  unfold UpdateUsdGeomAttributes
  apply TraceOK.flatMap
  intro i
  dsimp only
  split
  · exact TraceOK.of_routine (UpdateUsdGeomAttribute_ok kind tt writer Attributes _ _ ue te i)
  · exact TraceOK.nil kind ue te

theorem UpdateUsdGeometry_traceOK (c : Common) (writer : UsdBridgeUsdWriter)
    (geomData : GeomData) (ue : UsdBridgeUpdateEvaluator) (te : TimeEvaluator) :
    TraceOK (kindOf c geomData) ue te (UpdateUsdGeometry c writer geomData ue te) := by
  cases geomData with
  | mesh d =>
    simp only [UpdateUsdGeometry, UpdateUsdGeometry.mesh, kindOf]
    split
    · exact TraceOK.undefined _ ue te
    refine TraceOK.append (TraceOK.append (TraceOK.append (TraceOK.append (TraceOK.append
      ?_ ?_) ?_) ?_) ?_) ?_
    · exact TraceOK.of_routine (UpdateUsdGeomPoints_ok _ _ (Or.inl rfl) _ _ _ ue te)
    · exact TraceOK.of_routine (UpdateUsdGeomNormals_ok _ (by decide) _ _ _ _ _ ue te)
    · exact TraceOK.ite (TraceOK.of_routine (UpdateUsdGeomTexCoords_ok _ _ _ _ ue te))
    · exact UpdateUsdGeomAttributes_traceOK _ _ _ _ _ _ _ ue te
    · exact TraceOK.of_routine (UpdateUsdGeomColors_ok _ _ _ _ _ _ ue te)
    · exact TraceOK.of_routine (UpdateUsdGeomIndices_ok _ _ _ _ _ ue te)
  | instancer d =>
    simp only [UpdateUsdGeometry, UpdateUsdGeometry.instancer, kindOf]
    by_cases hu : c.UsesUsdGeomPoints d = true
    · simp only [hu, if_true]
      refine TraceOK.append (TraceOK.append (TraceOK.append (TraceOK.append (TraceOK.append
        (TraceOK.append ?_ ?_) ?_) ?_) ?_) ?_) ?_
      · exact TraceOK.of_routine (UpdateUsdGeomPoints_ok _ _ (Or.inl rfl) _ _ _ ue te)
      · exact TraceOK.of_routine (UpdateUsdGeomInstanceIds_ok _ _ _ _ ue te)
      · exact TraceOK.of_routine (UpdateUsdGeomWidths_ok _ _ _ _ _ ue te)
      · exact TraceOK.of_routine (UpdateUsdGeomOrientNormals_ok _ _ _ ue te)
      · exact TraceOK.ite (TraceOK.of_routine (UpdateUsdGeomTexCoords_ok _ _ _ _ ue te))
      · exact UpdateUsdGeomAttributes_traceOK _ _ _ _ _ _ _ ue te
      · exact TraceOK.of_routine (UpdateUsdGeomColors_ok _ _ _ _ _ _ ue te)
    · simp only [hu]
      refine TraceOK.append (TraceOK.append (TraceOK.append (TraceOK.append (TraceOK.append
        (TraceOK.append (TraceOK.append (TraceOK.append (TraceOK.append (TraceOK.append
        ?_ ?_) ?_) ?_) ?_) ?_) ?_) ?_) ?_) ?_) ?_
      · exact TraceOK.of_routine (UpdateUsdGeomPoints_ok _ _ (Or.inr rfl) _ _ _ ue te)
      · exact TraceOK.of_routine (UpdateUsdGeomInstanceIds_ok _ _ _ _ ue te)
      · exact TraceOK.of_routine (UpdateUsdGeomScales_ok _ _ _ _ _ ue te)
      · exact TraceOK.of_routine (UpdateUsdGeomOrientations_ok _ _ _ _ _ ue te)
      · exact TraceOK.ite (TraceOK.of_routine (UpdateUsdGeomTexCoords_ok _ _ _ _ ue te))
      · exact UpdateUsdGeomAttributes_traceOK _ _ _ _ _ _ _ ue te
      · exact TraceOK.of_routine (UpdateUsdGeomColors_ok _ _ _ _ _ _ ue te)
      · exact UpdateUsdGeomShapeIndices_traceOK _ _ ue te
      · exact TraceOK.of_routine (UpdateUsdGeomLinearVelocities_ok _ _ _ ue te)
      · exact TraceOK.of_routine (UpdateUsdGeomAngularVelocities_ok _ _ _ ue te)
      · exact TraceOK.of_routine (UpdateUsdGeomInvisibleIds_ok _ _ _ _ ue te)
  | curve d =>
    simp only [UpdateUsdGeometry, UpdateUsdGeometry.curve, kindOf]
    refine TraceOK.append (TraceOK.append (TraceOK.append (TraceOK.append (TraceOK.append
      (TraceOK.append ?_ ?_) ?_) ?_) ?_) ?_) ?_
    · exact TraceOK.of_routine (UpdateUsdGeomPoints_ok _ _ (Or.inl rfl) _ _ _ ue te)
    · exact TraceOK.of_routine (UpdateUsdGeomNormals_ok _ (by decide) _ _ _ _ _ ue te)
    · exact TraceOK.ite (TraceOK.of_routine (UpdateUsdGeomTexCoords_ok _ _ _ _ ue te))
    · exact UpdateUsdGeomAttributes_traceOK _ _ _ _ _ _ _ ue te
    · exact TraceOK.of_routine (UpdateUsdGeomColors_ok _ _ _ _ _ _ ue te)
    · exact TraceOK.of_routine (UpdateUsdGeomWidths_ok _ _ _ _ _ ue te)
    · exact TraceOK.of_routine (UpdateUsdGeomCurveLengths_ok _ _ _ ue te)

theorem clearedFirst_nil (kind : GeomKind) (te : TimeEvaluator) : ClearedFirst kind te [] := by
  refine ⟨?_, by simp⟩
  intro pre post a v tc h
  cases pre <;> simp at h

theorem clearedFirst_undefined (kind : GeomKind) (te : TimeEvaluator) :
    ClearedFirst kind te [Event.Undefined] := by
  refine ⟨?_, by simp⟩
  intro pre post a v tc h
  cases pre with
  | nil => simp at h
  | cons x pre =>
    simp only [List.cons_append, List.cons.injEq] at h
    obtain ⟨_, h2⟩ := h
    cases pre <;> simp at h2

theorem clearedFirst_append {kind : GeomKind} {te : TimeEvaluator} {xs ys : List Event}
    (hx : ClearedFirst kind te xs) (hy : ClearedFirst kind te ys) :
    ClearedFirst kind te (xs ++ ys) := by
  refine ⟨?_, ?_⟩
  · intro pre post a v tc h hne n hn
    rcases List.append_eq_append_iff.1 h with ⟨m, hpre, hys⟩ | ⟨m, hxs, hm⟩
    · rw [hpre]
      exact List.mem_append_right _ (hy.1 m post a v tc hys hne n hn)
    · cases m with
      | nil =>
        simp only [List.nil_append] at hm
        simp only [List.append_nil] at hxs
        have := hy.1 [] post a v tc hm.symm hne n hn
        simp at this
      | cons x m =>
        simp only [List.cons_append, List.cons.injEq] at hm
        obtain ⟨rfl, _⟩ := hm
        exact hx.1 pre m a v tc hxs hne n hn
  · intro f hmem
    rcases List.mem_append.1 hmem with h | h
    · exact hx.2 f h
    · exact hy.2 f h

theorem clearedFirst_ite {kind : GeomKind} {te : TimeEvaluator} {b : Bool} {xs : List Event}
    (hx : ClearedFirst kind te xs) : ClearedFirst kind te (if b = true then xs else []) := by
  cases b
  · simpa using clearedFirst_nil kind te
  · simpa using hx

theorem clearedFirst_flatMap {kind : GeomKind} {te : TimeEvaluator} (l : List Nat)
    (f : Nat → List Event) (h : ∀ i, ClearedFirst kind te (f i)) :
    ClearedFirst kind te (l.flatMap f) := by
  induction l with
  | nil => simpa using clearedFirst_nil kind te
  | cons x l ih =>
    simp only [List.flatMap_cons]
    exact clearedFirst_append (h x) ih

theorem clearedFirst_of_routine {kind : GeomKind} {te : TimeEvaluator}
    {attrs : List AttrName} {flag : Bool} {evs : List Event}
    (h : RoutineClears attrs flag evs)
    (hattrs : ∀ a ∈ attrs, a ≠ .protoIndices ∧ clearedWith kind a = attrs ∧
      te.IsTimeVarying (governingMember kind a) = flag) :
    ClearedFirst kind te evs := by
  obtain ⟨body, rfl, hbody⟩ := h
  have hcl : ∀ n f, Event.Clear n f ∉ body := fun n f hm => hbody _ hm
  have hset : ∀ a v tc, Event.Set a v tc ∈ body → a.name ∈ attrs := fun a v tc hm => hbody _ hm
  refine ⟨?_, ?_⟩
  · intro pre post a v tc h hne n hn
    rcases List.append_eq_append_iff.1 h with ⟨m, hpre, hbd⟩ | ⟨m, hclm, hm⟩
    · have hmem : Event.Set a v tc ∈ body := by rw [hbd]; simp
      have ha := hset a v tc hmem
      rw [(hattrs _ ha).2.1] at hn
      rw [hpre, (hattrs n hn).2.2]
      exact List.mem_append_left _ (List.mem_map.2 ⟨n, hn, rfl⟩)
    · cases m with
      | nil =>
        simp only [List.nil_append] at hm
        simp only [List.append_nil] at hclm
        have hmem : Event.Set a v tc ∈ body := by rw [← hm]; simp
        have ha := hset a v tc hmem
        rw [(hattrs _ ha).2.1] at hn
        rw [← hclm, (hattrs n hn).2.2]
        exact List.mem_map.2 ⟨n, hn, rfl⟩
      | cons x m =>
        simp only [List.cons_append, List.cons.injEq] at hm
        obtain ⟨rfl, _⟩ := hm
        have hmem : Event.Set a v tc ∈ attrs.map (fun n => Event.Clear n flag) := by
          rw [hclm]; simp
        obtain ⟨n2, _, hn2⟩ := List.mem_map.1 hmem
        cases hn2
  · intro f hmem
    rcases List.mem_append.1 hmem with h | h
    · obtain ⟨n2, hn2, he⟩ := List.mem_map.1 h
      cases he
      exact (hattrs _ hn2).1 rfl
    · exact hcl _ _ h

theorem UpdateUsdGeomShapeIndices_clearedFirst (kind : GeomKind) (NumPoints : Nat)
    (te : TimeEvaluator) : ClearedFirst kind te (UpdateUsdGeomShapeIndices NumPoints te) := by
  refine ⟨?_, by simp [UpdateUsdGeomShapeIndices]⟩
  intro pre post a v tc h hne
  simp only [UpdateUsdGeomShapeIndices] at h
  cases pre with
  | nil =>
    simp only [List.nil_append, List.cons.injEq] at h
    obtain ⟨h1, _⟩ := h
    cases h1
    exact absurd rfl hne
  | cons x pre =>
    simp only [List.cons_append, List.cons.injEq] at h
    obtain ⟨_, h2⟩ := h
    cases pre <;> simp at h2

theorem UpdateUsdGeomPoints_clears (pointsAttr : AttrName)
    (Points : Option Buffer) (PointsType : UsdBridgeType) (NumPoints : Nat)
    (ue : UsdBridgeUpdateEvaluator) (te : TimeEvaluator) :
    RoutineClears [pointsAttr, .extent] (te.IsTimeVarying .POINTS)
      (UpdateUsdGeomPoints pointsAttr Points PointsType NumPoints ue te) := by
  refine ⟨_, rfl, ?_⟩
  · by_cases hp : ue.PerformsUpdate .POINTS = true
    · simp only [hp, if_true]
      repeat' split
      all_goals simp [Event.inBody, AssignArrayToPrimvar, AssignArrayToPrimvarConvert]
    · simp [hp]

theorem UpdateUsdGeomIndices_clears (Indices : Option Buffer) (IndicesType : UsdBridgeType)
    (NumIndices numPrims : Nat) (ue : UsdBridgeUpdateEvaluator) (te : TimeEvaluator) :
    RoutineClears [.faceVertexIndices, .faceVertexCounts] (te.IsTimeVarying .INDICES)
      (UpdateUsdGeomIndices Indices IndicesType NumIndices numPrims ue te) := by
  refine ⟨_, rfl, ?_⟩
  · by_cases hp : ue.PerformsUpdate .INDICES = true
    · simp only [hp, if_true]
      repeat' split
      all_goals simp [Event.inBody, AssignArrayToPrimvar, AssignArrayToPrimvarConvert]
    · simp [hp]

theorem UpdateUsdGeomNormals_clears (Normals : Option Buffer) (NormalsType : UsdBridgeType)
    (PerPrimNormals : Bool) (NumPoints numPrims : Nat) (ue : UsdBridgeUpdateEvaluator)
    (te : TimeEvaluator) :
    RoutineClears [.normals] (te.IsTimeVarying .NORMALS)
      (UpdateUsdGeomNormals Normals NormalsType PerPrimNormals NumPoints numPrims ue te) := by
  refine ⟨_, rfl, ?_⟩
  · by_cases hp : ue.PerformsUpdate .NORMALS = true
    · simp only [hp, if_true]
      repeat' split
      all_goals simp [Event.inBody, AssignArrayToPrimvar, AssignArrayToPrimvarConvert]
    · simp [hp]

theorem UpdateUsdGeomTexCoords_clears (Attributes : List UsdBridgeAttribute)
    (NumPoints numPrims : Nat) (ue : UsdBridgeUpdateEvaluator) (te : TimeEvaluator) :
    RoutineClears [.st] (te.IsTimeVarying (.ATTRIBUTE 0))
      (UpdateUsdGeomTexCoords Attributes NumPoints numPrims ue te) := by
  refine ⟨_, rfl, ?_⟩
  · by_cases hp : ue.PerformsUpdate (.ATTRIBUTE 0) = true
    · simp only [hp, if_true]
      repeat' split
      all_goals simp [Event.inBody, AssignArrayToPrimvar, AssignArrayToPrimvarConvert]
    · simp [hp]

theorem UpdateUsdGeomAttribute_clears (tt : TypeTable) (writer : UsdBridgeUsdWriter)
    (Attributes : List UsdBridgeAttribute) (NumPoints numPrims : Nat)
    (ue : UsdBridgeUpdateEvaluator) (te : TimeEvaluator) (attribIndex : Nat) :
    RoutineClears [.attribute attribIndex] (te.IsTimeVarying (.ATTRIBUTE attribIndex))
      (UpdateUsdGeomAttribute tt writer Attributes NumPoints numPrims ue te attribIndex) := by
  refine ⟨_, rfl, ?_⟩
  intro e he
  by_cases hp : ue.PerformsUpdate (.ATTRIBUTE attribIndex) = true
  · simp only [hp, if_true] at he
    split at he
    · simp only [List.mem_singleton] at he
      subst he
      trivial
    · split at he
      · rcases List.mem_append.1 he with h | h
        · rcases mem_CopyArrayToPrimvar h with ⟨v, rfl⟩ | ⟨msg, rfl⟩
          · simp [Event.inBody]
          · trivial
        · simp only [List.mem_singleton] at h
          subst h
          trivial
      · simp only [List.mem_singleton] at he
        subst he
        simp [Event.inBody]
  · simp [hp] at he

theorem UpdateUsdGeomColors_clears (Colors : Option Buffer) (ColorsType : UsdBridgeType)
    (PerPrimColors : Bool) (NumPoints numPrims : Nat) (ue : UsdBridgeUpdateEvaluator)
    (te : TimeEvaluator) :
    RoutineClears [.color] (te.IsTimeVarying .COLORS)
      (UpdateUsdGeomColors Colors ColorsType PerPrimColors NumPoints numPrims ue te) := by
  by_cases hp : ue.PerformsUpdate .COLORS = true
  · cases Colors with
    | none =>
      refine ⟨_, rfl, ?_⟩
      simp [hp, Event.inBody]
    | some data =>
      obtain ⟨e, he, h⟩ := UpdateUsdGeomColors_shape data ColorsType PerPrimColors NumPoints
        numPrims ue te hp
      rw [h]
      refine ⟨_, rfl, ?_⟩
      rcases he with ⟨v, rfl⟩ | ⟨msg, rfl⟩ <;> simp [Event.inBody]
  · refine ⟨_, rfl, ?_⟩
    simp [hp]

theorem UpdateUsdGeomInstanceIds_clears (InstanceIds : Option Buffer)
    (InstanceIdsType : UsdBridgeType) (NumPoints : Nat) (ue : UsdBridgeUpdateEvaluator)
    (te : TimeEvaluator) :
    RoutineClears [.ids] (te.IsTimeVarying .INSTANCEIDS)
      (UpdateUsdGeomInstanceIds InstanceIds InstanceIdsType NumPoints ue te) := by
  refine ⟨_, rfl, ?_⟩
  · by_cases hp : ue.PerformsUpdate .INSTANCEIDS = true
    · simp only [hp, if_true]
      repeat' split
      all_goals simp [Event.inBody, AssignArrayToPrimvar, AssignArrayToPrimvarConvert]
    · simp [hp]

theorem UpdateUsdGeomWidths_clears (Scales : Option Buffer) (ScalesType : UsdBridgeType)
    (UniformScale : ℚ) (NumPoints : Nat) (ue : UsdBridgeUpdateEvaluator) (te : TimeEvaluator) :
    RoutineClears [.widths] (te.IsTimeVarying .SCALES)
      (UpdateUsdGeomWidths Scales ScalesType UniformScale NumPoints ue te) := by
  refine ⟨_, rfl, ?_⟩
  · by_cases hp : ue.PerformsUpdate .SCALES = true
    · simp only [hp, if_true]
      repeat' split
      all_goals simp [Event.inBody, AssignArrayToPrimvar, AssignArrayToPrimvarConvert]
    · simp [hp]

theorem UpdateUsdGeomScales_clears (Scales : Option Buffer) (ScalesType : UsdBridgeType)
    (UniformScale : ℚ) (NumPoints : Nat) (ue : UsdBridgeUpdateEvaluator) (te : TimeEvaluator) :
    RoutineClears [.scales] (te.IsTimeVarying .SCALES)
      (UpdateUsdGeomScales Scales ScalesType UniformScale NumPoints ue te) := by
  refine ⟨_, rfl, ?_⟩
  · by_cases hp : ue.PerformsUpdate .SCALES = true
    · simp only [hp, if_true]
      repeat' split
      all_goals simp [Event.inBody, AssignArrayToPrimvar, AssignArrayToPrimvarConvert, Expand1ToVec3]
    · simp [hp]

theorem UpdateUsdGeomOrientNormals_clears (Orientations : Option Buffer)
    (OrientationsType : UsdBridgeType) (NumPoints : Nat) (ue : UsdBridgeUpdateEvaluator)
    (te : TimeEvaluator) :
    RoutineClears [.normals] (te.IsTimeVarying .ORIENTATIONS)
      (UpdateUsdGeomOrientNormals Orientations OrientationsType NumPoints ue te) := by
  refine ⟨_, rfl, ?_⟩
  · by_cases hp : ue.PerformsUpdate .ORIENTATIONS = true
    · simp only [hp, if_true]
      repeat' split
      all_goals simp [Event.inBody, AssignArrayToPrimvar, AssignArrayToPrimvarConvert]
    · simp [hp]

theorem UpdateUsdGeomOrientations_clears (c : Common) (Orientations : Option Buffer)
    (OrientationsType : UsdBridgeType) (NumPoints : Nat) (ue : UsdBridgeUpdateEvaluator)
    (te : TimeEvaluator) :
    RoutineClears [.orientations] (te.IsTimeVarying .ORIENTATIONS)
      (UpdateUsdGeomOrientations c Orientations OrientationsType NumPoints ue te) := by
  refine ⟨_, rfl, ?_⟩
  · by_cases hp : ue.PerformsUpdate .ORIENTATIONS = true
    · simp only [hp, if_true]
      repeat' split
      all_goals simp [Event.inBody]
    · simp [hp]

theorem UpdateUsdGeomLinearVelocities_clears (LinearVelocities : Option Buffer)
    (NumPoints : Nat) (ue : UsdBridgeUpdateEvaluator) (te : TimeEvaluator) :
    RoutineClears [.velocities] (te.IsTimeVarying .LINEARVELOCITIES)
      (UpdateUsdGeomLinearVelocities LinearVelocities NumPoints ue te) := by
  refine ⟨_, rfl, ?_⟩
  · by_cases hp : ue.PerformsUpdate .LINEARVELOCITIES = true
    · simp only [hp, if_true]
      repeat' split
      all_goals simp [Event.inBody]
    · simp [hp]

theorem UpdateUsdGeomAngularVelocities_clears (AngularVelocities : Option Buffer)
    (NumPoints : Nat) (ue : UsdBridgeUpdateEvaluator) (te : TimeEvaluator) :
    RoutineClears [.angularVelocities] (te.IsTimeVarying .ANGULARVELOCITIES)
      (UpdateUsdGeomAngularVelocities AngularVelocities NumPoints ue te) := by
  refine ⟨_, rfl, ?_⟩
  · by_cases hp : ue.PerformsUpdate .ANGULARVELOCITIES = true
    · simp only [hp, if_true]
      repeat' split
      all_goals simp [Event.inBody]
    · simp [hp]

theorem UpdateUsdGeomInvisibleIds_clears (InvisibleIds : Buffer)
    (InvisibleIdsType : UsdBridgeType) (NumInvisibleIds : Nat) (ue : UsdBridgeUpdateEvaluator)
    (te : TimeEvaluator) :
    RoutineClears [.invisibleIds] (te.IsTimeVarying .INVISIBLEIDS)
      (UpdateUsdGeomInvisibleIds InvisibleIds InvisibleIdsType NumInvisibleIds ue te) := by
  refine ⟨_, rfl, ?_⟩
  · by_cases hp : ue.PerformsUpdate .INVISIBLEIDS = true
    · simp only [hp, if_true]
      repeat' split
      all_goals simp [Event.inBody, AssignArrayToPrimvar, AssignArrayToPrimvarConvert]
    · simp [hp]

theorem UpdateUsdGeomCurveLengths_clears (CurveLengths : Buffer) (NumCurveLengths : Nat)
    (ue : UsdBridgeUpdateEvaluator) (te : TimeEvaluator) :
    RoutineClears [.curveVertexCounts] (te.IsTimeVarying .CURVELENGTHS)
      (UpdateUsdGeomCurveLengths CurveLengths NumCurveLengths ue te) := by
  refine ⟨_, rfl, ?_⟩
  · by_cases hp : ue.PerformsUpdate .CURVELENGTHS = true
    · simp only [hp, if_true]
      simp [Event.inBody, AssignArrayToPrimvar]
    · simp [hp]

theorem UpdateUsdGeomAttributes_clearedFirst (kind : GeomKind) (tt : TypeTable)
    (writer : UsdBridgeUsdWriter) (Attributes : List UsdBridgeAttribute)
    (NumAttributes NumPoints numPrims : Nat) (ue : UsdBridgeUpdateEvaluator)
    (te : TimeEvaluator) :
    ClearedFirst kind te
      (UpdateUsdGeomAttributes tt writer Attributes NumAttributes NumPoints numPrims ue te) := by
  unfold UpdateUsdGeomAttributes
  apply clearedFirst_flatMap
  intro i
  dsimp only
  split
  · exact clearedFirst_of_routine
      (UpdateUsdGeomAttribute_clears tt writer Attributes _ _ ue te i)
      (by simp [clearedWith, governingMember])
  · exact clearedFirst_nil kind te

theorem UpdateUsdGeometry_clearedFirst (c : Common) (writer : UsdBridgeUsdWriter)
    (geomData : GeomData) (ue : UsdBridgeUpdateEvaluator) (te : TimeEvaluator) :
    ClearedFirst (kindOf c geomData) te (UpdateUsdGeometry c writer geomData ue te) := by
  cases geomData with
  | mesh d =>
    simp only [UpdateUsdGeometry, UpdateUsdGeometry.mesh, kindOf]
    split
    · exact clearedFirst_undefined _ te
    refine clearedFirst_append (clearedFirst_append (clearedFirst_append (clearedFirst_append
      (clearedFirst_append ?_ ?_) ?_) ?_) ?_) ?_
    · exact clearedFirst_of_routine (UpdateUsdGeomPoints_clears _ _ _ _ ue te)
        (by simp [clearedWith, governingMember])
    · exact clearedFirst_of_routine (UpdateUsdGeomNormals_clears _ _ _ _ _ ue te)
        (by simp [clearedWith, governingMember])
    · exact clearedFirst_ite (clearedFirst_of_routine (UpdateUsdGeomTexCoords_clears _ _ _ ue te)
        (by simp [clearedWith, governingMember]))
    · exact UpdateUsdGeomAttributes_clearedFirst _ _ _ _ _ _ _ ue te
    · exact clearedFirst_of_routine (UpdateUsdGeomColors_clears _ _ _ _ _ ue te)
        (by simp [clearedWith, governingMember])
    · exact clearedFirst_of_routine (UpdateUsdGeomIndices_clears _ _ _ _ ue te)
        (by simp [clearedWith, governingMember])
  | instancer d =>
    simp only [UpdateUsdGeometry, UpdateUsdGeometry.instancer, kindOf]
    by_cases hu : c.UsesUsdGeomPoints d = true
    · simp only [hu, if_true]
      refine clearedFirst_append (clearedFirst_append (clearedFirst_append (clearedFirst_append
        (clearedFirst_append (clearedFirst_append ?_ ?_) ?_) ?_) ?_) ?_) ?_
      · exact clearedFirst_of_routine (UpdateUsdGeomPoints_clears _ _ _ _ ue te)
          (by simp [clearedWith, governingMember])
      · exact clearedFirst_of_routine (UpdateUsdGeomInstanceIds_clears _ _ _ ue te)
          (by simp [clearedWith, governingMember])
      · exact clearedFirst_of_routine (UpdateUsdGeomWidths_clears _ _ _ _ ue te)
          (by simp [clearedWith, governingMember])
      · exact clearedFirst_of_routine (UpdateUsdGeomOrientNormals_clears _ _ _ ue te)
          (by simp [clearedWith, governingMember])
      · exact clearedFirst_ite (clearedFirst_of_routine
          (UpdateUsdGeomTexCoords_clears _ _ _ ue te) (by simp [clearedWith, governingMember]))
      · exact UpdateUsdGeomAttributes_clearedFirst _ _ _ _ _ _ _ ue te
      · exact clearedFirst_of_routine (UpdateUsdGeomColors_clears _ _ _ _ _ ue te)
          (by simp [clearedWith, governingMember])
    · simp only [hu]
      refine clearedFirst_append (clearedFirst_append (clearedFirst_append (clearedFirst_append
        (clearedFirst_append (clearedFirst_append (clearedFirst_append (clearedFirst_append
        (clearedFirst_append (clearedFirst_append ?_ ?_) ?_) ?_) ?_) ?_) ?_) ?_) ?_) ?_) ?_
      · exact clearedFirst_of_routine (UpdateUsdGeomPoints_clears _ _ _ _ ue te)
          (by simp [clearedWith, governingMember])
      · exact clearedFirst_of_routine (UpdateUsdGeomInstanceIds_clears _ _ _ ue te)
          (by simp [clearedWith, governingMember])
      · exact clearedFirst_of_routine (UpdateUsdGeomScales_clears _ _ _ _ ue te)
          (by simp [clearedWith, governingMember])
      · exact clearedFirst_of_routine (UpdateUsdGeomOrientations_clears _ _ _ _ ue te)
          (by simp [clearedWith, governingMember])
      · exact clearedFirst_ite (clearedFirst_of_routine
          (UpdateUsdGeomTexCoords_clears _ _ _ ue te) (by simp [clearedWith, governingMember]))
      · exact UpdateUsdGeomAttributes_clearedFirst _ _ _ _ _ _ _ ue te
      · exact clearedFirst_of_routine (UpdateUsdGeomColors_clears _ _ _ _ _ ue te)
          (by simp [clearedWith, governingMember])
      · exact UpdateUsdGeomShapeIndices_clearedFirst _ _ te
      · exact clearedFirst_of_routine (UpdateUsdGeomLinearVelocities_clears _ _ ue te)
          (by simp [clearedWith, governingMember])
      · exact clearedFirst_of_routine (UpdateUsdGeomAngularVelocities_clears _ _ ue te)
          (by simp [clearedWith, governingMember])
      · exact clearedFirst_of_routine (UpdateUsdGeomInvisibleIds_clears _ _ _ ue te)
          (by simp [clearedWith, governingMember])
  | curve d =>
    simp only [UpdateUsdGeometry, UpdateUsdGeometry.curve, kindOf]
    refine clearedFirst_append (clearedFirst_append (clearedFirst_append (clearedFirst_append
      (clearedFirst_append (clearedFirst_append ?_ ?_) ?_) ?_) ?_) ?_) ?_
    · exact clearedFirst_of_routine (UpdateUsdGeomPoints_clears _ _ _ _ ue te)
        (by simp [clearedWith, governingMember])
    · exact clearedFirst_of_routine (UpdateUsdGeomNormals_clears _ _ _ _ _ ue te)
        (by simp [clearedWith, governingMember])
    · exact clearedFirst_ite (clearedFirst_of_routine (UpdateUsdGeomTexCoords_clears _ _ _ ue te)
        (by simp [clearedWith, governingMember]))
    · exact UpdateUsdGeomAttributes_clearedFirst _ _ _ _ _ _ _ ue te
    · exact clearedFirst_of_routine (UpdateUsdGeomColors_clears _ _ _ _ _ ue te)
        (by simp [clearedWith, governingMember])
    · exact clearedFirst_of_routine (UpdateUsdGeomWidths_clears _ _ _ _ ue te)
        (by simp [clearedWith, governingMember])
    · exact clearedFirst_of_routine (UpdateUsdGeomCurveLengths_clears _ _ ue te)
        (by simp [clearedWith, governingMember])

theorem clear_of_clears {kind : GeomKind} {te : TimeEvaluator} {attrs : List AttrName}
    {flag : Bool} {xs ys : List Event} {n : AttrName}
    (h : RoutineClears attrs flag xs) (hsub : ∀ e ∈ xs, e ∈ ys) (hn : n ∈ attrs)
    (hf : te.IsTimeVarying (governingMember kind n) = flag) :
    Event.Clear n (te.IsTimeVarying (governingMember kind n)) ∈ ys := by
  obtain ⟨body, rfl, -⟩ := h
  rw [hf]
  exact hsub _ (List.mem_append_left _ (List.mem_map.2 ⟨n, hn, rfl⟩))

theorem clear_mono {e : Event} {xs ys : List Event} (h : e ∈ xs) (hsub : ∀ x ∈ xs, x ∈ ys) :
    e ∈ ys :=
  hsub e h

theorem UpdateUsdGeomAttributes_clear (kind : GeomKind) (tt : TypeTable)
    (writer : UsdBridgeUsdWriter) (Attributes : List UsdBridgeAttribute)
    (NumAttributes NumPoints numPrims : Nat) (ue : UsdBridgeUpdateEvaluator)
    (te : TimeEvaluator) (n : AttrName) (hn : n ∈ attributeNames Attributes NumAttributes) :
    Event.Clear n (te.IsTimeVarying (governingMember kind n)) ∈
      UpdateUsdGeomAttributes tt writer Attributes NumAttributes NumPoints numPrims ue te := by
  simp only [attributeNames, List.mem_map, List.mem_filter, List.mem_range,
    decide_eq_true_eq] at hn
  obtain ⟨i, ⟨hi, hty⟩, rfl⟩ := hn
  refine clear_of_clears
    (UpdateUsdGeomAttribute_clears tt writer Attributes NumPoints numPrims ue te i) ?_
    (by simp) (by simp [governingMember])
  intro e he
  simp only [UpdateUsdGeomAttributes, List.mem_flatMap, List.mem_range]
  exact ⟨i, hi, by simpa [hty] using he⟩

theorem UpdateUsdGeometry_clears (c : Common) (writer : UsdBridgeUsdWriter)
    (geomData : GeomData) (ue : UsdBridgeUpdateEvaluator) (te : TimeEvaluator) (n : AttrName)
    (hn : n ∈ routineAttributes c writer geomData) (hne : n ≠ .protoIndices) :
    Event.Clear n (te.IsTimeVarying (governingMember (kindOf c geomData) n)) ∈
      UpdateUsdGeometry c writer geomData ue te := by
  cases geomData with
  | mesh d =>
    simp only [UpdateUsdGeometry, UpdateUsdGeometry.mesh, kindOf]
    by_cases hdiv : intDivUndefined (to_int (d.NumIndices : Int)) d.FaceVertexCount = true
    · simp [routineAttributes, hdiv] at hn
    have hdiv2 : intDivUndefined (to_int (d.NumIndices : Int)) d.FaceVertexCount = false := by
      simpa using hdiv
    simp only [routineAttributes, hdiv2, Bool.false_eq_true, if_false, List.mem_append,
      List.mem_cons, List.mem_singleton, List.not_mem_nil, or_false] at hn
    simp only [hdiv2, Bool.false_eq_true, if_false]
    rcases hn with (((h | h | h) | h) | h) | (h | h | h)
    · subst h
      exact clear_of_clears (UpdateUsdGeomPoints_clears _ _ _ _ ue te)
        (by
          intro e he
          with_reducible repeat (first | exact he | exact List.mem_append_right _ he |
            apply List.mem_append_left))
        (by simp)
        (by simp [governingMember])
    · subst h
      exact clear_of_clears (UpdateUsdGeomPoints_clears _ _ _ _ ue te)
        (by
          intro e he
          with_reducible repeat (first | exact he | exact List.mem_append_right _ he |
            apply List.mem_append_left))
        (by simp)
        (by simp [governingMember])
    · subst h
      exact clear_of_clears (UpdateUsdGeomNormals_clears _ _ _ _ _ ue te)
        (by
          intro e he
          with_reducible repeat (first | exact he | exact List.mem_append_right _ he |
            apply List.mem_append_left))
        (by simp)
        (by simp [governingMember])
    · split at h
      · rename_i hg
        simp only [List.mem_singleton] at h
        subst h
        simp only [hg, if_true]
        exact clear_of_clears (UpdateUsdGeomTexCoords_clears _ _ _ ue te)
          (by
            intro e he
            with_reducible repeat (first | exact he | exact List.mem_append_right _ he |
              apply List.mem_append_left))
          (by simp)
          (by simp [governingMember])
      · simp at h
    · exact clear_mono (UpdateUsdGeomAttributes_clear _ _ _ _ _ _ _ ue te n h)
        (by
          intro e he
          with_reducible repeat (first | exact he | exact List.mem_append_right _ he |
            apply List.mem_append_left))
    · subst h
      exact clear_of_clears (UpdateUsdGeomColors_clears _ _ _ _ _ ue te)
        (by
          intro e he
          with_reducible repeat (first | exact he | exact List.mem_append_right _ he |
            apply List.mem_append_left))
        (by simp)
        (by simp [governingMember])
    · subst h
      exact clear_of_clears (UpdateUsdGeomIndices_clears _ _ _ _ ue te)
        (by
          intro e he
          with_reducible repeat (first | exact he | exact List.mem_append_right _ he |
            apply List.mem_append_left))
        (by simp)
        (by simp [governingMember])
    · subst h
      exact clear_of_clears (UpdateUsdGeomIndices_clears _ _ _ _ ue te)
        (by
          intro e he
          with_reducible repeat (first | exact he | exact List.mem_append_right _ he |
            apply List.mem_append_left))
        (by simp)
        (by simp [governingMember])
  | instancer d =>
    simp only [UpdateUsdGeometry, UpdateUsdGeometry.instancer, kindOf]
    by_cases hu : c.UsesUsdGeomPoints d = true
    · simp only [routineAttributes, hu, if_true, List.mem_append, List.mem_cons,
        List.mem_singleton, List.not_mem_nil, or_false] at hn
      simp only [hu, if_true]
      rcases hn with (((h | h | h | h | h) | h) | h) | h
      · subst h
        exact clear_of_clears (UpdateUsdGeomPoints_clears _ _ _ _ ue te)
          (by
            intro e he
            with_reducible repeat (first | exact he | exact List.mem_append_right _ he |
              apply List.mem_append_left))
          (by simp)
          (by simp [governingMember])
      · subst h
        exact clear_of_clears (UpdateUsdGeomPoints_clears _ _ _ _ ue te)
          (by
            intro e he
            with_reducible repeat (first | exact he | exact List.mem_append_right _ he |
              apply List.mem_append_left))
          (by simp)
          (by simp [governingMember])
      · subst h
        exact clear_of_clears (UpdateUsdGeomInstanceIds_clears _ _ _ ue te)
          (by
            intro e he
            with_reducible repeat (first | exact he | exact List.mem_append_right _ he |
              apply List.mem_append_left))
          (by simp)
          (by simp [governingMember])
      · subst h
        exact clear_of_clears (UpdateUsdGeomWidths_clears _ _ _ _ ue te)
          (by
            intro e he
            with_reducible repeat (first | exact he | exact List.mem_append_right _ he |
              apply List.mem_append_left))
          (by simp)
          (by simp [governingMember])
      · subst h
        exact clear_of_clears (UpdateUsdGeomOrientNormals_clears _ _ _ ue te)
          (by
            intro e he
            with_reducible repeat (first | exact he | exact List.mem_append_right _ he |
              apply List.mem_append_left))
          (by simp)
          (by simp [governingMember])
      · split at h
        · rename_i hg
          simp only [List.mem_singleton] at h
          subst h
          simp only [hg, if_true]
          exact clear_of_clears (UpdateUsdGeomTexCoords_clears _ _ _ ue te)
            (by
              intro e he
              with_reducible repeat (first | exact he | exact List.mem_append_right _ he |
                apply List.mem_append_left))
            (by simp)
            (by simp [governingMember])
        · simp at h
      · exact clear_mono (UpdateUsdGeomAttributes_clear _ _ _ _ _ _ _ ue te n h)
          (by
            intro e he
            with_reducible repeat (first | exact he | exact List.mem_append_right _ he |
              apply List.mem_append_left))
      · subst h
        exact clear_of_clears (UpdateUsdGeomColors_clears _ _ _ _ _ ue te)
          (by
            intro e he
            with_reducible repeat (first | exact he | exact List.mem_append_right _ he |
              apply List.mem_append_left))
          (by simp)
          (by simp [governingMember])
    · have hu2 : c.UsesUsdGeomPoints d = false := by simpa using hu
      simp only [routineAttributes, hu2, Bool.false_eq_true, if_false, List.mem_append,
        List.mem_cons, List.mem_singleton, List.not_mem_nil, or_false] at hn
      simp only [hu2, Bool.false_eq_true, if_false]
      rcases hn with (((h | h | h | h | h) | h) | h) | (h | h | h | h | h)
      · subst h
        exact clear_of_clears (UpdateUsdGeomPoints_clears _ _ _ _ ue te)
          (by
            intro e he
            with_reducible repeat (first | exact he | exact List.mem_append_right _ he |
              apply List.mem_append_left))
          (by simp)
          (by simp [governingMember])
      · subst h
        exact clear_of_clears (UpdateUsdGeomPoints_clears _ _ _ _ ue te)
          (by
            intro e he
            with_reducible repeat (first | exact he | exact List.mem_append_right _ he |
              apply List.mem_append_left))
          (by simp)
          (by simp [governingMember])
      · subst h
        exact clear_of_clears (UpdateUsdGeomInstanceIds_clears _ _ _ ue te)
          (by
            intro e he
            with_reducible repeat (first | exact he | exact List.mem_append_right _ he |
              apply List.mem_append_left))
          (by simp)
          (by simp [governingMember])
      · subst h
        exact clear_of_clears (UpdateUsdGeomScales_clears _ _ _ _ ue te)
          (by
            intro e he
            with_reducible repeat (first | exact he | exact List.mem_append_right _ he |
              apply List.mem_append_left))
          (by simp)
          (by simp [governingMember])
      · subst h
        exact clear_of_clears (UpdateUsdGeomOrientations_clears _ _ _ _ ue te)
          (by
            intro e he
            with_reducible repeat (first | exact he | exact List.mem_append_right _ he |
              apply List.mem_append_left))
          (by simp)
          (by simp [governingMember])
      · split at h
        · rename_i hg
          simp only [List.mem_singleton] at h
          subst h
          simp only [hg, if_true]
          exact clear_of_clears (UpdateUsdGeomTexCoords_clears _ _ _ ue te)
            (by
              intro e he
              with_reducible repeat (first | exact he | exact List.mem_append_right _ he |
                apply List.mem_append_left))
            (by simp)
            (by simp [governingMember])
        · simp at h
      · exact clear_mono (UpdateUsdGeomAttributes_clear _ _ _ _ _ _ _ ue te n h)
          (by
            intro e he
            with_reducible repeat (first | exact he | exact List.mem_append_right _ he |
              apply List.mem_append_left))
      · subst h
        exact clear_of_clears (UpdateUsdGeomColors_clears _ _ _ _ _ ue te)
          (by
            intro e he
            with_reducible repeat (first | exact he | exact List.mem_append_right _ he |
              apply List.mem_append_left))
          (by simp)
          (by simp [governingMember])
      · exact absurd h hne
      · subst h
        exact clear_of_clears (UpdateUsdGeomLinearVelocities_clears _ _ ue te)
          (by
            intro e he
            with_reducible repeat (first | exact he | exact List.mem_append_right _ he |
              apply List.mem_append_left))
          (by simp)
          (by simp [governingMember])
      · subst h
        exact clear_of_clears (UpdateUsdGeomAngularVelocities_clears _ _ ue te)
          (by
            intro e he
            with_reducible repeat (first | exact he | exact List.mem_append_right _ he |
              apply List.mem_append_left))
          (by simp)
          (by simp [governingMember])
      · subst h
        exact clear_of_clears (UpdateUsdGeomInvisibleIds_clears _ _ _ ue te)
          (by
            intro e he
            with_reducible repeat (first | exact he | exact List.mem_append_right _ he |
              apply List.mem_append_left))
          (by simp)
          (by simp [governingMember])
  | curve d =>
    simp only [UpdateUsdGeometry, UpdateUsdGeometry.curve, kindOf]
    simp only [routineAttributes, List.mem_append, List.mem_cons, List.mem_singleton,
      List.not_mem_nil, or_false] at hn
    rcases hn with (((h | h | h) | h) | h) | (h | h | h)
    · subst h
      exact clear_of_clears (UpdateUsdGeomPoints_clears _ _ _ _ ue te)
        (by
          intro e he
          with_reducible repeat (first | exact he | exact List.mem_append_right _ he |
            apply List.mem_append_left))
        (by simp)
        (by simp [governingMember])
    · subst h
      exact clear_of_clears (UpdateUsdGeomPoints_clears _ _ _ _ ue te)
        (by
          intro e he
          with_reducible repeat (first | exact he | exact List.mem_append_right _ he |
            apply List.mem_append_left))
        (by simp)
        (by simp [governingMember])
    · subst h
      exact clear_of_clears (UpdateUsdGeomNormals_clears _ _ _ _ _ ue te)
        (by
          intro e he
          with_reducible repeat (first | exact he | exact List.mem_append_right _ he |
            apply List.mem_append_left))
        (by simp)
        (by simp [governingMember])
    · split at h
      · rename_i hg
        simp only [List.mem_singleton] at h
        subst h
        simp only [hg, if_true]
        exact clear_of_clears (UpdateUsdGeomTexCoords_clears _ _ _ ue te)
          (by
            intro e he
            with_reducible repeat (first | exact he | exact List.mem_append_right _ he |
              apply List.mem_append_left))
          (by simp)
          (by simp [governingMember])
      · simp at h
    · exact clear_mono (UpdateUsdGeomAttributes_clear _ _ _ _ _ _ _ ue te n h)
        (by
          intro e he
          with_reducible repeat (first | exact he | exact List.mem_append_right _ he |
            apply List.mem_append_left))
    · subst h
      exact clear_of_clears (UpdateUsdGeomColors_clears _ _ _ _ _ ue te)
        (by
          intro e he
          with_reducible repeat (first | exact he | exact List.mem_append_right _ he |
            apply List.mem_append_left))
        (by simp)
        (by simp [governingMember])
    · subst h
      exact clear_of_clears (UpdateUsdGeomWidths_clears _ _ _ _ ue te)
        (by
          intro e he
          with_reducible repeat (first | exact he | exact List.mem_append_right _ he |
            apply List.mem_append_left))
        (by simp)
        (by simp [governingMember])
    · subst h
      exact clear_of_clears (UpdateUsdGeomCurveLengths_clears _ _ ue te)
        (by
          intro e he
          with_reducible repeat (first | exact he | exact List.mem_append_right _ he |
            apply List.mem_append_left))
        (by simp)
        (by simp [governingMember])

theorem governingMember_shapeIndices {kind : GeomKind} {n : AttrName}
    (h : governingMember kind n = .SHAPEINDICES) : n = .protoIndices := by
  cases n <;> simp [governingMember] at h ⊢
  split at h <;> simp at h

theorem outGeom_eq (b : Bool) :
    outGeom b = (if b = true then PrimSide.timeVar else PrimSide.uniform) := rfl

/-! ## Clearing and time sampling (C2 to C4) -/

/-- C2 as amended, clearing policy. Every member routine that `UpdateUsdGeometry` invokes,
the shape index routine apart, clears each attribute of its member with the time-varying
flag of the member, whatever the update evaluator says, and does so before it sets a value
for the member: each attribute of the invoked routines other than the prototype indices
has its clear call in the trace, and every value set on such an attribute comes after the
clear calls on all the attributes of its member routine. The shape index routine makes no
clear call, and no clear call on the prototype indices is made at all. -/
theorem clearing_policy (c : Common) (writer : UsdBridgeUsdWriter) (geomData : GeomData)
    (updateEval : UsdBridgeUpdateEvaluator) (timeEval : TimeEvaluator) :
    (∀ n ∈ routineAttributes c writer geomData, n ≠ .protoIndices →
      Event.Clear n (timeEval.IsTimeVarying (governingMember (kindOf c geomData) n)) ∈
        UpdateUsdGeometry c writer geomData updateEval timeEval) ∧
    (∀ pre post a v tc,
      UpdateUsdGeometry c writer geomData updateEval timeEval =
        pre ++ Event.Set a v tc :: post →
      a.name ≠ .protoIndices →
      ∀ n ∈ clearedWith (kindOf c geomData) a.name,
        Event.Clear n (timeEval.IsTimeVarying (governingMember (kindOf c geomData) n)) ∈ pre) ∧
    (∀ NumPoints n f, Event.Clear n f ∉ UpdateUsdGeomShapeIndices NumPoints timeEval) ∧
    (∀ f, Event.Clear .protoIndices f ∉
      UpdateUsdGeometry c writer geomData updateEval timeEval) :=
  ⟨fun n hn hne => UpdateUsdGeometry_clears c writer geomData updateEval timeEval n hn hne,
   (UpdateUsdGeometry_clearedFirst c writer geomData updateEval timeEval).1,
   fun NumPoints n f => by simp [UpdateUsdGeomShapeIndices],
   (UpdateUsdGeometry_clearedFirst c writer geomData updateEval timeEval).2⟩

/-- C2 as amended at work: on the sample instancer, with only its instance ids updated,
the scales are cleared although they are not updated; and on the sample mesh the extent is
set after the clear calls on the points and on the extent. -/
theorem clearing_policy_witness :
    Event.Clear .scales false ∈
      UpdateUsdGeometry sampleCommon sampleWriter (.instancer sampleInstancer) updateIdsOnly
        (timeEvaluatorAt (fun _ => false) 1) ∧
    (∀ pre post v tc,
      UpdateUsdGeometry sampleCommon sampleWriter (.mesh sampleMesh) updateAll
          (timeEvaluatorAt (fun _ => false) 1) =
        pre ++ Event.Set ⟨.uniform, .extent⟩ v tc :: post →
      Event.Clear .points false ∈ pre ∧ Event.Clear .extent false ∈ pre) ∧
    (∃ v tc, Event.Set ⟨.uniform, .extent⟩ v tc ∈
      UpdateUsdGeometry sampleCommon sampleWriter (.mesh sampleMesh) updateAll
        (timeEvaluatorAt (fun _ => false) 1)) :=
  ⟨(clearing_policy sampleCommon sampleWriter (.instancer sampleInstancer) updateIdsOnly
      (timeEvaluatorAt (fun _ => false) 1)).1 .scales (by decide) (by decide),
   fun pre post v tc h =>
    ⟨(clearing_policy sampleCommon sampleWriter (.mesh sampleMesh) updateAll
        (timeEvaluatorAt (fun _ => false) 1)).2.1 pre post ⟨.uniform, .extent⟩ v tc h
        (by decide) .points (by decide),
     (clearing_policy sampleCommon sampleWriter (.mesh sampleMesh) updateAll
        (timeEvaluatorAt (fun _ => false) 1)).2.1 pre post ⟨.uniform, .extent⟩ v tc h
        (by decide) .extent (by decide)⟩,
   by
    have hdiv : intDivUndefined (to_int 3) 3 = false := by decide
    refine ⟨.Vec3fArray
      [(extentOf (UpdateUsdGeomPoints.usdVerts (.reals [0, 0, 0, 1, 0, 0, 0, 1, 0])
          .FLOAT3 3)).min,
       (extentOf (UpdateUsdGeomPoints.usdVerts (.reals [0, 0, 0, 1, 0, 0, 0, 1, 0])
          .FLOAT3 3)).max], .Default, ?_⟩
    simp [UpdateUsdGeometry, UpdateUsdGeometry.mesh, sampleMesh, UpdateUsdGeomPoints,
      updateAll, timeEvaluatorAt, outGeom, hdiv]⟩

/-- C2 as stated fails for the shape index routine: on the sample instancer the
prototype indices are set, and no clear call on them is made at all. -/
theorem clearing_policy_counterexample :
    Event.Set ⟨.uniform, .protoIndices⟩ (.IntArray [0]) .Default ∈
      UpdateUsdGeometry sampleCommon sampleWriter (.instancer sampleInstancer) updateAll
        (timeEvaluatorAt (fun _ => false) 1) ∧
    ∀ flag, Event.Clear .protoIndices flag ∉
      UpdateUsdGeometry sampleCommon sampleWriter (.instancer sampleInstancer) updateAll
        (timeEvaluatorAt (fun _ => false) 1) := by
  decide

/-- C3 fails on the code: with time-varying curve lengths and uniform points, the curve
vertex counts of the sample curve are set at the time code of `POINTS`, the default time,
and not at the time code of `CURVELENGTHS`. -/
theorem curve_lengths_time_code :
    (timeEvaluatorAt (fun m => decide (m = .CURVELENGTHS)) 1).Eval .CURVELENGTHS = .Time 1 ∧
    (timeEvaluatorAt (fun m => decide (m = .CURVELENGTHS)) 1).Eval .POINTS = .Default ∧
    Event.Set ⟨.timeVar, .curveVertexCounts⟩ (.IntArray [2]) .Default ∈
      UpdateUsdGeometry sampleCommon sampleWriter (.curve sampleCurve) updateAll
        (timeEvaluatorAt (fun m => decide (m = .CURVELENGTHS)) 1) ∧
    ∀ side v, Event.Set ⟨side, .curveVertexCounts⟩ v (.Time 1) ∉
      UpdateUsdGeometry sampleCommon sampleWriter (.curve sampleCurve) updateAll
        (timeEvaluatorAt (fun m => decide (m = .CURVELENGTHS)) 1) := by
  refine ⟨by decide, by decide, by decide, ?_⟩
  intro side v
  simp [UpdateUsdGeometry, UpdateUsdGeometry.curve, sampleCurve, sampleCommon, sampleWriter,
    UpdateUsdGeomPoints, UpdateUsdGeomNormals, UpdateUsdGeomAttributes, UpdateUsdGeomColors,
    UpdateUsdGeomWidths, UpdateUsdGeomCurveLengths, updateAll, timeEvaluatorAt,
    AssignArrayToPrimvar]

/-- C4, no update, no write. For a data member `m` other than the shape indices whose
update is not performed, `UpdateUsdGeometry` sets no value (array, value block or extent)
and no interpolation token on an attribute governed by `m`, on either prim; the clear
call on each attribute of the invoked routines that `m` governs is still made. -/
theorem no_update_no_write (c : Common) (writer : UsdBridgeUsdWriter) (geomData : GeomData)
    (updateEval : UsdBridgeUpdateEvaluator) (timeEval : TimeEvaluator) (m : DataMemberId)
    (hm : m ≠ .SHAPEINDICES) (hp : updateEval.PerformsUpdate m = false) :
    (∀ a v tc, Event.Set a v tc ∈ UpdateUsdGeometry c writer geomData updateEval timeEval →
      governingMember (kindOf c geomData) a.name ≠ m) ∧
    (∀ a t, Event.SetInterpolation a t ∈
        UpdateUsdGeometry c writer geomData updateEval timeEval →
      governingMember (kindOf c geomData) a.name ≠ m) ∧
    (∀ n ∈ routineAttributes c writer geomData, governingMember (kindOf c geomData) n = m →
      Event.Clear n (timeEval.IsTimeVarying m) ∈
        UpdateUsdGeometry c writer geomData updateEval timeEval) := by
  refine ⟨?_, ?_, ?_⟩
  · intro a v tc hmem hgov
    have hne : a.name ≠ .protoIndices := by
      intro h
      rw [h] at hgov
      exact hm (by rw [← hgov]; rfl)
    have h := (UpdateUsdGeometry_traceOK c writer geomData updateEval timeEval).1 _ hmem hne
    rw [hgov, hp] at h
    exact absurd h.1 (by decide)
  · intro a t hmem hgov
    have h := (UpdateUsdGeometry_traceOK c writer geomData updateEval timeEval).1 _ hmem
    simp only [EventOK] at h
    rw [hgov, hp] at h
    exact absurd h.1 (by decide)
  · intro n hn hgov
    have hne : n ≠ .protoIndices := by
      intro h
      rw [h] at hgov
      exact hm (by rw [← hgov]; rfl)
    have h := UpdateUsdGeometry_clears c writer geomData updateEval timeEval n hn hne
    rw [hgov] at h
    exact h

/-- C4 at work: with no member updated, the sample mesh has no value set on its points or
extent, and its points attribute is still cleared. -/
theorem no_update_no_write_witness :
    updateNone.PerformsUpdate .POINTS = false ∧
    (∀ a v tc, Event.Set a v tc ∈
        UpdateUsdGeometry sampleCommon sampleWriter (.mesh sampleMesh) updateNone
          (timeEvaluatorAt (fun _ => false) 1) →
      governingMember (kindOf sampleCommon (.mesh sampleMesh)) a.name ≠ .POINTS) ∧
    Event.Clear .points false ∈
      UpdateUsdGeometry sampleCommon sampleWriter (.mesh sampleMesh) updateNone
        (timeEvaluatorAt (fun _ => false) 1) :=
  ⟨rfl,
   (no_update_no_write sampleCommon sampleWriter (.mesh sampleMesh) updateNone
      (timeEvaluatorAt (fun _ => false) 1) .POINTS (by decide) rfl).1,
   (no_update_no_write sampleCommon sampleWriter (.mesh sampleMesh) updateNone
      (timeEvaluatorAt (fun _ => false) 1) .POINTS (by decide) rfl).2.2 .points
      (by decide) rfl⟩

/-! ## Extent, conversions and colours (C5 to C10) -/

theorem foldl_stepMin (l : List ℚ) (a : ℚ) :
    l.foldl stepMin a ≤ a ∧ (∀ b ∈ l, l.foldl stepMin a ≤ b) ∧
      (l.foldl stepMin a = a ∨ l.foldl stepMin a ∈ l) := by
  induction l generalizing a with
  | nil => simp
  | cons x l ih =>
    simp only [List.foldl_cons, List.mem_cons, forall_eq_or_imp]
    obtain ⟨h1, h2, h3⟩ := ih (stepMin a x)
    have hs : stepMin a x ≤ a ∧ stepMin a x ≤ x := by
      unfold stepMin
      split <;> constructor <;> linarith
    refine ⟨le_trans h1 hs.1, ⟨le_trans h1 hs.2, h2⟩, ?_⟩
    rcases h3 with h3 | h3
    · rw [h3]
      unfold stepMin
      split
      · exact Or.inr (Or.inl rfl)
      · exact Or.inl rfl
    · exact Or.inr (Or.inr h3)

theorem foldl_stepMax (l : List ℚ) (a : ℚ) :
    a ≤ l.foldl stepMax a ∧ (∀ b ∈ l, b ≤ l.foldl stepMax a) ∧
      (l.foldl stepMax a = a ∨ l.foldl stepMax a ∈ l) := by
  induction l generalizing a with
  | nil => simp
  | cons x l ih =>
    simp only [List.foldl_cons, List.mem_cons, forall_eq_or_imp]
    obtain ⟨h1, h2, h3⟩ := ih (stepMax a x)
    have hs : a ≤ stepMax a x ∧ x ≤ stepMax a x := by
      unfold stepMax
      split <;> constructor <;> linarith
    refine ⟨le_trans hs.1 h1, ⟨le_trans hs.2 h1, h2⟩, ?_⟩
    rcases h3 with h3 | h3
    · rw [h3]
      unfold stepMax
      split
      · exact Or.inr (Or.inl rfl)
      · exact Or.inl rfl
    · exact Or.inr (Or.inr h3)

theorem foldl_UnionWith (l : List (GfVec3 ℚ)) (r : GfRange3f) :
    (l.foldl GfRange3f.UnionWith r).min.x = (l.map (fun p => p.x)).foldl stepMin r.min.x ∧
    (l.foldl GfRange3f.UnionWith r).min.y = (l.map (fun p => p.y)).foldl stepMin r.min.y ∧
    (l.foldl GfRange3f.UnionWith r).min.z = (l.map (fun p => p.z)).foldl stepMin r.min.z ∧
    (l.foldl GfRange3f.UnionWith r).max.x = (l.map (fun p => p.x)).foldl stepMax r.max.x ∧
    (l.foldl GfRange3f.UnionWith r).max.y = (l.map (fun p => p.y)).foldl stepMax r.max.y ∧
    (l.foldl GfRange3f.UnionWith r).max.z = (l.map (fun p => p.z)).foldl stepMax r.max.z := by
  induction l generalizing r with
  | nil => simp
  | cons p l ih =>
    simp only [List.foldl_cons, List.map_cons]
    have h := ih (r.UnionWith p)
    simpa [GfRange3f.UnionWith, stepMin, stepMax] using h

theorem lower_bound_attained (l : List ℚ) (hne : l ≠ [])
    (hfin : ∀ b ∈ l, b ≤ FLT_MAX) :
    (∀ b ∈ l, l.foldl stepMin FLT_MAX ≤ b) ∧ l.foldl stepMin FLT_MAX ∈ l := by
  obtain ⟨h1, h2, h3⟩ := foldl_stepMin l FLT_MAX
  refine ⟨h2, ?_⟩
  rcases h3 with h3 | h3
  · obtain ⟨b, hb⟩ := List.exists_mem_of_ne_nil l hne
    have : b = l.foldl stepMin FLT_MAX := le_antisymm (by rw [h3]; exact hfin b hb) (h2 b hb)
    rw [← this]
    exact hb
  · exact h3

theorem upper_bound_attained (l : List ℚ) (hne : l ≠ [])
    (hfin : ∀ b ∈ l, -FLT_MAX ≤ b) :
    (∀ b ∈ l, b ≤ l.foldl stepMax (-FLT_MAX)) ∧ l.foldl stepMax (-FLT_MAX) ∈ l := by
  obtain ⟨h1, h2, h3⟩ := foldl_stepMax l (-FLT_MAX)
  refine ⟨h2, ?_⟩
  rcases h3 with h3 | h3
  · obtain ⟨b, hb⟩ := List.exists_mem_of_ne_nil l hne
    have : b = l.foldl stepMax (-FLT_MAX) := le_antisymm (h2 b hb) (by rw [h3]; exact hfin b hb)
    rw [← this]
    exact hb
  · exact h3

theorem extentOf_bounds (pts : List (GfVec3 ℚ)) (hne : pts ≠ [])
    (hfin : ∀ p ∈ pts, inFloatRange p.x ∧ inFloatRange p.y ∧ inFloatRange p.z) :
    (∀ p ∈ pts, (extentOf pts).min.x ≤ p.x ∧ p.x ≤ (extentOf pts).max.x ∧
      (extentOf pts).min.y ≤ p.y ∧ p.y ≤ (extentOf pts).max.y ∧
      (extentOf pts).min.z ≤ p.z ∧ p.z ≤ (extentOf pts).max.z) ∧
    (∃ p ∈ pts, p.x = (extentOf pts).min.x) ∧ (∃ p ∈ pts, p.y = (extentOf pts).min.y) ∧
    (∃ p ∈ pts, p.z = (extentOf pts).min.z) ∧ (∃ p ∈ pts, p.x = (extentOf pts).max.x) ∧
    (∃ p ∈ pts, p.y = (extentOf pts).max.y) ∧ (∃ p ∈ pts, p.z = (extentOf pts).max.z) := by
  obtain ⟨e1, e2, e3, e4, e5, e6⟩ := foldl_UnionWith pts GfRange3f.empty
  have hx : pts.map (fun p => p.x) ≠ [] := by simpa using hne
  have hy : pts.map (fun p => p.y) ≠ [] := by simpa using hne
  have hz : pts.map (fun p => p.z) ≠ [] := by simpa using hne
  have lx := lower_bound_attained _ hx (by
    intro b hb
    obtain ⟨p, hp, rfl⟩ := List.mem_map.1 hb
    exact (hfin p hp).1.2)
  have ly := lower_bound_attained _ hy (by
    intro b hb
    obtain ⟨p, hp, rfl⟩ := List.mem_map.1 hb
    exact (hfin p hp).2.1.2)
  have lz := lower_bound_attained _ hz (by
    intro b hb
    obtain ⟨p, hp, rfl⟩ := List.mem_map.1 hb
    exact (hfin p hp).2.2.2)
  have ux := upper_bound_attained _ hx (by
    intro b hb
    obtain ⟨p, hp, rfl⟩ := List.mem_map.1 hb
    exact (hfin p hp).1.1)
  have uy := upper_bound_attained _ hy (by
    intro b hb
    obtain ⟨p, hp, rfl⟩ := List.mem_map.1 hb
    exact (hfin p hp).2.1.1)
  have uz := upper_bound_attained _ hz (by
    intro b hb
    obtain ⟨p, hp, rfl⟩ := List.mem_map.1 hb
    exact (hfin p hp).2.2.1)
  unfold extentOf
  rw [e1, e2, e3, e4, e5, e6]
  refine ⟨?_, ?_, ?_, ?_, ?_, ?_, ?_⟩
  · intro p hp
    exact ⟨lx.1 _ (List.mem_map_of_mem _ hp), ux.1 _ (List.mem_map_of_mem _ hp),
      ly.1 _ (List.mem_map_of_mem _ hp), uy.1 _ (List.mem_map_of_mem _ hp),
      lz.1 _ (List.mem_map_of_mem _ hp), uz.1 _ (List.mem_map_of_mem _ hp)⟩
  · obtain ⟨p, hp, h⟩ := List.mem_map.1 lx.2
    exact ⟨p, hp, h⟩
  · obtain ⟨p, hp, h⟩ := List.mem_map.1 ly.2
    exact ⟨p, hp, h⟩
  · obtain ⟨p, hp, h⟩ := List.mem_map.1 lz.2
    exact ⟨p, hp, h⟩
  · obtain ⟨p, hp, h⟩ := List.mem_map.1 ux.2
    exact ⟨p, hp, h⟩
  · obtain ⟨p, hp, h⟩ := List.mem_map.1 uy.2
    exact ⟨p, hp, h⟩
  · obtain ⟨p, hp, h⟩ := List.mem_map.1 uz.2
    exact ⟨p, hp, h⟩

theorem extentOf_contains (pts : List (GfVec3 ℚ)) :
    ∀ p ∈ pts, (extentOf pts).min.x ≤ p.x ∧ p.x ≤ (extentOf pts).max.x ∧
      (extentOf pts).min.y ≤ p.y ∧ p.y ≤ (extentOf pts).max.y ∧
      (extentOf pts).min.z ≤ p.z ∧ p.z ≤ (extentOf pts).max.z := by
  obtain ⟨e1, e2, e3, e4, e5, e6⟩ := foldl_UnionWith pts GfRange3f.empty
  intro p hp
  unfold extentOf
  rw [e1, e2, e3, e4, e5, e6]
  exact ⟨(foldl_stepMin _ _).2.1 _ (List.mem_map_of_mem _ hp),
    (foldl_stepMax _ _).2.1 _ (List.mem_map_of_mem _ hp),
    (foldl_stepMin _ _).2.1 _ (List.mem_map_of_mem _ hp),
    (foldl_stepMax _ _).2.1 _ (List.mem_map_of_mem _ hp),
    (foldl_stepMin _ _).2.1 _ (List.mem_map_of_mem _ hp),
    (foldl_stepMax _ _).2.1 _ (List.mem_map_of_mem _ hp)⟩

theorem toUnsigned_le (w : Nat) (z : Int) : toUnsigned w z ≤ 2 ^ w - 1 := by
  unfold toUnsigned
  have hpos : (0 : Int) < (2 : Int) ^ w := by positivity
  have h1 := Int.emod_lt_of_pos z hpos
  have h2 := Int.emod_nonneg z (ne_of_gt hpos)
  have h3 : ((z % (2 : Int) ^ w).toNat : Int) = z % (2 : Int) ^ w := Int.toNat_of_nonneg h2
  have h4 : ((z % (2 : Int) ^ w).toNat : Int) < ((2 ^ w : Nat) : Int) := by
    rw [h3]
    push_cast
    exact h1
  have h5 : (z % (2 : Int) ^ w).toNat < 2 ^ w := by exact_mod_cast h4
  omega

theorem map_range_getElem? {β : Type} (f : Nat → β) (n i : Nat) (b : β)
    (h : ((List.range n).map f)[i]? = some b) : i < n ∧ b = f i := by
  rw [List.getElem?_map] at h
  by_cases hi : i < n
  · rw [List.getElem?_range hi] at h
    simp only [Option.map_some', Option.some.injEq] at h
    exact ⟨hi, h.symm⟩
  · rw [List.getElem?_eq_none (by simpa using hi)] at h
    simp at h

theorem ExpandToColorNormalize_spec (T : UnsignedType) (k : Nat) (hk1 : 1 ≤ k) (hk4 : k ≤ 4)
    (data : Buffer) (n : Nat) (p : UsdAttribute) (tc : UsdTimeCode) :
    ∃ cols : List (GfVec4 ℚ),
      ExpandToColorNormalize T k data n p tc = [Event.Set p (.Vec4fArray cols) tc] ∧
      cols.length = n ∧
      ∀ i col, cols[i]? = some col →
        (∀ j, j < k → col.channel j =
          to_float (to_double ((T.elem data (i * k + j) : ℚ) * to_double (1 / (T.max : ℚ))))) ∧
        (∀ j, k ≤ j → j < 3 → col.channel j = 0) ∧
        (k < 4 → col.channel 3 = 1) := by
  interval_cases k
  all_goals
    refine ⟨_, by simp only [ExpandToColorNormalize]; rfl, by simp, ?_⟩
    intro i col h
    simp only [OfNat.ofNat_ne_one, ↓reduceIte, Nat.succ_ne_self, Nat.reduceEqDiff] at h
    obtain ⟨_, rfl⟩ := map_range_getElem? _ _ _ _ h
    refine ⟨?_, ?_, ?_⟩
    · intro j hj
      interval_cases j <;> simp [GfVec4.channel]
    · intro j hj1 hj2
      interval_cases j <;> simp [GfVec4.channel]
    · intro h4
      first
        | exact absurd h4 (by decide)
        | simp [GfVec4.channel]

theorem ExpandToColor_spec (typedInput : Buffer → Nat → ℚ) (toFloat : ℚ → ℚ) (k : Nat)
    (hk1 : 1 ≤ k)
    (hk3 : k ≤ 3) (data : Buffer) (n : Nat) (p : UsdAttribute) (tc : UsdTimeCode) :
    ∃ cols : List (GfVec4 ℚ),
      ExpandToColor typedInput toFloat k data n p tc = [Event.Set p (.Vec4fArray cols) tc] ∧
      cols.length = n ∧
      ∀ i col, cols[i]? = some col →
        (∀ j, j < k → col.channel j = toFloat (typedInput data (i * k + j))) ∧
        (∀ j, k ≤ j → j < 3 → col.channel j = 0) ∧
        col.channel 3 = 1 := by
  interval_cases k
  all_goals
    refine ⟨_, by simp only [ExpandToColor]; rfl, by simp, ?_⟩
    intro i col h
    simp only [OfNat.ofNat_ne_one, ↓reduceIte, Nat.succ_ne_self, Nat.reduceEqDiff] at h
    obtain ⟨_, rfl⟩ := map_range_getElem? _ _ _ _ h
    refine ⟨?_, ?_, ?_⟩
    · intro j hj
      interval_cases j <;> simp [GfVec4.channel]
    · intro j hj1 hj2
      interval_cases j <;> simp [GfVec4.channel]
    · simp [GfVec4.channel]

theorem UpdateUsdGeomColors_unsigned (data : Buffer) (ColorsType : UsdBridgeType) (w k : Nat)
    (hty : unsignedColorType ColorsType = some (w, k)) (PerPrimColors : Bool)
    (NumPoints numPrims : Nat) (ue : UsdBridgeUpdateEvaluator) (te : TimeEvaluator)
    (hp : ue.PerformsUpdate .COLORS = true) :
    (w = 8 ∨ w = 16 ∨ w = 32) ∧ 1 ≤ k ∧ k ≤ 4 ∧
    UpdateUsdGeomColors (some data) ColorsType PerPrimColors NumPoints numPrims ue te =
      [Event.Clear .color (te.IsTimeVarying .COLORS)] ++
      ExpandToColorNormalize ⟨w⟩ k data (if PerPrimColors = true then numPrims else NumPoints)
        ⟨outGeom (te.IsTimeVarying .COLORS), .color⟩ (te.Eval .COLORS) ++
      [Event.SetInterpolation ⟨.uniform, .color⟩
        (if PerPrimColors = true then TfToken.uniform else TfToken.vertex)] := by
  cases ColorsType <;> simp [unsignedColorType] at hty <;> obtain ⟨rfl, rfl⟩ := hty <;>
    simp [UpdateUsdGeomColors, hp, uint8_t, uint16_t, uint32_t]

theorem UpdateUsdGeomColors_real (data : Buffer) (ColorsType : UsdBridgeType) (k : Nat)
    (hty : realColorType ColorsType = some k) (PerPrimColors : Bool)
    (NumPoints numPrims : Nat) (ue : UsdBridgeUpdateEvaluator) (te : TimeEvaluator)
    (hp : ue.PerformsUpdate .COLORS = true) :
    1 ≤ k ∧ k ≤ 4 ∧
    ∃ cols : List (GfVec4 ℚ),
      UpdateUsdGeomColors (some data) ColorsType PerPrimColors NumPoints numPrims ue te =
        [Event.Clear .color (te.IsTimeVarying .COLORS),
         Event.Set ⟨outGeom (te.IsTimeVarying .COLORS), .color⟩ (.Vec4fArray cols)
           (te.Eval .COLORS),
         Event.SetInterpolation ⟨.uniform, .color⟩
           (if PerPrimColors = true then TfToken.uniform else TfToken.vertex)] ∧
      cols.length = (if PerPrimColors = true then numPrims else NumPoints) ∧
      ∀ i col, cols[i]? = some col →
        (∀ j, j < k → col.channel j =
          (if doubleColorType ColorsType = true then to_float (readReal data (i * k + j))
            else readReal data (i * k + j))) ∧
        (∀ j, k ≤ j → j < 3 → col.channel j = 0) ∧
        (k < 4 → col.channel 3 = 1) := by
  have h4 : ∀ (f : ℚ → ℚ) (n : Nat), ∃ cols : List (GfVec4 ℚ),
      cols = (List.range n).map (fun i => (⟨f (readReal data (i * 4)),
        f (readReal data (i * 4 + 1)), f (readReal data (i * 4 + 2)),
        f (readReal data (i * 4 + 3))⟩ : GfVec4 ℚ)) ∧ cols.length = n ∧
      ∀ i col, cols[i]? = some col →
        (∀ j, j < 4 → col.channel j = f (readReal data (i * 4 + j))) ∧
        (∀ j, 4 ≤ j → j < 3 → col.channel j = 0) ∧
        (4 < 4 → col.channel 3 = 1) := by
    intro f n
    refine ⟨_, rfl, by simp, ?_⟩
    intro i col h
    obtain ⟨_, rfl⟩ := map_range_getElem? _ _ _ _ h
    refine ⟨?_, ?_, ?_⟩
    · intro j hj
      interval_cases j <;> simp [GfVec4.channel]
    · intro j hj1 hj2
      omega
    · intro h
      omega
  have h3 : ∀ (f : ℚ → ℚ) (k : Nat) (hk1 : 1 ≤ k) (hk3 : k ≤ 3) (n : Nat) (p : UsdAttribute)
      (tc : UsdTimeCode), ∃ cols : List (GfVec4 ℚ),
      ExpandToColor readReal f k data n p tc = [Event.Set p (.Vec4fArray cols) tc] ∧
      cols.length = n ∧
      ∀ i col, cols[i]? = some col →
        (∀ j, j < k → col.channel j = f (readReal data (i * k + j))) ∧
        (∀ j, k ≤ j → j < 3 → col.channel j = 0) ∧
        (k < 4 → col.channel 3 = 1) := by
    intro f k hk1 hk3 n p tc
    obtain ⟨cols, h1, h2, h3⟩ := ExpandToColor_spec readReal f k hk1 hk3 data n p tc
    exact ⟨cols, h1, h2, fun i col h => ⟨(h3 i col h).1, (h3 i col h).2.1,
      fun _ => (h3 i col h).2.2⟩⟩
  cases ColorsType <;> simp [realColorType] at hty
  case FLOAT4 =>
    subst hty
    obtain ⟨cols, hc, hlen, hcols⟩ := h4 id
      (if PerPrimColors = true then numPrims else NumPoints)
    refine ⟨by decide, by decide, cols, ?_, hlen, ?_⟩
    · simp [UpdateUsdGeomColors, hp, AssignArrayToPrimvar, AssignArrayToPrimvar.usdArray,
        VtVec4fArray, hc, readVec4]
    · simpa [doubleColorType] using hcols
  case DOUBLE4 =>
    subst hty
    obtain ⟨cols, hc, hlen, hcols⟩ := h4 to_float
      (if PerPrimColors = true then numPrims else NumPoints)
    refine ⟨by decide, by decide, cols, ?_, hlen, ?_⟩
    · simp [UpdateUsdGeomColors, hp, AssignArrayToPrimvarConvert,
        AssignArrayToPrimvarConvert.usdArray, VtVec4fArray, hc, GfVec4d, to_GfVec4f, readVec4]
    · simpa [doubleColorType] using hcols
  case FLOAT | FLOAT2 | FLOAT3 =>
    obtain ⟨cols, hexp, hlen, hcols⟩ := h3 id k (by omega) (by omega)
      (if PerPrimColors = true then numPrims else NumPoints)
      ⟨outGeom (te.IsTimeVarying .COLORS), .color⟩ (te.Eval .COLORS)
    subst hty
    refine ⟨by decide, by decide, cols, ?_, hlen, ?_⟩
    · simp only [UpdateUsdGeomColors, hp, if_true, float, hexp]
      rfl
    · simpa [doubleColorType] using hcols
  case DOUBLE | DOUBLE2 | DOUBLE3 =>
    obtain ⟨cols, hexp, hlen, hcols⟩ := h3 to_float k (by omega) (by omega)
      (if PerPrimColors = true then numPrims else NumPoints)
      ⟨outGeom (te.IsTimeVarying .COLORS), .color⟩ (te.Eval .COLORS)
    subst hty
    refine ⟨by decide, by decide, cols, ?_, hlen, ?_⟩
    · simp only [UpdateUsdGeomColors, hp, if_true, double, hexp]
      rfl
    · simpa [doubleColorType] using hcols

theorem realColorType_of_unsigned {ty : UsdBridgeType} {wk : Nat × Nat}
    (h : unsignedColorType ty = some wk) : realColorType ty = none := by
  cases ty <;> simp [unsignedColorType] at h <;> rfl

theorem AssignArrayToPrimvar_single (A : ArrayType α)
    (hA : ∀ l, (A.value l).size = l.length) (data : Buffer) (n : Nat) (p : UsdAttribute)
    (tc : UsdTimeCode) :
    ∃ v, AssignArrayToPrimvar A data n p tc = [Event.Set p v tc] ∧ v.size = n :=
  ⟨_, rfl, by rw [hA]; simp [AssignArrayToPrimvar.usdArray]⟩

theorem AssignArrayToPrimvarConvert_single (A : ArrayType α) (rd : Buffer → Nat → ε)
    (cv : ε → α) (hA : ∀ l, (A.value l).size = l.length) (data : Buffer) (n : Nat)
    (p : UsdAttribute) (tc : UsdTimeCode) :
    ∃ v, AssignArrayToPrimvarConvert A rd cv data n p tc = [Event.Set p v tc] ∧ v.size = n :=
  ⟨_, rfl, by rw [hA]; simp [AssignArrayToPrimvarConvert.usdArray]⟩

theorem CopyArrayToPrimvar_single (tt : TypeTable) (data : Buffer) (ty : UsdBridgeType)
    (hty : ty ≠ .UNDEFINED) (n : Nat) (p : UsdAttribute) (tc : UsdTimeCode) :
    ∃ v, CopyArrayToPrimvar tt data ty n p tc = [Event.Set p v tc] ∧
      v.size = n * entriesPerElement tt ty := by
  cases ty
  case UNDEFINED => exact absurd rfl hty
  all_goals
    refine ⟨_, rfl, ?_⟩
    simp [AssignArrayToPrimvar.usdArray, AssignArrayToPrimvarConvert.usdArray,
      VtUCharArray, VtUIntArray, VtIntArray, VtInt64Array, VtUInt64Array, VtHalfArray,
      VtFloatArray, VtDoubleArray, VtVec2iArray, VtVec2fArray, VtVec2dArray, VtVec3iArray,
      VtVec3fArray, VtVec3dArray, VtVec4iArray, VtVec4fArray, VtVec4dArray,
      VtValue.size, entriesPerElement, isFlattened]

theorem countAgrees_of_single {perPrim : Bool} {numPrims NumPoints : Nat} {attr : UsdAttribute}
    {tc : UsdTimeCode} {entries : Nat} {accepted : Prop} {body : List Event} {c : AttrName}
    {f : Bool}
    (hbody : (∃ v, body = [Event.Set attr v tc] ∧
        v.size = (if perPrim = true then numPrims else NumPoints) * entries) ∨
      (¬ accepted ∧ ∃ msg, body = [Event.Log msg])) :
    CountAgrees perPrim numPrims NumPoints attr tc entries accepted
      ([Event.Clear c f] ++ body ++ [Event.SetInterpolation ⟨.uniform, attr.name⟩
        (if perPrim = true then TfToken.uniform else TfToken.vertex)]) := by
  unfold CountAgrees
  rcases hbody with ⟨v, rfl, hv⟩ | ⟨hna, msg, rfl⟩
  · refine ⟨by simp, ?_, ?_, ?_⟩
    · intro a t h
      simp at h
      exact h.2
    · intro a v2 tc2 h
      simp at h
      rw [h.2.1]
      exact hv
    · intro _
      exact ⟨v, by simp, hv⟩
  · refine ⟨by simp, ?_, ?_, ?_⟩
    · intro a t h
      simp at h
      exact h.2
    · intro a v2 tc2 h
      simp at h
    · intro h
      exact absurd h hna

theorem UpdateUsdGeomNormals_count (data : Buffer) (NormalsType : UsdBridgeType)
    (PerPrimNormals : Bool) (NumPoints numPrims : Nat) (ue : UsdBridgeUpdateEvaluator)
    (te : TimeEvaluator) (hp : ue.PerformsUpdate .NORMALS = true) :
    CountAgrees PerPrimNormals numPrims NumPoints
      ⟨outGeom (te.IsTimeVarying .NORMALS), .normals⟩ (te.Eval .NORMALS) 1
      (NormalsType = .FLOAT3 ∨ NormalsType = .DOUBLE3)
      (UpdateUsdGeomNormals (some data) NormalsType PerPrimNormals NumPoints numPrims ue te) := by
  simp only [UpdateUsdGeomNormals, hp, if_true, ← List.append_assoc]
  apply countAgrees_of_single
  rw [mul_one]
  split
  · refine Or.inl (AssignArrayToPrimvar_single _ ?_ data _ _ _)
    intro l
    rfl
  · refine Or.inl (AssignArrayToPrimvarConvert_single _ _ _ ?_ data _ _ _)
    intro l
    rfl
  · rename_i h1 h2
    exact Or.inr ⟨fun h => h.elim h1 h2, _, rfl⟩

theorem UpdateUsdGeomTexCoords_count (Attributes : List UsdBridgeAttribute) (data : Buffer)
    (hdata : (attributeAt Attributes 0).Data = some data)
    (NumPoints numPrims : Nat) (ue : UsdBridgeUpdateEvaluator)
    (te : TimeEvaluator) (hp : ue.PerformsUpdate (.ATTRIBUTE 0) = true) :
    CountAgrees (attributeAt Attributes 0).PerPrimData numPrims NumPoints
      ⟨outGeom (te.IsTimeVarying (.ATTRIBUTE 0)), .st⟩ (te.Eval (.ATTRIBUTE 0)) 1
      ((attributeAt Attributes 0).DataType = .FLOAT2 ∨
        (attributeAt Attributes 0).DataType = .DOUBLE2)
      (UpdateUsdGeomTexCoords Attributes NumPoints numPrims ue te) := by
  simp only [UpdateUsdGeomTexCoords, hp, if_true, hdata, ← List.append_assoc]
  apply countAgrees_of_single
  rw [mul_one]
  split
  · refine Or.inl (AssignArrayToPrimvar_single _ ?_ data _ _ _)
    intro l
    rfl
  · refine Or.inl (AssignArrayToPrimvarConvert_single _ _ _ ?_ data _ _ _)
    intro l
    rfl
  · rename_i h1 h2
    exact Or.inr ⟨fun h => h.elim h1 h2, _, rfl⟩

theorem UpdateUsdGeomAttribute_count (tt : TypeTable) (writer : UsdBridgeUsdWriter)
    (Attributes : List UsdBridgeAttribute) (attribIndex : Nat) (data : Buffer)
    (hdata : (attributeAt Attributes attribIndex).Data = some data)
    (NumPoints numPrims : Nat) (ue : UsdBridgeUpdateEvaluator) (te : TimeEvaluator)
    (hp : ue.PerformsUpdate (.ATTRIBUTE attribIndex) = true)
    (hvalid : writer.primvarValid
      ⟨outGeom (te.IsTimeVarying (.ATTRIBUTE attribIndex)), .attribute attribIndex⟩ = true) :
    CountAgrees (attributeAt Attributes attribIndex).PerPrimData numPrims NumPoints
      ⟨outGeom (te.IsTimeVarying (.ATTRIBUTE attribIndex)), .attribute attribIndex⟩
      (te.Eval (.ATTRIBUTE attribIndex))
      (entriesPerElement tt (attributeAt Attributes attribIndex).DataType)
      ((attributeAt Attributes attribIndex).DataType ≠ .UNDEFINED)
      (UpdateUsdGeomAttribute tt writer Attributes NumPoints numPrims ue te attribIndex) := by
  simp only [UpdateUsdGeomAttribute, hp, if_true, hdata, hvalid, Bool.not_true,
    Bool.false_eq_true, if_false, ← List.append_assoc]
  apply countAgrees_of_single
  by_cases hty : (attributeAt Attributes attribIndex).DataType = .UNDEFINED
  · refine Or.inr ⟨fun h => h hty, ?_⟩
    rw [hty]
    exact ⟨_, rfl⟩
  · exact Or.inl (CopyArrayToPrimvar_single tt data _ hty _ _ _)

theorem UpdateUsdGeomColors_count (data : Buffer) (ColorsType : UsdBridgeType)
    (PerPrimColors : Bool) (NumPoints numPrims : Nat) (ue : UsdBridgeUpdateEvaluator)
    (te : TimeEvaluator) (hp : ue.PerformsUpdate .COLORS = true) :
    CountAgrees PerPrimColors numPrims NumPoints
      ⟨outGeom (te.IsTimeVarying .COLORS), .color⟩ (te.Eval .COLORS) 1
      (colorComponents ColorsType ≠ none)
      (UpdateUsdGeomColors (some data) ColorsType PerPrimColors NumPoints numPrims ue te) := by
  cases hk : colorComponents ColorsType with
  | some k =>
    have hex : ∃ cols : List (GfVec4 ℚ),
        UpdateUsdGeomColors (some data) ColorsType PerPrimColors NumPoints numPrims ue te =
          [Event.Clear .color (te.IsTimeVarying .COLORS)] ++
          [Event.Set ⟨outGeom (te.IsTimeVarying .COLORS), .color⟩ (.Vec4fArray cols)
            (te.Eval .COLORS)] ++
          [Event.SetInterpolation ⟨.uniform, .color⟩
            (if PerPrimColors = true then TfToken.uniform else TfToken.vertex)] ∧
        cols.length = (if PerPrimColors = true then numPrims else NumPoints) := by
      unfold colorComponents at hk
      cases hu : unsignedColorType ColorsType with
      | some wk =>
        obtain ⟨w, k2⟩ := wk
        obtain ⟨_, hk1, hk4, htrace⟩ := UpdateUsdGeomColors_unsigned data ColorsType w k2 hu
          PerPrimColors NumPoints numPrims ue te hp
        obtain ⟨cols, hexp, hlen, _⟩ := ExpandToColorNormalize_spec ⟨w⟩ k2 hk1 hk4 data
          (if PerPrimColors = true then numPrims else NumPoints)
          ⟨outGeom (te.IsTimeVarying .COLORS), .color⟩ (te.Eval .COLORS)
        exact ⟨cols, by rw [htrace, hexp], hlen⟩
      | none =>
        rw [hu] at hk
        simp only at hk
        obtain ⟨_, _, cols, htrace, hlen, _⟩ := UpdateUsdGeomColors_real data ColorsType k hk
          PerPrimColors NumPoints numPrims ue te hp
        exact ⟨cols, by rw [htrace]; rfl, hlen⟩
    obtain ⟨cols, htrace, hlen⟩ := hex
    rw [htrace]
    apply countAgrees_of_single
    exact Or.inl ⟨_, rfl, by rw [mul_one]; exact hlen⟩
  | none =>
    have htrace : ∃ msg,
        UpdateUsdGeomColors (some data) ColorsType PerPrimColors NumPoints numPrims ue te =
          [Event.Clear .color (te.IsTimeVarying .COLORS)] ++ [Event.Log msg] ++
          [Event.SetInterpolation ⟨.uniform, .color⟩
            (if PerPrimColors = true then TfToken.uniform else TfToken.vertex)] := by
      cases ColorsType <;> simp [colorComponents, unsignedColorType, realColorType] at hk <;>
        exact ⟨_, by simp only [UpdateUsdGeomColors, hp, if_true]; rfl⟩
    obtain ⟨msg, htrace⟩ := htrace
    rw [htrace]
    apply countAgrees_of_single
    exact Or.inr ⟨fun h => h rfl, msg, rfl⟩

/-- C10 as amended, element count agrees with interpolation. For normals, st texture
coordinates, colours and generic attributes, when data is supplied and the update is
performed (and, for a generic attribute, its primvar exists on the selected prim), the
routine sets the interpolation token on the uniform prim, `uniform` if the per-primitive
flag of the member is set and `vertex` otherwise, and every array it sets holds `numPrims`
elements if the flag is set and `NumPoints` elements otherwise; such an array is set when
the type is one the member accepts. A generic attribute of a flattened type takes
`entriesPerElement` array entries per element. A generic attribute whose primvar does not
exist on the selected prim gets its clear call and a logged error, and nothing else. -/
theorem element_count_interpolation (tt : TypeTable) (writer : UsdBridgeUsdWriter)
    (NumPoints numPrims : Nat) (updateEval : UsdBridgeUpdateEvaluator)
    (timeEval : TimeEvaluator) :
    (∀ data NormalsType PerPrimNormals, updateEval.PerformsUpdate .NORMALS = true →
      CountAgrees PerPrimNormals numPrims NumPoints
        ⟨outGeom (timeEval.IsTimeVarying .NORMALS), .normals⟩ (timeEval.Eval .NORMALS) 1
        (NormalsType = .FLOAT3 ∨ NormalsType = .DOUBLE3)
        (UpdateUsdGeomNormals (some data) NormalsType PerPrimNormals NumPoints numPrims
          updateEval timeEval)) ∧
    (∀ Attributes data, (attributeAt Attributes 0).Data = some data →
      updateEval.PerformsUpdate (.ATTRIBUTE 0) = true →
      CountAgrees (attributeAt Attributes 0).PerPrimData numPrims NumPoints
        ⟨outGeom (timeEval.IsTimeVarying (.ATTRIBUTE 0)), .st⟩ (timeEval.Eval (.ATTRIBUTE 0)) 1
        ((attributeAt Attributes 0).DataType = .FLOAT2 ∨
          (attributeAt Attributes 0).DataType = .DOUBLE2)
        (UpdateUsdGeomTexCoords Attributes NumPoints numPrims updateEval timeEval)) ∧
    (∀ data ColorsType PerPrimColors, updateEval.PerformsUpdate .COLORS = true →
      CountAgrees PerPrimColors numPrims NumPoints
        ⟨outGeom (timeEval.IsTimeVarying .COLORS), .color⟩ (timeEval.Eval .COLORS) 1
        (colorComponents ColorsType ≠ none)
        (UpdateUsdGeomColors (some data) ColorsType PerPrimColors NumPoints numPrims
          updateEval timeEval)) ∧
    (∀ Attributes attribIndex data,
      (attributeAt Attributes attribIndex).Data = some data →
      updateEval.PerformsUpdate (.ATTRIBUTE attribIndex) = true →
      writer.primvarValid ⟨outGeom (timeEval.IsTimeVarying (.ATTRIBUTE attribIndex)),
        .attribute attribIndex⟩ = true →
      CountAgrees (attributeAt Attributes attribIndex).PerPrimData numPrims NumPoints
        ⟨outGeom (timeEval.IsTimeVarying (.ATTRIBUTE attribIndex)), .attribute attribIndex⟩
        (timeEval.Eval (.ATTRIBUTE attribIndex))
        (entriesPerElement tt (attributeAt Attributes attribIndex).DataType)
        ((attributeAt Attributes attribIndex).DataType ≠ .UNDEFINED)
        (UpdateUsdGeomAttribute tt writer Attributes NumPoints numPrims updateEval timeEval
          attribIndex)) ∧
    (∀ Attributes attribIndex,
      updateEval.PerformsUpdate (.ATTRIBUTE attribIndex) = true →
      writer.primvarValid ⟨outGeom (timeEval.IsTimeVarying (.ATTRIBUTE attribIndex)),
        .attribute attribIndex⟩ = false →
      ∃ msg, UpdateUsdGeomAttribute tt writer Attributes NumPoints numPrims updateEval timeEval
          attribIndex =
        [Event.Clear (.attribute attribIndex) (timeEval.IsTimeVarying (.ATTRIBUTE attribIndex)),
         Event.Log msg]) :=
  ⟨fun data ty f hp =>
      UpdateUsdGeomNormals_count data ty f NumPoints numPrims updateEval timeEval hp,
   fun Attributes data hd hp =>
      UpdateUsdGeomTexCoords_count Attributes data hd NumPoints numPrims updateEval timeEval hp,
   fun data ty f hp =>
      UpdateUsdGeomColors_count data ty f NumPoints numPrims updateEval timeEval hp,
   fun Attributes i data hd hp hv =>
      UpdateUsdGeomAttribute_count tt writer Attributes i data hd NumPoints numPrims
        updateEval timeEval hp hv,
   fun Attributes i hp hv => by
      simp only [UpdateUsdGeomAttribute, hp, hv, if_true, Bool.not_false]
      exact ⟨_, rfl⟩⟩

/-- C10 as amended at work: one per-primitive normal and one per-vertex attribute of three
floats on a geometry of three points and one primitive, and the same attribute when its
primvar does not exist. -/
theorem element_count_interpolation_witness :
    CountAgrees true 1 3 ⟨.uniform, .normals⟩ .Default 1
      (UsdBridgeType.FLOAT3 = .FLOAT3 ∨ UsdBridgeType.FLOAT3 = .DOUBLE3)
      (UpdateUsdGeomNormals (some (.reals [0, 0, 1])) .FLOAT3 true 3 1 updateAll
        (timeEvaluatorAt (fun _ => false) 1)) ∧
    CountAgrees false 1 3 ⟨.uniform, .attribute 0⟩ .Default
      (entriesPerElement sampleCommon.types .FLOAT) (UsdBridgeType.FLOAT ≠ .UNDEFINED)
      (UpdateUsdGeomAttribute sampleCommon.types sampleWriter
        [⟨some (.reals [4, 5, 6]), .FLOAT, false⟩] 3 1 updateAll
        (timeEvaluatorAt (fun _ => false) 1) 0) ∧
    (∃ msg, UpdateUsdGeomAttribute sampleCommon.types ⟨false, fun _ => false⟩
        [⟨some (.reals [4, 5, 6]), .FLOAT, false⟩] 3 1 updateAll
        (timeEvaluatorAt (fun _ => false) 1) 0 =
      [Event.Clear (.attribute 0) false, Event.Log msg]) :=
  ⟨(element_count_interpolation sampleCommon.types sampleWriter 3 1 updateAll
      (timeEvaluatorAt (fun _ => false) 1)).1 (.reals [0, 0, 1]) .FLOAT3 true rfl,
   (element_count_interpolation sampleCommon.types sampleWriter 3 1 updateAll
      (timeEvaluatorAt (fun _ => false) 1)).2.2.2.1 [⟨some (.reals [4, 5, 6]), .FLOAT, false⟩] 0
      (.reals [4, 5, 6]) rfl rfl rfl,
   (element_count_interpolation sampleCommon.types ⟨false, fun _ => false⟩ 3 1 updateAll
      (timeEvaluatorAt (fun _ => false) 1)).2.2.2.2 [⟨some (.reals [4, 5, 6]), .FLOAT, false⟩] 0
      rfl rfl⟩

/-- C10 as stated fails for a generic attribute whose primvar does not exist on the
selected prim: data is supplied and the update is performed, and the routine sets no
array and no interpolation token. -/
theorem element_count_interpolation_counterexample :
    (attributeAt [⟨some (.reals [4, 5, 6]), .FLOAT, false⟩] 0).Data = some (.reals [4, 5, 6]) ∧
    updateAll.PerformsUpdate (.ATTRIBUTE 0) = true ∧
    (∀ a t, Event.SetInterpolation a t ∉
      UpdateUsdGeomAttribute sampleCommon.types ⟨false, fun _ => false⟩
        [⟨some (.reals [4, 5, 6]), .FLOAT, false⟩] 3 1 updateAll
        (timeEvaluatorAt (fun _ => false) 1) 0) ∧
    (∀ a v tc, Event.Set a v tc ∉
      UpdateUsdGeomAttribute sampleCommon.types ⟨false, fun _ => false⟩
        [⟨some (.reals [4, 5, 6]), .FLOAT, false⟩] 3 1 updateAll
        (timeEvaluatorAt (fun _ => false) 1) 0) := by
  refine ⟨rfl, rfl, ?_, ?_⟩
  · intro a t
    simp [UpdateUsdGeomAttribute, updateAll, timeEvaluatorAt]
  · intro a v tc
    simp [UpdateUsdGeomAttribute, updateAll, timeEvaluatorAt]

/-- C6 fails on the code: `CopyArrayToPrimvar` reads a USHORT array as `short`, so the
16-bit unsigned source value 40000 is written as 4294941760. -/
theorem ushort_copy_value :
    readUnsigned 16 (.words [40000]) 0 = 40000 ∧
    CopyArrayToPrimvar sampleCommon.types (.words [40000]) .USHORT 1
        ⟨.uniform, .attribute 0⟩ .Default =
      [Event.Set ⟨.uniform, .attribute 0⟩ (.UIntArray [4294941760]) .Default] := by
  decide

/-- C7 fails on the code: `CopyArrayToPrimvar` reads a SHORT array as `unsigned short`,
so the 16-bit signed source value -1 (bit pattern 65535) is written as 65535. -/
theorem short_copy_value :
    readSigned 16 (.words [65535]) 0 = -1 ∧
    CopyArrayToPrimvar sampleCommon.types (.words [65535]) .SHORT 1
        ⟨.uniform, .attribute 0⟩ .Default =
      [Event.Set ⟨.uniform, .attribute 0⟩ (.IntArray [65535]) .Default] := by
  decide

/-! ## Mesh indices (C11 to C13) -/

theorem toSigned_of_range (w : Nat) (hw : 1 ≤ w) (z : Int) (h0 : 0 ≤ z)
    (h1 : z < (2 : Int) ^ (w - 1)) : toSigned w z = z := by
  unfold toSigned
  have hpow : (2 : Int) ^ w = 2 * (2 : Int) ^ (w - 1) := by
    rw [← pow_succ']
    congr 1
    omega
  have hlt : z < (2 : Int) ^ w := by
    rw [hpow]
    linarith
  simp only [Int.emod_eq_of_lt h0 hlt, h1, if_true]

theorem to_int_of_range (n : Nat) (h : n < 2 ^ 31) : to_int (n : Int) = n := by
  unfold to_int
  apply toSigned_of_range 32 (by decide)
  · exact Int.ofNat_nonneg n
  · have : ((n : Nat) : Int) < ((2 ^ 31 : Nat) : Int) := by exact_mod_cast h
    simpa using this

theorem toUnsigned_of_range (w : Nat) (n : Nat) (h : n < 2 ^ w) :
    toUnsigned w (n : Int) = n := by
  unfold toUnsigned
  have h2 : ((n : Nat) : Int) < (2 : Int) ^ w := by exact_mod_cast h
  rw [Int.emod_eq_of_lt (Int.ofNat_nonneg n) h2]
  simp

theorem UpdateUsdGeomIndices_defined (Indices : Option Buffer) (IndicesType : UsdBridgeType)
    (NumIndices numPrims : Nat) (ue : UsdBridgeUpdateEvaluator) (te : TimeEvaluator)
    (hp : ue.PerformsUpdate .INDICES = true) (hprims : numPrims ≠ 0) :
    UpdateUsdGeomIndices Indices IndicesType NumIndices numPrims ue te =
      [Event.Clear .faceVertexIndices (te.IsTimeVarying .INDICES),
       Event.Clear .faceVertexCounts (te.IsTimeVarying .INDICES),
       Event.Set ⟨outGeom (te.IsTimeVarying .INDICES), .faceVertexCounts⟩
         (.IntArray (List.replicate numPrims (to_int ((NumIndices / numPrims : Nat) : Int))))
         (te.Eval .INDICES)] ++
      (match Indices with
        | none =>
          [Event.Set ⟨outGeom (te.IsTimeVarying .INDICES), .faceVertexIndices⟩
            (.IntArray ((List.range NumIndices).map (fun (i : Nat) => to_int (i : Int))))
            (te.Eval .INDICES)]
        | some arrayData =>
          match IndicesType with
          | .ULONG => AssignArrayToPrimvarConvert VtIntArray uint64_t (fun u => to_int (u : Int))
              arrayData NumIndices ⟨outGeom (te.IsTimeVarying .INDICES), .faceVertexIndices⟩
              (te.Eval .INDICES)
          | .LONG => AssignArrayToPrimvarConvert VtIntArray int64_t to_int
              arrayData NumIndices ⟨outGeom (te.IsTimeVarying .INDICES), .faceVertexIndices⟩
              (te.Eval .INDICES)
          | .INT => AssignArrayToPrimvar VtIntArray arrayData NumIndices
              ⟨outGeom (te.IsTimeVarying .INDICES), .faceVertexIndices⟩ (te.Eval .INDICES)
          | .UINT => AssignArrayToPrimvar VtIntArray arrayData NumIndices
              ⟨outGeom (te.IsTimeVarying .INDICES), .faceVertexIndices⟩ (te.Eval .INDICES)
          | _ => [Event.Log "UsdGeom FaceVertexIndicesAttr should be (U)LONG or (U)INT."]) := by
  simp only [UpdateUsdGeomIndices, hp, if_true, hprims, if_false]
  rfl

theorem meshNumPrims_of_multiple (NumIndices k : Nat) (FaceVertexCount : Int)
    (hF : 1 ≤ FaceVertexCount) (hmul : (NumIndices : Int) = k * FaceVertexCount)
    (hrange : NumIndices < 2 ^ 31) :
    toUnsigned 64 (Int.tdiv (to_int (NumIndices : Int)) FaceVertexCount) = k ∧
    intDivUndefined (to_int (NumIndices : Int)) FaceVertexCount = false := by
  have hk : (k : Int) ≤ NumIndices := by
    rw [hmul]
    have : (0 : Int) ≤ k := Int.ofNat_nonneg k
    nlinarith
  have hk2 : k < 2 ^ 64 := by
    have : k ≤ NumIndices := by exact_mod_cast hk
    have : (2 : Nat) ^ 31 < 2 ^ 64 := by decide
    omega
  refine ⟨?_, ?_⟩
  · rw [to_int_of_range _ hrange, hmul,
      Int.tdiv_eq_ediv (mul_nonneg (Int.ofNat_nonneg k) (by omega)) (by omega),
      Int.mul_ediv_cancel _ (by omega)]
    exact toUnsigned_of_range 64 k hk2
  · have h1 : FaceVertexCount ≠ 0 := by omega
    have h2 : FaceVertexCount ≠ -1 := by omega
    simp [intDivUndefined, h1, h2]

theorem indices_events_size (Indices : Option Buffer) (IndicesType : UsdBridgeType)
    (NumIndices : Nat) (p : UsdAttribute) (tc : UsdTimeCode) (rest : List Event)
    (hrest : rest = (match Indices with
        | none =>
          [Event.Set p (.IntArray ((List.range NumIndices).map (fun (i : Nat) => to_int (i : Int)))) tc]
        | some arrayData =>
          match IndicesType with
          | .ULONG => AssignArrayToPrimvarConvert VtIntArray uint64_t (fun u => to_int (u : Int))
              arrayData NumIndices p tc
          | .LONG => AssignArrayToPrimvarConvert VtIntArray int64_t to_int
              arrayData NumIndices p tc
          | .INT => AssignArrayToPrimvar VtIntArray arrayData NumIndices p tc
          | .UINT => AssignArrayToPrimvar VtIntArray arrayData NumIndices p tc
          | _ => [Event.Log "UsdGeom FaceVertexIndicesAttr should be (U)LONG or (U)INT."])) :
    (∀ a v tc2, Event.Set a v tc2 ∈ rest → a = p ∧ tc2 = tc ∧ v.size = NumIndices) ∧
    ((Indices = none ∨ IndicesType = .ULONG ∨ IndicesType = .LONG ∨ IndicesType = .INT ∨
        IndicesType = .UINT) →
      ∃ v, rest = [Event.Set p v tc] ∧ v.size = NumIndices) := by
  have key : (∃ v, rest = [Event.Set p v tc] ∧ v.size = NumIndices) ∨
      ((∃ msg, rest = [Event.Log msg]) ∧
        ¬ (Indices = none ∨ IndicesType = .ULONG ∨ IndicesType = .LONG ∨
          IndicesType = .INT ∨ IndicesType = .UINT)) := by
    subst hrest
    cases Indices with
    | none =>
      refine Or.inl ⟨_, rfl, ?_⟩
      simp [VtValue.size]
    | some d =>
      cases IndicesType
      case ULONG =>
        refine Or.inl (AssignArrayToPrimvarConvert_single _ _ _ ?_ d _ p tc)
        intro l
        rfl
      case LONG =>
        refine Or.inl (AssignArrayToPrimvarConvert_single _ _ _ ?_ d _ p tc)
        intro l
        rfl
      case INT =>
        refine Or.inl (AssignArrayToPrimvar_single _ ?_ d _ p tc)
        intro l
        rfl
      case UINT =>
        refine Or.inl (AssignArrayToPrimvar_single _ ?_ d _ p tc)
        intro l
        rfl
      all_goals exact Or.inr ⟨⟨_, rfl⟩, by simp⟩
  rcases key with ⟨v, rfl, hv⟩ | ⟨⟨msg, rfl⟩, hna⟩
  · refine ⟨?_, fun _ => ⟨v, rfl, hv⟩⟩
    intro a v2 tc2 h
    simp only [List.mem_singleton, Event.Set.injEq] at h
    obtain ⟨rfl, rfl, rfl⟩ := h
    exact ⟨rfl, rfl, hv⟩
  · refine ⟨?_, fun h => absurd h hna⟩
    intro a v2 tc2 h
    simp at h

/-- C11, face vertex counts. For a mesh with `FaceVertexCount ≥ 1` and `NumIndices` a
positive multiple `k * FaceVertexCount` below `2 ^ 31` whose INDICES update is performed,
the trace of `UpdateUsdGeometry` ends with the trace of the index routine: the two clear
calls, a face-vertex-counts array of `NumIndices / FaceVertexCount` entries all equal to
`FaceVertexCount`, whose sum is `NumIndices`, and then the face-vertex-indices events, in
which every array set has `NumIndices` entries; such an array is set when the index
buffer is absent or of an accepted type. -/
theorem face_vertex_counts (c : Common) (writer : UsdBridgeUsdWriter)
    (geomData : UsdBridgeMeshData) (updateEval : UsdBridgeUpdateEvaluator)
    (timeEval : TimeEvaluator) (k : Nat) (hF : 1 ≤ geomData.FaceVertexCount) (hk : 1 ≤ k)
    (hmul : (geomData.NumIndices : Int) = k * geomData.FaceVertexCount)
    (hrange : geomData.NumIndices < 2 ^ 31)
    (hp : updateEval.PerformsUpdate .INDICES = true) :
    ∃ (pre : List Event) (counts : List Int) (rest : List Event),
      UpdateUsdGeometry c writer (.mesh geomData) updateEval timeEval =
        pre ++
        [Event.Clear .faceVertexIndices (timeEval.IsTimeVarying .INDICES),
         Event.Clear .faceVertexCounts (timeEval.IsTimeVarying .INDICES),
         Event.Set ⟨outGeom (timeEval.IsTimeVarying .INDICES), .faceVertexCounts⟩
           (.IntArray counts) (timeEval.Eval .INDICES)] ++ rest ∧
      (counts.length : Int) = (geomData.NumIndices : Int) / geomData.FaceVertexCount ∧
      (∀ x ∈ counts, x = geomData.FaceVertexCount) ∧
      counts.sum = (geomData.NumIndices : Int) ∧
      (∀ a v tc, Event.Set a v tc ∈ rest →
        a = ⟨outGeom (timeEval.IsTimeVarying .INDICES), .faceVertexIndices⟩ ∧
        tc = timeEval.Eval .INDICES ∧ v.size = geomData.NumIndices) ∧
      ((geomData.Indices = none ∨ geomData.IndicesType = .ULONG ∨
          geomData.IndicesType = .LONG ∨ geomData.IndicesType = .INT ∨
          geomData.IndicesType = .UINT) →
        ∃ v, rest = [Event.Set ⟨outGeom (timeEval.IsTimeVarying .INDICES), .faceVertexIndices⟩
          v (timeEval.Eval .INDICES)] ∧ v.size = geomData.NumIndices) := by
  obtain ⟨hprims, hdiv⟩ := meshNumPrims_of_multiple geomData.NumIndices k
    geomData.FaceVertexCount hF hmul hrange
  have hk0 : k ≠ 0 := by omega
  have hFnat : geomData.FaceVertexCount = ((geomData.FaceVertexCount.toNat : Nat) : Int) :=
    (Int.toNat_of_nonneg (by omega)).symm
  have hmulNat : geomData.NumIndices = k * geomData.FaceVertexCount.toNat := by
    have : (geomData.NumIndices : Int) = ((k * geomData.FaceVertexCount.toNat : Nat) : Int) := by
      rw [hmul]
      push_cast
      rw [← hFnat]
    exact_mod_cast this
  have hFle : geomData.FaceVertexCount.toNat < 2 ^ 31 := by
    have : geomData.FaceVertexCount.toNat ≤ k * geomData.FaceVertexCount.toNat :=
      Nat.le_mul_of_pos_left _ (by omega)
    omega
  have hquot : geomData.NumIndices / k = geomData.FaceVertexCount.toNat := by
    rw [hmulNat]
    exact Nat.mul_div_cancel_left _ (by omega)
  have hvc : to_int ((geomData.NumIndices / k : Nat) : Int) = geomData.FaceVertexCount := by
    rw [hquot, to_int_of_range _ hFle, ← hFnat]
  have htrace := UpdateUsdGeomIndices_defined geomData.Indices geomData.IndicesType
    geomData.NumIndices k updateEval timeEval hp hk0
  rw [hvc] at htrace
  obtain ⟨hsize, hex⟩ := indices_events_size geomData.Indices geomData.IndicesType
    geomData.NumIndices ⟨outGeom (timeEval.IsTimeVarying .INDICES), .faceVertexIndices⟩
    (timeEval.Eval .INDICES) _ rfl
  obtain ⟨pre, hpre⟩ : ∃ pre, UpdateUsdGeometry c writer (.mesh geomData) updateEval timeEval =
      pre ++ UpdateUsdGeomIndices geomData.Indices geomData.IndicesType geomData.NumIndices k
        updateEval timeEval :=
    ⟨_, by
      simp only [UpdateUsdGeometry, UpdateUsdGeometry.mesh, hdiv, Bool.false_eq_true, if_false,
        hprims]
      rfl⟩
  refine ⟨pre, List.replicate k geomData.FaceVertexCount, _, ?_, ?_, ?_, ?_, hsize, hex⟩
  · rw [hpre, htrace, ← List.append_assoc]
  · rw [List.length_replicate, hmul]
    exact (Int.mul_ediv_cancel _ (by omega)).symm
  · intro x hx
    exact (List.mem_replicate.1 hx).2
  · rw [List.sum_replicate, hmul]
    simp

/-- C11 at work: two triangles. -/
theorem face_vertex_counts_witness :
    ∃ (pre : List Event) (counts : List Int) (rest : List Event),
      UpdateUsdGeometry sampleCommon sampleWriter
          (.mesh { sampleMesh with NumIndices := 6 }) updateAll
          (timeEvaluatorAt (fun _ => false) 1) =
        pre ++
        [Event.Clear .faceVertexIndices false, Event.Clear .faceVertexCounts false,
         Event.Set ⟨.uniform, .faceVertexCounts⟩ (.IntArray counts) .Default] ++ rest ∧
      (counts.length : Int) = (6 : Int) / 3 ∧
      (∀ x ∈ counts, x = 3) ∧
      counts.sum = 6 ∧
      (∀ a v tc, Event.Set a v tc ∈ rest →
        a = ⟨.uniform, .faceVertexIndices⟩ ∧ tc = .Default ∧ v.size = 6) ∧
      (((none : Option Buffer) = none ∨ UsdBridgeType.UNDEFINED = .ULONG ∨
          UsdBridgeType.UNDEFINED = .LONG ∨ UsdBridgeType.UNDEFINED = .INT ∨
          UsdBridgeType.UNDEFINED = .UINT) →
        ∃ v, rest = [Event.Set ⟨.uniform, .faceVertexIndices⟩ v .Default] ∧ v.size = 6) :=
  face_vertex_counts sampleCommon sampleWriter { sampleMesh with NumIndices := 6 } updateAll
    (timeEvaluatorAt (fun _ => false) 1) 2 (by decide) (by decide) (by decide) (by decide) rfl

/-- C12 fails on the code: the mesh without indices satisfies the assertion
(`0 % 3 = 0`, with `FaceVertexCount = 3 ≥ 1`), its number of primitives is 0, and with the
INDICES update performed the run reaches the division `numIndices / numPrims` by zero:
the trace ends in the undefined step, before any face vertex count is set. -/
theorem empty_mesh_divides_by_zero :
    emptyMesh.NumIndices % 3 = 0 ∧ (1 : Int) ≤ emptyMesh.FaceVertexCount ∧
    updateAll.PerformsUpdate .INDICES = true ∧
    toUnsigned 64 (Int.tdiv (to_int (emptyMesh.NumIndices : Int)) emptyMesh.FaceVertexCount)
      = 0 ∧
    UpdateUsdGeomIndices emptyMesh.Indices emptyMesh.IndicesType emptyMesh.NumIndices 0
        updateAll (timeEvaluatorAt (fun _ => false) 1) =
      [Event.Clear .faceVertexIndices false, Event.Clear .faceVertexCounts false,
       Event.Undefined] ∧
    Event.Undefined ∈
      UpdateUsdGeometry sampleCommon sampleWriter (.mesh emptyMesh) updateAll
        (timeEvaluatorAt (fun _ => false) 1) := by
  decide

/-- C13, generated indices. When the mesh supplies no index buffer, the INDICES update is
performed and `NumIndices < 2 ^ 31`: if the number of primitives is not 0, the index
routine sets, after the face vertex counts, a face-vertex-indices array of exactly
`NumIndices` entries whose entry `i` is `i`; if the number of primitives is 0, as for a
mesh without indices, the routine divides by zero after its clear calls and sets no
array. -/
theorem generated_indices (IndicesType : UsdBridgeType) (NumIndices numPrims : Nat)
    (updateEval : UsdBridgeUpdateEvaluator) (timeEval : TimeEvaluator)
    (hp : updateEval.PerformsUpdate .INDICES = true) (hrange : NumIndices < 2 ^ 31) :
    (numPrims ≠ 0 → ∃ (counts idx : List Int),
      UpdateUsdGeomIndices none IndicesType NumIndices numPrims updateEval timeEval =
        [Event.Clear .faceVertexIndices (timeEval.IsTimeVarying .INDICES),
         Event.Clear .faceVertexCounts (timeEval.IsTimeVarying .INDICES),
         Event.Set ⟨outGeom (timeEval.IsTimeVarying .INDICES), .faceVertexCounts⟩
           (.IntArray counts) (timeEval.Eval .INDICES),
         Event.Set ⟨outGeom (timeEval.IsTimeVarying .INDICES), .faceVertexIndices⟩
           (.IntArray idx) (timeEval.Eval .INDICES)] ∧
      idx.length = NumIndices ∧
      ∀ i : Nat, i < NumIndices → idx[i]? = some (i : Int)) ∧
    (numPrims = 0 →
      UpdateUsdGeomIndices none IndicesType NumIndices numPrims updateEval timeEval =
        [Event.Clear .faceVertexIndices (timeEval.IsTimeVarying .INDICES),
         Event.Clear .faceVertexCounts (timeEval.IsTimeVarying .INDICES),
         Event.Undefined]) := by
  refine ⟨fun hprims => ?_, fun h0 => ?_⟩
  · refine ⟨List.replicate numPrims (to_int ((NumIndices / numPrims : Nat) : Int)),
      (List.range NumIndices).map (fun (i : Nat) => to_int (i : Int)), ?_, by simp, ?_⟩
    · rw [UpdateUsdGeomIndices_defined none IndicesType NumIndices numPrims updateEval timeEval
        hp hprims]
      rfl
    · intro i hi
      rw [List.getElem?_map, List.getElem?_range hi]
      simp only [Option.map_some', Option.some.injEq]
      exact to_int_of_range i (by omega)
  · subst h0
    simp [UpdateUsdGeomIndices, hp]

/-- C13 at work: the three generated indices of the sample mesh; and the mesh without
indices, for which the claim fails: its number of primitives is 0, the index routine stops
at the division by zero, and the whole update sets no face-vertex-indices array. -/
theorem generated_indices_witness :
    (∃ (counts idx : List Int),
      UpdateUsdGeomIndices none .UNDEFINED 3 1 updateAll (timeEvaluatorAt (fun _ => false) 1) =
        [Event.Clear .faceVertexIndices false, Event.Clear .faceVertexCounts false,
         Event.Set ⟨.uniform, .faceVertexCounts⟩ (.IntArray counts) .Default,
         Event.Set ⟨.uniform, .faceVertexIndices⟩ (.IntArray idx) .Default] ∧
      idx.length = 3 ∧
      ∀ i : Nat, i < 3 → idx[i]? = some (i : Int)) ∧
    emptyMesh.Indices = none ∧
    toUnsigned 64 (Int.tdiv (to_int (emptyMesh.NumIndices : Int)) emptyMesh.FaceVertexCount)
      = 0 ∧
    UpdateUsdGeomIndices none emptyMesh.IndicesType emptyMesh.NumIndices 0 updateAll
        (timeEvaluatorAt (fun _ => false) 1) =
      [Event.Clear .faceVertexIndices false, Event.Clear .faceVertexCounts false,
       Event.Undefined] ∧
    (∀ side v tc, Event.Set ⟨side, .faceVertexIndices⟩ v tc ∉
      UpdateUsdGeometry sampleCommon sampleWriter (.mesh emptyMesh) updateAll
        (timeEvaluatorAt (fun _ => false) 1)) :=
  ⟨(generated_indices .UNDEFINED 3 1 updateAll (timeEvaluatorAt (fun _ => false) 1) rfl
      (by decide)).1 (by decide),
   rfl, by decide,
   (generated_indices emptyMesh.IndicesType emptyMesh.NumIndices 0 updateAll
      (timeEvaluatorAt (fun _ => false) 1) rfl (by decide)).2 rfl,
   by
    intro side v tc
    have hdiv : intDivUndefined (to_int 0) 3 = false := by decide
    have hprims : toUnsigned 64 (Int.tdiv (to_int 0) 3) = 0 := by decide
    simp [UpdateUsdGeometry, UpdateUsdGeometry.mesh, emptyMesh, sampleCommon, sampleWriter,
      UpdateUsdGeomPoints, UpdateUsdGeomNormals, UpdateUsdGeomAttributes, UpdateUsdGeomColors,
      UpdateUsdGeomIndices, updateAll, timeEvaluatorAt, hdiv, hprims]⟩

/-! ## Copies, value blocks and rejected types (C14 to C17) -/

theorem range_map_eq_take {α : Type} (a : List α) (g : Nat → α) (n : Nat)
    (hn : n ≤ a.length) (h : ∀ i (hi : i < a.length), g i = a[i]) :
    (List.range n).map g = a.take n := by
  apply List.ext_getElem
  · simp [hn]
  · intro i h1 h2
    simp only [List.length_map, List.length_range] at h1
    simp only [List.getElem_map, List.getElem_range, List.getElem_take]
    exact h i (by omega)

theorem toSigned_toUnsigned (w : Nat) (hw : 1 ≤ w) (z : Int) (h : inSigned w z = true) :
    toSigned w ((toUnsigned w z : Nat) : Int) = z := by
  simp only [inSigned, Bool.and_eq_true, decide_eq_true_eq] at h
  obtain ⟨h0, h1⟩ := h
  have hpow : (2 : Int) ^ w = 2 * (2 : Int) ^ (w - 1) := by
    rw [← pow_succ']
    congr 1
    omega
  have hpos : (0 : Int) < (2 : Int) ^ (w - 1) := by positivity
  unfold toSigned toUnsigned
  have hnn : 0 ≤ z % (2 : Int) ^ w := Int.emod_nonneg _ (by positivity)
  rw [Int.toNat_of_nonneg hnn, Int.emod_emod_of_dvd _ (dvd_refl _)]
  by_cases hz : 0 ≤ z
  · have : z % (2 : Int) ^ w = z := Int.emod_eq_of_lt hz (by linarith)
    simp [this, h1]
  · have hz2 : z < 0 := by omega
    have : z % (2 : Int) ^ w = z + (2 : Int) ^ w := by
      rw [← Int.add_emod_self]
      exact Int.emod_eq_of_lt (by linarith) (by linarith)
    rw [this]
    have hge : ¬ (z + (2 : Int) ^ w < (2 : Int) ^ (w - 1)) := by linarith
    simp [hge]

theorem flatMap_getD {α β : Type} (f : α → List β) (k : Nat) (hk : ∀ v, (f v).length = k)
    (d : β) (a : List α) (i j : Nat) (hi : i < a.length) (hj : j < k) :
    (a.flatMap f).getD (i * k + j) d = (f a[i]).getD j d := by
  induction a generalizing i with
  | nil => simp at hi
  | cons v t ih =>
    rw [List.flatMap_cons]
    cases i with
    | zero =>
      simp only [Nat.zero_mul, Nat.zero_add, List.getElem_cons_zero]
      exact List.getD_append _ _ _ _ (by rw [hk]; exact hj)
    | succ i =>
      have hlen : (f v).length ≤ (i + 1) * k + j := by
        rw [hk, Nat.succ_mul]
        omega
      rw [List.getD_append_right _ _ _ _ hlen, hk]
      have : (i + 1) * k + j - k = i * k + j := by
        rw [Nat.succ_mul]
        omega
      rw [this, List.getElem_cons_succ]
      exact ih i (by simpa using hi)

theorem readUnsigned_words (w : Nat) (a : List Nat) (i : Nat) (hi : i < a.length)
    (h : a.all (inUnsigned w) = true) : readUnsigned w (.words a) i = a[i] := by
  have hi2 : inUnsigned w a[i] = true := List.all_eq_true.1 h _ (List.getElem_mem _)
  simp only [inUnsigned, decide_eq_true_eq] at hi2
  simp only [readUnsigned, Buffer.word, List.getD_eq_getElem _ _ hi]
  exact toUnsigned_of_range w _ hi2

theorem readSigned_words (w : Nat) (hw : 1 ≤ w) (a : List Int) (i : Nat) (hi : i < a.length)
    (h : a.all (inSigned w) = true) :
    readSigned w (.words (a.map (toUnsigned w))) i = a[i] := by
  have hi2 : inSigned w a[i] = true := List.all_eq_true.1 h _ (List.getElem_mem _)
  have hi3 : i < (a.map (toUnsigned w)).length := by simpa using hi
  simp only [readSigned, Buffer.word, List.getD_eq_getElem _ _ hi3, List.getElem_map]
  exact toSigned_toUnsigned w hw _ hi2

theorem readReal_reals (a : List ℚ) (i : Nat) (hi : i < a.length) :
    readReal (.reals a) i = a[i] := by
  simp only [readReal, Buffer.real, List.getD_eq_getElem _ _ hi]

theorem readSigned_flatMap {α : Type} (w : Nat) (f : α → List Nat) (k : Nat)
    (hk : ∀ v, (f v).length = k) (a : List α) (i j : Nat) (hi : i < a.length) (hj : j < k) :
    readSigned w (.words (a.flatMap f)) (i * k + j) = toSigned w (((f a[i]).getD j 0 : Nat) : Int) := by
  simp only [readSigned, Buffer.word, flatMap_getD f k hk 0 a i j hi hj]

theorem readSigned_flatMap_zero {α : Type} (w : Nat) (f : α → List Nat) (k : Nat)
    (hk : ∀ v, (f v).length = k) (a : List α) (i : Nat) (hi : i < a.length) (hj : 0 < k) :
    readSigned w (.words (a.flatMap f)) (i * k) = toSigned w (((f a[i]).getD 0 0 : Nat) : Int) :=
  readSigned_flatMap w f k hk a i 0 hi hj

theorem readReal_flatMap {α : Type} (f : α → List ℚ) (k : Nat)
    (hk : ∀ v, (f v).length = k) (a : List α) (i j : Nat) (hi : i < a.length) (hj : j < k) :
    readReal (.reals (a.flatMap f)) (i * k + j) = (f a[i]).getD j 0 := by
  simp only [readReal, Buffer.real, flatMap_getD f k hk 0 a i j hi hj]

theorem readReal_flatMap_zero {α : Type} (f : α → List ℚ) (k : Nat)
    (hk : ∀ v, (f v).length = k) (a : List α) (i : Nat) (hi : i < a.length) (hj : 0 < k) :
    readReal (.reals (a.flatMap f)) (i * k) = (f a[i]).getD 0 0 :=
  readReal_flatMap f k hk a i 0 hi hj

theorem usdArray_image_unsigned (w : Nat) (A : ArrayType Nat) (hA : A.elem = readUnsigned w)
    (a : List Nat) (n : Nat) (hn : n ≤ a.length) (h : a.all (inUnsigned w) = true) :
    AssignArrayToPrimvar.usdArray A (.words a) n = a.take n := by
  unfold AssignArrayToPrimvar.usdArray
  rw [hA]
  exact range_map_eq_take a _ n hn (fun i hi => readUnsigned_words w a i hi h)

theorem usdArray_image_signed (w : Nat) (hw : 1 ≤ w) (A : ArrayType Int)
    (hA : A.elem = readSigned w) (a : List Int) (n : Nat) (hn : n ≤ a.length)
    (h : a.all (inSigned w) = true) :
    AssignArrayToPrimvar.usdArray A (.words (a.map (toUnsigned w))) n = a.take n := by
  unfold AssignArrayToPrimvar.usdArray
  rw [hA]
  exact range_map_eq_take a _ n hn (fun i hi => readSigned_words w hw a i hi h)

theorem usdArray_image_real (A : ArrayType ℚ) (hA : A.elem = readReal)
    (a : List ℚ) (n : Nat) (hn : n ≤ a.length) :
    AssignArrayToPrimvar.usdArray A (.reals a) n = a.take n := by
  unfold AssignArrayToPrimvar.usdArray
  rw [hA]
  exact range_map_eq_take a _ n hn (fun i hi => readReal_reals a i hi)

theorem usdArray_image_vec2i (a : List (GfVec2 Int)) (n : Nat) (hn : n ≤ a.length)
    (h : a.all (fun v => inSigned 32 v.x && inSigned 32 v.y) = true) :
    AssignArrayToPrimvar.usdArray VtVec2iArray
      (.words (a.flatMap (fun v => [toUnsigned 32 v.x, toUnsigned 32 v.y])))
      n = a.take n := by
  unfold AssignArrayToPrimvar.usdArray
  refine range_map_eq_take a _ n hn (fun i hi => ?_)
  have hv := List.all_eq_true.1 h _ (List.getElem_mem hi)
  simp only [Bool.and_eq_true] at hv
  have e0 := readSigned_flatMap_zero 32 (fun v : GfVec2 Int => [toUnsigned 32 v.x, toUnsigned 32 v.y]) 2 (fun _ => rfl) a i hi (by decide)
  have e1 := readSigned_flatMap 32 (fun v : GfVec2 Int => [toUnsigned 32 v.x, toUnsigned 32 v.y]) 2 (fun _ => rfl) a i 1 hi (by decide)
  simp only [List.getD_cons_zero, List.getD_cons_succ,
    toSigned_toUnsigned 32 (by decide) _ hv.1, toSigned_toUnsigned 32 (by decide) _ hv.2] at e0 e1
  simp only [VtVec2iArray, readVec2, e0, e1]

theorem usdArray_image_vec2r (A : ArrayType (GfVec2 ℚ)) (hA : A.elem = readVec2 readReal)
    (a : List (GfVec2 ℚ)) (n : Nat) (hn : n ≤ a.length) :
    AssignArrayToPrimvar.usdArray A (.reals (a.flatMap (fun v => [v.x, v.y]))) n =
      a.take n := by
  unfold AssignArrayToPrimvar.usdArray
  rw [hA]
  refine range_map_eq_take a _ n hn (fun i hi => ?_)
  have e0 := readReal_flatMap_zero (fun v : GfVec2 ℚ => [v.x, v.y]) 2 (fun _ => rfl) a i hi (by decide)
  have e1 := readReal_flatMap (fun v : GfVec2 ℚ => [v.x, v.y]) 2 (fun _ => rfl) a i 1 hi (by decide)
  simp only [List.getD_cons_zero, List.getD_cons_succ] at e0 e1
  simp only [readVec2, e0, e1]

theorem usdArray_image_vec3i (a : List (GfVec3 Int)) (n : Nat) (hn : n ≤ a.length)
    (h : a.all (fun v => inSigned 32 v.x && inSigned 32 v.y && inSigned 32 v.z) = true) :
    AssignArrayToPrimvar.usdArray VtVec3iArray
      (.words (a.flatMap (fun v => [toUnsigned 32 v.x, toUnsigned 32 v.y, toUnsigned 32 v.z])))
      n = a.take n := by
  unfold AssignArrayToPrimvar.usdArray
  refine range_map_eq_take a _ n hn (fun i hi => ?_)
  have hv := List.all_eq_true.1 h _ (List.getElem_mem hi)
  simp only [Bool.and_eq_true] at hv
  have e0 := readSigned_flatMap_zero 32 (fun v : GfVec3 Int => [toUnsigned 32 v.x, toUnsigned 32 v.y, toUnsigned 32 v.z]) 3 (fun _ => rfl) a i hi (by decide)
  have e1 := readSigned_flatMap 32 (fun v : GfVec3 Int => [toUnsigned 32 v.x, toUnsigned 32 v.y, toUnsigned 32 v.z]) 3 (fun _ => rfl) a i 1 hi (by decide)
  have e2 := readSigned_flatMap 32 (fun v : GfVec3 Int => [toUnsigned 32 v.x, toUnsigned 32 v.y, toUnsigned 32 v.z]) 3 (fun _ => rfl) a i 2 hi (by decide)
  simp only [List.getD_cons_zero, List.getD_cons_succ,
    toSigned_toUnsigned 32 (by decide) _ hv.1.1, toSigned_toUnsigned 32 (by decide) _ hv.1.2, toSigned_toUnsigned 32 (by decide) _ hv.2] at e0 e1 e2
  simp only [VtVec3iArray, readVec3, e0, e1, e2]

theorem usdArray_image_vec3r (A : ArrayType (GfVec3 ℚ)) (hA : A.elem = readVec3 readReal)
    (a : List (GfVec3 ℚ)) (n : Nat) (hn : n ≤ a.length) :
    AssignArrayToPrimvar.usdArray A (.reals (a.flatMap (fun v => [v.x, v.y, v.z]))) n =
      a.take n := by
  unfold AssignArrayToPrimvar.usdArray
  rw [hA]
  refine range_map_eq_take a _ n hn (fun i hi => ?_)
  have e0 := readReal_flatMap_zero (fun v : GfVec3 ℚ => [v.x, v.y, v.z]) 3 (fun _ => rfl) a i hi (by decide)
  have e1 := readReal_flatMap (fun v : GfVec3 ℚ => [v.x, v.y, v.z]) 3 (fun _ => rfl) a i 1 hi (by decide)
  have e2 := readReal_flatMap (fun v : GfVec3 ℚ => [v.x, v.y, v.z]) 3 (fun _ => rfl) a i 2 hi (by decide)
  simp only [List.getD_cons_zero, List.getD_cons_succ] at e0 e1 e2
  simp only [readVec3, e0, e1, e2]

theorem usdArray_image_vec4i (a : List (GfVec4 Int)) (n : Nat) (hn : n ≤ a.length)
    (h : a.all (fun v => inSigned 32 v.x && inSigned 32 v.y && inSigned 32 v.z && inSigned 32 v.w) = true) :
    AssignArrayToPrimvar.usdArray VtVec4iArray
      (.words (a.flatMap (fun v => [toUnsigned 32 v.x, toUnsigned 32 v.y, toUnsigned 32 v.z, toUnsigned 32 v.w])))
      n = a.take n := by
  unfold AssignArrayToPrimvar.usdArray
  refine range_map_eq_take a _ n hn (fun i hi => ?_)
  have hv := List.all_eq_true.1 h _ (List.getElem_mem hi)
  simp only [Bool.and_eq_true] at hv
  have e0 := readSigned_flatMap_zero 32 (fun v : GfVec4 Int => [toUnsigned 32 v.x, toUnsigned 32 v.y, toUnsigned 32 v.z, toUnsigned 32 v.w]) 4 (fun _ => rfl) a i hi (by decide)
  have e1 := readSigned_flatMap 32 (fun v : GfVec4 Int => [toUnsigned 32 v.x, toUnsigned 32 v.y, toUnsigned 32 v.z, toUnsigned 32 v.w]) 4 (fun _ => rfl) a i 1 hi (by decide)
  have e2 := readSigned_flatMap 32 (fun v : GfVec4 Int => [toUnsigned 32 v.x, toUnsigned 32 v.y, toUnsigned 32 v.z, toUnsigned 32 v.w]) 4 (fun _ => rfl) a i 2 hi (by decide)
  have e3 := readSigned_flatMap 32 (fun v : GfVec4 Int => [toUnsigned 32 v.x, toUnsigned 32 v.y, toUnsigned 32 v.z, toUnsigned 32 v.w]) 4 (fun _ => rfl) a i 3 hi (by decide)
  simp only [List.getD_cons_zero, List.getD_cons_succ,
    toSigned_toUnsigned 32 (by decide) _ hv.1.1.1, toSigned_toUnsigned 32 (by decide) _ hv.1.1.2, toSigned_toUnsigned 32 (by decide) _ hv.1.2, toSigned_toUnsigned 32 (by decide) _ hv.2] at e0 e1 e2 e3
  simp only [VtVec4iArray, readVec4, e0, e1, e2, e3]

theorem usdArray_image_vec4r (A : ArrayType (GfVec4 ℚ)) (hA : A.elem = readVec4 readReal)
    (a : List (GfVec4 ℚ)) (n : Nat) (hn : n ≤ a.length) :
    AssignArrayToPrimvar.usdArray A (.reals (a.flatMap (fun v => [v.x, v.y, v.z, v.w]))) n =
      a.take n := by
  unfold AssignArrayToPrimvar.usdArray
  rw [hA]
  refine range_map_eq_take a _ n hn (fun i hi => ?_)
  have e0 := readReal_flatMap_zero (fun v : GfVec4 ℚ => [v.x, v.y, v.z, v.w]) 4 (fun _ => rfl) a i hi (by decide)
  have e1 := readReal_flatMap (fun v : GfVec4 ℚ => [v.x, v.y, v.z, v.w]) 4 (fun _ => rfl) a i 1 hi (by decide)
  have e2 := readReal_flatMap (fun v : GfVec4 ℚ => [v.x, v.y, v.z, v.w]) 4 (fun _ => rfl) a i 2 hi (by decide)
  have e3 := readReal_flatMap (fun v : GfVec4 ℚ => [v.x, v.y, v.z, v.w]) 4 (fun _ => rfl) a i 3 hi (by decide)
  simp only [List.getD_cons_zero, List.getD_cons_succ] at e0 e1 e2 e3
  simp only [readVec4, e0, e1, e2, e3]

/-- C14, direct copy. For an array `src` of one of the seventeen element types that
`CopyArrayToPrimvar` copies to a same-typed array (`sourceType` gives the type tag), whose
integer entries are values of the element type, and for every `n` up to its length,
copying `n` elements from the memory image of `src` sets exactly one value: the array of
the first `n` entries of `src`, which has `n` entries and is `src` itself when `n` is the
length. -/
theorem direct_copy_identity (tt : TypeTable) (src : VtValue) (ty : UsdBridgeType) (n : Nat)
    (p : UsdAttribute) (tc : UsdTimeCode) (hty : src.sourceType = some ty)
    (hr : src.inRange = true) (hn : n ≤ src.size) :
    CopyArrayToPrimvar tt src.image ty n p tc = [Event.Set p (src.take n) tc] ∧
    (src.take n).size = n ∧ (n = src.size → src.take n = src) := by
  cases src <;> simp only [VtValue.sourceType, Option.some.injEq] at hty <;>
    first
    | exact absurd hty (by simp)
    | skip
  all_goals subst hty
  all_goals simp only [VtValue.size] at hn
  all_goals simp only [VtValue.inRange] at hr
  all_goals refine ⟨?_, by simp [VtValue.take, VtValue.size, hn], fun h => by
    simp [VtValue.take, VtValue.size, h]⟩
  all_goals simp only [CopyArrayToPrimvar, AssignArrayToPrimvar, VtValue.image, VtValue.take]
  case UCharArray a => rw [usdArray_image_unsigned 8 VtUCharArray rfl a n hn hr]; rfl
  case UIntArray a => rw [usdArray_image_unsigned 32 VtUIntArray rfl a n hn hr]; rfl
  case IntArray a => rw [usdArray_image_signed 32 (by decide) VtIntArray (by simp only [VtIntArray]) a n hn hr]; rfl
  case Int64Array a => rw [usdArray_image_signed 64 (by decide) VtInt64Array (by simp only [VtInt64Array]) a n hn hr]; rfl
  case UInt64Array a => rw [usdArray_image_unsigned 64 VtUInt64Array rfl a n hn hr]; rfl
  case HalfArray a => rw [usdArray_image_real VtHalfArray rfl a n hn]; rfl
  case FloatArray a => rw [usdArray_image_real VtFloatArray rfl a n hn]; rfl
  case DoubleArray a => rw [usdArray_image_real VtDoubleArray rfl a n hn]; rfl
  case Vec2iArray a => rw [usdArray_image_vec2i a n hn hr]; rfl
  case Vec2fArray a => rw [usdArray_image_vec2r VtVec2fArray rfl a n hn]; rfl
  case Vec2dArray a => rw [usdArray_image_vec2r VtVec2dArray rfl a n hn]; rfl
  case Vec3iArray a => rw [usdArray_image_vec3i a n hn hr]; rfl
  case Vec3fArray a => rw [usdArray_image_vec3r VtVec3fArray rfl a n hn]; rfl
  case Vec3dArray a => rw [usdArray_image_vec3r VtVec3dArray rfl a n hn]; rfl
  case Vec4iArray a => rw [usdArray_image_vec4i a n hn hr]; rfl
  case Vec4fArray a => rw [usdArray_image_vec4r VtVec4fArray rfl a n hn]; rfl
  case Vec4dArray a => rw [usdArray_image_vec4r VtVec4dArray rfl a n hn]; rfl

/-- C14 at work: two of three signed integers, one of them negative. -/
theorem direct_copy_identity_witness :
    CopyArrayToPrimvar sampleCommon.types (VtValue.IntArray [5, -7, 9]).image .INT 2
        ⟨.uniform, .attribute 0⟩ .Default =
      [Event.Set ⟨.uniform, .attribute 0⟩ ((VtValue.IntArray [5, -7, 9]).take 2) .Default] ∧
    ((VtValue.IntArray [5, -7, 9]).take 2).size = 2 ∧
    (2 = (VtValue.IntArray [5, -7, 9]).size →
      (VtValue.IntArray [5, -7, 9]).take 2 = VtValue.IntArray [5, -7, 9]) :=
  direct_copy_identity sampleCommon.types (.IntArray [5, -7, 9]) .INT 2
    ⟨.uniform, .attribute 0⟩ .Default rfl (by decide) (by decide)

theorem range_pos_eq_cons (N : Nat) (h : 1 ≤ N) :
    List.range N = 0 :: (List.range (N - 1)).map Nat.succ := by
  obtain ⟨k, rfl⟩ : ∃ k, N = k + 1 := ⟨N - 1, by omega⟩
  rw [List.range_succ_eq_map]
  rfl

/-- C15 fails on the code for the 16-bit types: whenever at least one scalar is written,
a USHORT2 source whose first scalar is 40000 gives a flattened array of
`numElements * m` entries whose first entry is 4294941760, and a SHORT2 source whose first
scalar is -1 (bit pattern 65535) gives one whose first entry is 65535. -/
theorem flatten_short_types (tt : TypeTable) (n : Nat) (rest : List Nat) (p : UsdAttribute)
    (tc : UsdTimeCode)
    (hu : 1 ≤ n * (tt.ordinal .USHORT2 / tt.UsdBridgeNumFundamentalTypes))
    (hs : 1 ≤ n * (tt.ordinal .SHORT2 / tt.UsdBridgeNumFundamentalTypes)) :
    (readUnsigned 16 (.words (40000 :: rest)) 0 = 40000 ∧
      ∃ tail, CopyArrayToPrimvar tt (.words (40000 :: rest)) .USHORT2 n p tc =
          [Event.Set p (.UIntArray (4294941760 :: tail)) tc] ∧
        tail.length + 1 = n * (tt.ordinal .USHORT2 / tt.UsdBridgeNumFundamentalTypes)) ∧
    (readSigned 16 (.words (65535 :: rest)) 0 = -1 ∧
      ∃ tail, CopyArrayToPrimvar tt (.words (65535 :: rest)) .SHORT2 n p tc =
          [Event.Set p (.IntArray (65535 :: tail)) tc] ∧
        tail.length + 1 = n * (tt.ordinal .SHORT2 / tt.UsdBridgeNumFundamentalTypes)) := by
  have hw : ∀ x : Nat, Buffer.word (.words (x :: rest)) 0 = x := fun _ => rfl
  have h1 : readUnsigned 16 (.words (40000 :: rest)) 0 = 40000 := by
    simp only [readUnsigned, hw]
    decide
  have h2 : readSigned 16 (.words (65535 :: rest)) 0 = -1 := by
    simp only [readSigned, hw]
    decide
  refine ⟨⟨h1, ?_⟩, ⟨h2, ?_⟩⟩
  · refine ⟨((List.range (n * (tt.ordinal .USHORT2 / tt.UsdBridgeNumFundamentalTypes) - 1)).map
      Nat.succ).map (fun i => to_unsigned_int (short (.words (40000 :: rest)) i)), ?_, ?_⟩
    · simp only [CopyArrayToPrimvar, AssignArrayToPrimvarConvertFlatten,
        AssignArrayToPrimvarConvert, AssignArrayToPrimvarConvert.usdArray, VtUIntArray]
      rw [range_pos_eq_cons _ hu, List.map_cons]
      have h0 : to_unsigned_int (short (.words (40000 :: rest)) 0) = 4294941760 := by
        simp only [short, readSigned, hw]
        decide
      rw [h0]
    · simp only [List.length_map, List.length_range]
      omega
  · refine ⟨((List.range (n * (tt.ordinal .SHORT2 / tt.UsdBridgeNumFundamentalTypes) - 1)).map
      Nat.succ).map (fun i => to_int ((unsigned_short (.words (65535 :: rest)) i : Nat) : Int)),
      ?_, ?_⟩
    · simp only [CopyArrayToPrimvar, AssignArrayToPrimvarConvertFlatten,
        AssignArrayToPrimvarConvert, AssignArrayToPrimvarConvert.usdArray, VtIntArray]
      rw [range_pos_eq_cons _ hs, List.map_cons]
      have h0 : to_int ((unsigned_short (.words (65535 :: rest)) 0 : Nat) : Int) = 65535 := by
        simp only [unsigned_short, readUnsigned, hw]
        decide
      rw [h0]
    · simp only [List.length_map, List.length_range]
      omega

/-- C15 at the failing input: one two-component element, element multiplier 2. -/
theorem flatten_short_types_witness :
    (readUnsigned 16 (.words [40000, 7]) 0 = 40000 ∧
      ∃ tail, CopyArrayToPrimvar pairTypes (.words [40000, 7]) .USHORT2 1
          ⟨.uniform, .attribute 0⟩ .Default =
          [Event.Set ⟨.uniform, .attribute 0⟩ (.UIntArray (4294941760 :: tail)) .Default] ∧
        tail.length + 1 = 1 * (2 / 1)) ∧
    (readSigned 16 (.words [65535, 7]) 0 = -1 ∧
      ∃ tail, CopyArrayToPrimvar pairTypes (.words [65535, 7]) .SHORT2 1
          ⟨.uniform, .attribute 0⟩ .Default =
          [Event.Set ⟨.uniform, .attribute 0⟩ (.IntArray (65535 :: tail)) .Default] ∧
        tail.length + 1 = 1 * (2 / 1)) :=
  flatten_short_types pairTypes 1 [7] ⟨.uniform, .attribute 0⟩ .Default (by decide) (by decide)

theorem int64_assign_no_block (rd : Buffer → Nat → Int) (data : Buffer) (n : Nat)
    (p a : UsdAttribute) (tc tc2 : UsdTimeCode) :
    Event.Set a .ValueBlock tc2 ∉
      AssignArrayToPrimvar (⟨rd, .Int64Array⟩ : ArrayType Int) data n p tc := by
  simp [AssignArrayToPrimvar]

theorem UpdateUsdGeomInvisibleIds_no_block (InvisibleIds : Buffer) (ty : UsdBridgeType)
    (NumInvisibleIds : Nat) (ue : UsdBridgeUpdateEvaluator) (te : TimeEvaluator)
    (h : NumInvisibleIds ≠ 0) (a : UsdAttribute) (tc : UsdTimeCode) :
    Event.Set a .ValueBlock tc ∉ UpdateUsdGeomInvisibleIds InvisibleIds ty NumInvisibleIds ue te := by
  unfold UpdateUsdGeomInvisibleIds
  by_cases hp : ue.PerformsUpdate .INVISIBLEIDS = true
  · cases ty <;>
      simp [hp, h, AssignArrayToPrimvar, AssignArrayToPrimvarConvert, VtInt64Array]
  · simp [hp]

/-- C16 as amended, value blocks. With the member's update performed and its data pointer
null, each of the routines for normals, st texture coordinates, colours, a generic
attribute whose primvar exists on the selected prim, instance ids, linear velocities and
angular velocities makes its clear call and then sets exactly one value, a value block, on
the attribute of the prim selected by the time-varying flag of the member, at the time
code of the member: no array and no interpolation token. A generic attribute whose primvar
does not exist on the selected prim gets its clear call and a logged error, and no value
block. The routine for the invisible ids sets the value block when `NumInvisibleIds = 0`,
and sets no value block otherwise. -/
theorem value_blocks (tt : TypeTable) (writer : UsdBridgeUsdWriter)
    (updateEval : UsdBridgeUpdateEvaluator) (timeEval : TimeEvaluator)
    (NumPoints numPrims : Nat) :
    (∀ ty perPrim, updateEval.PerformsUpdate .NORMALS = true →
      UpdateUsdGeomNormals none ty perPrim NumPoints numPrims updateEval timeEval =
        [Event.Clear .normals (timeEval.IsTimeVarying .NORMALS),
         Event.Set ⟨outGeom (timeEval.IsTimeVarying .NORMALS), .normals⟩ .ValueBlock
           (timeEval.Eval .NORMALS)]) ∧
    (∀ Attributes, updateEval.PerformsUpdate (.ATTRIBUTE 0) = true →
      (attributeAt Attributes 0).Data = none →
      UpdateUsdGeomTexCoords Attributes NumPoints numPrims updateEval timeEval =
        [Event.Clear .st (timeEval.IsTimeVarying (.ATTRIBUTE 0)),
         Event.Set ⟨outGeom (timeEval.IsTimeVarying (.ATTRIBUTE 0)), .st⟩ .ValueBlock
           (timeEval.Eval (.ATTRIBUTE 0))]) ∧
    (∀ ty perPrim, updateEval.PerformsUpdate .COLORS = true →
      UpdateUsdGeomColors none ty perPrim NumPoints numPrims updateEval timeEval =
        [Event.Clear .color (timeEval.IsTimeVarying .COLORS),
         Event.Set ⟨outGeom (timeEval.IsTimeVarying .COLORS), .color⟩ .ValueBlock
           (timeEval.Eval .COLORS)]) ∧
    (∀ Attributes i, updateEval.PerformsUpdate (.ATTRIBUTE i) = true →
      (attributeAt Attributes i).Data = none →
      writer.primvarValid ⟨outGeom (timeEval.IsTimeVarying (.ATTRIBUTE i)), .attribute i⟩ = true →
      UpdateUsdGeomAttribute tt writer Attributes NumPoints numPrims updateEval timeEval i =
        [Event.Clear (.attribute i) (timeEval.IsTimeVarying (.ATTRIBUTE i)),
         Event.Set ⟨outGeom (timeEval.IsTimeVarying (.ATTRIBUTE i)), .attribute i⟩ .ValueBlock
           (timeEval.Eval (.ATTRIBUTE i))]) ∧
    (∀ Attributes i, updateEval.PerformsUpdate (.ATTRIBUTE i) = true →
      writer.primvarValid ⟨outGeom (timeEval.IsTimeVarying (.ATTRIBUTE i)), .attribute i⟩ =
        false →
      ∃ msg, UpdateUsdGeomAttribute tt writer Attributes NumPoints numPrims updateEval timeEval
          i =
        [Event.Clear (.attribute i) (timeEval.IsTimeVarying (.ATTRIBUTE i)), Event.Log msg]) ∧
    (∀ ty, updateEval.PerformsUpdate .INSTANCEIDS = true →
      UpdateUsdGeomInstanceIds none ty NumPoints updateEval timeEval =
        [Event.Clear .ids (timeEval.IsTimeVarying .INSTANCEIDS),
         Event.Set ⟨outGeom (timeEval.IsTimeVarying .INSTANCEIDS), .ids⟩ .ValueBlock
           (timeEval.Eval .INSTANCEIDS)]) ∧
    (updateEval.PerformsUpdate .LINEARVELOCITIES = true →
      UpdateUsdGeomLinearVelocities none NumPoints updateEval timeEval =
        [Event.Clear .velocities (timeEval.IsTimeVarying .LINEARVELOCITIES),
         Event.Set ⟨outGeom (timeEval.IsTimeVarying .LINEARVELOCITIES), .velocities⟩ .ValueBlock
           (timeEval.Eval .LINEARVELOCITIES)]) ∧
    (updateEval.PerformsUpdate .ANGULARVELOCITIES = true →
      UpdateUsdGeomAngularVelocities none NumPoints updateEval timeEval =
        [Event.Clear .angularVelocities (timeEval.IsTimeVarying .ANGULARVELOCITIES),
         Event.Set ⟨outGeom (timeEval.IsTimeVarying .ANGULARVELOCITIES), .angularVelocities⟩
           .ValueBlock (timeEval.Eval .ANGULARVELOCITIES)]) ∧
    (∀ InvisibleIds ty NumInvisibleIds, updateEval.PerformsUpdate .INVISIBLEIDS = true →
      (NumInvisibleIds = 0 →
        UpdateUsdGeomInvisibleIds InvisibleIds ty NumInvisibleIds updateEval timeEval =
          [Event.Clear .invisibleIds (timeEval.IsTimeVarying .INVISIBLEIDS),
           Event.Set ⟨outGeom (timeEval.IsTimeVarying .INVISIBLEIDS), .invisibleIds⟩ .ValueBlock
             (timeEval.Eval .INVISIBLEIDS)]) ∧
      ((∃ a tc, Event.Set a .ValueBlock tc ∈
          UpdateUsdGeomInvisibleIds InvisibleIds ty NumInvisibleIds updateEval timeEval) ↔
        NumInvisibleIds = 0)) := by
  refine ⟨?_, ?_, ?_, ?_, ?_, ?_, ?_, ?_, ?_⟩
  · intro ty perPrim hp
    simp [UpdateUsdGeomNormals, hp]
  · intro Attributes hp hd
    simp [UpdateUsdGeomTexCoords, hp, hd]
  · intro ty perPrim hp
    simp [UpdateUsdGeomColors, hp]
  · intro Attributes i hp hd hv
    simp [UpdateUsdGeomAttribute, hp, hd, hv]
  · intro Attributes i hp hv
    simp only [UpdateUsdGeomAttribute, hp, hv, if_true, Bool.not_false]
    exact ⟨_, rfl⟩
  · intro ty hp
    simp [UpdateUsdGeomInstanceIds, hp]
  · intro hp
    simp [UpdateUsdGeomLinearVelocities, hp]
  · intro hp
    simp [UpdateUsdGeomAngularVelocities, hp]
  · intro InvisibleIds ty NumInvisibleIds hp
    have h0 : NumInvisibleIds = 0 →
        UpdateUsdGeomInvisibleIds InvisibleIds ty NumInvisibleIds updateEval timeEval =
          [Event.Clear .invisibleIds (timeEval.IsTimeVarying .INVISIBLEIDS),
           Event.Set ⟨outGeom (timeEval.IsTimeVarying .INVISIBLEIDS), .invisibleIds⟩ .ValueBlock
             (timeEval.Eval .INVISIBLEIDS)] := by
      intro h
      simp [UpdateUsdGeomInvisibleIds, hp, h]
    refine ⟨h0, ?_, ?_⟩
    · rintro ⟨a, tc, hmem⟩
      by_contra hne
      exact UpdateUsdGeomInvisibleIds_no_block InvisibleIds ty NumInvisibleIds updateEval
        timeEval hne a tc hmem
    · intro h
      refine ⟨⟨outGeom (timeEval.IsTimeVarying .INVISIBLEIDS), .invisibleIds⟩,
        timeEval.Eval .INVISIBLEIDS, ?_⟩
      rw [h0 h]
      exact List.mem_cons_of_mem _ (List.mem_singleton.2 rfl)

/-- C16 as amended at work: the sample instancer, whose optional buffers are all null, a
generic attribute without data, with and without its primvar, and one invisible id. -/
theorem value_blocks_witness :
    UpdateUsdGeomInstanceIds sampleInstancer.InstanceIds sampleInstancer.InstanceIdsType 1
        updateAll (timeEvaluatorAt (fun _ => true) 1) =
      [Event.Clear .ids true, Event.Set ⟨.timeVar, .ids⟩ .ValueBlock (.Time 1)] ∧
    UpdateUsdGeomAttribute sampleCommon.types sampleWriter
        [⟨none, .FLOAT, false⟩] 1 1 updateAll (timeEvaluatorAt (fun _ => false) 1) 0 =
      [Event.Clear (.attribute 0) false,
       Event.Set ⟨.uniform, .attribute 0⟩ .ValueBlock .Default] ∧
    (∃ msg, UpdateUsdGeomAttribute sampleCommon.types ⟨false, fun _ => false⟩
        [⟨none, .FLOAT, false⟩] 1 1 updateAll (timeEvaluatorAt (fun _ => false) 1) 0 =
      [Event.Clear (.attribute 0) false, Event.Log msg]) ∧
    ((∃ a tc, Event.Set a .ValueBlock tc ∈
        UpdateUsdGeomInvisibleIds (.words [4]) .UINT 1 updateAll
          (timeEvaluatorAt (fun _ => false) 1)) ↔ 1 = 0) :=
  ⟨(value_blocks sampleCommon.types sampleWriter updateAll (timeEvaluatorAt (fun _ => true) 1)
      1 1).2.2.2.2.2.1 .UNDEFINED rfl,
   (value_blocks sampleCommon.types sampleWriter updateAll (timeEvaluatorAt (fun _ => false) 1)
      1 1).2.2.2.1 [⟨none, .FLOAT, false⟩] 0 rfl rfl rfl,
   (value_blocks sampleCommon.types ⟨false, fun _ => false⟩ updateAll
      (timeEvaluatorAt (fun _ => false) 1) 1 1).2.2.2.2.1 [⟨none, .FLOAT, false⟩] 0 rfl rfl,
   ((value_blocks sampleCommon.types sampleWriter updateAll (timeEvaluatorAt (fun _ => false) 1)
      1 1).2.2.2.2.2.2.2.2 (.words [4]) .UINT 1 rfl).2⟩

/-- C16 as stated fails for a generic attribute whose primvar does not exist on the
selected prim: the update is performed and the data pointer is null, and the routine sets
no value block, nor any other value. -/
theorem value_blocks_counterexample :
    (attributeAt [⟨none, .FLOAT, false⟩] 0).Data = none ∧
    updateAll.PerformsUpdate (.ATTRIBUTE 0) = true ∧
    (∀ a v tc, Event.Set a v tc ∉
      UpdateUsdGeomAttribute sampleCommon.types ⟨false, fun _ => false⟩
        [⟨none, .FLOAT, false⟩] 1 1 updateAll (timeEvaluatorAt (fun _ => false) 1) 0) := by
  refine ⟨rfl, rfl, ?_⟩
  intro a v tc
  simp [UpdateUsdGeomAttribute, updateAll, timeEvaluatorAt]

theorem UpdateUsdGeomPoints_unsupported (ue : UsdBridgeUpdateEvaluator) (te : TimeEvaluator)
    (data : Buffer) (ty : UsdBridgeType) (NumPoints : Nat) (pointsAttr : AttrName)
    (hne : pointsAttr ≠ .extent) (hp : ue.PerformsUpdate .POINTS = true)
    (hty : ty ∉ [.FLOAT3, .DOUBLE3]) :
    LogsError (UpdateUsdGeomPoints pointsAttr (some data) ty NumPoints ue te) ∧
    NoValueSet pointsAttr (UpdateUsdGeomPoints pointsAttr (some data) ty NumPoints ue te) := by
  simp only [List.mem_cons, List.mem_singleton, List.not_mem_nil, or_false, not_or] at hty
  have h : UpdateUsdGeomPoints pointsAttr (some data) ty NumPoints ue te =
      [Event.Clear pointsAttr (te.IsTimeVarying .POINTS),
       Event.Clear .extent (te.IsTimeVarying .POINTS),
       Event.Log "UsdGeom PointsAttr should be FLOAT3 or DOUBLE3.",
       Event.Set ⟨outGeom (te.IsTimeVarying .POINTS), .extent⟩
         (.Vec3fArray [(extentOf (UpdateUsdGeomPoints.usdVerts data ty NumPoints)).min,
           (extentOf (UpdateUsdGeomPoints.usdVerts data ty NumPoints)).max])
         (te.Eval .POINTS)] := by
    simp only [UpdateUsdGeomPoints, hp, if_true]
    split
    · exact absurd rfl hty.1
    · exact absurd rfl hty.2
    · rfl
  rw [h]
  refine ⟨?_, ?_⟩
  · simp [LogsError]
  · simp only [NoValueSet, List.mem_cons, List.mem_singleton, List.not_mem_nil, or_false]
    rintro a v tc (h | h | h | h) <;> simp at h
    intro hn
    exact hne (by rw [← hn, h.1])

theorem UpdateUsdGeomIndices_unsupported (ue : UsdBridgeUpdateEvaluator) (te : TimeEvaluator)
    (data : Buffer) (ty : UsdBridgeType) (NumIndices numPrims : Nat) (hprims : numPrims ≠ 0)
    (hp : ue.PerformsUpdate .INDICES = true) (hty : ty ∉ [.ULONG, .LONG, .INT, .UINT]) :
    LogsError (UpdateUsdGeomIndices (some data) ty NumIndices numPrims ue te) ∧
    NoValueSet .faceVertexIndices
      (UpdateUsdGeomIndices (some data) ty NumIndices numPrims ue te) := by
  simp only [List.mem_cons, List.mem_singleton, List.not_mem_nil, or_false, not_or] at hty
  have h : UpdateUsdGeomIndices (some data) ty NumIndices numPrims ue te =
      [Event.Clear .faceVertexIndices (te.IsTimeVarying .INDICES),
       Event.Clear .faceVertexCounts (te.IsTimeVarying .INDICES),
       Event.Set ⟨outGeom (te.IsTimeVarying .INDICES), .faceVertexCounts⟩
         (.IntArray (List.replicate numPrims (to_int ((NumIndices / numPrims : Nat) : Int))))
         (te.Eval .INDICES),
       Event.Log "UsdGeom FaceVertexIndicesAttr should be (U)LONG or (U)INT."] := by
    simp only [UpdateUsdGeomIndices, hp, if_true, hprims, if_false]
    split
    · exact absurd rfl hty.1
    · exact absurd rfl hty.2.1
    · exact absurd rfl hty.2.2.1
    · exact absurd rfl hty.2.2.2
    · rfl
  rw [h]
  refine ⟨?_, ?_⟩
  · simp [LogsError]
  · simp only [NoValueSet, List.mem_cons, List.mem_singleton, List.not_mem_nil, or_false]
    rintro a v tc (h | h | h | h) <;> simp at h
    intro hn
    rw [h.1] at hn
    simp at hn

theorem UpdateUsdGeomNormals_unsupported (ue : UsdBridgeUpdateEvaluator) (te : TimeEvaluator)
    (data : Buffer) (ty : UsdBridgeType) (NumPoints numPrims : Nat) (perPrim : Bool)
    (hp : ue.PerformsUpdate .NORMALS = true) (hty : ty ∉ [.FLOAT3, .DOUBLE3]) :
    LogsError (UpdateUsdGeomNormals (some data) ty perPrim NumPoints numPrims ue te) ∧
    NoValueSet .normals
      (UpdateUsdGeomNormals (some data) ty perPrim NumPoints numPrims ue te) := by
  cases ty <;> simp at hty <;>
    simp [LogsError, NoValueSet, UpdateUsdGeomNormals, hp]

theorem UpdateUsdGeomTexCoords_unsupported (ue : UsdBridgeUpdateEvaluator) (te : TimeEvaluator)
    (data : Buffer) (ty : UsdBridgeType) (NumPoints numPrims : Nat)
    (Attributes : List UsdBridgeAttribute) (hp : ue.PerformsUpdate (.ATTRIBUTE 0) = true)
    (hd : (attributeAt Attributes 0).Data = some data)
    (hdt : (attributeAt Attributes 0).DataType = ty) (hty : ty ∉ [.FLOAT2, .DOUBLE2]) :
    LogsError (UpdateUsdGeomTexCoords Attributes NumPoints numPrims ue te) ∧
    NoValueSet .st (UpdateUsdGeomTexCoords Attributes NumPoints numPrims ue te) := by
  cases ty <;> simp at hty <;>
    simp [LogsError, NoValueSet, UpdateUsdGeomTexCoords, hp, hd, hdt]

theorem UpdateUsdGeomColors_unsupported (ue : UsdBridgeUpdateEvaluator) (te : TimeEvaluator)
    (data : Buffer) (ty : UsdBridgeType) (NumPoints numPrims : Nat) (perPrim : Bool)
    (hp : ue.PerformsUpdate .COLORS = true) (hty : colorComponents ty = none) :
    LogsError (UpdateUsdGeomColors (some data) ty perPrim NumPoints numPrims ue te) ∧
    NoValueSet .color (UpdateUsdGeomColors (some data) ty perPrim NumPoints numPrims ue te) := by
  cases ty <;> simp [colorComponents, unsignedColorType, realColorType] at hty <;>
    simp [LogsError, NoValueSet, UpdateUsdGeomColors, hp]

theorem UpdateUsdGeomAttribute_unsupported (tt : TypeTable) (writer : UsdBridgeUsdWriter)
    (ue : UsdBridgeUpdateEvaluator) (te : TimeEvaluator) (data : Buffer)
    (NumPoints numPrims : Nat) (Attributes : List UsdBridgeAttribute) (i : Nat)
    (hp : ue.PerformsUpdate (.ATTRIBUTE i) = true)
    (hd : (attributeAt Attributes i).Data = some data)
    (hdt : (attributeAt Attributes i).DataType = .UNDEFINED) :
    LogsError (UpdateUsdGeomAttribute tt writer Attributes NumPoints numPrims ue te i) ∧
    NoValueSet (.attribute i)
      (UpdateUsdGeomAttribute tt writer Attributes NumPoints numPrims ue te i) := by
  by_cases hv : writer.primvarValid
      ⟨outGeom (te.IsTimeVarying (.ATTRIBUTE i)), .attribute i⟩ = true
  · simp [LogsError, NoValueSet, UpdateUsdGeomAttribute, hp, hd, hdt, hv, CopyArrayToPrimvar]
  · simp [LogsError, NoValueSet, UpdateUsdGeomAttribute, hp, hd, hdt, hv]

theorem UpdateUsdGeomInstanceIds_unsupported (ue : UsdBridgeUpdateEvaluator)
    (te : TimeEvaluator) (data : Buffer) (ty : UsdBridgeType) (NumPoints : Nat)
    (hp : ue.PerformsUpdate .INSTANCEIDS = true) (hty : ty ∉ [.UINT, .INT, .LONG, .ULONG]) :
    LogsError (UpdateUsdGeomInstanceIds (some data) ty NumPoints ue te) ∧
    NoValueSet .ids (UpdateUsdGeomInstanceIds (some data) ty NumPoints ue te) := by
  cases ty <;> simp at hty <;>
    simp [LogsError, NoValueSet, UpdateUsdGeomInstanceIds, hp]

theorem UpdateUsdGeomWidths_unsupported (ue : UsdBridgeUpdateEvaluator) (te : TimeEvaluator)
    (data : Buffer) (ty : UsdBridgeType) (NumPoints : Nat) (UniformScale : ℚ)
    (hp : ue.PerformsUpdate .SCALES = true) (hty : ty ∉ [.FLOAT, .DOUBLE]) :
    LogsError (UpdateUsdGeomWidths (some data) ty UniformScale NumPoints ue te) ∧
    NoValueSet .widths (UpdateUsdGeomWidths (some data) ty UniformScale NumPoints ue te) := by
  cases ty <;> simp at hty <;>
    simp [LogsError, NoValueSet, UpdateUsdGeomWidths, hp]

theorem UpdateUsdGeomScales_unsupported (ue : UsdBridgeUpdateEvaluator) (te : TimeEvaluator)
    (data : Buffer) (ty : UsdBridgeType) (NumPoints : Nat) (UniformScale : ℚ)
    (hp : ue.PerformsUpdate .SCALES = true)
    (hty : ty ∉ [.FLOAT, .DOUBLE, .FLOAT3, .DOUBLE3]) :
    LogsError (UpdateUsdGeomScales (some data) ty UniformScale NumPoints ue te) ∧
    NoValueSet .scales (UpdateUsdGeomScales (some data) ty UniformScale NumPoints ue te) := by
  cases ty <;> simp at hty <;>
    simp [LogsError, NoValueSet, UpdateUsdGeomScales, hp]

theorem UpdateUsdGeomOrientNormals_unsupported (ue : UsdBridgeUpdateEvaluator)
    (te : TimeEvaluator) (data : Buffer) (ty : UsdBridgeType) (NumPoints : Nat)
    (hp : ue.PerformsUpdate .ORIENTATIONS = true) (hty : ty ∉ [.FLOAT3, .DOUBLE3]) :
    LogsError (UpdateUsdGeomOrientNormals (some data) ty NumPoints ue te) ∧
    NoValueSet .normals (UpdateUsdGeomOrientNormals (some data) ty NumPoints ue te) := by
  cases ty <;> simp at hty <;>
    simp [LogsError, NoValueSet, UpdateUsdGeomOrientNormals, hp]

theorem UpdateUsdGeomInvisibleIds_unsupported (ue : UsdBridgeUpdateEvaluator)
    (te : TimeEvaluator) (data : Buffer) (ty : UsdBridgeType) (NumInvisibleIds : Nat)
    (hn : NumInvisibleIds ≠ 0) (hp : ue.PerformsUpdate .INVISIBLEIDS = true)
    (hty : ty ∉ [.UINT, .INT, .LONG, .ULONG]) :
    LogsError (UpdateUsdGeomInvisibleIds data ty NumInvisibleIds ue te) ∧
    NoValueSet .invisibleIds (UpdateUsdGeomInvisibleIds data ty NumInvisibleIds ue te) := by
  cases ty <;> simp at hty <;>
    simp [LogsError, NoValueSet, UpdateUsdGeomInvisibleIds, hp, hn]

theorem UpdateUsdGeomOrientations_unsupported (c : Common) (ue : UsdBridgeUpdateEvaluator)
    (te : TimeEvaluator) (data : Buffer) (ty : UsdBridgeType) (NumPoints : Nat)
    (hp : ue.PerformsUpdate .ORIENTATIONS = true) (hty : ty ∉ [.FLOAT3, .DOUBLE3, .FLOAT4]) :
    UpdateUsdGeomOrientations c (some data) ty NumPoints ue te =
      [Event.Clear .orientations (te.IsTimeVarying .ORIENTATIONS),
       Event.Log "UsdGeom OrientationsAttribute should be FLOAT3, DOUBLE3 or FLOAT4.",
       Event.Set ⟨outGeom (te.IsTimeVarying .ORIENTATIONS), .orientations⟩
         (.QuathArray (List.replicate NumPoints ⟨0, 0, 0, 0⟩)) (te.Eval .ORIENTATIONS)] := by
  cases ty <;> simp at hty <;>
    simp [UpdateUsdGeomOrientations, hp]

/-- C17 holds for eleven of the twelve members and fails for the instancer orientations.
With the member's update performed and data supplied with a type outside the accepted
set, the routines for points, face indices, normals, st texture coordinates, colours, a
generic attribute, instance ids, widths, instancer scales, point orientations as normals
and invisible ids log an error and set no value on the data attribute of either prim;
`UpdateUsdGeomOrientations` logs the error and then still sets an orientations array of
`NumPoints` quaternions on the selected prim. -/
theorem unsupported_type_writes (c : Common) (writer : UsdBridgeUsdWriter)
    (updateEval : UsdBridgeUpdateEvaluator) (timeEval : TimeEvaluator)
    (data : Buffer) (ty : UsdBridgeType) (NumPoints numPrims : Nat) :
    (∀ pointsAttr, pointsAttr ≠ .extent → updateEval.PerformsUpdate .POINTS = true →
      ty ∉ [.FLOAT3, .DOUBLE3] →
      LogsError (UpdateUsdGeomPoints pointsAttr (some data) ty NumPoints updateEval timeEval) ∧
      NoValueSet pointsAttr
        (UpdateUsdGeomPoints pointsAttr (some data) ty NumPoints updateEval timeEval)) ∧
    (∀ NumIndices, numPrims ≠ 0 → updateEval.PerformsUpdate .INDICES = true →
      ty ∉ [.ULONG, .LONG, .INT, .UINT] →
      LogsError (UpdateUsdGeomIndices (some data) ty NumIndices numPrims updateEval timeEval) ∧
      NoValueSet .faceVertexIndices
        (UpdateUsdGeomIndices (some data) ty NumIndices numPrims updateEval timeEval)) ∧
    (∀ perPrim, updateEval.PerformsUpdate .NORMALS = true → ty ∉ [.FLOAT3, .DOUBLE3] →
      LogsError
        (UpdateUsdGeomNormals (some data) ty perPrim NumPoints numPrims updateEval timeEval) ∧
      NoValueSet .normals
        (UpdateUsdGeomNormals (some data) ty perPrim NumPoints numPrims updateEval timeEval)) ∧
    (∀ Attributes, updateEval.PerformsUpdate (.ATTRIBUTE 0) = true →
      (attributeAt Attributes 0).Data = some data → (attributeAt Attributes 0).DataType = ty →
      ty ∉ [.FLOAT2, .DOUBLE2] →
      LogsError (UpdateUsdGeomTexCoords Attributes NumPoints numPrims updateEval timeEval) ∧
      NoValueSet .st (UpdateUsdGeomTexCoords Attributes NumPoints numPrims updateEval timeEval)) ∧
    (∀ perPrim, updateEval.PerformsUpdate .COLORS = true → colorComponents ty = none →
      LogsError
        (UpdateUsdGeomColors (some data) ty perPrim NumPoints numPrims updateEval timeEval) ∧
      NoValueSet .color
        (UpdateUsdGeomColors (some data) ty perPrim NumPoints numPrims updateEval timeEval)) ∧
    (∀ Attributes i, updateEval.PerformsUpdate (.ATTRIBUTE i) = true →
      (attributeAt Attributes i).Data = some data → (attributeAt Attributes i).DataType = ty →
      ty = .UNDEFINED →
      LogsError (UpdateUsdGeomAttribute c.types writer Attributes NumPoints numPrims updateEval
        timeEval i) ∧
      NoValueSet (.attribute i) (UpdateUsdGeomAttribute c.types writer Attributes NumPoints
        numPrims updateEval timeEval i)) ∧
    (updateEval.PerformsUpdate .INSTANCEIDS = true → ty ∉ [.UINT, .INT, .LONG, .ULONG] →
      LogsError (UpdateUsdGeomInstanceIds (some data) ty NumPoints updateEval timeEval) ∧
      NoValueSet .ids (UpdateUsdGeomInstanceIds (some data) ty NumPoints updateEval timeEval)) ∧
    (∀ UniformScale, updateEval.PerformsUpdate .SCALES = true → ty ∉ [.FLOAT, .DOUBLE] →
      LogsError
        (UpdateUsdGeomWidths (some data) ty UniformScale NumPoints updateEval timeEval) ∧
      NoValueSet .widths
        (UpdateUsdGeomWidths (some data) ty UniformScale NumPoints updateEval timeEval)) ∧
    (∀ UniformScale, updateEval.PerformsUpdate .SCALES = true →
      ty ∉ [.FLOAT, .DOUBLE, .FLOAT3, .DOUBLE3] →
      LogsError
        (UpdateUsdGeomScales (some data) ty UniformScale NumPoints updateEval timeEval) ∧
      NoValueSet .scales
        (UpdateUsdGeomScales (some data) ty UniformScale NumPoints updateEval timeEval)) ∧
    (updateEval.PerformsUpdate .ORIENTATIONS = true → ty ∉ [.FLOAT3, .DOUBLE3] →
      LogsError (UpdateUsdGeomOrientNormals (some data) ty NumPoints updateEval timeEval) ∧
      NoValueSet .normals
        (UpdateUsdGeomOrientNormals (some data) ty NumPoints updateEval timeEval)) ∧
    (∀ NumInvisibleIds, NumInvisibleIds ≠ 0 → updateEval.PerformsUpdate .INVISIBLEIDS = true →
      ty ∉ [.UINT, .INT, .LONG, .ULONG] →
      LogsError (UpdateUsdGeomInvisibleIds data ty NumInvisibleIds updateEval timeEval) ∧
      NoValueSet .invisibleIds
        (UpdateUsdGeomInvisibleIds data ty NumInvisibleIds updateEval timeEval)) ∧
    (updateEval.PerformsUpdate .ORIENTATIONS = true → ty ∉ [.FLOAT3, .DOUBLE3, .FLOAT4] →
      UpdateUsdGeomOrientations c (some data) ty NumPoints updateEval timeEval =
        [Event.Clear .orientations (timeEval.IsTimeVarying .ORIENTATIONS),
         Event.Log "UsdGeom OrientationsAttribute should be FLOAT3, DOUBLE3 or FLOAT4.",
         Event.Set ⟨outGeom (timeEval.IsTimeVarying .ORIENTATIONS), .orientations⟩
           (.QuathArray (List.replicate NumPoints ⟨0, 0, 0, 0⟩))
           (timeEval.Eval .ORIENTATIONS)]) := by
  exact ⟨fun pointsAttr hne hp hty =>
      UpdateUsdGeomPoints_unsupported updateEval timeEval data ty NumPoints pointsAttr hne hp hty,
    fun NumIndices hprims hp hty =>
      UpdateUsdGeomIndices_unsupported updateEval timeEval data ty NumIndices numPrims hprims hp
        hty,
    fun perPrim hp hty =>
      UpdateUsdGeomNormals_unsupported updateEval timeEval data ty NumPoints numPrims perPrim hp
        hty,
    fun Attributes hp hd hdt hty =>
      UpdateUsdGeomTexCoords_unsupported updateEval timeEval data ty NumPoints numPrims
        Attributes hp hd hdt hty,
    fun perPrim hp hty =>
      UpdateUsdGeomColors_unsupported updateEval timeEval data ty NumPoints numPrims perPrim hp
        hty,
    fun Attributes i hp hd hdt hty =>
      UpdateUsdGeomAttribute_unsupported c.types writer updateEval timeEval data NumPoints
        numPrims Attributes i hp hd (hdt.trans hty),
    fun hp hty =>
      UpdateUsdGeomInstanceIds_unsupported updateEval timeEval data ty NumPoints hp hty,
    fun UniformScale hp hty =>
      UpdateUsdGeomWidths_unsupported updateEval timeEval data ty NumPoints UniformScale hp hty,
    fun UniformScale hp hty =>
      UpdateUsdGeomScales_unsupported updateEval timeEval data ty NumPoints UniformScale hp hty,
    fun hp hty =>
      UpdateUsdGeomOrientNormals_unsupported updateEval timeEval data ty NumPoints hp hty,
    fun NumInvisibleIds hn hp hty =>
      UpdateUsdGeomInvisibleIds_unsupported updateEval timeEval data ty NumInvisibleIds hn hp
        hty,
    fun hp hty =>
      UpdateUsdGeomOrientations_unsupported c updateEval timeEval data ty NumPoints hp hty⟩

/-- C17 at the failing input: a point instancer whose orientations are supplied as
unsigned bytes. -/
theorem unsupported_type_writes_witness :
    UpdateUsdGeomOrientations sampleCommon (some (.words [1, 2, 3])) .UCHAR3 1 updateAll
        (timeEvaluatorAt (fun _ => false) 1) =
      [Event.Clear .orientations false,
       Event.Log "UsdGeom OrientationsAttribute should be FLOAT3, DOUBLE3 or FLOAT4.",
       Event.Set ⟨.uniform, .orientations⟩ (.QuathArray [⟨0, 0, 0, 0⟩]) .Default] ∧
    Event.Set ⟨.uniform, .orientations⟩ (.QuathArray [⟨0, 0, 0, 0⟩]) .Default ∈
      UpdateUsdGeometry sampleCommon sampleWriter
        (.instancer { sampleInstancer with
          Orientations := some (.words [1, 2, 3]), OrientationsType := .UCHAR3 })
        updateAll (timeEvaluatorAt (fun _ => false) 1) :=
  ⟨(unsupported_type_writes sampleCommon sampleWriter updateAll
      (timeEvaluatorAt (fun _ => false) 1) (.words [1, 2, 3]) .UCHAR3 1 1).2.2.2.2.2.2.2.2.2.2.2
      rfl (by decide),
   by decide⟩

/-! ## Initialisation and manifest (C18 to C20) -/

theorem carriesAfter_nil (n : AttrName) (b : Bool) : carriesAfter n b [] = b := rfl

theorem carriesAfter_cons (n : AttrName) (b : Bool) (e : StageEvent) (evs : List StageEvent) :
    carriesAfter n b (e :: evs) = carriesAfter n (e.carries n b) evs := rfl

theorem carriesAfter_append (n : AttrName) (b : Bool) (x y : List StageEvent) :
    carriesAfter n b (x ++ y) = carriesAfter n (carriesAfter n b x) y := by
  simp [carriesAfter, List.foldl_append]

theorem carriesAfter_ite (n : AttrName) (b : Bool) (cond : Prop) [Decidable cond]
    (x y : List StageEvent) :
    carriesAfter n b (if cond then x else y) =
      if cond then carriesAfter n b x else carriesAfter n b y := by
  split <;> rfl

theorem carriesAfter_untouched (n : AttrName) (evs : List StageEvent)
    (h : ∀ e ∈ evs, ∀ b, e.carries n b = b) (b : Bool) : carriesAfter n b evs = b := by
  induction evs generalizing b with
  | nil => rfl
  | cons e t ih =>
    rw [carriesAfter_cons, h e (List.mem_cons_self _ _)]
    exact ih (fun e he => h e (List.mem_cons_of_mem _ he)) b

theorem carriesAfter_texture (n : AttrName) (hn : n ≠ .st) (timeEval : Option TimeEvaluator)
    (b : Bool) : carriesAfter n b (CreateUsdGeomTexturePrimvars timeEval) = b := by
  apply carriesAfter_untouched
  intro e he b
  unfold CreateUsdGeomTexturePrimvars at he
  split at he
  · simp only [List.mem_singleton] at he
    subst he
    simp [StageEvent.carries, Ne.symm hn]
  · split at he
    · simp only [List.mem_singleton] at he
      subst he
      simp [StageEvent.carries, Ne.symm hn]
    · simp at he

theorem carriesAfter_attributes (n : AttrName) (hn : ∀ i, n ≠ .attribute i)
    (Attributes : List UsdBridgeAttribute) (NumAttributes : Nat)
    (timeEval : Option TimeEvaluator) (b : Bool) :
    carriesAfter n b (CreateUsdGeomAttributePrimvars Attributes NumAttributes timeEval) = b := by
  apply carriesAfter_untouched
  intro e he b
  unfold CreateUsdGeomAttributePrimvars at he
  rw [List.mem_flatMap] at he
  obtain ⟨i, -, he⟩ := he
  have hi : AttrName.attribute i ≠ n := fun h => hn i h.symm
  by_cases h1 : (attributeAt Attributes i).DataType = .UNDEFINED
  · simp [h1] at he
  · by_cases h2 : timeVarChecked timeEval (.ATTRIBUTE i) = true
    · simp only [ne_eq, h1, not_false_eq_true, if_true, h2, List.mem_singleton] at he
      subst he
      simp [StageEvent.carries, hi]
    · by_cases h3 : timeEval.isSome = true
      · simp only [ne_eq, h1, not_false_eq_true, if_true, h2, if_false, h3,
          Bool.false_eq_true, List.mem_singleton] at he
        subst he
        simp [StageEvent.carries, hi]
      · simp [h1, h2, h3] at he

theorem flatMap_filterMap_eq {α β γ : Type} (l : List α) (f : α → List β) (g : β → Option γ) :
    (l.flatMap f).filterMap g = l.flatMap (fun i => (f i).filterMap g) := by
  induction l with
  | nil => rfl
  | cons a t ih => simp [List.flatMap_cons, List.filterMap_append, ih]

theorem flatMap_ite_eq_filter_map {α β : Type} (l : List α) (p : α → Bool) (f : α → β) :
    l.flatMap (fun i => if p i = true then [f i] else []) = (l.filter p).map f := by
  induction l with
  | nil => rfl
  | cons a t ih =>
    rw [List.flatMap_cons, ih]
    by_cases h : p a = true
    · simp [h]
    · simp [h]

theorem attributePrimvars_createdAttr (Attributes : List UsdBridgeAttribute)
    (NumAttributes : Nat) (timeEval : Option TimeEvaluator) :
    (CreateUsdGeomAttributePrimvars Attributes NumAttributes timeEval).filterMap
      StageEvent.createdAttr = [] := by
  unfold CreateUsdGeomAttributePrimvars
  rw [flatMap_filterMap_eq]
  simp only [List.flatMap_eq_nil_iff]
  intro i _
  split
  · split
    · rfl
    · split <;> rfl
  · rfl

theorem attributePrimvars_createdPrimvar (Attributes : List UsdBridgeAttribute)
    (NumAttributes : Nat) :
    (CreateUsdGeomAttributePrimvars Attributes NumAttributes none).filterMap
      StageEvent.createdPrimvar = attributeNames Attributes NumAttributes := by
  unfold CreateUsdGeomAttributePrimvars attributeNames
  rw [flatMap_filterMap_eq, ← flatMap_ite_eq_filter_map]
  congr 1
  funext i
  by_cases h : (attributeAt Attributes i).DataType = .UNDEFINED
  · simp [h]
  · simp [h, timeVarChecked, StageEvent.createdPrimvar]

theorem attributePrimvars_removes (Attributes : List UsdBridgeAttribute)
    (NumAttributes : Nat) :
    ∀ e ∈ CreateUsdGeomAttributePrimvars Attributes NumAttributes none, e.removes = false := by
  intro e he
  unfold CreateUsdGeomAttributePrimvars at he
  rw [List.mem_flatMap] at he
  obtain ⟨i, -, he⟩ := he
  by_cases h1 : (attributeAt Attributes i).DataType = .UNDEFINED
  · simp [h1] at he
  · simp only [ne_eq, h1, not_false_eq_true, if_true, timeVarChecked, List.mem_singleton] at he
    subst he
    rfl

theorem texture_createdAttr (timeEval : Option TimeEvaluator) :
    (CreateUsdGeomTexturePrimvars timeEval).filterMap StageEvent.createdAttr = [] := by
  unfold CreateUsdGeomTexturePrimvars
  split
  · rfl
  · split <;> rfl

theorem initialisation_mesh (c : Common) (writer : UsdBridgeUsdWriter)
    (d : UsdBridgeMeshData) (uniformPrim : Bool) :
    (InitializeUsdGeometry c writer (GeomData.mesh d) uniformPrim).filterMap StageEvent.createdAttr =
      schemaAttributes (kindOf c (GeomData.mesh d)) ∧
    (InitializeUsdGeometry c writer (GeomData.mesh d) uniformPrim).filterMap StageEvent.createdPrimvar =
      [.color] ++ (if writer.EnableStTexCoords then [.st] else []) ++
        attributeNames (GeomData.mesh d).Attributes (GeomData.mesh d).NumAttributes ∧
    (∀ e ∈ InitializeUsdGeometry c writer (GeomData.mesh d) uniformPrim, e.removes = false) := by
  refine ⟨?_, ?_, ?_⟩
  · cases uniformPrim <;>
      simp [InitializeUsdGeometry, InitializeUsdGeometry_Impl, InitializeUsdGeometry_Impl.mesh,
        InitializeUsdGeometryTimeVar.mesh, timeVarChecked, CreateUsdGeomColorPrimvars,
        List.filterMap_append, attributePrimvars_createdAttr, texture_createdAttr,
        StageEvent.createdAttr, schemaAttributes, kindOf, apply_ite (List.filterMap _)]
  · cases uniformPrim <;> cases hst : writer.EnableStTexCoords <;>
      simp [InitializeUsdGeometry, InitializeUsdGeometry_Impl, InitializeUsdGeometry_Impl.mesh,
        InitializeUsdGeometryTimeVar.mesh, timeVarChecked, CreateUsdGeomColorPrimvars,
        CreateUsdGeomTexturePrimvars, UsdBridgeUsdWriter.Settings, hst,
        List.filterMap_append, attributePrimvars_createdPrimvar,
        StageEvent.createdPrimvar, GeomData.Attributes, GeomData.NumAttributes]
  · cases uniformPrim <;> cases hst : writer.EnableStTexCoords <;>
      simp [InitializeUsdGeometry, InitializeUsdGeometry_Impl, InitializeUsdGeometry_Impl.mesh,
        InitializeUsdGeometryTimeVar.mesh, timeVarChecked, CreateUsdGeomColorPrimvars,
        CreateUsdGeomTexturePrimvars, UsdBridgeUsdWriter.Settings, hst,
        StageEvent.removes, or_imp, forall_and] <;>
      exact attributePrimvars_removes _ _

theorem initialisation_curve (c : Common) (writer : UsdBridgeUsdWriter)
    (d : UsdBridgeCurveData) (uniformPrim : Bool) :
    (InitializeUsdGeometry c writer (GeomData.curve d) uniformPrim).filterMap StageEvent.createdAttr =
      schemaAttributes (kindOf c (GeomData.curve d)) ∧
    (InitializeUsdGeometry c writer (GeomData.curve d) uniformPrim).filterMap StageEvent.createdPrimvar =
      [.color] ++ (if writer.EnableStTexCoords then [.st] else []) ++
        attributeNames (GeomData.curve d).Attributes (GeomData.curve d).NumAttributes ∧
    (∀ e ∈ InitializeUsdGeometry c writer (GeomData.curve d) uniformPrim, e.removes = false) := by
  refine ⟨?_, ?_, ?_⟩
  · cases uniformPrim <;>
      simp [InitializeUsdGeometry, InitializeUsdGeometry_Impl, InitializeUsdGeometry_Impl.curve,
        InitializeUsdGeometryTimeVar.curves, timeVarChecked, CreateUsdGeomColorPrimvars,
        List.filterMap_append, attributePrimvars_createdAttr, texture_createdAttr,
        StageEvent.createdAttr, schemaAttributes, kindOf, apply_ite (List.filterMap _)]
  · cases uniformPrim <;> cases hst : writer.EnableStTexCoords <;>
      simp [InitializeUsdGeometry, InitializeUsdGeometry_Impl, InitializeUsdGeometry_Impl.curve,
        InitializeUsdGeometryTimeVar.curves, timeVarChecked, CreateUsdGeomColorPrimvars,
        CreateUsdGeomTexturePrimvars, UsdBridgeUsdWriter.Settings, hst,
        List.filterMap_append, attributePrimvars_createdPrimvar,
        StageEvent.createdPrimvar, GeomData.Attributes, GeomData.NumAttributes]
  · cases uniformPrim <;> cases hst : writer.EnableStTexCoords <;>
      simp [InitializeUsdGeometry, InitializeUsdGeometry_Impl, InitializeUsdGeometry_Impl.curve,
        InitializeUsdGeometryTimeVar.curves, timeVarChecked, CreateUsdGeomColorPrimvars,
        CreateUsdGeomTexturePrimvars, UsdBridgeUsdWriter.Settings, hst,
        StageEvent.removes, or_imp, forall_and] <;>
      exact attributePrimvars_removes _ _

theorem initialisation_points (c : Common) (writer : UsdBridgeUsdWriter)
    (d : UsdBridgeInstancerData) (uniformPrim : Bool) (hu : c.UsesUsdGeomPoints d = true) :
    (InitializeUsdGeometry c writer (GeomData.instancer d) uniformPrim).filterMap StageEvent.createdAttr =
      schemaAttributes (kindOf c (GeomData.instancer d)) ∧
    (InitializeUsdGeometry c writer (GeomData.instancer d) uniformPrim).filterMap StageEvent.createdPrimvar =
      [.color] ++ (if writer.EnableStTexCoords then [.st] else []) ++
        attributeNames (GeomData.instancer d).Attributes (GeomData.instancer d).NumAttributes ∧
    (∀ e ∈ InitializeUsdGeometry c writer (GeomData.instancer d) uniformPrim, e.removes = false) := by
  refine ⟨?_, ?_, ?_⟩
  · cases uniformPrim <;>
      simp [InitializeUsdGeometry, InitializeUsdGeometry_Impl,
        InitializeUsdGeometry_Impl.instancer, hu,
        InitializeUsdGeometryTimeVar.points, timeVarChecked, CreateUsdGeomColorPrimvars,
        List.filterMap_append, attributePrimvars_createdAttr, texture_createdAttr,
        StageEvent.createdAttr, schemaAttributes, kindOf, apply_ite (List.filterMap _)]
  · cases uniformPrim <;> cases hst : writer.EnableStTexCoords <;>
      simp [InitializeUsdGeometry, InitializeUsdGeometry_Impl,
        InitializeUsdGeometry_Impl.instancer, hu,
        InitializeUsdGeometryTimeVar.points, timeVarChecked, CreateUsdGeomColorPrimvars,
        CreateUsdGeomTexturePrimvars, UsdBridgeUsdWriter.Settings, hst,
        List.filterMap_append, attributePrimvars_createdPrimvar,
        StageEvent.createdPrimvar, GeomData.Attributes, GeomData.NumAttributes]
  · cases uniformPrim <;> cases hst : writer.EnableStTexCoords <;>
      simp [InitializeUsdGeometry, InitializeUsdGeometry_Impl,
        InitializeUsdGeometry_Impl.instancer, hu,
        InitializeUsdGeometryTimeVar.points, timeVarChecked, CreateUsdGeomColorPrimvars,
        CreateUsdGeomTexturePrimvars, UsdBridgeUsdWriter.Settings, hst,
        StageEvent.removes, or_imp, forall_and] <;>
      exact attributePrimvars_removes _ _

theorem timeVar_instancer_removes (d : UsdBridgeInstancerData) (settings : UsdBridgeSettings) :
    ∀ e ∈ InitializeUsdGeometryTimeVar.instancer d settings none, e.removes = false := by
  intro e he
  simp only [InitializeUsdGeometryTimeVar.instancer, timeVarChecked, if_true,
    CreateUsdGeomColorPrimvars, CreateUsdGeomTexturePrimvars, List.mem_append] at he
  rcases he with ((((((((((h | h) | h) | h) | h) | h) | h) | h) | h) | h) | h)
  all_goals
    first
      | exact attributePrimvars_removes _ _ e h
      | (revert h; revert e; decide)
      | (split at h
         · revert h; revert e; decide
         · simp at h)

set_option maxHeartbeats 1600000 in
theorem initialisation_instancer (c : Common) (writer : UsdBridgeUsdWriter)
    (d : UsdBridgeInstancerData) (uniformPrim : Bool) (hu : c.UsesUsdGeomPoints d = false) :
    (InitializeUsdGeometry c writer (GeomData.instancer d) uniformPrim).filterMap StageEvent.createdAttr =
      schemaAttributes (kindOf c (GeomData.instancer d)) ∧
    (InitializeUsdGeometry c writer (GeomData.instancer d) uniformPrim).filterMap StageEvent.createdPrimvar =
      [.color] ++ (if writer.EnableStTexCoords then [.st] else []) ++
        attributeNames (GeomData.instancer d).Attributes (GeomData.instancer d).NumAttributes ∧
    (∀ e ∈ InitializeUsdGeometry c writer (GeomData.instancer d) uniformPrim, e.removes = false) := by
  have key : ∃ tail : List StageEvent,
      InitializeUsdGeometry c writer (.instancer d) uniformPrim =
        ([StageEvent.GetOrDefinePrim .UsdGeomPointInstancer] ++
          InitializeUsdGeometryTimeVar.instancer d writer.Settings none) ++ tail ∧
      tail.filterMap StageEvent.createdAttr = [] ∧
      tail.filterMap StageEvent.createdPrimvar = [] ∧
      ∀ e ∈ tail, e.removes = false := by
    apply Exists.intro
    constructor
    · simp only [InitializeUsdGeometry, InitializeUsdGeometry_Impl,
        InitializeUsdGeometry_Impl.instancer, hu, Bool.false_eq_true, if_false]
      rfl
    · generalize d.shape0 = s
      cases uniformPrim <;> cases s <;> decide
  obtain ⟨tail, htr, ht1, ht2, ht3⟩ := key
  rw [htr]
  refine ⟨?_, ?_, ?_⟩
  · rw [List.filterMap_append, ht1, List.append_nil]
    simp [InitializeUsdGeometryTimeVar.instancer, timeVarChecked, CreateUsdGeomColorPrimvars,
      List.filterMap_append, attributePrimvars_createdAttr, texture_createdAttr,
      StageEvent.createdAttr, schemaAttributes, kindOf, hu, apply_ite (List.filterMap _)]
  · rw [List.filterMap_append, ht2, List.append_nil]
    cases hst : writer.EnableStTexCoords <;>
      simp [InitializeUsdGeometryTimeVar.instancer, timeVarChecked, CreateUsdGeomColorPrimvars,
        CreateUsdGeomTexturePrimvars, UsdBridgeUsdWriter.Settings, hst,
        List.filterMap_append, attributePrimvars_createdPrimvar,
        StageEvent.createdPrimvar, GeomData.Attributes, GeomData.NumAttributes]
  · intro e he
    rcases List.mem_append.1 he with h | h
    · rcases List.mem_append.1 h with h | h
      · rw [List.mem_singleton.1 h]
        rfl
      · exact timeVar_instancer_removes d _ e h
    · exact ht3 e h

/-- C18, initialisation without a time evaluator. The calls of `InitializeUsdGeometry`
create the schema attributes of the prim kind, each once and in the order of the list;
they create the colour primvar, the st primvar exactly when `EnableStTexCoords` is set,
and one primvar for each attribute index below `NumAttributes` whose type is not
`UNDEFINED`, and no other primvar; no call removes a property or a primvar. -/
theorem initialisation_creates (c : Common) (writer : UsdBridgeUsdWriter) (geomData : GeomData)
    (uniformPrim : Bool) :
    (InitializeUsdGeometry c writer geomData uniformPrim).filterMap StageEvent.createdAttr =
      schemaAttributes (kindOf c geomData) ∧
    (InitializeUsdGeometry c writer geomData uniformPrim).filterMap StageEvent.createdPrimvar =
      [.color] ++ (if writer.EnableStTexCoords then [.st] else []) ++
        attributeNames geomData.Attributes geomData.NumAttributes ∧
    (∀ e ∈ InitializeUsdGeometry c writer geomData uniformPrim, e.removes = false) := by
  cases geomData with
  | mesh d => exact initialisation_mesh c writer d uniformPrim
  | instancer d =>
    cases hu : c.UsesUsdGeomPoints d
    · exact initialisation_instancer c writer d uniformPrim hu
    · exact initialisation_points c writer d uniformPrim hu
  | curve d => exact initialisation_curve c writer d uniformPrim

/-- C18 at work: the curve with an undefined and a float attribute. -/
theorem initialisation_creates_witness :
    (InitializeUsdGeometry sampleCommon sampleWriter (.curve attributedCurve) true).filterMap
        StageEvent.createdAttr =
      [.points, .extent, .curveVertexCounts, .normals, .widths] ∧
    (InitializeUsdGeometry sampleCommon sampleWriter (.curve attributedCurve) true).filterMap
        StageEvent.createdPrimvar = [.color, .attribute 1] ∧
    (∀ e ∈ InitializeUsdGeometry sampleCommon sampleWriter (.curve attributedCurve) true,
      e.removes = false) :=
  initialisation_creates sampleCommon sampleWriter (.curve attributedCurve) true

theorem manifest_mesh (c : Common) (writer : UsdBridgeUsdWriter) (EnableSaving : Bool)
    (d : UsdBridgeMeshData) (timeEval : TimeEvaluator) (n : AttrName) (before : Bool)
    (hn : n ∈ schemaAttributes .mesh ++ [.color]) :
    carriesAfter n before (UpdateUsdGeometryManifest c writer EnableSaving (.mesh d) timeEval) =
      timeEval.IsTimeVarying (governingMember .mesh n) := by
  simp only [schemaAttributes, List.cons_append, List.nil_append, List.mem_cons,
    List.mem_singleton, List.not_mem_nil, or_false] at hn
  rcases hn with rfl | rfl | rfl | rfl | rfl | rfl <;>
    cases EnableSaving <;> cases writer.EnableStTexCoords <;>
    simp [UpdateUsdGeometryManifest, InitializeUsdGeometry_Impl,
      InitializeUsdGeometry_Impl.mesh, InitializeUsdGeometryTimeVar.mesh,
      UsdBridgeUsdWriter.Settings, CreateUsdGeomColorPrimvars, timeVarChecked,
      carriesAfter_append, carriesAfter_ite, carriesAfter_cons, carriesAfter_nil,
      carriesAfter_texture, carriesAfter_attributes, StageEvent.carries, governingMember]

theorem manifest_points (c : Common) (writer : UsdBridgeUsdWriter) (EnableSaving : Bool)
    (d : UsdBridgeInstancerData) (timeEval : TimeEvaluator) (n : AttrName) (before : Bool)
    (hu : c.UsesUsdGeomPoints d = true) (hn : n ∈ schemaAttributes .points ++ [.color]) :
    carriesAfter n before
        (UpdateUsdGeometryManifest c writer EnableSaving (.instancer d) timeEval) =
      timeEval.IsTimeVarying (governingMember .points n) := by
  simp only [schemaAttributes, List.cons_append, List.nil_append, List.mem_cons,
    List.mem_singleton, List.not_mem_nil, or_false] at hn
  rcases hn with rfl | rfl | rfl | rfl | rfl | rfl <;>
    cases EnableSaving <;> cases writer.EnableStTexCoords <;>
    simp [UpdateUsdGeometryManifest, InitializeUsdGeometry_Impl,
      InitializeUsdGeometry_Impl.instancer, hu, InitializeUsdGeometryTimeVar.points,
      UsdBridgeUsdWriter.Settings, CreateUsdGeomColorPrimvars, timeVarChecked,
      carriesAfter_append, carriesAfter_ite, carriesAfter_cons, carriesAfter_nil,
      carriesAfter_texture, carriesAfter_attributes, StageEvent.carries, governingMember]

set_option maxHeartbeats 1600000 in
theorem manifest_instancer (c : Common) (writer : UsdBridgeUsdWriter) (EnableSaving : Bool)
    (d : UsdBridgeInstancerData) (timeEval : TimeEvaluator) (n : AttrName) (before : Bool)
    (hu : c.UsesUsdGeomPoints d = false) (hn : n ∈ schemaAttributes .instancer ++ [.color]) :
    carriesAfter n before
        (UpdateUsdGeometryManifest c writer EnableSaving (.instancer d) timeEval) =
      timeEval.IsTimeVarying (governingMember .instancer n) := by
  simp only [schemaAttributes, List.cons_append, List.nil_append, List.mem_cons,
    List.mem_singleton, List.not_mem_nil, or_false] at hn
  rcases hn with rfl | rfl | rfl | rfl | rfl | rfl | rfl | rfl | rfl | rfl <;>
    cases EnableSaving <;> cases writer.EnableStTexCoords <;>
    simp [UpdateUsdGeometryManifest, InitializeUsdGeometry_Impl,
      InitializeUsdGeometry_Impl.instancer, hu, InitializeUsdGeometryTimeVar.instancer,
      UsdBridgeUsdWriter.Settings, CreateUsdGeomColorPrimvars, timeVarChecked,
      carriesAfter_append, carriesAfter_ite, carriesAfter_cons, carriesAfter_nil,
      carriesAfter_texture, carriesAfter_attributes, StageEvent.carries, governingMember]

/-- C19, manifest of mesh, points and point instancer prims. After
`UpdateUsdGeometryManifest` on a mesh or on instancer data, the manifest prim carries a
schema attribute of its kind, or the colour primvar, exactly when the governing member is
time-varying, whether or not it carried the property before the call. -/
theorem manifest_properties (c : Common) (writer : UsdBridgeUsdWriter) (EnableSaving : Bool)
    (geomData : GeomData) (timeEval : TimeEvaluator) (n : AttrName) (before : Bool)
    (hk : kindOf c geomData ≠ .curves)
    (hn : n ∈ schemaAttributes (kindOf c geomData) ++ [.color]) :
    carriesAfter n before (UpdateUsdGeometryManifest c writer EnableSaving geomData timeEval) =
      timeEval.IsTimeVarying (governingMember (kindOf c geomData) n) := by
  cases geomData with
  | mesh d => exact manifest_mesh c writer EnableSaving d timeEval n before hn
  | instancer d =>
    cases hu : c.UsesUsdGeomPoints d
    · simp only [kindOf, hu, Bool.false_eq_true, if_false] at hn ⊢
      exact manifest_instancer c writer EnableSaving d timeEval n before hu hn
    · simp only [kindOf, hu, if_true] at hn ⊢
      exact manifest_points c writer EnableSaving d timeEval n before hu hn
  | curve d => exact absurd rfl hk

/-- C19 at work: the manifest of the sample instancer with time-varying instance ids,
on a prim that carried the scales and not the ids. -/
theorem manifest_properties_witness :
    carriesAfter .ids false
        (UpdateUsdGeometryManifest sampleCommon sampleWriter true (.instancer sampleInstancer)
          (timeEvaluatorAt (fun m => decide (m = .INSTANCEIDS)) 1)) = true ∧
    carriesAfter .scales true
        (UpdateUsdGeometryManifest sampleCommon sampleWriter true (.instancer sampleInstancer)
          (timeEvaluatorAt (fun m => decide (m = .INSTANCEIDS)) 1)) = false :=
  ⟨manifest_properties sampleCommon sampleWriter true (.instancer sampleInstancer)
      (timeEvaluatorAt (fun m => decide (m = .INSTANCEIDS)) 1) .ids false (by decide)
      (by decide),
   manifest_properties sampleCommon sampleWriter true (.instancer sampleInstancer)
      (timeEvaluatorAt (fun m => decide (m = .INSTANCEIDS)) 1) .scales true (by decide)
      (by decide)⟩

/-- C20 fails on the code for the points attribute: the manifest of a curve removes the
property `positions` where it should remove `points`. After `UpdateUsdGeometryManifest`
on curve data the prim carries `points` when POINTS is time-varying or when it carried
`points` before the call, so a prim that carried `points` keeps it although POINTS is
not time-varying; `extent`, `curveVertexCounts`, `normals` and `widths` are carried
exactly when their member is time-varying. -/
theorem curve_manifest_points (c : Common) (writer : UsdBridgeUsdWriter) (EnableSaving : Bool)
    (curveData : UsdBridgeCurveData) (timeEval : TimeEvaluator) (before : Bool) :
    carriesAfter .points before
        (UpdateUsdGeometryManifest c writer EnableSaving (.curve curveData) timeEval) =
      (timeEval.IsTimeVarying .POINTS || before) ∧
    (∀ n, n ∈ [AttrName.extent, .curveVertexCounts, .normals, .widths] →
      carriesAfter n before
          (UpdateUsdGeometryManifest c writer EnableSaving (.curve curveData) timeEval) =
        timeEval.IsTimeVarying (governingMember .curves n)) := by
  refine ⟨?_, ?_⟩
  · cases EnableSaving <;> cases writer.EnableStTexCoords <;>
      cases hP : timeEval.IsTimeVarying .POINTS <;>
      simp [UpdateUsdGeometryManifest, InitializeUsdGeometry_Impl,
        InitializeUsdGeometry_Impl.curve, InitializeUsdGeometryTimeVar.curves,
        UsdBridgeUsdWriter.Settings, CreateUsdGeomColorPrimvars, timeVarChecked,
        carriesAfter_append, carriesAfter_ite, carriesAfter_cons, carriesAfter_nil,
        carriesAfter_texture, carriesAfter_attributes, StageEvent.carries, hP]
  · intro n hn
    simp only [List.mem_cons, List.mem_singleton, List.not_mem_nil, or_false] at hn
    rcases hn with rfl | rfl | rfl | rfl <;>
      cases EnableSaving <;> cases writer.EnableStTexCoords <;>
      simp [UpdateUsdGeometryManifest, InitializeUsdGeometry_Impl,
        InitializeUsdGeometry_Impl.curve, InitializeUsdGeometryTimeVar.curves,
        UsdBridgeUsdWriter.Settings, CreateUsdGeomColorPrimvars, timeVarChecked,
        carriesAfter_append, carriesAfter_ite, carriesAfter_cons, carriesAfter_nil,
        carriesAfter_texture, carriesAfter_attributes, StageEvent.carries, governingMember]

/-- C20 at the failing input: two manifest updates of the sample curve, the first with
POINTS time-varying on a prim without properties, the second with no member
time-varying; the prim carries `points` after the first and still after the second, and
the extent is carried after the first only. -/
theorem curve_manifest_points_witness :
    carriesAfter .points false
        (UpdateUsdGeometryManifest sampleCommon sampleWriter false (.curve sampleCurve)
          (timeEvaluatorAt (fun m => decide (m = .POINTS)) 1)) = true ∧
    carriesAfter .points true
        (UpdateUsdGeometryManifest sampleCommon sampleWriter false (.curve sampleCurve)
          (timeEvaluatorAt (fun _ => false) 2)) = true ∧
    (timeEvaluatorAt (fun _ => false) 2).IsTimeVarying .POINTS = false ∧
    carriesAfter .extent true
        (UpdateUsdGeometryManifest sampleCommon sampleWriter false (.curve sampleCurve)
          (timeEvaluatorAt (fun _ => false) 2)) = false :=
  ⟨(curve_manifest_points sampleCommon sampleWriter false sampleCurve
      (timeEvaluatorAt (fun m => decide (m = .POINTS)) 1) false).1,
   (curve_manifest_points sampleCommon sampleWriter false sampleCurve
      (timeEvaluatorAt (fun _ => false) 2) true).1,
   rfl,
   (curve_manifest_points sampleCommon sampleWriter false sampleCurve
      (timeEvaluatorAt (fun _ => false) 2) true).2 .extent (by decide)⟩

/-! ## Interpolation and integer conversions (C21 to C23) -/

/-- C21 as amended, interpolation on the uniform prim. When data is supplied and the update
is performed, the routines for normals, st texture coordinates, colours and a generic
attribute whose primvar exists on the selected prim set the interpolation token on the
attribute of the uniform prim, whatever the time-varying flag of the member, while the
array of an accepted type is set on the prim that the flag selects; a generic attribute
whose primvar does not exist on the selected prim gets its clear call and a logged error,
and no token; and no call of `UpdateUsdGeometry` sets an interpolation token on the
time-varying prim. -/
theorem interpolation_on_uniform_prim (c : Common) (writer : UsdBridgeUsdWriter)
    (updateEval : UsdBridgeUpdateEvaluator) (timeEval : TimeEvaluator) (data : Buffer)
    (NumPoints numPrims : Nat) :
    (∀ ty perPrim, updateEval.PerformsUpdate .NORMALS = true →
      Event.SetInterpolation ⟨.uniform, .normals⟩
          (if perPrim = true then TfToken.uniform else TfToken.vertex) ∈
        UpdateUsdGeomNormals (some data) ty perPrim NumPoints numPrims updateEval timeEval ∧
      (ty = .FLOAT3 ∨ ty = .DOUBLE3 →
        ∃ v, Event.Set ⟨outGeom (timeEval.IsTimeVarying .NORMALS), .normals⟩ v
            (timeEval.Eval .NORMALS) ∈
          UpdateUsdGeomNormals (some data) ty perPrim NumPoints numPrims updateEval timeEval)) ∧
    (∀ Attributes, updateEval.PerformsUpdate (.ATTRIBUTE 0) = true →
      (attributeAt Attributes 0).Data = some data →
      Event.SetInterpolation ⟨.uniform, .st⟩
          (if (attributeAt Attributes 0).PerPrimData = true then TfToken.uniform
            else TfToken.vertex) ∈
        UpdateUsdGeomTexCoords Attributes NumPoints numPrims updateEval timeEval ∧
      ((attributeAt Attributes 0).DataType = .FLOAT2 ∨
          (attributeAt Attributes 0).DataType = .DOUBLE2 →
        ∃ v, Event.Set ⟨outGeom (timeEval.IsTimeVarying (.ATTRIBUTE 0)), .st⟩ v
            (timeEval.Eval (.ATTRIBUTE 0)) ∈
          UpdateUsdGeomTexCoords Attributes NumPoints numPrims updateEval timeEval)) ∧
    (∀ ty perPrim, updateEval.PerformsUpdate .COLORS = true →
      Event.SetInterpolation ⟨.uniform, .color⟩
          (if perPrim = true then TfToken.uniform else TfToken.vertex) ∈
        UpdateUsdGeomColors (some data) ty perPrim NumPoints numPrims updateEval timeEval ∧
      (colorComponents ty ≠ none →
        ∃ v, Event.Set ⟨outGeom (timeEval.IsTimeVarying .COLORS), .color⟩ v
            (timeEval.Eval .COLORS) ∈
          UpdateUsdGeomColors (some data) ty perPrim NumPoints numPrims updateEval timeEval)) ∧
    (∀ Attributes i, updateEval.PerformsUpdate (.ATTRIBUTE i) = true →
      (attributeAt Attributes i).Data = some data →
      writer.primvarValid ⟨outGeom (timeEval.IsTimeVarying (.ATTRIBUTE i)), .attribute i⟩ = true →
      Event.SetInterpolation ⟨.uniform, .attribute i⟩
          (if (attributeAt Attributes i).PerPrimData = true then TfToken.uniform
            else TfToken.vertex) ∈
        UpdateUsdGeomAttribute c.types writer Attributes NumPoints numPrims updateEval
          timeEval i ∧
      ((attributeAt Attributes i).DataType ≠ .UNDEFINED →
        ∃ v, Event.Set ⟨outGeom (timeEval.IsTimeVarying (.ATTRIBUTE i)), .attribute i⟩ v
            (timeEval.Eval (.ATTRIBUTE i)) ∈
          UpdateUsdGeomAttribute c.types writer Attributes NumPoints numPrims updateEval
            timeEval i)) ∧
    (∀ Attributes i, updateEval.PerformsUpdate (.ATTRIBUTE i) = true →
      writer.primvarValid ⟨outGeom (timeEval.IsTimeVarying (.ATTRIBUTE i)), .attribute i⟩ =
        false →
      ∃ msg, UpdateUsdGeomAttribute c.types writer Attributes NumPoints numPrims updateEval
          timeEval i =
        [Event.Clear (.attribute i) (timeEval.IsTimeVarying (.ATTRIBUTE i)), Event.Log msg]) ∧
    (∀ geomData a t,
      Event.SetInterpolation a t ∈ UpdateUsdGeometry c writer geomData updateEval timeEval →
      a.side = .uniform) := by
  refine ⟨?_, ?_, ?_, ?_, ?_, ?_⟩
  · intro ty perPrim hp
    have h := UpdateUsdGeomNormals_count data ty perPrim NumPoints numPrims updateEval timeEval hp
    exact ⟨h.1, fun hty => (h.2.2.2 hty).imp fun v hv => hv.1⟩
  · intro Attributes hp hd
    have h := UpdateUsdGeomTexCoords_count Attributes data hd NumPoints numPrims updateEval
      timeEval hp
    exact ⟨h.1, fun hty => (h.2.2.2 hty).imp fun v hv => hv.1⟩
  · intro ty perPrim hp
    have h := UpdateUsdGeomColors_count data ty perPrim NumPoints numPrims updateEval timeEval hp
    exact ⟨h.1, fun hty => (h.2.2.2 hty).imp fun v hv => hv.1⟩
  · intro Attributes i hp hd hv
    have h := UpdateUsdGeomAttribute_count c.types writer Attributes i data hd NumPoints numPrims
      updateEval timeEval hp hv
    exact ⟨h.1, fun hty => (h.2.2.2 hty).imp fun v hv => hv.1⟩
  · intro Attributes i hp hv
    simp only [UpdateUsdGeomAttribute, hp, hv, if_true, Bool.not_false]
    exact ⟨_, rfl⟩
  · intro geomData a t h
    exact ((UpdateUsdGeometry_traceOK c writer geomData updateEval timeEval).1 _ h).2

/-- C21 as amended at work: per-vertex normals of a time-varying member. -/
theorem interpolation_on_uniform_prim_witness :
    Event.SetInterpolation ⟨.uniform, .normals⟩ TfToken.vertex ∈
        UpdateUsdGeomNormals (some (.reals [0, 0, 1])) .FLOAT3 false 1 1 updateAll
          (timeEvaluatorAt (fun _ => true) 1) ∧
    (UsdBridgeType.FLOAT3 = .FLOAT3 ∨ UsdBridgeType.FLOAT3 = .DOUBLE3 →
      ∃ v, Event.Set ⟨.timeVar, .normals⟩ v (.Time 1) ∈
        UpdateUsdGeomNormals (some (.reals [0, 0, 1])) .FLOAT3 false 1 1 updateAll
          (timeEvaluatorAt (fun _ => true) 1)) :=
  (interpolation_on_uniform_prim sampleCommon sampleWriter updateAll
    (timeEvaluatorAt (fun _ => true) 1) (.reals [0, 0, 1]) 1 1).1 .FLOAT3 false rfl

/-- C21 as stated fails for a generic attribute whose primvar does not exist on the
selected prim: data is supplied and the update is performed, and no interpolation token is
set on either prim. -/
theorem interpolation_on_uniform_prim_counterexample :
    (attributeAt [⟨some (.reals [4]), .FLOAT, true⟩] 0).Data = some (.reals [4]) ∧
    updateAll.PerformsUpdate (.ATTRIBUTE 0) = true ∧
    (∀ a t, Event.SetInterpolation a t ∉
      UpdateUsdGeomAttribute sampleCommon.types ⟨false, fun _ => false⟩
        [⟨some (.reals [4]), .FLOAT, true⟩] 1 1 updateAll
        (timeEvaluatorAt (fun _ => true) 1) 0) := by
  refine ⟨rfl, rfl, ?_⟩
  intro a t
  simp [UpdateUsdGeomAttribute, updateAll, timeEvaluatorAt]

theorem toSigned_id (w : Nat) (hw : 1 ≤ w) (z : Int) (h : inSigned w z = true) :
    toSigned w z = z := by
  simp only [inSigned, Bool.and_eq_true, decide_eq_true_eq] at h
  obtain ⟨h0, h1⟩ := h
  have hpow : (2 : Int) ^ w = 2 * (2 : Int) ^ (w - 1) := by
    rw [← pow_succ']
    congr 1
    omega
  have hpos : (0 : Int) < (2 : Int) ^ (w - 1) := by positivity
  unfold toSigned
  by_cases hz : 0 ≤ z
  · have : z % (2 : Int) ^ w = z := Int.emod_eq_of_lt hz (by linarith)
    simp [this, h1]
  · have hz2 : z < 0 := by omega
    have : z % (2 : Int) ^ w = z + (2 : Int) ^ w := by
      rw [← Int.add_emod_self]
      exact Int.emod_eq_of_lt (by linarith) (by linarith)
    rw [this]
    have hge : ¬ (z + (2 : Int) ^ w < (2 : Int) ^ (w - 1)) := by linarith
    simp [hge]

theorem inSigned_of_nat (w : Nat) (u : Nat) (h : (u : Int) < (2 : Int) ^ (w - 1)) :
    inSigned w (u : Int) = true := by
  simp only [inSigned, Bool.and_eq_true, decide_eq_true_eq]
  refine ⟨?_, h⟩
  have hpos : (0 : Int) < (2 : Int) ^ (w - 1) := by positivity
  have : (0 : Int) ≤ (u : Int) := Int.ofNat_nonneg u
  linarith

theorem inSigned_32_64 (z : Int) (h : inSigned 32 z = true) : inSigned 64 z = true := by
  simp only [inSigned, Bool.and_eq_true, decide_eq_true_eq] at h ⊢
  norm_num at h ⊢
  constructor <;> linarith [h.1, h.2]

theorem getElem?_map_range {β : Type} (f : Nat → β) (n i : Nat) (hi : i < n) :
    ((List.range n).map f)[i]? = some (f i) := by
  rw [List.getElem?_map, List.getElem?_range hi]
  rfl

theorem words_getD (a : List Nat) (i : Nat) (hi : i < a.length) :
    Buffer.word (.words a) i = a[i] := by
  simp only [Buffer.word, List.getD_eq_getElem _ _ hi]

theorem all_getElem {α : Type} (p : α → Bool) (a : List α) (h : a.all p = true) (i : Nat)
    (hi : i < a.length) : p a[i] = true :=
  List.all_eq_true.1 h _ (List.getElem_mem hi)

theorem getElem?_map_some {α β : Type} (a : List α) (f : α → β) (i : Nat) (v : β)
    (h : (a[i]?).map f = some v) : ∃ hi : i < a.length, f a[i] = v := by
  by_cases hi : i < a.length
  · rw [List.getElem?_eq_getElem hi] at h
    simp only [Option.map_some', Option.some.injEq] at h
    exact ⟨hi, h⟩
  · rw [List.getElem?_eq_none (by omega)] at h
    simp at h

theorem getElem?_some_lt {α : Type} (a : List α) (i : Nat) (v : α)
    (h : a[i]? = some v) : ∃ hi : i < a.length, a[i] = v := by
  by_cases hi : i < a.length
  · rw [List.getElem?_eq_getElem hi] at h
    simp only [Option.some.injEq] at h
    exact ⟨hi, h⟩
  · rw [List.getElem?_eq_none (by omega)] at h
    simp at h

theorem narrowed_entry (src : VtValue) (ty : UsdBridgeType) (hty : src.sourceType = some ty)
    (hsup : ty ∈ [UsdBridgeType.ULONG, .LONG, .UINT, .INT]) (hr : src.inRange = true)
    (i : Nat) (v : Int) (hv : src.intAt i = some v) (h0 : 0 ≤ v) (h1 : v < 2 ^ 31) :
    (match ty with
      | .ULONG => to_int ((uint64_t src.image i : Nat) : Int)
      | .LONG => to_int (int64_t src.image i)
      | .INT => VtIntArray.elem src.image i
      | .UINT => VtIntArray.elem src.image i
      | _ => 0) = v := by
  have h32 : inSigned 32 v = true := by
    simp only [inSigned, Bool.and_eq_true, decide_eq_true_eq]
    norm_num
    constructor <;> linarith
  cases src <;> simp only [VtValue.sourceType, Option.some.injEq] at hty <;>
    first
    | exact absurd hty (by simp)
    | skip
  all_goals subst hty
  all_goals simp at hsup
  all_goals simp only [VtValue.inRange] at hr
  all_goals simp only [VtValue.intAt] at hv
  case UIntArray a =>
    obtain ⟨hi, rfl⟩ := getElem?_map_some a _ i v hv
    simp only [VtValue.image, VtIntArray, readSigned, words_getD a i hi]
    exact toSigned_id 32 (by decide) _ h32
  case IntArray a =>
    obtain ⟨hi, rfl⟩ := getElem?_some_lt a i v hv
    simp only [VtValue.image, VtIntArray]
    exact readSigned_words 32 (by decide) a i hi hr
  case Int64Array a =>
    obtain ⟨hi, rfl⟩ := getElem?_some_lt a i v hv
    simp only [VtValue.image, int64_t, readSigned_words 64 (by decide) a i hi hr]
    exact toSigned_id 32 (by decide) _ h32
  case UInt64Array a =>
    obtain ⟨hi, rfl⟩ := getElem?_map_some a _ i v hv
    simp only [VtValue.image, uint64_t, readUnsigned_words 64 a i hi hr]
    exact toSigned_id 32 (by decide) _ h32

/-- C22, index narrowing. For a face-index buffer that is the memory image of an array
`src` of one of the four supported index types, with the INDICES update performed: if the
number of primitives is not 0, the face-vertex-indices array set has exactly `NumIndices`
entries, and entry `i` equals the source entry `i` whenever that value is at least 0 and
below `2 ^ 31`; if the number of primitives is 0, the routine divides by zero after its
clear calls and sets no array. -/
theorem index_narrowing (src : VtValue) (ty : UsdBridgeType) (NumIndices numPrims : Nat)
    (updateEval : UsdBridgeUpdateEvaluator) (timeEval : TimeEvaluator)
    (hty : src.sourceType = some ty)
    (hsup : ty ∈ [UsdBridgeType.ULONG, .LONG, .UINT, .INT]) (hr : src.inRange = true)
    (hp : updateEval.PerformsUpdate .INDICES = true) :
    (numPrims ≠ 0 → ∃ (counts idx : List Int),
      UpdateUsdGeomIndices (some src.image) ty NumIndices numPrims updateEval timeEval =
        [Event.Clear .faceVertexIndices (timeEval.IsTimeVarying .INDICES),
         Event.Clear .faceVertexCounts (timeEval.IsTimeVarying .INDICES),
         Event.Set ⟨outGeom (timeEval.IsTimeVarying .INDICES), .faceVertexCounts⟩
           (.IntArray counts) (timeEval.Eval .INDICES),
         Event.Set ⟨outGeom (timeEval.IsTimeVarying .INDICES), .faceVertexIndices⟩
           (.IntArray idx) (timeEval.Eval .INDICES)] ∧
      idx.length = NumIndices ∧
      ∀ (i : Nat) (v : Int), i < NumIndices → src.intAt i = some v → 0 ≤ v → v < 2 ^ 31 →
        idx[i]? = some v) ∧
    (numPrims = 0 →
      UpdateUsdGeomIndices (some src.image) ty NumIndices numPrims updateEval timeEval =
        [Event.Clear .faceVertexIndices (timeEval.IsTimeVarying .INDICES),
         Event.Clear .faceVertexCounts (timeEval.IsTimeVarying .INDICES),
         Event.Undefined]) := by
  refine ⟨fun hprims => ?_, fun h0 => by subst h0; simp [UpdateUsdGeomIndices, hp]⟩
  have hsup2 := hsup
  simp only [List.mem_cons, List.mem_singleton, List.not_mem_nil, or_false] at hsup2
  rcases hsup2 with rfl | rfl | rfl | rfl
  · refine ⟨List.replicate numPrims (to_int ((NumIndices / numPrims : Nat) : Int)),
      (List.range NumIndices).map (fun (i : Nat) => to_int ((uint64_t src.image i : Nat) : Int)), ?_,
      by rw [List.length_map, List.length_range], ?_⟩
    · rw [UpdateUsdGeomIndices_defined _ .ULONG NumIndices numPrims updateEval timeEval hp hprims]
      rfl
    · intro i v hi hv h0 h1
      rw [getElem?_map_range _ _ _ hi]
      exact congrArg some (narrowed_entry src .ULONG hty hsup hr i v hv h0 h1)
  · refine ⟨List.replicate numPrims (to_int ((NumIndices / numPrims : Nat) : Int)),
      (List.range NumIndices).map (fun (i : Nat) => to_int (int64_t src.image i)), ?_,
      by rw [List.length_map, List.length_range], ?_⟩
    · rw [UpdateUsdGeomIndices_defined _ .LONG NumIndices numPrims updateEval timeEval hp hprims]
      rfl
    · intro i v hi hv h0 h1
      rw [getElem?_map_range _ _ _ hi]
      exact congrArg some (narrowed_entry src .LONG hty hsup hr i v hv h0 h1)
  · refine ⟨List.replicate numPrims (to_int ((NumIndices / numPrims : Nat) : Int)),
      (List.range NumIndices).map (fun (i : Nat) => VtIntArray.elem src.image i), ?_,
      by rw [List.length_map, List.length_range], ?_⟩
    · rw [UpdateUsdGeomIndices_defined _ .UINT NumIndices numPrims updateEval timeEval hp hprims]
      rfl
    · intro i v hi hv h0 h1
      rw [getElem?_map_range _ _ _ hi]
      exact congrArg some (narrowed_entry src .UINT hty hsup hr i v hv h0 h1)
  · refine ⟨List.replicate numPrims (to_int ((NumIndices / numPrims : Nat) : Int)),
      (List.range NumIndices).map (fun (i : Nat) => VtIntArray.elem src.image i), ?_,
      by rw [List.length_map, List.length_range], ?_⟩
    · rw [UpdateUsdGeomIndices_defined _ .INT NumIndices numPrims updateEval timeEval hp hprims]
      rfl
    · intro i v hi hv h0 h1
      rw [getElem?_map_range _ _ _ hi]
      exact congrArg some (narrowed_entry src .INT hty hsup hr i v hv h0 h1)

/-- C22 at work: unsigned 64-bit indices, the last of them out of the range of `int`; and
an empty index buffer of a mesh without indices, for which the claim fails: the number of
primitives is 0, the index routine stops at the division by zero, and no array of
`NumIndices = 0` entries is set. -/
theorem index_narrowing_witness :
    (∃ (counts idx : List Int),
      UpdateUsdGeomIndices (some (VtValue.UInt64Array [2, 0, 4294967296]).image) .ULONG 3 1
          updateAll (timeEvaluatorAt (fun _ => false) 1) =
        [Event.Clear .faceVertexIndices false, Event.Clear .faceVertexCounts false,
         Event.Set ⟨.uniform, .faceVertexCounts⟩ (.IntArray counts) .Default,
         Event.Set ⟨.uniform, .faceVertexIndices⟩ (.IntArray idx) .Default] ∧
      idx.length = 3 ∧
      ∀ (i : Nat) (v : Int), i < 3 →
        (VtValue.UInt64Array [2, 0, 4294967296]).intAt i = some v → 0 ≤ v → v < 2 ^ 31 →
        idx[i]? = some v) ∧
    toUnsigned 64 (Int.tdiv (to_int ((0 : Nat) : Int)) 3) = 0 ∧
    UpdateUsdGeomIndices (some (VtValue.IntArray []).image) .INT 0 0 updateAll
        (timeEvaluatorAt (fun _ => false) 1) =
      [Event.Clear .faceVertexIndices false, Event.Clear .faceVertexCounts false,
       Event.Undefined] ∧
    (∀ a v tc, Event.Set a v tc ∉
      UpdateUsdGeomIndices (some (VtValue.IntArray []).image) .INT 0 0 updateAll
        (timeEvaluatorAt (fun _ => false) 1)) :=
  ⟨(index_narrowing (.UInt64Array [2, 0, 4294967296]) .ULONG 3 1 updateAll
      (timeEvaluatorAt (fun _ => false) 1) rfl (by decide) (by decide) rfl).1 (by decide),
   by decide,
   (index_narrowing (.IntArray []) .INT 0 0 updateAll
      (timeEvaluatorAt (fun _ => false) 1) rfl (by decide) (by decide) rfl).2 rfl,
   by
    intro a v tc
    simp [UpdateUsdGeomIndices, updateAll, timeEvaluatorAt]⟩

theorem widened_entry (src : VtValue) (ty : UsdBridgeType) (hty : src.sourceType = some ty)
    (hsup : ty ∈ [UsdBridgeType.UINT, .INT, .LONG, .ULONG]) (hr : src.inRange = true)
    (i : Nat) (v : Int) (hv : src.intAt i = some v) (h1 : ty = .ULONG → v < 2 ^ 63) :
    (match ty with
      | .UINT => to_int64 ((unsigned_int src.image i : Nat) : Int)
      | .INT => to_int64 (int src.image i)
      | .LONG => VtInt64Array.elem src.image i
      | .ULONG => VtInt64Array.elem src.image i
      | _ => 0) = v := by
  cases src <;> simp only [VtValue.sourceType, Option.some.injEq] at hty <;>
    first
    | exact absurd hty (by simp)
    | skip
  all_goals subst hty
  all_goals simp at hsup
  all_goals simp only [VtValue.inRange] at hr
  all_goals simp only [VtValue.intAt] at hv
  case UIntArray a =>
    obtain ⟨hi, rfl⟩ := getElem?_map_some a _ i v hv
    have hu := all_getElem _ a hr i hi
    simp only [inUnsigned, decide_eq_true_eq] at hu
    simp only [VtValue.image, unsigned_int, readUnsigned_words 32 a i hi hr]
    refine toSigned_id 64 (by decide) _ (inSigned_of_nat 64 _ ?_)
    have : ((a[i] : Nat) : Int) < ((2 ^ 32 : Nat) : Int) := by exact_mod_cast hu
    norm_num at this ⊢
    linarith
  case IntArray a =>
    obtain ⟨hi, rfl⟩ := getElem?_some_lt a i v hv
    simp only [VtValue.image, int, readSigned_words 32 (by decide) a i hi hr]
    exact toSigned_id 64 (by decide) _ (inSigned_32_64 _ (all_getElem _ a hr i hi))
  case Int64Array a =>
    obtain ⟨hi, rfl⟩ := getElem?_some_lt a i v hv
    simp only [VtValue.image, VtInt64Array]
    exact readSigned_words 64 (by decide) a i hi hr
  case UInt64Array a =>
    obtain ⟨hi, rfl⟩ := getElem?_map_some a _ i v hv
    simp only [VtValue.image, VtInt64Array, readSigned, words_getD a i hi]
    exact toSigned_id 64 (by decide) _ (inSigned_of_nat 64 _ (h1 rfl))

theorem range_map_reals (src : List ℚ) (n : Nat) (hn : n ≤ src.length) (f : ℚ → α) :
    (List.range n).map (fun i => f (readReal (.reals src) i)) = (src.take n).map f := by
  have h := range_map_eq_take src (fun i => readReal (.reals src) i) n hn
    (fun i hi => readReal_reals src i hi)
  rw [← h, List.map_map]
  rfl

theorem range_map_replicate (n : Nat) (u : ℚ) (f : ℚ → α) :
    (List.range n).map (fun i => f (readReal (.reals (List.replicate n u)) i)) =
      List.replicate n (f u) := by
  rw [range_map_reals (List.replicate n u) n (by simp) f]
  simp

/-- C25, default orientation. With the ORIENTATIONS update performed and no orientation
buffer, the routine of the points prim sets a normals array of `NumPoints` entries
`(1, 0, 0)` and the routine of the point instancer an orientations array of `NumPoints`
identity quaternions, each as the only value set: no value block is written. -/
theorem default_orientation (c : Common) (updateEval : UsdBridgeUpdateEvaluator)
    (timeEval : TimeEvaluator) (ty : UsdBridgeType) (NumPoints : Nat)
    (hp : updateEval.PerformsUpdate .ORIENTATIONS = true) :
    UpdateUsdGeomOrientNormals none ty NumPoints updateEval timeEval =
      [Event.Clear .normals (timeEval.IsTimeVarying .ORIENTATIONS),
       Event.Set ⟨outGeom (timeEval.IsTimeVarying .ORIENTATIONS), .normals⟩
         (.Vec3fArray (List.replicate NumPoints ⟨1, 0, 0⟩)) (timeEval.Eval .ORIENTATIONS)] ∧
    UpdateUsdGeomOrientations c none ty NumPoints updateEval timeEval =
      [Event.Clear .orientations (timeEval.IsTimeVarying .ORIENTATIONS),
       Event.Set ⟨outGeom (timeEval.IsTimeVarying .ORIENTATIONS), .orientations⟩
         (.QuathArray (List.replicate NumPoints ⟨1, 0, 0, 0⟩))
         (timeEval.Eval .ORIENTATIONS)] ∧
    (List.replicate NumPoints (⟨1, 0, 0⟩ : GfVec3 ℚ)).length = NumPoints ∧
    (List.replicate NumPoints (⟨1, 0, 0, 0⟩ : GfQuath)).length = NumPoints := by
  refine ⟨?_, ?_, by simp, by simp⟩
  · simp [UpdateUsdGeomOrientNormals, hp]
  · simp [UpdateUsdGeomOrientations, hp]

/-- C25 at work: the sample instancer, which has no orientation buffer. -/
theorem default_orientation_witness :
    UpdateUsdGeomOrientNormals none .UNDEFINED 1 updateAll
        (timeEvaluatorAt (fun _ => false) 1) =
      [Event.Clear .normals false,
       Event.Set ⟨.uniform, .normals⟩ (.Vec3fArray (List.replicate 1 ⟨1, 0, 0⟩)) .Default] ∧
    UpdateUsdGeomOrientations sampleCommon none .UNDEFINED 1 updateAll
        (timeEvaluatorAt (fun _ => false) 1) =
      [Event.Clear .orientations false,
       Event.Set ⟨.uniform, .orientations⟩ (.QuathArray (List.replicate 1 ⟨1, 0, 0, 0⟩))
         .Default] ∧
    (List.replicate 1 (⟨1, 0, 0⟩ : GfVec3 ℚ)).length = 1 ∧
    (List.replicate 1 (⟨1, 0, 0, 0⟩ : GfQuath)).length = 1 :=
  default_orientation sampleCommon updateAll (timeEvaluatorAt (fun _ => false) 1) .UNDEFINED 1
    rfl

theorem noValueSet_append {n : AttrName} {x y : List Event} (hx : NoValueSet n x)
    (hy : NoValueSet n y) : NoValueSet n (x ++ y) := by
  intro a v tc h
  rcases List.mem_append.1 h with h | h
  · exact hx a v tc h
  · exact hy a v tc h

theorem noValueSet_nil (n : AttrName) : NoValueSet n [] := by
  intro a v tc h
  simp at h

theorem noValueSet_ite {n : AttrName} {x : List Event} (cond : Prop) [Decidable cond]
    (hx : NoValueSet n x) : NoValueSet n (if cond then x else []) := by
  split
  · exact hx
  · exact noValueSet_nil n

theorem noValueSet_of_setsOn (n : AttrName) (p : UsdAttribute) (hp : p.name ≠ n)
    (evs : List Event) (h : ∀ e ∈ evs, e.setsOn p) : NoValueSet n evs := by
  intro a v tc hmem
  have h2 := h _ hmem
  simp only [Event.setsOn] at h2
  rw [h2]
  exact hp

theorem noValueSet_of_clears {n : AttrName} {attrs : List AttrName} {flag : Bool}
    {evs : List Event} (h : RoutineClears attrs flag evs) (hn : n ∉ attrs) :
    NoValueSet n evs := by
  obtain ⟨body, rfl, hbody⟩ := h
  intro a v tc hmem
  rcases List.mem_append.1 hmem with h | h
  · obtain ⟨m, _, hm⟩ := List.mem_map.1 h
    cases hm
  · have ha : a.name ∈ attrs := hbody _ h
    intro heq
    exact hn (heq ▸ ha)

theorem UpdateUsdGeomPoints_protoIndices (pointsAttr : AttrName) (hne : pointsAttr ≠ .protoIndices)
    (Points : Option Buffer) (ty : UsdBridgeType) (n : Nat) (ue : UsdBridgeUpdateEvaluator)
    (te : TimeEvaluator) :
    NoValueSet .protoIndices (UpdateUsdGeomPoints pointsAttr Points ty n ue te) := by
  refine noValueSet_of_clears (UpdateUsdGeomPoints_clears pointsAttr Points ty n ue te) ?_
  simp only [List.mem_cons, List.mem_singleton, List.not_mem_nil, or_false, not_or]
  exact ⟨fun h => hne h.symm, by decide⟩

theorem UpdateUsdGeomInstanceIds_protoIndices (d : Option Buffer) (ty : UsdBridgeType)
    (n : Nat) (ue : UsdBridgeUpdateEvaluator) (te : TimeEvaluator) :
    NoValueSet .protoIndices (UpdateUsdGeomInstanceIds d ty n ue te) := by
  exact noValueSet_of_clears (UpdateUsdGeomInstanceIds_clears d ty n ue te) (by decide)

theorem UpdateUsdGeomScales_protoIndices (d : Option Buffer) (ty : UsdBridgeType) (u : ℚ)
    (n : Nat) (ue : UsdBridgeUpdateEvaluator) (te : TimeEvaluator) :
    NoValueSet .protoIndices (UpdateUsdGeomScales d ty u n ue te) := by
  exact noValueSet_of_clears (UpdateUsdGeomScales_clears d ty u n ue te) (by decide)

theorem UpdateUsdGeomOrientations_protoIndices (c : Common) (d : Option Buffer)
    (ty : UsdBridgeType) (n : Nat) (ue : UsdBridgeUpdateEvaluator) (te : TimeEvaluator) :
    NoValueSet .protoIndices (UpdateUsdGeomOrientations c d ty n ue te) := by
  exact noValueSet_of_clears (UpdateUsdGeomOrientations_clears c d ty n ue te) (by decide)

theorem UpdateUsdGeomColors_protoIndices (d : Option Buffer) (ty : UsdBridgeType)
    (perPrim : Bool) (n numPrims : Nat) (ue : UsdBridgeUpdateEvaluator) (te : TimeEvaluator) :
    NoValueSet .protoIndices (UpdateUsdGeomColors d ty perPrim n numPrims ue te) := by
  exact noValueSet_of_clears (UpdateUsdGeomColors_clears d ty perPrim n numPrims ue te)
    (by decide)

theorem UpdateUsdGeomLinearVelocities_protoIndices (d : Option Buffer) (n : Nat)
    (ue : UsdBridgeUpdateEvaluator) (te : TimeEvaluator) :
    NoValueSet .protoIndices (UpdateUsdGeomLinearVelocities d n ue te) := by
  apply noValueSet_of_setsOn _ ⟨outGeom (te.IsTimeVarying .LINEARVELOCITIES), .velocities⟩ (by simp)
  by_cases hp : ue.PerformsUpdate .LINEARVELOCITIES = true
  · cases d <;> simp [UpdateUsdGeomLinearVelocities, hp, Event.setsOn]
  · simp [UpdateUsdGeomLinearVelocities, hp, Event.setsOn]

theorem UpdateUsdGeomAngularVelocities_protoIndices (d : Option Buffer) (n : Nat)
    (ue : UsdBridgeUpdateEvaluator) (te : TimeEvaluator) :
    NoValueSet .protoIndices (UpdateUsdGeomAngularVelocities d n ue te) := by
  apply noValueSet_of_setsOn _ ⟨outGeom (te.IsTimeVarying .ANGULARVELOCITIES), .angularVelocities⟩ (by simp)
  by_cases hp : ue.PerformsUpdate .ANGULARVELOCITIES = true
  · cases d <;> simp [UpdateUsdGeomAngularVelocities, hp, Event.setsOn]
  · simp [UpdateUsdGeomAngularVelocities, hp, Event.setsOn]

theorem UpdateUsdGeomTexCoords_protoIndices (Attributes : List UsdBridgeAttribute)
    (n numPrims : Nat) (ue : UsdBridgeUpdateEvaluator) (te : TimeEvaluator) :
    NoValueSet .protoIndices (UpdateUsdGeomTexCoords Attributes n numPrims ue te) := by
  exact noValueSet_of_clears (UpdateUsdGeomTexCoords_clears Attributes n numPrims ue te)
    (by decide)

theorem UpdateUsdGeomInvisibleIds_protoIndices (d : Buffer) (ty : UsdBridgeType)
    (n : Nat) (ue : UsdBridgeUpdateEvaluator) (te : TimeEvaluator) :
    NoValueSet .protoIndices (UpdateUsdGeomInvisibleIds d ty n ue te) := by
  exact noValueSet_of_clears (UpdateUsdGeomInvisibleIds_clears d ty n ue te) (by decide)

theorem UpdateUsdGeomAttribute_protoIndices (tt : TypeTable) (writer : UsdBridgeUsdWriter)
    (Attributes : List UsdBridgeAttribute) (n numPrims : Nat) (ue : UsdBridgeUpdateEvaluator)
    (te : TimeEvaluator) (i : Nat) :
    NoValueSet .protoIndices (UpdateUsdGeomAttribute tt writer Attributes n numPrims ue te i) := by
  intro a v tc h
  simp only [UpdateUsdGeomAttribute, List.mem_append, List.mem_singleton] at h
  rcases h with h | h
  · simp at h
  · split at h
    · split at h
      · simp at h
      · split at h
        · simp only [List.mem_append, List.mem_singleton] at h
          rcases h with h | h
          · rcases mem_CopyArrayToPrimvar h with ⟨v2, h2⟩ | ⟨m, h2⟩
            · simp only [Event.Set.injEq] at h2
              rw [h2.1]
              simp
            · simp at h2
          · simp at h
        · simp only [List.mem_singleton, Event.Set.injEq] at h
          rw [h.1]
          simp
    · simp at h

theorem UpdateUsdGeomAttributes_protoIndices (tt : TypeTable) (writer : UsdBridgeUsdWriter)
    (Attributes : List UsdBridgeAttribute) (NumAttributes n numPrims : Nat)
    (ue : UsdBridgeUpdateEvaluator) (te : TimeEvaluator) :
    NoValueSet .protoIndices
      (UpdateUsdGeomAttributes tt writer Attributes NumAttributes n numPrims ue te) := by
  intro a v tc h
  simp only [UpdateUsdGeomAttributes, List.mem_flatMap] at h
  obtain ⟨i, -, h⟩ := h
  split at h
  · exact UpdateUsdGeomAttribute_protoIndices tt writer Attributes n numPrims ue te i a v tc h
  · simp at h

/-- C26, shape indices. Every `UpdateUsdGeometry` call on instancer data written as a
point instancer sets, whatever the update evaluator and the time-varying flags, a
protoIndices array of `NumPoints` zeros at the time code `Eval SHAPEINDICES`, on the
uniform prim if that time code is the default time code and on the time-varying prim
otherwise; and it sets no other value on a protoIndices attribute. -/
theorem shape_indices_unconditional (c : Common) (writer : UsdBridgeUsdWriter)
    (geomData : UsdBridgeInstancerData) (updateEval : UsdBridgeUpdateEvaluator)
    (timeEval : TimeEvaluator) (hu : c.UsesUsdGeomPoints geomData = false) :
    Event.Set
        ⟨if (timeEval.Eval .SHAPEINDICES).IsDefault = true then .uniform else .timeVar,
          .protoIndices⟩
        (.IntArray (List.replicate geomData.NumPoints 0)) (timeEval.Eval .SHAPEINDICES) ∈
      UpdateUsdGeometry c writer (.instancer geomData) updateEval timeEval ∧
    (List.replicate geomData.NumPoints (0 : Int)).length = geomData.NumPoints ∧
    (∀ a v tc,
      Event.Set a v tc ∈ UpdateUsdGeometry c writer (.instancer geomData) updateEval timeEval →
      a.name = .protoIndices →
      a = ⟨if (timeEval.Eval .SHAPEINDICES).IsDefault = true then .uniform else .timeVar,
          .protoIndices⟩ ∧
      v = .IntArray (List.replicate geomData.NumPoints 0) ∧
      tc = timeEval.Eval .SHAPEINDICES) := by
  refine ⟨?_, by simp, ?_⟩
  · simp only [UpdateUsdGeometry, UpdateUsdGeometry.instancer, hu, Bool.false_eq_true,
      if_false, UpdateUsdGeomShapeIndices, List.mem_append, List.mem_singleton]
    exact Or.inl (Or.inl (Or.inl (Or.inr trivial)))
  · intro a v tc h hname
    simp only [UpdateUsdGeometry, UpdateUsdGeometry.instancer, hu, Bool.false_eq_true,
      if_false, List.mem_append] at h
    rcases h with (((((((((h | h) | h) | h) | h) | h) | h) | h) | h) | h) | h
    · exact absurd hname
        (UpdateUsdGeomPoints_protoIndices _ (by simp) _ _ _ _ _ a v tc h)
    · exact absurd hname (UpdateUsdGeomInstanceIds_protoIndices _ _ _ _ _ a v tc h)
    · exact absurd hname (UpdateUsdGeomScales_protoIndices _ _ _ _ _ _ a v tc h)
    · exact absurd hname (UpdateUsdGeomOrientations_protoIndices _ _ _ _ _ _ a v tc h)
    · exact absurd hname
        (noValueSet_ite _ (UpdateUsdGeomTexCoords_protoIndices _ _ _ _ _) a v tc h)
    · exact absurd hname (UpdateUsdGeomAttributes_protoIndices _ _ _ _ _ _ _ _ a v tc h)
    · exact absurd hname (UpdateUsdGeomColors_protoIndices _ _ _ _ _ _ _ a v tc h)
    · simp only [UpdateUsdGeomShapeIndices, List.mem_singleton, Event.Set.injEq] at h
      exact h
    · exact absurd hname (UpdateUsdGeomLinearVelocities_protoIndices _ _ _ _ a v tc h)
    · exact absurd hname (UpdateUsdGeomAngularVelocities_protoIndices _ _ _ _ a v tc h)
    · exact absurd hname (UpdateUsdGeomInvisibleIds_protoIndices _ _ _ _ _ a v tc h)

/-- C26 at work: the sample instancer at time step 1 with time-varying shape indices and
no member updated. -/
theorem shape_indices_unconditional_witness :
    Event.Set ⟨.timeVar, .protoIndices⟩ (.IntArray (List.replicate 1 0)) (.Time 1) ∈
      UpdateUsdGeometry sampleCommon sampleWriter (.instancer sampleInstancer) updateNone
        (timeEvaluatorAt (fun m => decide (m = .SHAPEINDICES)) 1) :=
  (shape_indices_unconditional sampleCommon sampleWriter sampleInstancer updateNone
    (timeEvaluatorAt (fun m => decide (m = .SHAPEINDICES)) 1) rfl).1

/-- C27, extent for an unsupported points type. With the POINTS update performed and a
points buffer of a type other than FLOAT3 and DOUBLE3, `UpdateUsdGeomPoints` logs the
error, sets no points array and still sets the extent, on the prim selected by the
time-varying flag, to the bounds of zero points: the empty range, whose minimum is
greater than its maximum in every coordinate. For a supported type and no point it sets
an empty points array and the same extent. -/
theorem extent_of_unsupported_points (pointsAttr : AttrName) (data : Buffer)
    (ty : UsdBridgeType) (NumPoints : Nat) (updateEval : UsdBridgeUpdateEvaluator)
    (timeEval : TimeEvaluator) (hp : updateEval.PerformsUpdate .POINTS = true) :
    (ty ∉ [UsdBridgeType.FLOAT3, .DOUBLE3] →
      UpdateUsdGeomPoints pointsAttr (some data) ty NumPoints updateEval timeEval =
        [Event.Clear pointsAttr (timeEval.IsTimeVarying .POINTS),
         Event.Clear .extent (timeEval.IsTimeVarying .POINTS),
         Event.Log "UsdGeom PointsAttr should be FLOAT3 or DOUBLE3.",
         Event.Set ⟨outGeom (timeEval.IsTimeVarying .POINTS), .extent⟩
           (.Vec3fArray [GfRange3f.empty.min, GfRange3f.empty.max])
           (timeEval.Eval .POINTS)]) ∧
    (ty ∈ [UsdBridgeType.FLOAT3, .DOUBLE3] →
      UpdateUsdGeomPoints pointsAttr (some data) ty 0 updateEval timeEval =
        [Event.Clear pointsAttr (timeEval.IsTimeVarying .POINTS),
         Event.Clear .extent (timeEval.IsTimeVarying .POINTS),
         Event.Set ⟨outGeom (timeEval.IsTimeVarying .POINTS), pointsAttr⟩ (.Vec3fArray [])
           (timeEval.Eval .POINTS),
         Event.Set ⟨outGeom (timeEval.IsTimeVarying .POINTS), .extent⟩
           (.Vec3fArray [GfRange3f.empty.min, GfRange3f.empty.max])
           (timeEval.Eval .POINTS)]) ∧
    extentOf [] = GfRange3f.empty ∧
    GfRange3f.empty.min.x > GfRange3f.empty.max.x ∧
    GfRange3f.empty.min.y > GfRange3f.empty.max.y ∧
    GfRange3f.empty.min.z > GfRange3f.empty.max.z := by
  refine ⟨?_, ?_, rfl, ?_, ?_, ?_⟩
  · intro hty
    cases ty <;> simp at hty <;>
      simp [UpdateUsdGeomPoints, hp, UpdateUsdGeomPoints.usdVerts, extentOf]
  · intro hty
    simp only [List.mem_cons, List.mem_singleton, List.not_mem_nil, or_false] at hty
    rcases hty with rfl | rfl <;>
      simp [UpdateUsdGeomPoints, hp, UpdateUsdGeomPoints.usdVerts, extentOf,
        AssignArrayToPrimvar, AssignArrayToPrimvarConvert, AssignArrayToPrimvar.usdArray,
        AssignArrayToPrimvarConvert.usdArray, VtVec3fArray]
  · norm_num [GfRange3f.empty, FLT_MAX]
  · norm_num [GfRange3f.empty, FLT_MAX]
  · norm_num [GfRange3f.empty, FLT_MAX]

/-- C27 at work: mesh points supplied as three unsigned bytes, time-varying. -/
theorem extent_of_unsupported_points_witness :
    UpdateUsdGeomPoints .points (some (.words [1, 2, 3])) .UCHAR3 1 updateAll
        (timeEvaluatorAt (fun _ => true) 1) =
      [Event.Clear .points true, Event.Clear .extent true,
       Event.Log "UsdGeom PointsAttr should be FLOAT3 or DOUBLE3.",
       Event.Set ⟨.timeVar, .extent⟩
         (.Vec3fArray [GfRange3f.empty.min, GfRange3f.empty.max]) (.Time 1)] :=
  (extent_of_unsupported_points .points (.words [1, 2, 3]) .UCHAR3 1 updateAll
    (timeEvaluatorAt (fun _ => true) 1) rfl).1 (by decide)

/-- C28, missing points. With the POINTS update performed and a null points buffer,
`UpdateUsdGeomPoints` makes its two clear calls and logs the error
"GeomData requires points."; it sets no value, neither points nor extent. -/
theorem missing_points (pointsAttr : AttrName) (ty : UsdBridgeType) (NumPoints : Nat)
    (updateEval : UsdBridgeUpdateEvaluator) (timeEval : TimeEvaluator)
    (hp : updateEval.PerformsUpdate .POINTS = true) :
    UpdateUsdGeomPoints pointsAttr none ty NumPoints updateEval timeEval =
      [Event.Clear pointsAttr (timeEval.IsTimeVarying .POINTS),
       Event.Clear .extent (timeEval.IsTimeVarying .POINTS),
       Event.Log "GeomData requires points."] ∧
    (∀ a v tc,
      Event.Set a v tc ∉ UpdateUsdGeomPoints pointsAttr none ty NumPoints updateEval timeEval) := by
  have h : UpdateUsdGeomPoints pointsAttr none ty NumPoints updateEval timeEval =
      [Event.Clear pointsAttr (timeEval.IsTimeVarying .POINTS),
       Event.Clear .extent (timeEval.IsTimeVarying .POINTS),
       Event.Log "GeomData requires points."] := by
    simp [UpdateUsdGeomPoints, hp]
  refine ⟨h, ?_⟩
  intro a v tc
  rw [h]
  simp

/-- C28 at work: the mesh without points. -/
theorem missing_points_witness :
    UpdateUsdGeomPoints .points emptyMesh.Points emptyMesh.PointsType emptyMesh.NumPoints
        updateAll (timeEvaluatorAt (fun _ => false) 1) =
      [Event.Clear .points false, Event.Clear .extent false,
       Event.Log "GeomData requires points."] ∧
    (∀ a v tc,
      Event.Set a v tc ∉ UpdateUsdGeomPoints .points emptyMesh.Points emptyMesh.PointsType
        emptyMesh.NumPoints updateAll (timeEvaluatorAt (fun _ => false) 1)) :=
  missing_points .points .UNDEFINED 0 updateAll (timeEvaluatorAt (fun _ => false) 1) rfl

/-! ## Generic attributes and prototypes (C29 to C30) -/

theorem initialisation_primvars (c : Common) (writer : UsdBridgeUsdWriter)
    (geomData : GeomData) (uniformPrim : Bool) :
    (InitializeUsdGeometry c writer geomData uniformPrim).filterMap StageEvent.createdPrimvar =
      [.color] ++ (if writer.EnableStTexCoords then [.st] else []) ++
        attributeNames geomData.Attributes geomData.NumAttributes ∧
    (∀ e ∈ InitializeUsdGeometry c writer geomData uniformPrim, e.removes = false) := by
  cases geomData with
  | mesh d => exact (initialisation_mesh c writer d uniformPrim).2
  | instancer d =>
    cases hu : c.UsesUsdGeomPoints d
    · exact (initialisation_instancer c writer d uniformPrim hu).2
    · exact (initialisation_points c writer d uniformPrim hu).2
  | curve d => exact (initialisation_curve c writer d uniformPrim).2

theorem flatMap_ite_eq_filter_flatMap {α β : Type} (l : List α) (p : α → Bool)
    (f : α → List β) :
    l.flatMap (fun i => if p i = true then f i else []) = (l.filter p).flatMap f := by
  induction l with
  | nil => rfl
  | cons a t ih =>
    rw [List.flatMap_cons, ih]
    by_cases h : p a = true
    · simp [h]
    · simp [h]

theorem attributeNames_indices (Attributes : List UsdBridgeAttribute) (NumAttributes : Nat) :
    (attributeNames Attributes NumAttributes).filterMap AttrName.attributeIndex =
      (List.range NumAttributes).filter
        (fun i => decide ((attributeAt Attributes i).DataType ≠ .UNDEFINED)) := by
  unfold attributeNames
  rw [List.filterMap_map]
  have : (AttrName.attributeIndex ∘ AttrName.attribute) = (some : Nat → Option Nat) := by
    funext i
    rfl
  rw [this, List.filterMap_some]

theorem created_indices (c : Common) (writer : UsdBridgeUsdWriter) (geomData : GeomData)
    (uniformPrim : Bool) :
    (InitializeUsdGeometry c writer geomData uniformPrim).filterMap
        StageEvent.createdAttributeIndex =
      (List.range geomData.NumAttributes).filter
        (fun i => decide ((attributeAt geomData.Attributes i).DataType ≠ .UNDEFINED)) := by
  have h : (InitializeUsdGeometry c writer geomData uniformPrim).filterMap
        StageEvent.createdAttributeIndex =
      ((InitializeUsdGeometry c writer geomData uniformPrim).filterMap
        StageEvent.createdPrimvar).filterMap AttrName.attributeIndex := by
    rw [List.filterMap_filterMap]
    rfl
  rw [h, (initialisation_primvars c writer geomData uniformPrim).1, List.filterMap_append,
    List.filterMap_append, attributeNames_indices]
  cases writer.EnableStTexCoords <;> simp [AttrName.attributeIndex]

/-- C29, generic attributes in initialisation and update. `UpdateUsdGeomAttributes` runs
`UpdateUsdGeomAttribute` for exactly the attribute indices, in order and each once, for
which `InitializeUsdGeometry` creates a primvar: the indices below `NumAttributes` whose
type is not `UNDEFINED`. An attribute of type `UNDEFINED` is not created, the routine is
not run for it, and no call of the initialisation removes a property or primvar. -/
theorem attributes_init_update_agree (c : Common) (writer : UsdBridgeUsdWriter)
    (geomData : GeomData) (uniformPrim : Bool) (NumPoints numPrims : Nat)
    (updateEval : UsdBridgeUpdateEvaluator) (timeEval : TimeEvaluator) :
    UpdateUsdGeomAttributes c.types writer geomData.Attributes geomData.NumAttributes
        NumPoints numPrims updateEval timeEval =
      ((InitializeUsdGeometry c writer geomData uniformPrim).filterMap
          StageEvent.createdAttributeIndex).flatMap
        (fun i => UpdateUsdGeomAttribute c.types writer geomData.Attributes NumPoints numPrims
          updateEval timeEval i) ∧
    ((InitializeUsdGeometry c writer geomData uniformPrim).filterMap
        StageEvent.createdAttributeIndex).Nodup ∧
    (∀ i, i ∈ (InitializeUsdGeometry c writer geomData uniformPrim).filterMap
        StageEvent.createdAttributeIndex ↔
      i < geomData.NumAttributes ∧
        (attributeAt geomData.Attributes i).DataType ≠ .UNDEFINED) ∧
    (InitializeUsdGeometry c writer geomData uniformPrim).filterMap
        StageEvent.removedAttributeIndex = [] := by
  rw [created_indices]
  refine ⟨?_, (List.nodup_range _).filter _, ?_, ?_⟩
  · unfold UpdateUsdGeomAttributes
    rw [← flatMap_ite_eq_filter_flatMap]
    congr 1
    funext i
    by_cases h : (attributeAt geomData.Attributes i).DataType = .UNDEFINED
    · simp [h]
    · simp [h]
  · intro i
    simp [List.mem_filter]
  · rw [List.filterMap_eq_nil_iff]
    intro e he
    have hr := (initialisation_primvars c writer geomData uniformPrim).2 e he
    cases e <;> simp [StageEvent.removes] at hr <;> rfl

/-- C29 at work: the curve with an undefined attribute 0 and a float attribute 1. -/
theorem attributes_init_update_agree_witness :
    (InitializeUsdGeometry sampleCommon sampleWriter (.curve attributedCurve) true).filterMap
        StageEvent.createdAttributeIndex = [1] ∧
    UpdateUsdGeomAttributes sampleCommon.types sampleWriter attributedCurve.Attributes
        attributedCurve.NumAttributes 2 1 updateAll (timeEvaluatorAt (fun _ => false) 1) =
      UpdateUsdGeomAttribute sampleCommon.types sampleWriter attributedCurve.Attributes 2 1
        updateAll (timeEvaluatorAt (fun _ => false) 1) 1 :=
  ⟨by decide, by
    have h := (attributes_init_update_agree sampleCommon sampleWriter (.curve attributedCurve)
      true 2 1 updateAll (timeEvaluatorAt (fun _ => false) 1)).1
    have h2 : (InitializeUsdGeometry sampleCommon sampleWriter (.curve attributedCurve)
        true).filterMap StageEvent.createdAttributeIndex = [1] := by decide
    rw [h2] at h
    simpa [GeomData.Attributes, GeomData.NumAttributes] using h⟩

theorem attributePrimvars_definedPrim (Attributes : List UsdBridgeAttribute)
    (NumAttributes : Nat) (timeEval : Option TimeEvaluator) :
    (CreateUsdGeomAttributePrimvars Attributes NumAttributes timeEval).filterMap
      StageEvent.definedPrim = [] := by
  unfold CreateUsdGeomAttributePrimvars
  rw [flatMap_filterMap_eq]
  simp only [List.flatMap_eq_nil_iff]
  intro i _
  split
  · split
    · rfl
    · split <;> rfl
  · rfl

theorem attributePrimvars_addedTarget (Attributes : List UsdBridgeAttribute)
    (NumAttributes : Nat) (timeEval : Option TimeEvaluator) :
    (CreateUsdGeomAttributePrimvars Attributes NumAttributes timeEval).filterMap
      StageEvent.addedTarget = [] := by
  unfold CreateUsdGeomAttributePrimvars
  rw [flatMap_filterMap_eq]
  simp only [List.flatMap_eq_nil_iff]
  intro i _
  split
  · split
    · rfl
    · split <;> rfl
  · rfl

theorem timeVar_instancer_definedPrim (d : UsdBridgeInstancerData)
    (settings : UsdBridgeSettings) :
    (InitializeUsdGeometryTimeVar.instancer d settings none).filterMap
      StageEvent.definedPrim = [] ∧
    (InitializeUsdGeometryTimeVar.instancer d settings none).filterMap
      StageEvent.addedTarget = [] := by
  constructor <;> cases hst : settings.EnableStTexCoords <;>
    simp [InitializeUsdGeometryTimeVar.instancer, timeVarChecked, CreateUsdGeomColorPrimvars,
      CreateUsdGeomTexturePrimvars, hst, List.filterMap_append, attributePrimvars_definedPrim,
      attributePrimvars_addedTarget, StageEvent.definedPrim, StageEvent.addedTarget]

/-- C30, instancer prototype. When `InitializeUsdGeometry` initialises instancer data
written as a point instancer with `uniformPrim` true and `Shapes[0]` is the sphere, the
cylinder or the cone shape, it defines exactly one shape prim, of that type at the child
path "sphere", "cylinder" or "cone" of the geometry path, and adds exactly that path as
a target of the prototypes relationship; with `uniformPrim` false it defines no shape
prim and adds no target. -/
theorem instancer_prototype (c : Common) (writer : UsdBridgeUsdWriter)
    (instancerData : UsdBridgeInstancerData)
    (hu : c.UsesUsdGeomPoints instancerData = false) :
    (instancerData.shape0 = .SHAPE_SPHERE →
      (InitializeUsdGeometry c writer (.instancer instancerData) true).filterMap
          StageEvent.definedPrim = [(.UsdGeomSphere, .AppendPath "sphere")] ∧
      (InitializeUsdGeometry c writer (.instancer instancerData) true).filterMap
          StageEvent.addedTarget = [.AppendPath "sphere"]) ∧
    (instancerData.shape0 = .SHAPE_CYLINDER →
      (InitializeUsdGeometry c writer (.instancer instancerData) true).filterMap
          StageEvent.definedPrim = [(.UsdGeomCylinder, .AppendPath "cylinder")] ∧
      (InitializeUsdGeometry c writer (.instancer instancerData) true).filterMap
          StageEvent.addedTarget = [.AppendPath "cylinder"]) ∧
    (instancerData.shape0 = .SHAPE_CONE →
      (InitializeUsdGeometry c writer (.instancer instancerData) true).filterMap
          StageEvent.definedPrim = [(.UsdGeomCone, .AppendPath "cone")] ∧
      (InitializeUsdGeometry c writer (.instancer instancerData) true).filterMap
          StageEvent.addedTarget = [.AppendPath "cone"]) ∧
    ((InitializeUsdGeometry c writer (.instancer instancerData) false).filterMap
        StageEvent.definedPrim = [] ∧
      (InitializeUsdGeometry c writer (.instancer instancerData) false).filterMap
        StageEvent.addedTarget = []) := by
  have h1 := (timeVar_instancer_definedPrim instancerData writer.Settings).1
  have h2 := (timeVar_instancer_definedPrim instancerData writer.Settings).2
  refine ⟨fun hs => ?_, fun hs => ?_, fun hs => ?_, ?_⟩ <;>
    simp [InitializeUsdGeometry, InitializeUsdGeometry_Impl,
      InitializeUsdGeometry_Impl.instancer, hu, List.filterMap_append, h1, h2,
      StageEvent.definedPrim, StageEvent.addedTarget, *]

/-- C30 at work: the sample instancer, whose first shape is the sphere. -/
theorem instancer_prototype_witness :
    (InitializeUsdGeometry sampleCommon sampleWriter (.instancer sampleInstancer) true).filterMap
        StageEvent.definedPrim = [(.UsdGeomSphere, .AppendPath "sphere")] ∧
    (InitializeUsdGeometry sampleCommon sampleWriter (.instancer sampleInstancer) true).filterMap
        StageEvent.addedTarget = [.AppendPath "sphere"] :=
  (instancer_prototype sampleCommon sampleWriter sampleInstancer rfl).1 rfl

/-! ## Placement (C1) -/

theorem set_of_setsAttr {a : UsdAttribute} {evs : List Event}
    (h : ∃ e ∈ evs, e.setsAttr a) : ∃ v tc, Event.Set a v tc ∈ evs := by
  obtain ⟨e, he, hs⟩ := h
  cases e with
  | Set b v tc =>
    simp only [Event.setsAttr] at hs
    subst hs
    exact ⟨v, tc, he⟩
  | _ => exact absurd hs (by simp [Event.setsAttr])

theorem UpdateUsdGeomPoints_sets (pointsAttr : AttrName) (data : Buffer)
    (PointsType : UsdBridgeType) (NumPoints : Nat) (ue : UsdBridgeUpdateEvaluator)
    (te : TimeEvaluator) (hp : ue.PerformsUpdate .POINTS = true) :
    (∃ e ∈ UpdateUsdGeomPoints pointsAttr (some data) PointsType NumPoints ue te,
      e.setsAttr ⟨outGeom (te.IsTimeVarying .POINTS), .extent⟩) ∧
    (PointsType ∈ [UsdBridgeType.FLOAT3, .DOUBLE3] →
      ∃ e ∈ UpdateUsdGeomPoints pointsAttr (some data) PointsType NumPoints ue te,
      e.setsAttr ⟨outGeom (te.IsTimeVarying .POINTS), pointsAttr⟩) := by
  refine ⟨?_, ?_⟩
  · refine ⟨Event.Set ⟨outGeom (te.IsTimeVarying .POINTS), .extent⟩
      (.Vec3fArray [(extentOf (UpdateUsdGeomPoints.usdVerts data PointsType NumPoints)).min,
        (extentOf (UpdateUsdGeomPoints.usdVerts data PointsType NumPoints)).max])
      (te.Eval .POINTS), ?_, rfl⟩
    simp only [UpdateUsdGeomPoints, hp, if_true]
    exact List.mem_append_right _ (List.mem_append_right _ (List.mem_singleton.2 rfl))
  · intro hty
    simp only [List.mem_cons, List.mem_singleton, List.not_mem_nil, or_false] at hty
    rcases hty with rfl | rfl <;>
      simp [Event.setsAttr, UpdateUsdGeomPoints, hp, AssignArrayToPrimvar, AssignArrayToPrimvarConvert]

theorem UpdateUsdGeomIndices_sets (Indices : Option Buffer) (IndicesType : UsdBridgeType)
    (NumIndices numPrims : Nat) (ue : UsdBridgeUpdateEvaluator) (te : TimeEvaluator)
    (hp : ue.PerformsUpdate .INDICES = true) (hprims : numPrims ≠ 0) :
    (∃ e ∈ UpdateUsdGeomIndices Indices IndicesType NumIndices numPrims ue te,
      e.setsAttr ⟨outGeom (te.IsTimeVarying .INDICES), .faceVertexCounts⟩) ∧
    (acceptsTypes Indices IndicesType [.ULONG, .LONG, .UINT, .INT] →
      ∃ e ∈ UpdateUsdGeomIndices Indices IndicesType NumIndices numPrims ue te,
      e.setsAttr ⟨outGeom (te.IsTimeVarying .INDICES), .faceVertexIndices⟩) := by
  refine ⟨?_, ?_⟩
  · simp [Event.setsAttr, UpdateUsdGeomIndices, hp, hprims]
  · intro hacc
    rcases hacc with rfl | hty
    · simp [Event.setsAttr, UpdateUsdGeomIndices, hp, hprims]
    · cases Indices with
      | none => simp [Event.setsAttr, UpdateUsdGeomIndices, hp, hprims]
      | some data =>
        simp only [List.mem_cons, List.mem_singleton, List.not_mem_nil, or_false] at hty
        rcases hty with rfl | rfl | rfl | rfl <;>
          simp [Event.setsAttr, UpdateUsdGeomIndices, hp, hprims, AssignArrayToPrimvar,
            AssignArrayToPrimvarConvert]

theorem UpdateUsdGeomNormals_sets (Normals : Option Buffer) (NormalsType : UsdBridgeType)
    (PerPrimNormals : Bool) (NumPoints numPrims : Nat) (ue : UsdBridgeUpdateEvaluator)
    (te : TimeEvaluator) (hp : ue.PerformsUpdate .NORMALS = true)
    (hacc : acceptsTypes Normals NormalsType [.FLOAT3, .DOUBLE3]) :
    ∃ e ∈ UpdateUsdGeomNormals Normals NormalsType PerPrimNormals NumPoints numPrims ue te,
      e.setsAttr ⟨outGeom (te.IsTimeVarying .NORMALS), .normals⟩ := by
  rcases hacc with rfl | hty
  · simp [Event.setsAttr, UpdateUsdGeomNormals, hp]
  · cases Normals with
    | none => simp [Event.setsAttr, UpdateUsdGeomNormals, hp]
    | some data =>
      simp only [List.mem_cons, List.mem_singleton, List.not_mem_nil, or_false] at hty
      rcases hty with rfl | rfl <;>
        simp [Event.setsAttr, UpdateUsdGeomNormals, hp, AssignArrayToPrimvar, AssignArrayToPrimvarConvert]

theorem UpdateUsdGeomTexCoords_sets (Attributes : List UsdBridgeAttribute)
    (NumPoints numPrims : Nat) (ue : UsdBridgeUpdateEvaluator) (te : TimeEvaluator)
    (hp : ue.PerformsUpdate (.ATTRIBUTE 0) = true)
    (hacc : acceptsTypes (attributeAt Attributes 0).Data (attributeAt Attributes 0).DataType
      [.FLOAT2, .DOUBLE2]) :
    ∃ e ∈ UpdateUsdGeomTexCoords Attributes NumPoints numPrims ue te,
      e.setsAttr ⟨outGeom (te.IsTimeVarying (.ATTRIBUTE 0)), .st⟩ := by
  rcases hacc with hd | hty
  · simp [Event.setsAttr, UpdateUsdGeomTexCoords, hp, hd]
  · cases hd : (attributeAt Attributes 0).Data with
    | none => simp [Event.setsAttr, UpdateUsdGeomTexCoords, hp, hd]
    | some data =>
      simp only [List.mem_cons, List.mem_singleton, List.not_mem_nil, or_false] at hty
      rcases hty with h | h <;>
        simp [Event.setsAttr, UpdateUsdGeomTexCoords, hp, hd, h, AssignArrayToPrimvar,
          AssignArrayToPrimvarConvert]

theorem UpdateUsdGeomAttribute_sets (tt : TypeTable) (writer : UsdBridgeUsdWriter)
    (Attributes : List UsdBridgeAttribute) (NumPoints numPrims : Nat)
    (ue : UsdBridgeUpdateEvaluator) (te : TimeEvaluator) (attribIndex : Nat)
    (hp : ue.PerformsUpdate (.ATTRIBUTE attribIndex) = true)
    (hty : (attributeAt Attributes attribIndex).DataType ≠ .UNDEFINED)
    (hacc : writer.primvarValid
      ⟨outGeom (te.IsTimeVarying (.ATTRIBUTE attribIndex)), .attribute attribIndex⟩ = true) :
    ∃ e ∈ UpdateUsdGeomAttribute tt writer Attributes NumPoints numPrims ue te attribIndex,
      e.setsAttr ⟨outGeom (te.IsTimeVarying (.ATTRIBUTE attribIndex)), .attribute attribIndex⟩ := by
  cases hd : (attributeAt Attributes attribIndex).Data with
  | none => simp [Event.setsAttr, UpdateUsdGeomAttribute, hp, hd, hacc]
  | some data =>
    obtain ⟨v, hv, _⟩ := CopyArrayToPrimvar_single tt data _ hty
      (if (attributeAt Attributes attribIndex).PerPrimData = true then numPrims else NumPoints)
      ⟨outGeom (te.IsTimeVarying (.ATTRIBUTE attribIndex)), .attribute attribIndex⟩
      (te.Eval (.ATTRIBUTE attribIndex))
    simp only [UpdateUsdGeomAttribute, hp, if_true, hd, hacc, Bool.not_true,
      Bool.false_eq_true, if_false, hv]
    simp [Event.setsAttr]

theorem UpdateUsdGeomColors_sets (Colors : Option Buffer) (ColorsType : UsdBridgeType)
    (PerPrimColors : Bool) (NumPoints numPrims : Nat) (ue : UsdBridgeUpdateEvaluator)
    (te : TimeEvaluator) (hp : ue.PerformsUpdate .COLORS = true)
    (hacc : Colors = none ∨ colorComponents ColorsType ≠ none) :
    ∃ e ∈ UpdateUsdGeomColors Colors ColorsType PerPrimColors NumPoints numPrims ue te,
      e.setsAttr ⟨outGeom (te.IsTimeVarying .COLORS), .color⟩ := by
  cases Colors with
  | none => simp [Event.setsAttr, UpdateUsdGeomColors, hp]
  | some data =>
    have hty : colorComponents ColorsType ≠ none := by
      rcases hacc with h | h
      · cases h
      · exact h
    obtain ⟨v, hv, _⟩ := (UpdateUsdGeomColors_count data ColorsType PerPrimColors NumPoints
      numPrims ue te hp).2.2.2 hty
    exact ⟨_, hv, rfl⟩

theorem UpdateUsdGeomInstanceIds_sets (InstanceIds : Option Buffer)
    (InstanceIdsType : UsdBridgeType) (NumPoints : Nat) (ue : UsdBridgeUpdateEvaluator)
    (te : TimeEvaluator) (hp : ue.PerformsUpdate .INSTANCEIDS = true)
    (hacc : acceptsTypes InstanceIds InstanceIdsType [.UINT, .INT, .LONG, .ULONG]) :
    ∃ e ∈ UpdateUsdGeomInstanceIds InstanceIds InstanceIdsType NumPoints ue te,
      e.setsAttr ⟨outGeom (te.IsTimeVarying .INSTANCEIDS), .ids⟩ := by
  rcases hacc with rfl | hty
  · simp [Event.setsAttr, UpdateUsdGeomInstanceIds, hp]
  · cases InstanceIds with
    | none => simp [Event.setsAttr, UpdateUsdGeomInstanceIds, hp]
    | some data =>
      simp only [List.mem_cons, List.mem_singleton, List.not_mem_nil, or_false] at hty
      rcases hty with rfl | rfl | rfl | rfl <;>
        simp [Event.setsAttr, UpdateUsdGeomInstanceIds, hp, AssignArrayToPrimvar, AssignArrayToPrimvarConvert]

theorem UpdateUsdGeomWidths_sets (Scales : Option Buffer) (ScalesType : UsdBridgeType)
    (UniformScale : ℚ) (NumPoints : Nat) (ue : UsdBridgeUpdateEvaluator) (te : TimeEvaluator)
    (hp : ue.PerformsUpdate .SCALES = true)
    (hacc : acceptsTypes Scales ScalesType [.FLOAT, .DOUBLE]) :
    ∃ e ∈ UpdateUsdGeomWidths Scales ScalesType UniformScale NumPoints ue te,
      e.setsAttr ⟨outGeom (te.IsTimeVarying .SCALES), .widths⟩ := by
  rcases hacc with rfl | hty
  · simp [Event.setsAttr, UpdateUsdGeomWidths, hp]
  · cases Scales with
    | none => simp [Event.setsAttr, UpdateUsdGeomWidths, hp]
    | some data =>
      simp only [List.mem_cons, List.mem_singleton, List.not_mem_nil, or_false] at hty
      rcases hty with rfl | rfl <;>
        simp [Event.setsAttr, UpdateUsdGeomWidths, hp, AssignArrayToPrimvar, AssignArrayToPrimvarConvert]

theorem UpdateUsdGeomScales_sets (Scales : Option Buffer) (ScalesType : UsdBridgeType)
    (UniformScale : ℚ) (NumPoints : Nat) (ue : UsdBridgeUpdateEvaluator) (te : TimeEvaluator)
    (hp : ue.PerformsUpdate .SCALES = true)
    (hacc : acceptsTypes Scales ScalesType [.FLOAT, .DOUBLE, .FLOAT3, .DOUBLE3]) :
    ∃ e ∈ UpdateUsdGeomScales Scales ScalesType UniformScale NumPoints ue te,
      e.setsAttr ⟨outGeom (te.IsTimeVarying .SCALES), .scales⟩ := by
  rcases hacc with rfl | hty
  · simp [Event.setsAttr, UpdateUsdGeomScales, hp]
  · cases Scales with
    | none => simp [Event.setsAttr, UpdateUsdGeomScales, hp]
    | some data =>
      simp only [List.mem_cons, List.mem_singleton, List.not_mem_nil, or_false] at hty
      rcases hty with rfl | rfl | rfl | rfl <;>
        simp [Event.setsAttr, UpdateUsdGeomScales, hp, AssignArrayToPrimvar, AssignArrayToPrimvarConvert,
          Expand1ToVec3]

theorem UpdateUsdGeomOrientNormals_sets (Orientations : Option Buffer)
    (OrientationsType : UsdBridgeType) (NumPoints : Nat) (ue : UsdBridgeUpdateEvaluator)
    (te : TimeEvaluator) (hp : ue.PerformsUpdate .ORIENTATIONS = true)
    (hacc : acceptsTypes Orientations OrientationsType [.FLOAT3, .DOUBLE3]) :
    ∃ e ∈ UpdateUsdGeomOrientNormals Orientations OrientationsType NumPoints ue te,
      e.setsAttr ⟨outGeom (te.IsTimeVarying .ORIENTATIONS), .normals⟩ := by
  rcases hacc with rfl | hty
  · simp [Event.setsAttr, UpdateUsdGeomOrientNormals, hp]
  · cases Orientations with
    | none => simp [Event.setsAttr, UpdateUsdGeomOrientNormals, hp]
    | some data =>
      simp only [List.mem_cons, List.mem_singleton, List.not_mem_nil, or_false] at hty
      rcases hty with rfl | rfl <;>
        simp [Event.setsAttr, UpdateUsdGeomOrientNormals, hp, AssignArrayToPrimvar,
          AssignArrayToPrimvarConvert]

theorem UpdateUsdGeomOrientations_sets (c : Common) (Orientations : Option Buffer)
    (OrientationsType : UsdBridgeType) (NumPoints : Nat) (ue : UsdBridgeUpdateEvaluator)
    (te : TimeEvaluator) (hp : ue.PerformsUpdate .ORIENTATIONS = true) :
    ∃ e ∈ UpdateUsdGeomOrientations c Orientations OrientationsType NumPoints ue te,
      e.setsAttr ⟨outGeom (te.IsTimeVarying .ORIENTATIONS), .orientations⟩ := by
  unfold UpdateUsdGeomOrientations
  simp only [hp, if_true]
  repeat' split
  all_goals simp [Event.setsAttr]

theorem UpdateUsdGeomLinearVelocities_sets (LinearVelocities : Option Buffer)
    (NumPoints : Nat) (ue : UsdBridgeUpdateEvaluator) (te : TimeEvaluator)
    (hp : ue.PerformsUpdate .LINEARVELOCITIES = true) :
    ∃ e ∈ UpdateUsdGeomLinearVelocities LinearVelocities NumPoints ue te,
      e.setsAttr ⟨outGeom (te.IsTimeVarying .LINEARVELOCITIES), .velocities⟩ := by
  cases LinearVelocities <;> simp [Event.setsAttr, UpdateUsdGeomLinearVelocities, hp]

theorem UpdateUsdGeomAngularVelocities_sets (AngularVelocities : Option Buffer)
    (NumPoints : Nat) (ue : UsdBridgeUpdateEvaluator) (te : TimeEvaluator)
    (hp : ue.PerformsUpdate .ANGULARVELOCITIES = true) :
    ∃ e ∈ UpdateUsdGeomAngularVelocities AngularVelocities NumPoints ue te,
      e.setsAttr ⟨outGeom (te.IsTimeVarying .ANGULARVELOCITIES), .angularVelocities⟩ := by
  cases AngularVelocities <;> simp [Event.setsAttr, UpdateUsdGeomAngularVelocities, hp]

theorem UpdateUsdGeomInvisibleIds_sets (InvisibleIds : Buffer)
    (InvisibleIdsType : UsdBridgeType) (NumInvisibleIds : Nat) (ue : UsdBridgeUpdateEvaluator)
    (te : TimeEvaluator) (hp : ue.PerformsUpdate .INVISIBLEIDS = true)
    (hacc : NumInvisibleIds = 0 ∨
      InvisibleIdsType ∈ [UsdBridgeType.UINT, .INT, .LONG, .ULONG]) :
    ∃ e ∈ UpdateUsdGeomInvisibleIds InvisibleIds InvisibleIdsType NumInvisibleIds ue te,
      e.setsAttr ⟨outGeom (te.IsTimeVarying .INVISIBLEIDS), .invisibleIds⟩ := by
  by_cases h0 : NumInvisibleIds = 0
  · simp [Event.setsAttr, UpdateUsdGeomInvisibleIds, hp, h0]
  · rcases hacc with h | hty
    · exact absurd h h0
    · simp only [List.mem_cons, List.mem_singleton, List.not_mem_nil, or_false] at hty
      rcases hty with rfl | rfl | rfl | rfl <;>
        simp [Event.setsAttr, UpdateUsdGeomInvisibleIds, hp, h0, AssignArrayToPrimvar,
          AssignArrayToPrimvarConvert]

theorem UpdateUsdGeomCurveLengths_sets (CurveLengths : Buffer) (NumCurveLengths : Nat)
    (ue : UsdBridgeUpdateEvaluator) (te : TimeEvaluator)
    (hp : ue.PerformsUpdate .CURVELENGTHS = true) :
    ∃ e ∈ UpdateUsdGeomCurveLengths CurveLengths NumCurveLengths ue te,
      e.setsAttr ⟨outGeom (te.IsTimeVarying .CURVELENGTHS), .curveVertexCounts⟩ := by
  simp [Event.setsAttr, UpdateUsdGeomCurveLengths, hp, AssignArrayToPrimvar]

theorem UpdateUsdGeomAttributes_sets (tt : TypeTable) (writer : UsdBridgeUsdWriter)
    (Attributes : List UsdBridgeAttribute) (NumAttributes NumPoints numPrims : Nat)
    (ue : UsdBridgeUpdateEvaluator) (te : TimeEvaluator) (n : AttrName)
    (hn : n ∈ attributeNames Attributes NumAttributes) :
    ∃ i, n = .attribute i ∧ (ue.PerformsUpdate (.ATTRIBUTE i) = true →
      writer.primvarValid ⟨outGeom (te.IsTimeVarying (.ATTRIBUTE i)), .attribute i⟩ = true →
      ∃ e ∈ UpdateUsdGeomAttributes tt writer Attributes NumAttributes NumPoints numPrims ue te,
        e.setsAttr ⟨outGeom (te.IsTimeVarying (.ATTRIBUTE i)), .attribute i⟩) := by
  simp only [attributeNames, List.mem_map, List.mem_filter, List.mem_range,
    decide_eq_true_eq] at hn
  obtain ⟨i, ⟨hi, hty⟩, rfl⟩ := hn
  refine ⟨i, rfl, fun hp hacc => ?_⟩
  obtain ⟨e, he, hs⟩ := UpdateUsdGeomAttribute_sets tt writer Attributes NumPoints numPrims
    ue te i hp hty hacc
  refine ⟨e, ?_, hs⟩
  simp only [UpdateUsdGeomAttributes, List.mem_flatMap, List.mem_range]
  exact ⟨i, hi, by simpa [hty] using he⟩

theorem setsAttr_mono {a : UsdAttribute} {xs ys : List Event}
    (h : ∃ e ∈ xs, e.setsAttr a) (hsub : xs ⊆ ys) : ∃ e ∈ ys, e.setsAttr a := by
  obtain ⟨e, he, hs⟩ := h
  exact ⟨e, hsub he, hs⟩

theorem points_sets (pointsAttr : AttrName) (Points : Option Buffer)
    (PointsType : UsdBridgeType) (NumPoints : Nat) (ue : UsdBridgeUpdateEvaluator)
    (te : TimeEvaluator) (hp : ue.PerformsUpdate .POINTS = true)
    (hacc : Points ≠ none ∧ PointsType ∈ [UsdBridgeType.FLOAT3, .DOUBLE3]) :
    ∃ e ∈ UpdateUsdGeomPoints pointsAttr Points PointsType NumPoints ue te,
      e.setsAttr ⟨outGeom (te.IsTimeVarying .POINTS), pointsAttr⟩ := by
  cases Points with
  | none => exact absurd rfl hacc.1
  | some data => exact (UpdateUsdGeomPoints_sets pointsAttr data _ _ ue te hp).2 hacc.2

theorem extent_sets (pointsAttr : AttrName) (Points : Option Buffer)
    (PointsType : UsdBridgeType) (NumPoints : Nat) (ue : UsdBridgeUpdateEvaluator)
    (te : TimeEvaluator) (hp : ue.PerformsUpdate .POINTS = true) (hacc : Points ≠ none) :
    ∃ e ∈ UpdateUsdGeomPoints pointsAttr Points PointsType NumPoints ue te,
      e.setsAttr ⟨outGeom (te.IsTimeVarying .POINTS), .extent⟩ := by
  cases Points with
  | none => exact absurd rfl hacc
  | some data => exact (UpdateUsdGeomPoints_sets pointsAttr data _ _ ue te hp).1

theorem UpdateUsdGeometry_sets (c : Common) (writer : UsdBridgeUsdWriter)
    (geomData : GeomData) (ue : UsdBridgeUpdateEvaluator) (te : TimeEvaluator) (n : AttrName)
    (hn : n ∈ routineAttributes c writer geomData) (hne : n ≠ .protoIndices)
    (hp : ue.PerformsUpdate (governingMember (kindOf c geomData) n) = true)
    (hacc : Accepts writer te geomData n) :
    ∃ e ∈ UpdateUsdGeometry c writer geomData ue te,
      e.setsAttr ⟨outGeom (te.IsTimeVarying (governingMember (kindOf c geomData) n)), n⟩ := by
  cases geomData with
  | mesh d =>
    simp only [UpdateUsdGeometry, UpdateUsdGeometry.mesh, kindOf] at hp ⊢
    by_cases hdiv : intDivUndefined (to_int (d.NumIndices : Int)) d.FaceVertexCount = true
    · simp [routineAttributes, hdiv] at hn
    have hdiv2 : intDivUndefined (to_int (d.NumIndices : Int)) d.FaceVertexCount = false := by
      simpa using hdiv
    simp only [routineAttributes, hdiv2, Bool.false_eq_true, if_false, List.mem_append,
      List.mem_cons, List.mem_singleton, List.not_mem_nil, or_false] at hn
    simp only [hdiv2, Bool.false_eq_true, if_false]
    rcases hn with (((h | h | h) | h) | h) | (h | h | h)
    · subst h
      exact setsAttr_mono (points_sets _ _ _ _ ue te hp hacc)
        (by
          intro e he
          with_reducible repeat (first | exact he | exact List.mem_append_right _ he |
            apply List.mem_append_left))
    · subst h
      exact setsAttr_mono (extent_sets _ _ _ _ ue te hp hacc)
        (by
          intro e he
          with_reducible repeat (first | exact he | exact List.mem_append_right _ he |
            apply List.mem_append_left))
    · subst h
      exact setsAttr_mono (UpdateUsdGeomNormals_sets _ _ _ _ _ ue te hp hacc)
        (by
          intro e he
          with_reducible repeat (first | exact he | exact List.mem_append_right _ he |
            apply List.mem_append_left))
    · split at h
      · rename_i hg
        simp only [List.mem_singleton] at h
        subst h
        simp only [hg, if_true]
        exact setsAttr_mono (UpdateUsdGeomTexCoords_sets _ _ _ ue te hp hacc)
          (by
            intro e he
            with_reducible repeat (first | exact he | exact List.mem_append_right _ he |
              apply List.mem_append_left))
      · simp at h
    · obtain ⟨i, rfl, hi⟩ := UpdateUsdGeomAttributes_sets c.types writer d.Attributes
        d.NumAttributes d.NumPoints
        (toUnsigned 64 (Int.tdiv (to_int (d.NumIndices : Int)) d.FaceVertexCount)) ue te n h
      exact setsAttr_mono (hi hp hacc)
        (by
          intro e he
          with_reducible repeat (first | exact he | exact List.mem_append_right _ he |
            apply List.mem_append_left))
    · subst h
      exact setsAttr_mono (UpdateUsdGeomColors_sets _ _ _ _ _ ue te hp hacc)
        (by
          intro e he
          with_reducible repeat (first | exact he | exact List.mem_append_right _ he |
            apply List.mem_append_left))
    · subst h
      have hacc2 : toUnsigned 64 (Int.tdiv (to_int (d.NumIndices : Int)) d.FaceVertexCount) ≠ 0 ∧
          acceptsTypes d.Indices d.IndicesType [.ULONG, .LONG, .UINT, .INT] := hacc
      exact setsAttr_mono ((UpdateUsdGeomIndices_sets d.Indices d.IndicesType d.NumIndices
          (toUnsigned 64 (Int.tdiv (to_int (d.NumIndices : Int)) d.FaceVertexCount)) ue te hp
          hacc2.1).2 hacc2.2)
        (fun e he => List.mem_append_right _ he)
    · subst h
      have hacc2 : toUnsigned 64 (Int.tdiv (to_int (d.NumIndices : Int)) d.FaceVertexCount) ≠ 0 :=
        hacc
      exact setsAttr_mono (UpdateUsdGeomIndices_sets d.Indices d.IndicesType d.NumIndices
          (toUnsigned 64 (Int.tdiv (to_int (d.NumIndices : Int)) d.FaceVertexCount)) ue te hp
          hacc2).1
        (fun e he => List.mem_append_right _ he)
  | instancer d =>
    simp only [UpdateUsdGeometry, UpdateUsdGeometry.instancer, kindOf] at hp ⊢
    by_cases hu : c.UsesUsdGeomPoints d = true
    · simp only [routineAttributes, hu, if_true, List.mem_append, List.mem_cons,
        List.mem_singleton, List.not_mem_nil, or_false] at hn
      simp only [hu, if_true] at hp ⊢
      rcases hn with (((h | h | h | h | h) | h) | h) | h
      · subst h
        exact setsAttr_mono (points_sets _ _ _ _ ue te hp hacc)
          (by
            intro e he
            with_reducible repeat (first | exact he | exact List.mem_append_right _ he |
              apply List.mem_append_left))
      · subst h
        exact setsAttr_mono (extent_sets _ _ _ _ ue te hp hacc)
          (by
            intro e he
            with_reducible repeat (first | exact he | exact List.mem_append_right _ he |
              apply List.mem_append_left))
      · subst h
        exact setsAttr_mono (UpdateUsdGeomInstanceIds_sets _ _ _ ue te hp hacc)
          (by
            intro e he
            with_reducible repeat (first | exact he | exact List.mem_append_right _ he |
              apply List.mem_append_left))
      · subst h
        exact setsAttr_mono (UpdateUsdGeomWidths_sets _ _ _ _ ue te hp hacc)
          (by
            intro e he
            with_reducible repeat (first | exact he | exact List.mem_append_right _ he |
              apply List.mem_append_left))
      · subst h
        exact setsAttr_mono (UpdateUsdGeomOrientNormals_sets _ _ _ ue te hp hacc)
          (by
            intro e he
            with_reducible repeat (first | exact he | exact List.mem_append_right _ he |
              apply List.mem_append_left))
      · split at h
        · rename_i hg
          simp only [List.mem_singleton] at h
          subst h
          simp only [hg, if_true]
          exact setsAttr_mono (UpdateUsdGeomTexCoords_sets _ _ _ ue te hp hacc)
            (by
              intro e he
              with_reducible repeat (first | exact he | exact List.mem_append_right _ he |
                apply List.mem_append_left))
        · simp at h
      · obtain ⟨i, rfl, hi⟩ := UpdateUsdGeomAttributes_sets c.types writer d.Attributes
          d.NumAttributes d.NumPoints d.NumPoints ue te n h
        exact setsAttr_mono (hi hp hacc)
          (by
            intro e he
            with_reducible repeat (first | exact he | exact List.mem_append_right _ he |
              apply List.mem_append_left))
      · subst h
        exact setsAttr_mono (UpdateUsdGeomColors_sets _ _ _ _ _ ue te hp hacc)
          (by
            intro e he
            with_reducible repeat (first | exact he | exact List.mem_append_right _ he |
              apply List.mem_append_left))
    · have hu2 : c.UsesUsdGeomPoints d = false := by simpa using hu
      simp only [routineAttributes, hu2, Bool.false_eq_true, if_false, List.mem_append,
        List.mem_cons, List.mem_singleton, List.not_mem_nil, or_false] at hn
      simp only [hu2, Bool.false_eq_true, if_false] at hp ⊢
      rcases hn with (((h | h | h | h | h) | h) | h) | (h | h | h | h | h)
      · subst h
        exact setsAttr_mono (points_sets _ _ _ _ ue te hp hacc)
          (by
            intro e he
            with_reducible repeat (first | exact he | exact List.mem_append_right _ he |
              apply List.mem_append_left))
      · subst h
        exact setsAttr_mono (extent_sets _ _ _ _ ue te hp hacc)
          (by
            intro e he
            with_reducible repeat (first | exact he | exact List.mem_append_right _ he |
              apply List.mem_append_left))
      · subst h
        exact setsAttr_mono (UpdateUsdGeomInstanceIds_sets _ _ _ ue te hp hacc)
          (by
            intro e he
            with_reducible repeat (first | exact he | exact List.mem_append_right _ he |
              apply List.mem_append_left))
      · subst h
        exact setsAttr_mono (UpdateUsdGeomScales_sets _ _ _ _ ue te hp hacc)
          (by
            intro e he
            with_reducible repeat (first | exact he | exact List.mem_append_right _ he |
              apply List.mem_append_left))
      · subst h
        exact setsAttr_mono (UpdateUsdGeomOrientations_sets c _ _ _ ue te hp)
          (by
            intro e he
            with_reducible repeat (first | exact he | exact List.mem_append_right _ he |
              apply List.mem_append_left))
      · split at h
        · rename_i hg
          simp only [List.mem_singleton] at h
          subst h
          simp only [hg, if_true]
          exact setsAttr_mono (UpdateUsdGeomTexCoords_sets _ _ _ ue te hp hacc)
            (by
              intro e he
              with_reducible repeat (first | exact he | exact List.mem_append_right _ he |
                apply List.mem_append_left))
        · simp at h
      · obtain ⟨i, rfl, hi⟩ := UpdateUsdGeomAttributes_sets c.types writer d.Attributes
          d.NumAttributes d.NumPoints d.NumPoints ue te n h
        exact setsAttr_mono (hi hp hacc)
          (by
            intro e he
            with_reducible repeat (first | exact he | exact List.mem_append_right _ he |
              apply List.mem_append_left))
      · subst h
        exact setsAttr_mono (UpdateUsdGeomColors_sets _ _ _ _ _ ue te hp hacc)
          (by
            intro e he
            with_reducible repeat (first | exact he | exact List.mem_append_right _ he |
              apply List.mem_append_left))
      · exact absurd h hne
      · subst h
        exact setsAttr_mono (UpdateUsdGeomLinearVelocities_sets _ _ ue te hp)
          (by
            intro e he
            with_reducible repeat (first | exact he | exact List.mem_append_right _ he |
              apply List.mem_append_left))
      · subst h
        exact setsAttr_mono (UpdateUsdGeomAngularVelocities_sets _ _ ue te hp)
          (by
            intro e he
            with_reducible repeat (first | exact he | exact List.mem_append_right _ he |
              apply List.mem_append_left))
      · subst h
        exact setsAttr_mono (UpdateUsdGeomInvisibleIds_sets _ _ _ ue te hp hacc)
          (by
            intro e he
            with_reducible repeat (first | exact he | exact List.mem_append_right _ he |
              apply List.mem_append_left))
  | curve d =>
    simp only [UpdateUsdGeometry, UpdateUsdGeometry.curve, kindOf] at hp ⊢
    simp only [routineAttributes, List.mem_append, List.mem_cons, List.mem_singleton,
      List.not_mem_nil, or_false] at hn
    rcases hn with (((h | h | h) | h) | h) | (h | h | h)
    · subst h
      exact setsAttr_mono (points_sets _ _ _ _ ue te hp hacc)
        (by
          intro e he
          with_reducible repeat (first | exact he | exact List.mem_append_right _ he |
            apply List.mem_append_left))
    · subst h
      exact setsAttr_mono (extent_sets _ _ _ _ ue te hp hacc)
        (by
          intro e he
          with_reducible repeat (first | exact he | exact List.mem_append_right _ he |
            apply List.mem_append_left))
    · subst h
      exact setsAttr_mono (UpdateUsdGeomNormals_sets _ _ _ _ _ ue te hp hacc)
        (by
          intro e he
          with_reducible repeat (first | exact he | exact List.mem_append_right _ he |
            apply List.mem_append_left))
    · split at h
      · rename_i hg
        simp only [List.mem_singleton] at h
        subst h
        simp only [hg, if_true]
        exact setsAttr_mono (UpdateUsdGeomTexCoords_sets _ _ _ ue te hp hacc)
          (by
            intro e he
            with_reducible repeat (first | exact he | exact List.mem_append_right _ he |
              apply List.mem_append_left))
      · simp at h
    · obtain ⟨i, rfl, hi⟩ := UpdateUsdGeomAttributes_sets c.types writer d.Attributes
        d.NumAttributes d.NumPoints d.NumCurveLengths ue te n h
      exact setsAttr_mono (hi hp hacc)
        (by
          intro e he
          with_reducible repeat (first | exact he | exact List.mem_append_right _ he |
            apply List.mem_append_left))
    · subst h
      exact setsAttr_mono (UpdateUsdGeomColors_sets _ _ _ _ _ ue te hp hacc)
        (by
          intro e he
          with_reducible repeat (first | exact he | exact List.mem_append_right _ he |
            apply List.mem_append_left))
    · subst h
      exact setsAttr_mono (UpdateUsdGeomWidths_sets _ _ _ _ ue te hp hacc)
        (by
          intro e he
          with_reducible repeat (first | exact he | exact List.mem_append_right _ he |
            apply List.mem_append_left))
    · subst h
      exact setsAttr_mono (UpdateUsdGeomCurveLengths_sets _ _ ue te hp)
        (by
          intro e he
          with_reducible repeat (first | exact he | exact List.mem_append_right _ he |
            apply List.mem_append_left))

end UsdBridge
